import Mathlib

/-!
GCN to SPIR-V translator: typed value layer and virtual register file.

A shallow embedding of `GPCS4/Graphic/Pssl/GCNCompiler.cpp`.  The methods of
`GCNCompiler` become functions that pass the state they touch explicitly: the
typed value layer (`emitRegisterBitcast`, `emitRegisterSwizzle`, ...) only
touches `m_module`, so it is written over `SpirvModule`; the register file
functions are written over `GCNCompiler`.  Every emitter returns
`Except Fault (result × state)`: `Except.error` stands for the C++ run aborting
(an exception or an out-of-bounds read), `Except.ok` for a normal return.
-/

namespace pssl

/-! ## Data model -/

/-- Scalar types of the typed value layer (`SpirvScalarType`). -/
inductive SpirvScalarType where
  | Uint32 | Uint64 | Sint32 | Sint64 | Float32 | Float64 | Bool | Unknown
  deriving DecidableEq, Repr

/-- Modelled from the spec: the width of `SpirvVectorType::ccount`, whose
declaration is in a header that is not part of the sources.  The spec gives
`uint8_t ccount`, so arithmetic on a component count is taken modulo 256. -/
def ccountModulus : Nat := 256

/-- Vector type: a scalar type and a component count (`SpirvVectorType`). -/
structure SpirvVectorType where
  ctype : SpirvScalarType
  ccount : Nat
  deriving DecidableEq, Repr

/-- An SSA value with its vector type (`SpirvRegisterValue`). -/
structure SpirvRegisterValue where
  type : SpirvVectorType
  id : Nat
  deriving DecidableEq, Repr

/-- A typed pointer (`SpirvRegisterPointer`). -/
structure SpirvRegisterPointer where
  type : SpirvVectorType
  id : Nat
  deriving DecidableEq, Repr

/-- Modelled from the spec: the default-constructed `SpirvRegisterValue`
(`SpirvRegisterValue operand;`), whose constructor is in a header that is not
part of the sources: scalar type `Unknown`, no components, id 0. -/
def SpirvRegisterValue.default : SpirvRegisterValue := ⟨⟨.Unknown, 0⟩, 0⟩

/-- Modelled from the spec: the default-constructed `SpirvRegisterPointer`,
which is what a register slot holds before its first write; `emitSgprStore`
tests `sgpr.id == 0` for "not initialized". -/
def SpirvRegisterPointer.default : SpirvRegisterPointer := ⟨⟨.Unknown, 0⟩, 0⟩

/-- Modelled from the spec: `GcnRegMask`, the four-bit write mask selecting the
active components of a 4-wide destination (declared in a header that is not
part of the sources).  One flag per component. -/
structure GcnRegMask where
  x : Bool
  y : Bool
  z : Bool
  w : Bool
  deriving DecidableEq, Repr

namespace GcnRegMask

/-- Modelled from the spec: `writeMask[i]`, the flag of component `i`. -/
def get (mask : GcnRegMask) (i : Nat) : Bool :=
  match i with
  | 0 => mask.x
  | 1 => mask.y
  | 2 => mask.z
  | 3 => mask.w
  | _ => false

/-- Modelled from the spec: `popCount`, the number of selected components. -/
def popCount (mask : GcnRegMask) : Nat :=
  mask.x.toNat + mask.y.toNat + mask.z.toNat + mask.w.toNat

/-- Modelled from the spec: `firstSet`, the index of the lowest selected
component (4 when the mask is empty). -/
def firstSet (mask : GcnRegMask) : Nat :=
  if mask.x then 0 else if mask.y then 1 else if mask.z then 2 else if mask.w then 3 else 4

/-- Modelled from the spec: `firstN(n)`, the mask selecting the first `n`
components. -/
def firstN (n : Nat) : GcnRegMask :=
  ⟨decide (1 ≤ n), decide (2 ≤ n), decide (3 ≤ n), decide (4 ≤ n)⟩

/-- Modelled from the spec: the conversion of an integer to a mask, as in
`emitValueStore(sgpr, srcReg, 1)`: bit `i` of the integer is flag `i`. -/
def ofBits (n : Nat) : GcnRegMask :=
  ⟨n.testBit 0, n.testBit 1, n.testBit 2, n.testBit 3⟩

end GcnRegMask

/-- Modelled from the spec: `GcnRegSwizzle`, four 2-bit indices naming the
source component of each destination lane (declared in a header that is not
part of the sources). -/
structure GcnRegSwizzle where
  x : Fin 4
  y : Fin 4
  z : Fin 4
  w : Fin 4
  deriving DecidableEq, Repr

/-- Modelled from the spec: `swizzle[i]`, the source component of lane `i`. -/
def GcnRegSwizzle.get (s : GcnRegSwizzle) (i : Nat) : Nat :=
  match i with
  | 0 => s.x.val
  | 1 => s.y.val
  | 2 => s.z.val
  | _ => s.w.val

/-! ## SPIR-V module builder (external collaborator) -/

/-- Capabilities the translator enables. -/
inductive SpvCapability where
  | Shader | ImageQuery | DrawParameters | Float64 | Int64
  deriving DecidableEq, Repr

/-- Storage classes of the variables the translator declares. -/
inductive SpvStorageClass where
  | Input | Output | Uniform | Function | Private
  deriving DecidableEq, Repr

/-- Built-in decorations the translator uses. -/
inductive SpvBuiltIn where
  | Position
  deriving DecidableEq, Repr

/-- Execution models of an entry point. -/
inductive SpvExecutionModel where
  | Vertex | TessellationControl | TessellationEvaluation | Geometry | Fragment | GLCompute
  deriving DecidableEq, Repr

/-- A debug name: a text, followed by a number when the source formats it with
`%d` (`"s%d"` with 3 is `⟨"s", some 3⟩`). -/
structure DebugName where
  text : String
  index : Option Nat
  deriving DecidableEq, Repr

/-- Debug declarations of a module. -/
inductive SpirvDebug where
  | OpName (id : Nat) (name : DebugName)
  | OpMemberName (structId memberId : Nat) (name : DebugName)
  | OpString (id : Nat) (text : String)
  | OpSource (fileId : Nat)
  deriving DecidableEq, Repr

/-- Decorations of a module. -/
inductive SpirvDecoration where
  | Location (id location : Nat)
  | DescriptorSet (id set : Nat)
  | Binding (id binding : Nat)
  | ArrayStride (id stride : Nat)
  | Block (id : Nat)
  | MemberOffset (structId memberId offset : Nat)
  | MemberBuiltIn (structId memberId : Nat) (builtIn : SpvBuiltIn)
  deriving DecidableEq, Repr

/-- A variable declaration of a module (`OpVariable`). -/
structure SpirvVariable where
  pointerType : Nat
  id : Nat
  storageClass : SpvStorageClass
  deriving DecidableEq, Repr

/-- An entry point declaration of a module (`OpEntryPoint`). -/
structure SpirvEntryPoint where
  entryPointId : Nat
  executionModel : SpvExecutionModel
  name : String
  interfaceIds : List Nat
  deriving DecidableEq, Repr

/-- Type and constant declarations of a module. -/
inductive SpirvTypeConst where
  | OpTypeVoid
  | OpTypeBool
  | OpTypeInt (width : Nat) (isSigned : Nat)
  | OpTypeFloat (width : Nat)
  | OpTypeVector (componentType : Nat) (componentCount : Nat)
  | OpConstantU32 (typeId : Nat) (value : Nat)
  | OpConstantI32 (typeId : Nat) (value : Int)
  | OpConstantF32 (typeId : Nat) (value : ℚ)
  | OpTypePointer (storageClass : SpvStorageClass) (pointee : Nat)
  | OpTypeFunction (returnType : Nat) (argTypes : List Nat)
  | OpTypeArray (elementType : Nat) (lengthId : Nat)
  | OpTypeStruct (members : List Nat)
  deriving DecidableEq, Repr

/-- Instructions of the code stream of a module, with their operands in the
order the builder call takes them. -/
inductive SpirvInstr where
  | OpLoad (resultType resultId pointer : Nat)
  | OpStore (pointer object : Nat)
  | OpBitcast (resultType resultId operand : Nat)
  | OpCompositeConstruct (resultType resultId : Nat) (constituents : List Nat)
  | OpCompositeExtract (resultType resultId composite : Nat) (indexes : List Nat)
  | OpCompositeInsert (resultType resultId object composite : Nat) (indexes : List Nat)
  | OpVectorShuffle (resultType resultId vector1 vector2 : Nat) (components : List Nat)
  | OpFunction (resultType functionId functionType : Nat)
  | OpFunctionEnd
  | OpLabel (labelId : Nat)
  | OpReturn
  | OpFunctionCall (resultType resultId functionId : Nat) (args : List Nat)
  | OpAccessChain (resultType resultId composite : Nat) (indexes : List Nat)
  | OpFAbs (resultType resultId operand : Nat)
  | OpSAbs (resultType resultId operand : Nat)
  | OpFNegate (resultType resultId operand : Nat)
  | OpSNegate (resultType resultId operand : Nat)
  deriving DecidableEq, Repr

/-- Modelled from the spec: the SPIR-V module builder `SpirvModule`, an external
collaborator whose code is not part of the sources.  It allocates SSA ids
monotonically (a counter), keeps the enabled capabilities, the type and
constant declarations (a declaration that already exists is returned instead of
being declared again), the code stream of emitted instructions, and the
sections of the module outside the code stream: extensions, memory model, entry
points, debug declarations, decorations and variables. -/
structure SpirvModule where
  m_id : Nat
  capabilities : List SpvCapability
  typeConstDefs : List (SpirvTypeConst × Nat)
  code : List SpirvInstr
  extensions : List String
  memoryModelSet : Bool
  entryPoints : List SpirvEntryPoint
  debugNames : List SpirvDebug
  decorations : List SpirvDecoration
  varDecls : List SpirvVariable
  deriving DecidableEq, Repr

namespace SpirvModule

/-- Modelled from the spec: a freshly constructed module; ids start at 1, so 0
is never an allocated id. -/
def empty : SpirvModule :=
  { m_id := 1, capabilities := [], typeConstDefs := [], code := [], extensions := [],
    memoryModelSet := false, entryPoints := [], debugNames := [], decorations := [],
    varDecls := [] }

/-- Modelled from the spec: `allocateId`, a fresh id. -/
def allocateId (m : SpirvModule) : Nat × SpirvModule :=
  (m.m_id, { m with m_id := m.m_id + 1 })

/-- Modelled from the spec: `enableCapability`, recorded once. -/
def enableCapability (m : SpirvModule) (cap : SpvCapability) : SpirvModule :=
  if cap ∈ m.capabilities then m else { m with capabilities := m.capabilities ++ [cap] }

/-- Modelled from the spec: declare a type or constant; if the same declaration
exists its id is returned, otherwise it is declared under a fresh id. -/
def defTypeConst (m : SpirvModule) (d : SpirvTypeConst) : Nat × SpirvModule :=
  match m.typeConstDefs.lookup d with
  | some tid => (tid, m)
  | none => (m.m_id, { m with m_id := m.m_id + 1, typeConstDefs := m.typeConstDefs ++ [(d, m.m_id)] })

/-- Modelled from the spec: `defIntType(width, isSigned)`. -/
def defIntType (m : SpirvModule) (width isSigned : Nat) : Nat × SpirvModule :=
  m.defTypeConst (.OpTypeInt width isSigned)

/-- Modelled from the spec: `defFloatType(width)`. -/
def defFloatType (m : SpirvModule) (width : Nat) : Nat × SpirvModule :=
  m.defTypeConst (.OpTypeFloat width)

/-- Modelled from the spec: `defBoolType()`. -/
def defBoolType (m : SpirvModule) : Nat × SpirvModule :=
  m.defTypeConst .OpTypeBool

/-- Modelled from the spec: `defVectorType(elementType, elementCount)`. -/
def defVectorType (m : SpirvModule) (elementType elementCount : Nat) : Nat × SpirvModule :=
  m.defTypeConst (.OpTypeVector elementType elementCount)

/-- Modelled from the spec: `constu32(v)`, the module's u32 constant for `v`. -/
def constu32 (m : SpirvModule) (v : Nat) : Nat × SpirvModule :=
  let (t, m1) := m.defIntType 32 0
  m1.defTypeConst (.OpConstantU32 t v)

/-- Modelled from the spec: `consti32(v)`, the module's i32 constant for `v`. -/
def consti32 (m : SpirvModule) (v : Int) : Nat × SpirvModule :=
  let (t, m1) := m.defIntType 32 1
  m1.defTypeConst (.OpConstantI32 t v)

/-- Modelled from the spec: `constf32(v)`, the module's f32 constant for `v`. -/
def constf32 (m : SpirvModule) (v : ℚ) : Nat × SpirvModule :=
  let (t, m1) := m.defFloatType 32
  m1.defTypeConst (.OpConstantF32 t v)

/-- Append one instruction with a fresh result id to the code stream. -/
def emitResult (m : SpirvModule) (mk : Nat → SpirvInstr) : Nat × SpirvModule :=
  (m.m_id, { m with m_id := m.m_id + 1, code := m.code ++ [mk m.m_id] })

/-- Modelled from the spec: `opLoad(typeId, pointerId)`. -/
def opLoad (m : SpirvModule) (typeId pointerId : Nat) : Nat × SpirvModule :=
  m.emitResult (fun r => .OpLoad typeId r pointerId)

/-- Modelled from the spec: `opStore(pointerId, valueId)`. -/
def opStore (m : SpirvModule) (pointerId valueId : Nat) : SpirvModule :=
  { m with code := m.code ++ [.OpStore pointerId valueId] }

/-- Modelled from the spec: `opBitcast(resultType, operand)`. -/
def opBitcast (m : SpirvModule) (resultType operand : Nat) : Nat × SpirvModule :=
  m.emitResult (fun r => .OpBitcast resultType r operand)

/-- Modelled from the spec: `opCompositeConstruct(resultType, valueCount,
valueArray)`; the list is the first `valueCount` entries of the array. -/
def opCompositeConstruct (m : SpirvModule) (resultType : Nat) (values : List Nat) :
    Nat × SpirvModule :=
  m.emitResult (fun r => .OpCompositeConstruct resultType r values)

/-- Modelled from the spec: `opCompositeExtract(resultType, composite,
indexCount, indexArray)`. -/
def opCompositeExtract (m : SpirvModule) (resultType composite : Nat) (indexes : List Nat) :
    Nat × SpirvModule :=
  m.emitResult (fun r => .OpCompositeExtract resultType r composite indexes)

/-- Modelled from the spec: `opCompositeInsert(resultType, object, composite,
indexCount, indexArray)`. -/
def opCompositeInsert (m : SpirvModule) (resultType object composite : Nat)
    (indexes : List Nat) : Nat × SpirvModule :=
  m.emitResult (fun r => .OpCompositeInsert resultType r object composite indexes)

/-- Modelled from the spec: `opVectorShuffle(resultType, vectorLeft,
vectorRight, indexCount, indexArray)`. -/
def opVectorShuffle (m : SpirvModule) (resultType vector1 vector2 : Nat)
    (components : List Nat) : Nat × SpirvModule :=
  m.emitResult (fun r => .OpVectorShuffle resultType r vector1 vector2 components)

/-- Modelled from the spec: `opFAbs(resultType, operand)`. -/
def opFAbs (m : SpirvModule) (resultType operand : Nat) : Nat × SpirvModule :=
  m.emitResult (fun r => .OpFAbs resultType r operand)

/-- Modelled from the spec: `opSAbs(resultType, operand)`. -/
def opSAbs (m : SpirvModule) (resultType operand : Nat) : Nat × SpirvModule :=
  m.emitResult (fun r => .OpSAbs resultType r operand)

/-- Modelled from the spec: `opFNegate(resultType, operand)`. -/
def opFNegate (m : SpirvModule) (resultType operand : Nat) : Nat × SpirvModule :=
  m.emitResult (fun r => .OpFNegate resultType r operand)

/-- Modelled from the spec: `opSNegate(resultType, operand)`. -/
def opSNegate (m : SpirvModule) (resultType operand : Nat) : Nat × SpirvModule :=
  m.emitResult (fun r => .OpSNegate resultType r operand)

/-- Modelled from the spec: `defVoidType()`. -/
def defVoidType (m : SpirvModule) : Nat × SpirvModule :=
  m.defTypeConst .OpTypeVoid

/-- Modelled from the spec: `defPointerType(variableType, storageClass)`. -/
def defPointerType (m : SpirvModule) (variableType : Nat) (storageClass : SpvStorageClass) :
    Nat × SpirvModule :=
  m.defTypeConst (.OpTypePointer storageClass variableType)

/-- Modelled from the spec: `defFloatPointerType(width, storageClass)`, the
pointer type to the float type of that width. -/
def defFloatPointerType (m : SpirvModule) (width : Nat) (storageClass : SpvStorageClass) :
    Nat × SpirvModule :=
  let (t, m1) := m.defFloatType width
  m1.defPointerType t storageClass

/-- Modelled from the spec: `defFunctionType(returnType, argCount, argTypes)`. -/
def defFunctionType (m : SpirvModule) (returnType : Nat) (argTypes : List Nat) :
    Nat × SpirvModule :=
  m.defTypeConst (.OpTypeFunction returnType argTypes)

/-- Modelled from the spec: declare a type under a fresh id, whether or not the
same declaration exists (the `Unique` variants). -/
def defTypeUnique (m : SpirvModule) (d : SpirvTypeConst) : Nat × SpirvModule :=
  (m.m_id, { m with m_id := m.m_id + 1, typeConstDefs := m.typeConstDefs ++ [(d, m.m_id)] })

/-- Modelled from the spec: `defArrayTypeUnique(typeId, length)`. -/
def defArrayTypeUnique (m : SpirvModule) (typeId lengthId : Nat) : Nat × SpirvModule :=
  m.defTypeUnique (.OpTypeArray typeId lengthId)

/-- Modelled from the spec: `defStructTypeUnique(memberCount, memberTypes)`. -/
def defStructTypeUnique (m : SpirvModule) (memberTypes : List Nat) : Nat × SpirvModule :=
  m.defTypeUnique (.OpTypeStruct memberTypes)

/-- Modelled from the spec: `newVar(pointerType, storageClass)`, a variable
declaration under a fresh id. -/
def newVar (m : SpirvModule) (pointerType : Nat) (storageClass : SpvStorageClass) :
    Nat × SpirvModule :=
  (m.m_id, { m with
    m_id := m.m_id + 1
    varDecls := m.varDecls ++ [⟨pointerType, m.m_id, storageClass⟩] })

/-- Modelled from the spec: `setDebugName(id, name)`. -/
def setDebugName (m : SpirvModule) (id : Nat) (name : DebugName) : SpirvModule :=
  { m with debugNames := m.debugNames ++ [.OpName id name] }

/-- Modelled from the spec: `setDebugMemberName(structId, memberId, name)`. -/
def setDebugMemberName (m : SpirvModule) (structId memberId : Nat) (name : DebugName) :
    SpirvModule :=
  { m with debugNames := m.debugNames ++ [.OpMemberName structId memberId name] }

/-- Modelled from the spec: `addDebugString(string)`. -/
def addDebugString (m : SpirvModule) (text : String) : Nat × SpirvModule :=
  (m.m_id, { m with m_id := m.m_id + 1, debugNames := m.debugNames ++ [.OpString m.m_id text] })

/-- Modelled from the spec: `setDebugSource(language, version, file, source)`. -/
def setDebugSource (m : SpirvModule) (fileId : Nat) : SpirvModule :=
  { m with debugNames := m.debugNames ++ [.OpSource fileId] }

/-- Modelled from the spec: `setMemoryModel(logical, GLSL450)`. -/
def setMemoryModel (m : SpirvModule) : SpirvModule :=
  { m with memoryModelSet := true }

/-- Modelled from the spec: `enableExtension(name)`. -/
def enableExtension (m : SpirvModule) (name : String) : SpirvModule :=
  { m with extensions := m.extensions ++ [name] }

/-- Modelled from the spec: `addEntryPoint(id, executionModel, name,
interfaceCount, interfaceIds)`. -/
def addEntryPoint (m : SpirvModule) (entryPointId : Nat) (executionModel : SpvExecutionModel)
    (name : String) (interfaceIds : List Nat) : SpirvModule :=
  { m with entryPoints := m.entryPoints ++ [⟨entryPointId, executionModel, name, interfaceIds⟩] }

/-- Modelled from the spec: add one decoration. -/
def decorate (m : SpirvModule) (d : SpirvDecoration) : SpirvModule :=
  { m with decorations := m.decorations ++ [d] }

/-- Modelled from the spec: `decorateLocation(object, location)`. -/
def decorateLocation (m : SpirvModule) (object location : Nat) : SpirvModule :=
  m.decorate (.Location object location)

/-- Modelled from the spec: `decorateDescriptorSet(object, set)`. -/
def decorateDescriptorSet (m : SpirvModule) (object set : Nat) : SpirvModule :=
  m.decorate (.DescriptorSet object set)

/-- Modelled from the spec: `decorateBinding(object, binding)`. -/
def decorateBinding (m : SpirvModule) (object binding : Nat) : SpirvModule :=
  m.decorate (.Binding object binding)

/-- Modelled from the spec: `decorateArrayStride(object, stride)`. -/
def decorateArrayStride (m : SpirvModule) (object stride : Nat) : SpirvModule :=
  m.decorate (.ArrayStride object stride)

/-- Modelled from the spec: `decorateBlock(object)`. -/
def decorateBlock (m : SpirvModule) (object : Nat) : SpirvModule :=
  m.decorate (.Block object)

/-- Modelled from the spec: `memberDecorateOffset(structId, memberId, offset)`. -/
def memberDecorateOffset (m : SpirvModule) (structId memberId offset : Nat) : SpirvModule :=
  m.decorate (.MemberOffset structId memberId offset)

/-- Modelled from the spec: `memberDecorateBuiltIn(structId, memberId, builtIn)`. -/
def memberDecorateBuiltIn (m : SpirvModule) (structId memberId : Nat) (builtIn : SpvBuiltIn) :
    SpirvModule :=
  m.decorate (.MemberBuiltIn structId memberId builtIn)

/-- Append one instruction without a result id to the code stream. -/
def emitPlain (m : SpirvModule) (i : SpirvInstr) : SpirvModule :=
  { m with code := m.code ++ [i] }

/-- Modelled from the spec: `functionBegin(returnType, functionId, functionType,
functionControl)`. -/
def functionBegin (m : SpirvModule) (returnType functionId functionType : Nat) : SpirvModule :=
  m.emitPlain (.OpFunction returnType functionId functionType)

/-- Modelled from the spec: `functionEnd()`. -/
def functionEnd (m : SpirvModule) : SpirvModule :=
  m.emitPlain .OpFunctionEnd

/-- Modelled from the spec: `opReturn()`. -/
def opReturn (m : SpirvModule) : SpirvModule :=
  m.emitPlain .OpReturn

/-- Modelled from the spec: `opLabel(labelId)`. -/
def opLabel (m : SpirvModule) (labelId : Nat) : SpirvModule :=
  m.emitPlain (.OpLabel labelId)

/-- Modelled from the spec: `opFunctionCall(resultType, functionId, argCount,
argIds)`. -/
def opFunctionCall (m : SpirvModule) (resultType functionId : Nat) (args : List Nat) :
    Nat × SpirvModule :=
  m.emitResult (fun r => .OpFunctionCall resultType r functionId args)

/-- Modelled from the spec: `opAccessChain(resultType, composite, indexCount,
indexArray)`. -/
def opAccessChain (m : SpirvModule) (resultType composite : Nat) (indexes : List Nat) :
    Nat × SpirvModule :=
  m.emitResult (fun r => .OpAccessChain resultType r composite indexes)

/-- Modelled from the spec: `compile()`, the finished module; the model returns
the module as it stands instead of its byte encoding. -/
def compile (m : SpirvModule) : SpirvModule := m

end SpirvModule

/-- A module in which ids 1..9 have been allocated and the scalar types
`Sint32` (id 1) and `Float32` (id 2) and the vector type `Float32 × 4` (id 3)
are declared; used for concrete evaluations. -/
def sampleModule : SpirvModule :=
  { SpirvModule.empty with
    m_id := 10
    typeConstDefs := [(.OpTypeInt 32 1, 1), (.OpTypeFloat 32, 2), (.OpTypeVector 2 4, 3)] }

/-- A later state of a module: every capability and every declaration of `m` is
still there in `m2`, under the same id. -/
def SpirvModule.Extends (m2 m : SpirvModule) : Prop :=
  (∀ cap, cap ∈ m.capabilities → cap ∈ m2.capabilities) ∧
  (∀ d j, m.typeConstDefs.lookup d = some j → m2.typeConstDefs.lookup d = some j)

/-! ## Typed value layer -/

deriving instance DecidableEq for Except

/-- What aborts a run of an emitter. -/
inductive Fault where
  | outOfRange
  | outOfBounds
  deriving DecidableEq, Repr

/-- Embedding of `GCNCompiler::isWideType`. -/
def isWideType (t : SpirvScalarType) : Bool :=
  t == .Sint64 || t == .Uint64 || t == .Float64

/-- Embedding of `GCNCompiler::getScalarTypeId`; `Unknown` has no case in the switch and
keeps the initial `typeId = 0`. -/
def getScalarTypeId (m : SpirvModule) (t : SpirvScalarType) : Nat × SpirvModule :=
  let m1 := if t = .Float64 then m.enableCapability .Float64 else m
  let m2 := if t = .Sint64 ∨ t = .Uint64 then m1.enableCapability .Int64 else m1
  match t with
  | .Uint32 => m2.defIntType 32 0
  | .Uint64 => m2.defIntType 64 0
  | .Sint32 => m2.defIntType 32 1
  | .Sint64 => m2.defIntType 64 1
  | .Float32 => m2.defFloatType 32
  | .Float64 => m2.defFloatType 64
  | .Bool => m2.defBoolType
  | .Unknown => (0, m2)

/-- Embedding of `GCNCompiler::getVectorTypeId`. -/
def getVectorTypeId (m : SpirvModule) (t : SpirvVectorType) : Nat × SpirvModule :=
  let (typeId, m1) := getScalarTypeId m t.ctype
  if t.ccount > 1 then m1.defVectorType typeId t.ccount else (typeId, m1)

/-- Embedding of `GCNCompiler::emitValueLoad`. -/
def emitValueLoad (m : SpirvModule) (reg : SpirvRegisterPointer) :
    Except Fault (SpirvRegisterValue × SpirvModule) :=
  let (typeId, m1) := getVectorTypeId m reg.type
  let (varId, m2) := m1.opLoad typeId reg.id
  .ok (⟨reg.type, varId⟩, m2)

/-- Embedding of `GCNCompiler::emitRegisterBitcast`. -/
def emitRegisterBitcast (m : SpirvModule) (srcValue : SpirvRegisterValue)
    (dstType : SpirvScalarType) : Except Fault (SpirvRegisterValue × SpirvModule) :=
  let srcType := srcValue.type.ctype
  if srcType = dstType then .ok (srcValue, m) else
  let ccount0 := srcValue.type.ccount
  let ccount1 := if isWideType srcType then (ccount0 * 2) % ccountModulus else ccount0
  let ccount2 := if isWideType dstType then ccount1 / 2 else ccount1
  let resultType : SpirvVectorType := ⟨dstType, ccount2⟩
  let (typeId, m1) := getVectorTypeId m resultType
  let (rid, m2) := m1.opBitcast typeId srcValue.id
  .ok (⟨resultType, rid⟩, m2)

/-- Embedding of `GCNCompiler::emitRegisterExtend`.  The constituents are read from a
4-element array; a `size` above 4 reads past its end, which aborts the run. -/
def emitRegisterExtend (m : SpirvModule) (value : SpirvRegisterValue) (size : Nat) :
    Except Fault (SpirvRegisterValue × SpirvModule) :=
  if size = 1 then .ok (value, m) else
  let ids : List Nat := [value.id, value.id, value.id, value.id]
  let resultType : SpirvVectorType := ⟨value.type.ctype, size % ccountModulus⟩
  let (typeId, m1) := getVectorTypeId m resultType
  if size > 4 then .error .outOfBounds else
  let (rid, m2) := m1.opCompositeConstruct typeId (ids.take size)
  .ok (⟨resultType, rid⟩, m2)

/-- The `indices` array filled by the first loop of `emitRegisterSwizzle`:
`swizzle[i]` for each `i` in 0..3 with `writeMask[i]`, in increasing `i`; its
length is `dstIndex`. -/
def swizzleIndices (swizzle : GcnRegSwizzle) (writeMask : GcnRegMask) : List Nat :=
  ((List.range 4).filter writeMask.get).map swizzle.get

/-- The flag `isIdentitySwizzle` of `emitRegisterSwizzle` after its second loop. -/
def isIdentitySwizzle (indices : List Nat) (ccount : Nat) : Bool :=
  decide (indices.length = ccount) &&
    (List.range indices.length).all (fun i => indices.getD i 0 == i)

/-- Embedding of `GCNCompiler::emitRegisterSwizzle`. -/
def emitRegisterSwizzle (m : SpirvModule) (value : SpirvRegisterValue)
    (swizzle : GcnRegSwizzle) (writeMask : GcnRegMask) :
    Except Fault (SpirvRegisterValue × SpirvModule) :=
  if value.type.ccount = 1 then emitRegisterExtend m value writeMask.popCount else
  let indices := swizzleIndices swizzle writeMask
  let dstIndex := indices.length
  if isIdentitySwizzle indices value.type.ccount then .ok (value, m) else
  let resultType : SpirvVectorType := ⟨value.type.ctype, dstIndex⟩
  let (typeId, m1) := getVectorTypeId m resultType
  if dstIndex = 1 then
    let (rid, m2) := m1.opCompositeExtract typeId value.id (indices.take 1)
    .ok (⟨resultType, rid⟩, m2)
  else
    let (rid, m2) := m1.opVectorShuffle typeId value.id value.id indices
    .ok (⟨resultType, rid⟩, m2)

/-- Embedding of `GCNCompiler::emitRegisterExtract`. -/
def emitRegisterExtract (m : SpirvModule) (value : SpirvRegisterValue) (mask : GcnRegMask) :
    Except Fault (SpirvRegisterValue × SpirvModule) :=
  emitRegisterSwizzle m value ⟨0, 1, 2, 3⟩ mask

/-- The `components` array filled by the loop of `emitRegisterInsert` over
`i = start, ..., start + n - 1`: lane `i` is `srcComponentId` (then incremented)
when `srcMask[i]`, and `i` otherwise. -/
def insertComponents (srcMask : GcnRegMask) (srcComponentId : Nat) (start : Nat) :
    Nat → List Nat
  | 0 => []
  | n + 1 =>
    if srcMask.get start then
      srcComponentId :: insertComponents srcMask (srcComponentId + 1) (start + 1) n
    else
      start :: insertComponents srcMask srcComponentId (start + 1) n

/-- Embedding of `GCNCompiler::emitRegisterInsert`.  The vector case writes
`components.at(i)` for every `i < dstValue.type.ccount` into a 4-element array,
and `at` throws for `i ≥ 4`. -/
def emitRegisterInsert (m : SpirvModule) (dstValue srcValue : SpirvRegisterValue)
    (srcMask : GcnRegMask) : Except Fault (SpirvRegisterValue × SpirvModule) :=
  let resultType := dstValue.type
  let (typeId, m1) := getVectorTypeId m resultType
  if srcMask.popCount = 0 then
    .ok (⟨resultType, dstValue.id⟩, m1)
  else if dstValue.type.ccount = 1 then
    .ok (⟨resultType, if srcMask.get 0 then srcValue.id else dstValue.id⟩, m1)
  else if srcValue.type.ccount = 1 then
    let componentId := srcMask.firstSet
    let (rid, m2) := m1.opCompositeInsert typeId srcValue.id dstValue.id [componentId]
    .ok (⟨resultType, rid⟩, m2)
  else if dstValue.type.ccount > 4 then
    .error .outOfRange
  else
    let components := insertComponents srcMask dstValue.type.ccount 0 dstValue.type.ccount
    let (rid, m2) := m1.opVectorShuffle typeId dstValue.id srcValue.id components
    .ok (⟨resultType, rid⟩, m2)

/-- Embedding of `GCNCompiler::emitValueStore`. -/
def emitValueStore (m : SpirvModule) (ptr : SpirvRegisterPointer) (src : SpirvRegisterValue)
    (writeMask : GcnRegMask) : Except Fault (Unit × SpirvModule) := do
  let (value, m1) ←
    if src.type.ctype ≠ ptr.type.ctype then emitRegisterBitcast m src ptr.type.ctype
    else .ok (src, m)
  let (value, m2) ←
    if src.type.ccount = 1 then emitRegisterExtend m1 src writeMask.popCount
    else .ok (value, m1)
  if ptr.type.ccount = writeMask.popCount then
    .ok ((), m2.opStore ptr.id value.id)
  else do
    let (tmp, m3) ← emitValueLoad m2 ptr
    let (tmp, m4) ← emitRegisterInsert m3 tmp value writeMask
    .ok ((), m4.opStore ptr.id tmp.id)

/-- The first two steps of `emitValueStore`: the value that is handed to the
final `OpStore` or to `emitRegisterInsert` (the variable `value` after the two
`if` statements). -/
def storeSource (m : SpirvModule) (ptr : SpirvRegisterPointer) (src : SpirvRegisterValue)
    (writeMask : GcnRegMask) : Except Fault (SpirvRegisterValue × SpirvModule) := do
  let (value, m1) ←
    if src.type.ctype ≠ ptr.type.ctype then emitRegisterBitcast m src ptr.type.ctype
    else .ok (src, m)
  if src.type.ccount = 1 then emitRegisterExtend m1 src writeMask.popCount
  else .ok (value, m1)

/-- Opcodes of the code stream. -/
inductive SpvOp where
  | OpLoad | OpStore | OpBitcast | OpCompositeConstruct | OpCompositeExtract
  | OpCompositeInsert | OpVectorShuffle
  | OpFunction | OpFunctionEnd | OpLabel | OpReturn | OpFunctionCall | OpAccessChain
  | OpFAbs | OpSAbs | OpFNegate | OpSNegate
  deriving DecidableEq, Repr

/-- The opcode of an instruction. -/
def SpirvInstr.op : SpirvInstr → SpvOp
  | .OpLoad _ _ _ => .OpLoad
  | .OpStore _ _ => .OpStore
  | .OpBitcast _ _ _ => .OpBitcast
  | .OpCompositeConstruct _ _ _ => .OpCompositeConstruct
  | .OpCompositeExtract _ _ _ _ => .OpCompositeExtract
  | .OpCompositeInsert _ _ _ _ _ => .OpCompositeInsert
  | .OpVectorShuffle _ _ _ _ _ => .OpVectorShuffle
  | .OpFunction _ _ _ => .OpFunction
  | .OpFunctionEnd => .OpFunctionEnd
  | .OpLabel _ => .OpLabel
  | .OpReturn => .OpReturn
  | .OpFunctionCall _ _ _ _ => .OpFunctionCall
  | .OpAccessChain _ _ _ _ => .OpAccessChain
  | .OpFAbs _ _ _ => .OpFAbs
  | .OpSAbs _ _ _ => .OpSAbs
  | .OpFNegate _ _ _ => .OpFNegate
  | .OpSNegate _ _ _ => .OpSNegate

/-- Embedding of `GCNCompiler::emitRegisterConcat`; the two ids are the
constituents, and the component count is the sum in the width of `ccount`. -/
def emitRegisterConcat (m : SpirvModule) (value1 value2 : SpirvRegisterValue) :
    Except Fault (SpirvRegisterValue × SpirvModule) :=
  let ids : List Nat := [value1.id, value2.id]
  let resultType : SpirvVectorType :=
    ⟨value1.type.ctype, (value1.type.ccount + value2.type.ccount) % ccountModulus⟩
  let (typeId, m1) := getVectorTypeId m resultType
  let (rid, m2) := m1.opCompositeConstruct typeId ids
  .ok (⟨resultType, rid⟩, m2)

/-- Embedding of `GCNCompiler::emitRegisterAbsolute`; the `default` case of the
switch logs a warning and leaves the value as it is. -/
def emitRegisterAbsolute (m : SpirvModule) (value : SpirvRegisterValue) :
    Except Fault (SpirvRegisterValue × SpirvModule) :=
  let (typeId, m1) := getVectorTypeId m value.type
  match value.type.ctype with
  | .Float32 =>
    let (rid, m2) := m1.opFAbs typeId value.id
    .ok ({ value with id := rid }, m2)
  | .Sint32 =>
    let (rid, m2) := m1.opSAbs typeId value.id
    .ok ({ value with id := rid }, m2)
  | _ => .ok (value, m1)

/-- Embedding of `GCNCompiler::emitRegisterNegate`; the `default` case of the
switch logs a warning and leaves the value as it is. -/
def emitRegisterNegate (m : SpirvModule) (value : SpirvRegisterValue) :
    Except Fault (SpirvRegisterValue × SpirvModule) :=
  let (typeId, m1) := getVectorTypeId m value.type
  match value.type.ctype with
  | .Float32 =>
    let (rid, m2) := m1.opFNegate typeId value.id
    .ok ({ value with id := rid }, m2)
  | .Float64 =>
    let (rid, m2) := m1.opFNegate typeId value.id
    .ok ({ value with id := rid }, m2)
  | .Sint32 =>
    let (rid, m2) := m1.opSNegate typeId value.id
    .ok ({ value with id := rid }, m2)
  | .Sint64 =>
    let (rid, m2) := m1.opSNegate typeId value.id
    .ok ({ value with id := rid }, m2)
  | _ => .ok (value, m1)

/-! ## Virtual register file -/

/-- Modelled from the spec: an entry of `constValueTable`, a scalar type and a
literal (`SpirvLiteralConstant`, declared in a header that is not part of the
sources). -/
structure SpirvLiteralConstant where
  type : SpirvScalarType
  literalConst : Nat
  deriving DecidableEq, Repr

/-- Modelled from the spec: the entry the table yields for an id that was never
recorded; `emitStoreVCC` tests `spvConst.type != Unknown` for a known constant. -/
def SpirvLiteralConstant.default : SpirvLiteralConstant := ⟨.Unknown, 0⟩

/-- Modelled from the spec: the host-side record of the special registers
(`stateRegs`); the translator writes `vcc` (64-bit) and `m0` (32-bit). -/
structure GcnStateRegister where
  vcc : Nat
  m0 : Nat
  deriving DecidableEq, Repr

/-- Shader stages (`PsslProgramType`). -/
inductive PsslProgramType where
  | VertexShader | HullShader | DomainShader | GeometryShader | PixelShader | ComputeShader
  deriving DecidableEq, Repr

/-- Modelled from the spec: the program info given to the translator: shader
type, execution model and key (`PsslProgramInfo`, declared outside the sources). -/
structure PsslProgramInfo where
  shaderType : PsslProgramType
  executionModel : SpvExecutionModel
  key : String
  deriving DecidableEq, Repr

/-- Modelled from the spec: an export-parameter record of the analysis: the
export target and the register indices it uses. -/
structure GcnExportInfo where
  target : Nat
  regIndices : List Nat
  deriving DecidableEq, Repr

/-- Modelled from the spec: the analysis info, a list of export-parameter
records (`GcnAnalysisInfo`). -/
structure GcnAnalysisInfo where
  expParams : List GcnExportInfo
  deriving DecidableEq, Repr

/-- Modelled from the spec: a vertex input semantic
`{semantic, vgpr, sizeInElements}`. -/
structure VertexInputSemantic where
  semantic : Nat
  vgpr : Nat
  sizeInElements : Nat
  deriving DecidableEq, Repr

/-- Kinds of resource descriptors (`SpirvResourceType`). -/
inductive SpirvResourceType where
  | VSharp | SSharp | TSharp
  deriving DecidableEq, Repr

/-- Modelled from the spec: a resource descriptor entry: its kind and, read
through its pointer to the host-side V# descriptor, the stride in bytes. -/
structure GcnResourceEntry where
  type : SpirvResourceType
  stride : Nat
  deriving DecidableEq, Repr

/-- Modelled from the spec: the shader input: an optional list of vertex input
semantics and the list of resource descriptors (`GcnShaderInput`). -/
structure GcnShaderInput where
  vsInputSemantics : Option (List VertexInputSemantic)
  resourceBuffer : List GcnResourceEntry
  deriving DecidableEq, Repr

/-- Modelled from the spec: the vertex-stage part of the compiler state
(`m_vs`): the ids of the main and fetch functions, 0 until they are allocated,
and the maps from input semantic and from export target to the declared
variable. -/
structure GcnCompilerVsPart where
  mainFunctionId : Nat
  fsFunctionId : Nat
  vsInputs : Nat → SpirvRegisterPointer
  vsOutputs : Nat → SpirvRegisterPointer

/-- The state of a `GCNCompiler`.  Modelled from the spec: the members are
declared in a header that is not part of the sources.  `m_sgprs`, `m_vgprs` and
`m_constValueTable` are maps that the code only ever reads and writes through
`operator[]`, so each is a total function giving the default-constructed entry
for a key never written. -/
structure GCNCompiler where
  m_module : SpirvModule
  m_sgprs : Nat → SpirvRegisterPointer
  m_vgprs : Nat → SpirvRegisterPointer
  m_constValueTable : Nat → SpirvLiteralConstant
  m_stateRegs : GcnStateRegister
  m_programInfo : PsslProgramInfo
  m_analysis : GcnAnalysisInfo
  m_shaderInput : GcnShaderInput
  m_entryPointId : Nat
  m_entryPointInterfaces : List Nat
  m_insideFunction : Bool
  m_vs : GcnCompilerVsPart
  m_perVertexOut : Nat
  m_uboId : Nat

/-! Modelled from the spec: the operand codes `Instruction::OperandSRC` of the
GCN ISA table "SDST, SSRC and SRC Operands", declared in the decoder, which is
not part of the sources. -/

/-- Operand code of SGPR 0. -/
def SRCScalarGPRMin : Nat := 0
/-- Operand code of the last SGPR. -/
def SRCScalarGPRMax : Nat := 103
/-- Operand code of VCC, low half. -/
def SRCVccLo : Nat := 106
/-- Operand code of VCC, high half. -/
def SRCVccHi : Nat := 107
/-- Operand code of M0. -/
def SRCM0 : Nat := 124
/-- Operand code of EXEC, low half. -/
def SRCExecLo : Nat := 126
/-- Operand code of EXEC, high half. -/
def SRCExecHi : Nat := 127
/-- Operand code of the constant 0. -/
def SRCConstZero : Nat := 128
/-- Operand code of the inline integer 1. -/
def SRCSignedConstIntPosMin : Nat := 129
/-- Operand code of the inline integer 64. -/
def SRCSignedConstIntPosMax : Nat := 192
/-- Operand code of the inline integer -1. -/
def SRCSignedConstIntNegMin : Nat := 193
/-- Operand code of the inline integer -16. -/
def SRCSignedConstIntNegMax : Nat := 208
/-- Operand code of the inline float 0.5. -/
def SRCConstFloatPos_0_5 : Nat := 240
/-- Operand code of the inline float -0.5. -/
def SRCConstFloatNeg_0_5 : Nat := 241
/-- Operand code of the inline float 1.0. -/
def SRCConstFloatPos_1_0 : Nat := 242
/-- Operand code of the inline float -1.0. -/
def SRCConstFloatNeg_1_0 : Nat := 243
/-- Operand code of the inline float 2.0. -/
def SRCConstFloatPos_2_0 : Nat := 244
/-- Operand code of the inline float -2.0. -/
def SRCConstFloatNeg_2_0 : Nat := 245
/-- Operand code of the inline float 4.0. -/
def SRCConstFloatPos_4_0 : Nat := 246
/-- Operand code of the inline float -4.0. -/
def SRCConstFloatNeg_4_0 : Nat := 247
/-- Operand code of VCCZ. -/
def SRCVCCZ : Nat := 251
/-- Operand code of EXECZ. -/
def SRCEXECZ : Nat := 252
/-- Operand code of SCC. -/
def SRCSCC : Nat := 253
/-- Operand code of LDS direct access. -/
def SRCLdsDirect : Nat := 254
/-- Operand code of a 32-bit literal constant. -/
def SRCLiteralConst : Nat := 255
/-- Operand code of VGPR 0 (9-bit SRC only). -/
def SRCVectorGPRMin : Nat := 256
/-- Operand code of the last VGPR. -/
def SRCVectorGPRMax : Nat := 511

/-- Run an emitter of the value layer on the module of the compiler. -/
def GCNCompiler.onModule {α : Type} (c : GCNCompiler)
    (r : Except Fault (α × SpirvModule)) : Except Fault (α × GCNCompiler) :=
  match r with
  | .ok (a, m) => .ok (a, { c with m_module := m })
  | .error e => .error e

/-- Embedding of `GCNCompiler::emitSgprLoad`. -/
def emitSgprLoad (c : GCNCompiler) (index : Nat) :
    Except Fault (SpirvRegisterValue × GCNCompiler) :=
  c.onModule (emitValueLoad c.m_module (c.m_sgprs index))

/-- Embedding of `GCNCompiler::emitVgprLoad`. -/
def emitVgprLoad (c : GCNCompiler) (index : Nat) :
    Except Fault (SpirvRegisterValue × GCNCompiler) :=
  c.onModule (emitValueLoad c.m_module (c.m_vgprs index))

/-- Embedding of `GCNCompiler::emitInlineConstantFloat`. -/
def emitInlineConstantFloat (c : GCNCompiler) (src : Nat) :
    Except Fault (SpirvRegisterValue × GCNCompiler) :=
  let value : ℚ :=
    if src = SRCConstFloatPos_0_5 then 1 / 2
    else if src = SRCConstFloatNeg_0_5 then -(1 / 2)
    else if src = SRCConstFloatPos_1_0 then 1
    else if src = SRCConstFloatNeg_1_0 then -1
    else if src = SRCConstFloatPos_2_0 then 2
    else if src = SRCConstFloatNeg_2_0 then -2
    else if src = SRCConstFloatPos_4_0 then 4
    else if src = SRCConstFloatNeg_4_0 then -4
    else 0
  let (valueId, m1) := c.m_module.constf32 value
  .ok (⟨⟨.Float32, 1⟩, valueId⟩, { c with m_module := m1 })

/-- Embedding of `GCNCompiler::emitInlineConstantInteger`. -/
def emitInlineConstantInteger (c : GCNCompiler) (src : Nat) :
    Except Fault (SpirvRegisterValue × GCNCompiler) :=
  let value : Int :=
    if src = SRCConstZero then 0
    else if SRCSignedConstIntPosMin ≤ src ∧ src ≤ SRCSignedConstIntPosMax then (src : Int) - 128
    else if SRCSignedConstIntNegMin ≤ src ∧ src ≤ SRCSignedConstIntNegMax then 192 - (src : Int)
    else 0
  let (valueId, m1) := c.m_module.consti32 value
  .ok (⟨⟨.Sint32, 1⟩, valueId⟩, { c with m_module := m1 })

/-- Embedding of `GCNCompiler::emitLoadScalarOperand`. -/
def emitLoadScalarOperand (c : GCNCompiler) (srcOperand regIndex : Nat)
    (literalConst : Nat) : Except Fault (SpirvRegisterValue × GCNCompiler) :=
  let operand := SpirvRegisterValue.default
  if SRCScalarGPRMin ≤ srcOperand ∧ srcOperand ≤ SRCScalarGPRMax then
    emitSgprLoad c regIndex
  else if srcOperand = SRCVccLo then .ok (operand, c)
  else if srcOperand = SRCVccHi then .ok (operand, c)
  else if srcOperand = SRCM0 then .ok (operand, c)
  else if srcOperand = SRCExecLo then .ok (operand, c)
  else if srcOperand = SRCExecHi then .ok (operand, c)
  else if srcOperand = SRCConstZero
      ∨ (SRCSignedConstIntPosMin ≤ srcOperand ∧ srcOperand ≤ SRCSignedConstIntPosMax)
      ∨ (SRCSignedConstIntNegMin ≤ srcOperand ∧ srcOperand ≤ SRCSignedConstIntNegMax) then
    emitInlineConstantInteger c srcOperand
  else if SRCConstFloatPos_0_5 ≤ srcOperand ∧ srcOperand ≤ SRCConstFloatNeg_4_0 then
    emitInlineConstantFloat c srcOperand
  else if srcOperand = SRCVCCZ then .ok (operand, c)
  else if srcOperand = SRCEXECZ then .ok (operand, c)
  else if srcOperand = SRCSCC then .ok (operand, c)
  else if srcOperand = SRCLdsDirect then .ok (operand, c)
  else if srcOperand = SRCLiteralConst then
    let (constId, m1) := c.m_module.constu32 literalConst
    let operand : SpirvRegisterValue := ⟨⟨.Uint32, 1⟩, constId⟩
    .ok (operand,
      { c with
        m_module := m1
        m_constValueTable :=
          Function.update c.m_constValueTable constId ⟨operand.type.ctype, literalConst⟩ })
  else if SRCVectorGPRMin ≤ srcOperand ∧ srcOperand ≤ SRCVectorGPRMax then .ok (operand, c)
  else .ok (operand, c)

/-! Modelled from the spec: the destination operand codes
`Instruction::OperandSDST` of the same ISA table, declared in the decoder. -/

/-- Destination code of SGPR 0. -/
def SDSTScalarGPRMin : Nat := 0
/-- Destination code of the last SGPR. -/
def SDSTScalarGPRMax : Nat := 103
/-- Destination code of VCC, low half. -/
def SDSTVccLo : Nat := 106
/-- Destination code of VCC, high half. -/
def SDSTVccHi : Nat := 107
/-- Destination code of M0. -/
def SDSTM0 : Nat := 124
/-- Destination code of EXEC, low half. -/
def SDSTExecLo : Nat := 126
/-- Destination code of EXEC, high half. -/
def SDSTExecHi : Nat := 127

/-- Embedding of `GCNCompiler::emitSgprStore`. -/
def emitSgprStore (c : GCNCompiler) (dstIdx : Nat) (srcReg : SpirvRegisterValue) :
    Except Fault (Unit × GCNCompiler) :=
  let sgpr := c.m_sgprs dstIdx
  let (sgpr, m1) :=
    if sgpr.id = 0 then
      let (typeId, ma) := getVectorTypeId c.m_module srcReg.type
      let (varId, mb) := ma.newVar typeId .Function
      (⟨srcReg.type, varId⟩, mb.setDebugName varId ⟨"s", some dstIdx⟩)
    else (sgpr, c.m_module)
  match emitValueStore m1 sgpr srcReg (GcnRegMask.ofBits 1) with
  | .ok (_, m2) =>
    .ok ((), { c with m_module := m2, m_sgprs := Function.update c.m_sgprs dstIdx sgpr })
  | .error e => .error e

/-- Embedding of `GCNCompiler::emitVgprStore`. -/
def emitVgprStore (c : GCNCompiler) (dstIdx : Nat) (srcReg : SpirvRegisterValue) :
    Except Fault (Unit × GCNCompiler) :=
  let vgpr := c.m_vgprs dstIdx
  let (vgpr, m1) :=
    if vgpr.id = 0 then
      let (typeId, ma) := getVectorTypeId c.m_module srcReg.type
      let (varId, mb) := ma.newVar typeId .Function
      (⟨srcReg.type, varId⟩, mb.setDebugName varId ⟨"v", some dstIdx⟩)
    else (vgpr, c.m_module)
  match emitValueStore m1 vgpr srcReg (GcnRegMask.ofBits 1) with
  | .ok (_, m2) =>
    .ok ((), { c with m_module := m2, m_vgprs := Function.update c.m_vgprs dstIdx vgpr })
  | .error e => .error e

/-- Embedding of `GCNCompiler::emitStoreVCC`; `vccValue` is a `uint32_t`. -/
def emitStoreVCC (c : GCNCompiler) (vccValueReg : SpirvRegisterValue) (isVccHi : Bool) :
    Except Fault (Unit × GCNCompiler) :=
  let spvConst := c.m_constValueTable vccValueReg.id
  if spvConst.type ≠ .Unknown then
    let vccValue := spvConst.literalConst % 2 ^ 32
    .ok ((), { c with
      m_stateRegs := { c.m_stateRegs with
        vcc := if isVccHi then (vccValue * 2 ^ 32) % 2 ^ 64 else vccValue } })
  else .ok ((), c)

/-- Embedding of `GCNCompiler::emitStoreM0`; `m0` is a 32-bit register. -/
def emitStoreM0 (c : GCNCompiler) (m0ValueReg : SpirvRegisterValue) :
    Except Fault (Unit × GCNCompiler) :=
  let spvConst := c.m_constValueTable m0ValueReg.id
  if spvConst.type ≠ .Unknown then
    .ok ((), { c with m_stateRegs := { c.m_stateRegs with m0 := spvConst.literalConst % 2 ^ 32 } })
  else .ok ((), c)

/-- Embedding of `GCNCompiler::emitStoreScalarOperand`. -/
def emitStoreScalarOperand (c : GCNCompiler) (dstOperand regIndex : Nat)
    (srcReg : SpirvRegisterValue) : Except Fault (Unit × GCNCompiler) :=
  if SDSTScalarGPRMin ≤ dstOperand ∧ dstOperand ≤ SDSTScalarGPRMax then
    emitSgprStore c regIndex srcReg
  else if dstOperand = SDSTVccLo then emitStoreVCC c srcReg false
  else if dstOperand = SDSTVccHi then emitStoreVCC c srcReg true
  else if dstOperand = SDSTM0 then emitStoreM0 c srcReg
  else if dstOperand = SDSTExecLo then .ok ((), c)
  else if dstOperand = SDSTExecHi then .ok ((), c)
  else .ok ((), c)

/-- Embedding of `GCNCompiler::emitStoreVectorOperand`. -/
def emitStoreVectorOperand (c : GCNCompiler) (dstIndex : Nat) (srcReg : SpirvRegisterValue) :
    Except Fault (Unit × GCNCompiler) :=
  emitVgprStore c dstIndex srcReg

/-! ## Stage setup -/

/-- Modelled from the spec: the export target of the position
(`EXPInstruction::TGT::TGTExpPosMin`), declared in the decoder. -/
def TGTExpPosMin : Nat := 12

/-- Embedding of `GCNCompiler::emitFunctionEnd`. -/
def emitFunctionEnd (c : GCNCompiler) : GCNCompiler :=
  let m1 := if c.m_insideFunction then c.m_module.opReturn.functionEnd else c.m_module
  { c with m_module := m1, m_insideFunction := false }

/-- Embedding of `GCNCompiler::emitFunctionBegin`. -/
def emitFunctionBegin (c : GCNCompiler) (entryPoint returnType funcType : Nat) : GCNCompiler :=
  let c1 := emitFunctionEnd c
  { c1 with
    m_module := c1.m_module.functionBegin returnType entryPoint funcType
    m_insideFunction := true }

/-- Embedding of `GCNCompiler::emitFunctionLabel`. -/
def emitFunctionLabel (c : GCNCompiler) : GCNCompiler :=
  let (labelId, m1) := c.m_module.allocateId
  { c with m_module := m1.opLabel labelId }

/-- The arguments `defVoidType()` and
`defFunctionType(defVoidType(), 0, nullptr)` that the source passes to
`emitFunctionBegin`: the void type id, the function type id and the module
after declaring them. -/
def defVoidFunctionTypes (m : SpirvModule) : Nat × Nat × SpirvModule :=
  let (voidId, m1) := m.defVoidType
  let (voidId2, m2) := m1.defVoidType
  let (funcType, m3) := m2.defFunctionType voidId2 []
  (voidId, funcType, m3)

/-- Embedding of `GCNCompiler::emitMainFunctionBegin`. -/
def emitMainFunctionBegin (c : GCNCompiler) : GCNCompiler :=
  let (voidId, funcType, m1) := defVoidFunctionTypes c.m_module
  let c1 := emitFunctionBegin { c with m_module := m1 } c.m_entryPointId voidId funcType
  emitFunctionLabel c1

/-- Embedding of `GCNCompiler::emitDclFloat`; an empty debug name is `none`. -/
def emitDclFloat (m : SpirvModule) (type : SpirvScalarType) (storageCls : SpvStorageClass)
    (debugName : Option DebugName) : SpirvRegisterPointer × SpirvModule :=
  let width := if type = .Float32 then 32 else 64
  let (fpPtrTypeId, m1) := m.defFloatPointerType width storageCls
  let (varId, m2) := m1.newVar fpPtrTypeId storageCls
  let m3 := match debugName with
    | some n => m2.setDebugName varId n
    | none => m2
  (⟨⟨type, 1⟩, varId⟩, m3)

/-- Embedding of `GCNCompiler::emitDclFloatVectorType`; the recorded component
count is `count` narrowed to the width of `ccount`. -/
def emitDclFloatVectorType (m : SpirvModule) (type : SpirvScalarType) (count : Nat)
    (storageCls : SpvStorageClass) (debugName : Option DebugName) :
    SpirvRegisterPointer × SpirvModule :=
  let width := if type = .Float32 then 32 else 64
  let (fpTypeId, m1) := m.defFloatType width
  let (vfpTypeId, m2) := m1.defVectorType fpTypeId count
  let (vfpPtrTypeId, m3) := m2.defPointerType vfpTypeId storageCls
  let m4 := match debugName with
    | some n => m3.setDebugName vfpPtrTypeId n
    | none => m3
  (⟨⟨type, count % ccountModulus⟩, vfpPtrTypeId⟩, m4)

/-- Embedding of `GCNCompiler::emitDclFloatVectorVar`. -/
def emitDclFloatVectorVar (m : SpirvModule) (type : SpirvScalarType) (count : Nat)
    (storageCls : SpvStorageClass) (debugName : Option DebugName) :
    SpirvRegisterPointer × SpirvModule :=
  let (ptrType, m1) := emitDclFloatVectorType m type count storageCls debugName
  let (varId, m2) := m1.newVar ptrType.id storageCls
  let m3 := match debugName with
    | some n => m2.setDebugName varId n
    | none => m2
  (⟨⟨type, count % ccountModulus⟩, varId⟩, m3)

/-- One iteration of the loop of `emitDclVertexInput`. -/
def emitDclVertexInputStep (c : GCNCompiler) (inputSemantic : VertexInputSemantic) :
    GCNCompiler :=
  let (inputReg, m1) :=
    emitDclFloatVectorVar c.m_module .Float32 inputSemantic.sizeInElements .Input none
  let m2 := m1.setDebugName inputReg.id ⟨"inParam", some inputSemantic.semantic⟩
  let m3 := m2.decorateLocation inputReg.id inputSemantic.semantic
  { c with
    m_module := m3
    m_vs := { c.m_vs with
      vsInputs := Function.update c.m_vs.vsInputs inputSemantic.semantic inputReg }
    m_entryPointInterfaces := c.m_entryPointInterfaces ++ [inputReg.id] }

/-- Embedding of `GCNCompiler::emitDclVertexInput`. -/
def emitDclVertexInput (c : GCNCompiler) : GCNCompiler :=
  match c.m_shaderInput.vsInputSemantics with
  | none => c
  | some semantics => semantics.foldl emitDclVertexInputStep c

/-- Embedding of `GCNCompiler::getPerVertexBlockId`. -/
def getPerVertexBlockId (m : SpirvModule) : Nat × SpirvModule :=
  let (t_f32, m1) := m.defFloatType 32
  let (t_f32_v4, m2) := m1.defVectorType t_f32 4
  let (typeId, m3) := m2.defStructTypeUnique [t_f32_v4]
  let m4 := m3.memberDecorateBuiltIn typeId 0 .Position
  let m5 := m4.decorateBlock typeId
  let m6 := m5.setDebugName typeId ⟨"gl_PerVertex", none⟩
  let m7 := m6.setDebugMemberName typeId 0 ⟨"gl_Position", none⟩
  (typeId, m7)

/-- One iteration of the loop of `emitDclVertexOutput` over the export
parameters; the second component is `outLocation`. -/
def emitDclVertexOutputStep (st : GCNCompiler × Nat) (expInfo : GcnExportInfo) :
    GCNCompiler × Nat :=
  let c := st.1
  let outLocation := st.2
  if expInfo.target = TGTExpPosMin then (c, outLocation) else
  let (outVector, m1) :=
    emitDclFloatVectorVar c.m_module .Float32 expInfo.regIndices.length .Output
      (some ⟨"outParam", some outLocation⟩)
  let m2 := m1.decorateLocation outVector.id outLocation
  ({ c with
      m_module := m2
      m_vs := { c.m_vs with
        vsOutputs := Function.update c.m_vs.vsOutputs expInfo.target outVector } },
    outLocation + 1)

/-- The declaration of the per-vertex output block at the start of
`emitDclVertexOutput`. -/
def emitDclPerVertexOut (c : GCNCompiler) : GCNCompiler :=
  let (perVertexStructType, m1) := getPerVertexBlockId c.m_module
  let (perVertexPointerType, m2) := m1.defPointerType perVertexStructType .Output
  let (perVertexOut, m3) := m2.newVar perVertexPointerType .Output
  { c with
    m_module := m3.setDebugName perVertexOut ⟨"vsVertexOut", none⟩
    m_perVertexOut := perVertexOut
    m_entryPointInterfaces := c.m_entryPointInterfaces ++ [perVertexOut] }

/-- Embedding of `GCNCompiler::emitDclVertexOutput`. -/
def emitDclVertexOutput (c : GCNCompiler) : GCNCompiler :=
  let c1 := emitDclPerVertexOut c
  (c1.m_analysis.expParams.foldl emitDclVertexOutputStep (c1, 0)).1

/-- One iteration of the loop of `emitDclUniformBuffer`; the second component is
`index`.  The two arguments of `defArrayTypeUnique` are evaluated left to right
(the order only matters for the numbering of ids when the 32-bit float type is
not declared yet). -/
def emitDclUniformBufferStep (st : GCNCompiler × Nat) (res : GcnResourceEntry) :
    GCNCompiler × Nat :=
  let c := st.1
  let index := st.2
  match res.type with
  | .VSharp =>
    let arraySize := res.stride / 4
    let (f32, m1) := c.m_module.defFloatType 32
    let (lengthId, m2) := m1.constu32 arraySize
    let (arrayId, m3) := m2.defArrayTypeUnique f32 lengthId
    let m4 := m3.decorateArrayStride arrayId res.stride
    let (uboStuctId, m5) := m4.defStructTypeUnique [arrayId]
    let m6 := m5.decorateBlock uboStuctId
    let m7 := m6.memberDecorateOffset uboStuctId 0 0
    let m8 := m7.setDebugName uboStuctId ⟨"UniformBufferObject", none⟩
    let m9 := m8.setDebugMemberName uboStuctId 0 ⟨"data", none⟩
    let (uboPtrId, m10) := m9.defPointerType uboStuctId .Uniform
    let (uboId, m11) := m10.newVar uboPtrId .Uniform
    let m12 := m11.decorateDescriptorSet uboId index
    let m13 := m12.decorateBinding uboId index
    let m14 := m13.setDebugName uboId ⟨"ubo", none⟩
    ({ c with m_module := m14, m_uboId := uboId }, index + 1)
  | .SSharp => (c, index + 1)
  | .TSharp => (c, index + 1)

/-- Embedding of `GCNCompiler::emitDclUniformBuffer`. -/
def emitDclUniformBuffer (c : GCNCompiler) : GCNCompiler :=
  (c.m_shaderInput.resourceBuffer.foldl emitDclUniformBufferStep (c, 0)).1

/-- One iteration of the inner loop of `emitEmuFetchShader`, for lane `i` of an
input semantic. -/
def emitEmuFetchLane (inputSemantic : VertexInputSemantic) (c : GCNCompiler) (i : Nat) :
    GCNCompiler :=
  let vgprIdx := inputSemantic.vgpr + i
  let (vgprReg, m1) := emitDclFloat c.m_module .Float32 .Private (some ⟨"v", some vgprIdx⟩)
  let inputVarId := (c.m_vs.vsInputs inputSemantic.semantic).id
  let (fpPtrTypeId, m2) := m1.defFloatPointerType 32 .Private
  let (indexId, m3) := m2.constu32 i
  let (inputElementId, m4) := m3.opAccessChain fpPtrTypeId inputVarId [indexId]
  let (loadId, m5) := m4.opLoad fpPtrTypeId inputElementId
  let m6 := m5.opStore vgprReg.id loadId
  { c with m_module := m6, m_vgprs := Function.update c.m_vgprs vgprIdx vgprReg }

/-- One iteration of the outer loop of `emitEmuFetchShader`. -/
def emitEmuFetchSemantic (c : GCNCompiler) (inputSemantic : VertexInputSemantic) :
    GCNCompiler :=
  (List.range inputSemantic.sizeInElements).foldl (emitEmuFetchLane inputSemantic) c

/-- Embedding of `GCNCompiler::emitEmuFetchShader`. -/
def emitEmuFetchShader (c : GCNCompiler) : GCNCompiler :=
  match c.m_shaderInput.vsInputSemantics with
  | none => c
  | some semantics =>
    let (fsFunctionId, m1) := c.m_module.allocateId
    let c1 := { c with m_module := m1, m_vs := { c.m_vs with fsFunctionId := fsFunctionId } }
    let (voidId, funcType, m2) := defVoidFunctionTypes c1.m_module
    let c2 := emitFunctionBegin { c1 with m_module := m2 } fsFunctionId voidId funcType
    let c3 := emitFunctionLabel c2
    let c4 := { c3 with m_module := c3.m_module.setDebugName fsFunctionId ⟨"vsFetch", none⟩ }
    let c5 := semantics.foldl emitEmuFetchSemantic c4
    emitFunctionEnd c5

/-- Embedding of `GCNCompiler::emitVsInit`. -/
def emitVsInit (c : GCNCompiler) : GCNCompiler :=
  let c1 := { c with m_module := c.m_module.enableCapability .DrawParameters }
  let c2 := { c1 with
    m_module := c1.m_module.enableExtension "SPV_KHR_shader_draw_parameters" }
  let c3 := emitDclVertexInput c2
  let c4 := emitDclVertexOutput c3
  let c5 := emitDclUniformBuffer c4
  let c6 := emitEmuFetchShader c5
  let (mainFunctionId, m7) := c6.m_module.allocateId
  let c7 := { c6 with
    m_module := m7.setDebugName mainFunctionId ⟨"vsMain", none⟩
    m_vs := { c6.m_vs with mainFunctionId := mainFunctionId } }
  let (voidId, funcType, m8) := defVoidFunctionTypes c7.m_module
  let c8 := emitFunctionBegin { c7 with m_module := m8 } mainFunctionId voidId funcType
  let c9 := emitFunctionLabel c8
  let (voidId2, m10) := c9.m_module.defVoidType
  let (_, m11) := m10.opFunctionCall voidId2 c9.m_vs.fsFunctionId []
  { c9 with m_module := m11 }

/-- Embedding of `GCNCompiler::emitInit`; the initialisers of the other stages
are empty. -/
def emitInit (c : GCNCompiler) : GCNCompiler :=
  let c1 := { c with
    m_module := (c.m_module.enableCapability .Shader).enableCapability .ImageQuery }
  match c1.m_programInfo.shaderType with
  | .VertexShader => emitVsInit c1
  | _ => c1

/-- Embedding of the constructor `GCNCompiler::GCNCompiler`: the state of a new
translator after `emitInit`. -/
def GCNCompiler.create (progInfo : PsslProgramInfo) (analysis : GcnAnalysisInfo)
    (shaderInput : GcnShaderInput) : GCNCompiler :=
  let (entryPointId, m1) := SpirvModule.empty.allocateId
  let (keyId, m2) := m1.addDebugString progInfo.key
  let m3 := m2.setDebugSource keyId
  let m4 := m3.setMemoryModel
  emitInit
    { m_module := m4
      m_sgprs := fun _ => SpirvRegisterPointer.default
      m_vgprs := fun _ => SpirvRegisterPointer.default
      m_constValueTable := fun _ => SpirvLiteralConstant.default
      m_stateRegs := ⟨0, 0⟩
      m_programInfo := progInfo
      m_analysis := analysis
      m_shaderInput := shaderInput
      m_entryPointId := entryPointId
      m_entryPointInterfaces := []
      m_insideFunction := false
      m_vs := ⟨0, 0, fun _ => SpirvRegisterPointer.default,
        fun _ => SpirvRegisterPointer.default⟩
      m_perVertexOut := 0
      m_uboId := 0 }

/-- Embedding of `GCNCompiler::emitVsFinalize`. -/
def emitVsFinalize (c : GCNCompiler) : GCNCompiler :=
  let c1 := emitMainFunctionBegin c
  let (voidId, m2) := c1.m_module.defVoidType
  let (_, m3) := m2.opFunctionCall voidId c1.m_vs.mainFunctionId []
  emitFunctionEnd { c1 with m_module := m3 }

/-- Modelled from the spec: the packaged shader `finalize` returns: the stage,
the compiled module and the key (`gve::GveShader`). -/
structure GveShader where
  stage : PsslProgramType
  code : SpirvModule
  key : String
  deriving DecidableEq, Repr

/-- Embedding of `GCNCompiler::finalize`; the finalisers of the other stages are
empty. -/
def finalize (c : GCNCompiler) : GveShader × GCNCompiler :=
  let c1 := match c.m_programInfo.shaderType with
    | .VertexShader => emitVsFinalize c
    | _ => c
  let m2 := c1.m_module.addEntryPoint c1.m_entryPointId c1.m_programInfo.executionModel "main"
    c1.m_entryPointInterfaces
  let m3 := m2.setDebugName c1.m_entryPointId ⟨"main", none⟩
  (⟨c1.m_programInfo.shaderType, m3.compile, c1.m_programInfo.key⟩, { c1 with m_module := m3 })

/-- The values of `Instruction::InstructionCategory` that `processInstruction`
switches on. -/
inductive InstructionCategory
  | ScalarALU | ScalarMemory | VectorALU | VectorMemory | FlowControl | DataShare
  | VectorInterpolation | Export | DebugProfile | CategoryUnknown
  | InstructionsCategoriesCount
  deriving DecidableEq, Repr

/-- The decoded instruction handed to `processInstruction`; the dispatcher reads
its category only, `encoding` stands for the opcode and operands. -/
structure GCNInstruction where
  category : InstructionCategory
  encoding : Nat
  deriving DecidableEq, Repr

/-- Modelled from the spec: the nine category emitters that `processInstruction`
calls. They are declared by the class but their bodies are not part of
`GCNCompiler.cpp`, so they are parameters of the dispatcher. -/
structure CategoryEmitters where
  emitScalarALU : GCNCompiler → GCNInstruction → GCNCompiler
  emitScalarMemory : GCNCompiler → GCNInstruction → GCNCompiler
  emitVectorALU : GCNCompiler → GCNInstruction → GCNCompiler
  emitVectorMemory : GCNCompiler → GCNInstruction → GCNCompiler
  emitFlowControl : GCNCompiler → GCNInstruction → GCNCompiler
  emitDataShare : GCNCompiler → GCNInstruction → GCNCompiler
  emitVectorInterpolation : GCNCompiler → GCNInstruction → GCNCompiler
  emitExport : GCNCompiler → GCNInstruction → GCNCompiler
  emitDebugProfile : GCNCompiler → GCNInstruction → GCNCompiler

/-- Embedding of `GCNCompiler::processInstruction`: a switch on the category;
the two uninitialised categories only log and change nothing. -/
def processInstruction (em : CategoryEmitters) (c : GCNCompiler) (ins : GCNInstruction) :
    GCNCompiler :=
  match ins.category with
  | .ScalarALU => em.emitScalarALU c ins
  | .ScalarMemory => em.emitScalarMemory c ins
  | .VectorALU => em.emitVectorALU c ins
  | .VectorMemory => em.emitVectorMemory c ins
  | .FlowControl => em.emitFlowControl c ins
  | .DataShare => em.emitDataShare c ins
  | .VectorInterpolation => em.emitVectorInterpolation c ins
  | .Export => em.emitExport c ins
  | .DebugProfile => em.emitDebugProfile c ins
  | .CategoryUnknown => c
  | .InstructionsCategoriesCount => c

/-- Category emitters for concrete evaluations: the vector ALU emitter appends
one store of the id given by the encoding, the others do nothing. -/
def sampleEmitters : CategoryEmitters :=
  ⟨fun c _ => c, fun c _ => c,
    fun c ins => { c with m_module := c.m_module.opStore 16 ins.encoding },
    fun c _ => c, fun c _ => c, fun c _ => c, fun c _ => c, fun c _ => c, fun c _ => c⟩

/-- A compiler state on `sampleModule` in which no register slot has been
written and no constant recorded; used for concrete evaluations. -/
def sampleCompiler : GCNCompiler :=
  { m_module := sampleModule
    m_sgprs := fun _ => SpirvRegisterPointer.default
    m_vgprs := fun _ => SpirvRegisterPointer.default
    m_constValueTable := fun _ => SpirvLiteralConstant.default
    m_stateRegs := ⟨0, 0⟩
    m_programInfo := ⟨.VertexShader, .Vertex, "k"⟩
    m_analysis := ⟨[]⟩
    m_shaderInput := ⟨none, []⟩
    m_entryPointId := 4
    m_entryPointInterfaces := []
    m_insideFunction := true
    m_vs := ⟨5, 0, fun _ => SpirvRegisterPointer.default, fun _ => SpirvRegisterPointer.default⟩
    m_perVertexOut := 6
    m_uboId := 0 }

/-! ## Specification-side definitions -/

/-- Modelled from the spec: what a category emitter may do to the function
bookkeeping (section 4.5: decode, load, compute, store, with no state other than
the register file and the constant value table). It appends instructions that
neither open nor close a function, and keeps the open-function flag, the
function ids, the entry point id, the program information and the debug names
already given. -/
def GCNCompiler.BodyStep (c c2 : GCNCompiler) : Prop :=
  (∃ body : List SpirvInstr, c2.m_module.code = c.m_module.code ++ body ∧
    ∀ i ∈ body, i.op ≠ .OpFunction ∧ i.op ≠ .OpFunctionEnd) ∧
  c2.m_insideFunction = c.m_insideFunction ∧
  c2.m_vs.fsFunctionId = c.m_vs.fsFunctionId ∧
  c2.m_vs.mainFunctionId = c.m_vs.mainFunctionId ∧
  c2.m_entryPointId = c.m_entryPointId ∧
  c2.m_programInfo = c.m_programInfo ∧
  c.m_module.debugNames <+: c2.m_module.debugNames

/-- Modelled from the spec: every category emitter keeps to `BodyStep`. -/
def CategoryEmitters.BodyOnly (em : CategoryEmitters) : Prop :=
  (∀ c ins, GCNCompiler.BodyStep c (em.emitScalarALU c ins)) ∧
  (∀ c ins, GCNCompiler.BodyStep c (em.emitScalarMemory c ins)) ∧
  (∀ c ins, GCNCompiler.BodyStep c (em.emitVectorALU c ins)) ∧
  (∀ c ins, GCNCompiler.BodyStep c (em.emitVectorMemory c ins)) ∧
  (∀ c ins, GCNCompiler.BodyStep c (em.emitFlowControl c ins)) ∧
  (∀ c ins, GCNCompiler.BodyStep c (em.emitDataShare c ins)) ∧
  (∀ c ins, GCNCompiler.BodyStep c (em.emitVectorInterpolation c ins)) ∧
  (∀ c ins, GCNCompiler.BodyStep c (em.emitExport c ins)) ∧
  (∀ c ins, GCNCompiler.BodyStep c (em.emitDebugProfile c ins))

/-- One step of the bracketing check. The state is `none` after a violation,
and otherwise records whether a function is open and whether the previous
instruction was `OpReturn`. A function may open only when none is open, and may
close only when one is open and the previous instruction was `OpReturn`. -/
def bracketStep (s : Option (Bool × Bool)) (i : SpirvInstr) : Option (Bool × Bool) :=
  match s with
  | none => none
  | some (inside, afterReturn) =>
    match i with
    | .OpFunction _ _ _ => if inside then none else some (true, false)
    | .OpFunctionEnd => if inside && afterReturn then some (false, false) else none
    | .OpReturn => some (inside, true)
    | _ => some (inside, false)

/-- The bracketing state after an instruction stream, starting outside every
function; `some (false, b)` means well formed with no function left open. -/
def bracketState (code : List SpirvInstr) : Option (Bool × Bool) :=
  code.foldl bracketStep (some (false, false))

/-- The ids of the functions opened in an instruction stream, in order. -/
def functionIds (code : List SpirvInstr) : List Nat :=
  code.filterMap fun i =>
    match i with
    | .OpFunction _ fid _ => some fid
    | _ => none

/-- An instruction that prepares the source of a store: a bitcast or a
broadcast of a scalar. -/
def isSourcePrep : SpirvInstr → Bool
  | .OpBitcast _ _ _ => true
  | .OpCompositeConstruct _ _ _ => true
  | _ => false

/-- The instructions `ins` combine the loaded vector `loaded` (of `ccount`
lanes) with `source` into `result` so that every lane the mask does not select
keeps the loaded value: either the mask is empty and the loaded value is the
result, or one `OpCompositeInsert` into the loaded vector replaces a selected
lane, or one `OpVectorShuffle` of the loaded vector and the source takes lane
`i` of the loaded vector for every unselected `i` and a lane of the source for
every selected `i`. -/
def MergesInto (mask : GcnRegMask) (ccount loaded source result : Nat)
    (ins : List SpirvInstr) : Prop :=
  (mask.popCount = 0 ∧ ins = [] ∧ result = loaded) ∨
  (∃ tid k, ins = [.OpCompositeInsert tid result source loaded [k]] ∧ mask.get k = true) ∨
  (∃ tid comps, ins = [.OpVectorShuffle tid result loaded source comps] ∧
    comps.length = ccount ∧
    ∀ i, i < ccount →
      (mask.get i = false → comps.getD i 0 = i) ∧ (mask.get i = true → ccount ≤ comps.getD i 0))

/-- The round trip `Bitcast(Bitcast(v, T), v.ctype)`: cast to `T`, cast the result back to the
scalar type of `v`, and return the vector type of what comes out. -/
def bitcastRoundTrip (m : SpirvModule) (v : SpirvRegisterValue) (T : SpirvScalarType) :
    Except Fault SpirvVectorType := do
  let (r1, m1) ← emitRegisterBitcast m v T
  let (r2, _) ← emitRegisterBitcast m1 r1 v.type.ctype
  pure r2.type

/-- The source lanes a swizzle names under a write mask, in the words of the
spec: `swizzle[i]` for each lane `i = 0..3` whose mask bit is set, in
increasing `i`. -/
def selectedLanes (s : GcnRegSwizzle) (mask : GcnRegMask) : List Nat :=
  (if mask.x then [s.x.val] else []) ++ (if mask.y then [s.y.val] else []) ++
    (if mask.z then [s.z.val] else []) ++ (if mask.w then [s.w.val] else [])

/-- The module `m2` comes from `m` by steps that only allocate ids, enable
capabilities, declare types or constants and append to the code stream: the id
counter has not gone back, the code stream of `m` is a prefix of that of `m2`,
and the other sections are the same. -/
def SpirvModule.Grows (m m2 : SpirvModule) : Prop :=
  m.m_id ≤ m2.m_id ∧ (∃ l, m2.code = m.code ++ l) ∧
  m2.varDecls = m.varDecls ∧ m2.debugNames = m.debugNames ∧
  m2.decorations = m.decorations ∧ m2.entryPoints = m.entryPoints ∧
  m2.extensions = m.extensions ∧ m2.memoryModelSet = m.memoryModelSet

/-- The type id `ptrType` is the module's pointer type, of storage class `sc`,
to the vector of `n` 32-bit floats. -/
def SpirvModule.IsFloatVecPointer (m : SpirvModule) (sc : SpvStorageClass)
    (ptrType n : Nat) : Prop :=
  ∃ f v, m.typeConstDefs.lookup (.OpTypeFloat 32) = some f ∧
    m.typeConstDefs.lookup (.OpTypeVector f n) = some v ∧
    m.typeConstDefs.lookup (.OpTypePointer sc v) = some ptrType

/-- The export-parameter records whose target is not `PosMin`, in order. -/
def nonPosParams (l : List GcnExportInfo) : List GcnExportInfo :=
  l.filter (fun e => decide (e.target ≠ TGTExpPosMin))

/-- The `Location` decorations of a list of decorations, in order: the
decorated id and its location. -/
def locationsOf (l : List SpirvDecoration) : List (Nat × Nat) :=
  l.filterMap (fun d => match d with
    | .Location id loc => some (id, loc)
    | _ => none)

/-- Recording the variable `v` declared for the export record `e` under
`vsOutputs[e.target]`. -/
def recordOutput (f : Nat → SpirvRegisterPointer) (p : GcnExportInfo × SpirvVariable) :
    Nat → SpirvRegisterPointer :=
  Function.update f p.1.target ⟨⟨.Float32, p.1.regIndices.length % ccountModulus⟩, p.2.id⟩

/-- The ids of the variables of storage class `Input` or `Output` that the
module declares, in order of declaration. -/
def SpirvModule.ioVarIds (m : SpirvModule) : List Nat :=
  (m.varDecls.filter
    (fun v => decide (v.storageClass = .Input ∨ v.storageClass = .Output))).map (·.id)

/-- The compiler state `c2` has the inputs, the entry point id, the interface
list, the per-vertex output variable and the entry points of `c`. -/
def GCNCompiler.SameSetup (c c2 : GCNCompiler) : Prop :=
  c2.m_entryPointInterfaces = c.m_entryPointInterfaces ∧
  c2.m_perVertexOut = c.m_perVertexOut ∧
  c2.m_programInfo = c.m_programInfo ∧ c2.m_analysis = c.m_analysis ∧
  c2.m_shaderInput = c.m_shaderInput ∧ c2.m_entryPointId = c.m_entryPointId ∧
  c2.m_module.entryPoints = c.m_module.entryPoints

/-- The compiler state `c2` has the setup of `c` and its module declares the
same `Input` and `Output` variables. -/
def GCNCompiler.SameInterface (c c2 : GCNCompiler) : Prop :=
  c.SameSetup c2 ∧ c2.m_module.ioVarIds = c.m_module.ioVarIds

/-- A later state of a module that keeps what was declared: every capability
and every declaration lookup of `m` holds in `m2`, and the lists of
declarations and of decorations of `m` are prefixes of those of `m2`. -/
def SpirvModule.DeclExtends (m2 m : SpirvModule) : Prop :=
  m2.Extends m ∧ m.typeConstDefs <+: m2.typeConstDefs ∧ m.decorations <+: m2.decorations

/-- The V# entries of a resource list with their positions, counting from
`start` and counting the entries of every type. -/
def vsharpEntries (l : List GcnResourceEntry) (start : Nat) : List (Nat × GcnResourceEntry) :=
  (l.enumFrom start).filter (fun p => decide (p.2.type = .VSharp))

/-- The `DescriptorSet` and `Binding` decorations of a list of decorations, in
order. -/
def resourceBindingsOf (l : List SpirvDecoration) : List SpirvDecoration :=
  l.filter (fun d => match d with
    | .DescriptorSet _ _ => true
    | .Binding _ _ => true
    | _ => false)

/-- A later state of a module reached by declarations only: the code stream is
the same, the id counter has not gone back, and the debug declarations of `m`
are a prefix of those of `m2`. -/
def SpirvModule.Declares (m m2 : SpirvModule) : Prop :=
  m2.code = m.code ∧ m.m_id ≤ m2.m_id ∧ m.debugNames <+: m2.debugNames

/-- The compiler state `c2` is reached from `c` by declarations only: the
module has only gained declarations, and the function state, the function ids,
the entry point id, the inputs of the translation and the VGPR bank are the
same. -/
def GCNCompiler.SameCode (c c2 : GCNCompiler) : Prop :=
  c.m_module.Declares c2.m_module ∧
  c2.m_insideFunction = c.m_insideFunction ∧
  c2.m_vs.fsFunctionId = c.m_vs.fsFunctionId ∧
  c2.m_vs.mainFunctionId = c.m_vs.mainFunctionId ∧
  c2.m_entryPointId = c.m_entryPointId ∧ c2.m_programInfo = c.m_programInfo ∧
  c2.m_shaderInput = c.m_shaderInput ∧ c2.m_analysis = c.m_analysis ∧
  c2.m_vgprs = c.m_vgprs

/-- The invariant of a vector type in the spec: between 1 and 4 components. -/
def SpirvVectorType.InRange (t : SpirvVectorType) : Prop :=
  1 ≤ t.ccount ∧ t.ccount ≤ 4

/-- The id `id` is the module's signed 32-bit integer constant `v`. -/
def SpirvModule.IsConstI32 (m : SpirvModule) (id : Nat) (v : Int) : Prop :=
  ∃ t, m.typeConstDefs.lookup (.OpTypeInt 32 1) = some t ∧
    m.typeConstDefs.lookup (.OpConstantI32 t v) = some id

/-- The id `id` is the module's unsigned 32-bit integer constant `v`. -/
def SpirvModule.IsConstU32 (m : SpirvModule) (id : Nat) (v : Nat) : Prop :=
  ∃ t, m.typeConstDefs.lookup (.OpTypeInt 32 0) = some t ∧
    m.typeConstDefs.lookup (.OpConstantU32 t v) = some id

/-- The id `id` is the module's 32-bit float constant `v`. -/
def SpirvModule.IsConstF32 (m : SpirvModule) (id : Nat) (v : ℚ) : Prop :=
  ∃ t, m.typeConstDefs.lookup (.OpTypeFloat 32) = some t ∧
    m.typeConstDefs.lookup (.OpConstantF32 t v) = some id

/-- The variable `v` is a uniform buffer of stride `stride` bound at `index`:
its storage class is `Uniform`, its type is the module's pointer to a struct
declared with the single member `arrayId`, the struct is decorated `Block` and
its member 0 has offset 0, `arrayId` is declared as the array of 32-bit floats
whose length is the u32 constant `stride / 4` and is decorated with
`ArrayStride = stride`, and `v` is decorated with `DescriptorSet = index` and
`Binding = index`. -/
def SpirvModule.IsUniformBlock (m : SpirvModule) (v : SpirvVariable) (stride index : Nat) :
    Prop :=
  ∃ f32 lenId arrayId structId,
    m.typeConstDefs.lookup (.OpTypeFloat 32) = some f32 ∧ m.IsConstU32 lenId (stride / 4) ∧
    (SpirvTypeConst.OpTypeArray f32 lenId, arrayId) ∈ m.typeConstDefs ∧
    SpirvDecoration.ArrayStride arrayId stride ∈ m.decorations ∧
    (SpirvTypeConst.OpTypeStruct [arrayId], structId) ∈ m.typeConstDefs ∧
    SpirvDecoration.Block structId ∈ m.decorations ∧
    SpirvDecoration.MemberOffset structId 0 0 ∈ m.decorations ∧
    m.typeConstDefs.lookup (.OpTypePointer .Uniform structId) = some v.pointerType ∧
    v.storageClass = .Uniform ∧
    SpirvDecoration.DescriptorSet v.id index ∈ m.decorations ∧
    SpirvDecoration.Binding v.id index ∈ m.decorations

/-- The type id `ptrType` is the module's pointer type, of storage class `sc`,
to the 32-bit float type. -/
def SpirvModule.IsFloatPointer (m : SpirvModule) (sc : SpvStorageClass) (ptrType : Nat) :
    Prop :=
  ∃ f, m.typeConstDefs.lookup (.OpTypeFloat 32) = some f ∧
    m.typeConstDefs.lookup (.OpTypePointer sc f) = some ptrType

/-- The lanes that the fetch function copies: each input semantic with each
lane `i` below its `sizeInElements`, in the order of the two loops. -/
def fetchLanes (sems : List VertexInputSemantic) : List (VertexInputSemantic × Nat) :=
  sems.flatMap (fun s => (List.range s.sizeInElements).map (fun i => (s, i)))

/-- Recording the variable `v` declared for the lane `(s, i)` under
`vgprs[s.vgpr + i]`, as a `Float32` scalar. -/
def recordFetch (f : Nat → SpirvRegisterPointer)
    (p : (VertexInputSemantic × Nat) × SpirvVariable) : Nat → SpirvRegisterPointer :=
  Function.update f (p.1.1.vgpr + p.1.2) ⟨⟨.Float32, 1⟩, p.2.id⟩

/-- The instructions `instrs` copy the lane `lane` of its input variable into the
variable `v`: an access chain into the input variable of the semantic with the
u32 constant of the lane number as index, a load through it, and a store of the
loaded value into `v`; the access chain and the load have the pointer type of
`v` as result type, as in the source. -/
def SpirvModule.IsFetchOf (m : SpirvModule) (inputs : Nat → SpirvRegisterPointer)
    (lane : VertexInputSemantic × Nat) (v : SpirvVariable) (instrs : List SpirvInstr) : Prop :=
  ∃ idx ch ld, m.IsConstU32 idx lane.2 ∧
    instrs = [.OpAccessChain v.pointerType ch (inputs lane.1.semantic).id [idx],
      .OpLoad v.pointerType ld ch, .OpStore v.id ld]

/-- Every id the module has handed out is positive: the next free id is, and so
is the id of every declaration. -/
def SpirvModule.IdsPositive (m : SpirvModule) : Prop :=
  0 < m.m_id ∧ ∀ d j, m.typeConstDefs.lookup d = some j → 0 < j

/-- The table of the eight inline float constants of the ISA: operand code and
value. -/
def inlineFloatTable : List (Nat × ℚ) :=
  [(SRCConstFloatPos_0_5, 1 / 2), (SRCConstFloatNeg_0_5, -(1 / 2)),
   (SRCConstFloatPos_1_0, 1), (SRCConstFloatNeg_1_0, -1),
   (SRCConstFloatPos_2_0, 2), (SRCConstFloatNeg_2_0, -2),
   (SRCConstFloatPos_4_0, 4), (SRCConstFloatNeg_4_0, -4)]

/-- The operand code is one of the inline constants of the ISA table: zero, a
signed integer, or a float. -/
def IsInlineConstantCode (code : Nat) : Prop :=
  code = SRCConstZero ∨
  (SRCSignedConstIntPosMin ≤ code ∧ code ≤ SRCSignedConstIntPosMax) ∨
  (SRCSignedConstIntNegMin ≤ code ∧ code ≤ SRCSignedConstIntNegMax) ∨
  (SRCConstFloatPos_0_5 ≤ code ∧ code ≤ SRCConstFloatNeg_4_0)

/-- The number of lanes below `i` that the mask selects. -/
def selectedBelow (mask : GcnRegMask) (i : Nat) : Nat :=
  (List.range i).countP mask.get

/-! ## Effect of the type helpers on the code stream -/

theorem SpirvModule.enableCapability_code (m : SpirvModule) (cap : SpvCapability) :
    (m.enableCapability cap).code = m.code := by
  unfold SpirvModule.enableCapability
  split <;> rfl

theorem SpirvModule.defTypeConst_code (m : SpirvModule) (d : SpirvTypeConst) :
    (m.defTypeConst d).2.code = m.code := by
  unfold SpirvModule.defTypeConst
  split <;> rfl

theorem getScalarTypeId_code (m : SpirvModule) (t : SpirvScalarType) :
    (getScalarTypeId m t).2.code = m.code := by
  cases t <;>
    simp [getScalarTypeId, SpirvModule.defIntType, SpirvModule.defFloatType,
      SpirvModule.defBoolType, SpirvModule.defTypeConst_code,
      SpirvModule.enableCapability_code]

theorem getVectorTypeId_code (m : SpirvModule) (t : SpirvVectorType) :
    (getVectorTypeId m t).2.code = m.code := by
  have h := getScalarTypeId_code m t.ctype
  rcases hs : getScalarTypeId m t.ctype with ⟨tid, m1⟩
  rw [hs] at h
  simp only [getVectorTypeId, hs]
  split
  · simpa [SpirvModule.defVectorType, SpirvModule.defTypeConst_code] using h
  · simpa using h

theorem SpirvModule.defTypeConst_m_id_le (m : SpirvModule) (d : SpirvTypeConst) :
    m.m_id ≤ (m.defTypeConst d).2.m_id := by
  unfold SpirvModule.defTypeConst
  split <;> simp

theorem SpirvModule.enableCapability_m_id (m : SpirvModule) (cap : SpvCapability) :
    (m.enableCapability cap).m_id = m.m_id := by
  unfold SpirvModule.enableCapability
  split <;> rfl

theorem getScalarTypeId_m_id_le (m : SpirvModule) (t : SpirvScalarType) :
    m.m_id ≤ (getScalarTypeId m t).2.m_id := by
  cases t <;>
    simp only [getScalarTypeId, SpirvModule.defIntType, SpirvModule.defFloatType,
      SpirvModule.defBoolType, reduceCtorEq, if_false, if_true, or_false, or_true, false_or,
      le_refl] <;>
    first
      | exact SpirvModule.defTypeConst_m_id_le _ _
      | exact le_trans (le_of_eq (SpirvModule.enableCapability_m_id _ _).symm)
          (SpirvModule.defTypeConst_m_id_le _ _)

theorem getVectorTypeId_m_id_le (m : SpirvModule) (t : SpirvVectorType) :
    m.m_id ≤ (getVectorTypeId m t).2.m_id := by
  have h := getScalarTypeId_m_id_le m t.ctype
  rcases hs : getScalarTypeId m t.ctype with ⟨tid, m1⟩
  rw [hs] at h
  simp only [getVectorTypeId, hs]
  split
  · exact le_trans h (SpirvModule.defTypeConst_m_id_le _ _)
  · exact h

/-! ## Stability of type ids -/

theorem SpirvModule.Extends.refl (m : SpirvModule) : m.Extends m :=
  ⟨fun _ h => h, fun _ _ h => h⟩

theorem SpirvModule.Extends.trans {m3 m2 m1 : SpirvModule} (h32 : m3.Extends m2)
    (h21 : m2.Extends m1) : m3.Extends m1 :=
  ⟨fun c h => h32.1 c (h21.1 c h), fun d j h => h32.2 d j (h21.2 d j h)⟩

theorem SpirvModule.defTypeConst_extends (m : SpirvModule) (d : SpirvTypeConst) :
    (m.defTypeConst d).2.Extends m := by
  unfold SpirvModule.defTypeConst
  split
  · exact SpirvModule.Extends.refl m
  · refine ⟨fun _ h => h, fun d' j h => ?_⟩
    simp [List.lookup_append, h]

theorem SpirvModule.defTypeConst_lookup (m : SpirvModule) (d : SpirvTypeConst) :
    (m.defTypeConst d).2.typeConstDefs.lookup d = some (m.defTypeConst d).1 := by
  unfold SpirvModule.defTypeConst
  split
  · assumption
  · rename_i h
    simp [List.lookup_append, h]

theorem SpirvModule.defTypeConst_of_lookup (m : SpirvModule) (d : SpirvTypeConst) (j : Nat)
    (h : m.typeConstDefs.lookup d = some j) : m.defTypeConst d = (j, m) := by
  simp [SpirvModule.defTypeConst, h]

theorem SpirvModule.enableCapability_extends (m : SpirvModule) (cap : SpvCapability) :
    (m.enableCapability cap).Extends m := by
  unfold SpirvModule.enableCapability
  split
  · exact SpirvModule.Extends.refl m
  · exact ⟨fun c h => by simp [h], fun _ _ h => h⟩

theorem SpirvModule.enableCapability_mem (m : SpirvModule) (cap : SpvCapability) :
    cap ∈ (m.enableCapability cap).capabilities := by
  unfold SpirvModule.enableCapability
  split
  · assumption
  · simp

theorem SpirvModule.enableCapability_of_mem (m : SpirvModule) (cap : SpvCapability)
    (h : cap ∈ m.capabilities) : m.enableCapability cap = m := by
  simp [SpirvModule.enableCapability, h]

/-- Asking a later state of the module for a declaration that was made before
returns the id it was given and changes nothing. -/
theorem SpirvModule.defTypeConst_stable (m m2 : SpirvModule) (d : SpirvTypeConst)
    (h : m2.Extends (m.defTypeConst d).2) : m2.defTypeConst d = ((m.defTypeConst d).1, m2) :=
  SpirvModule.defTypeConst_of_lookup m2 d _ (h.2 d _ (SpirvModule.defTypeConst_lookup m d))

theorem getScalarTypeId_extends (m : SpirvModule) (t : SpirvScalarType) :
    (getScalarTypeId m t).2.Extends m := by
  cases t <;>
    simp only [getScalarTypeId, SpirvModule.defIntType, SpirvModule.defFloatType,
      SpirvModule.defBoolType, reduceCtorEq, if_false, if_true, or_false, or_true, false_or] <;>
    first
      | exact SpirvModule.Extends.refl _
      | exact SpirvModule.defTypeConst_extends _ _
      | exact (SpirvModule.defTypeConst_extends _ _).trans
          (SpirvModule.enableCapability_extends _ _)

theorem getScalarTypeId_stable (m m2 : SpirvModule) (t : SpirvScalarType)
    (h : m2.Extends (getScalarTypeId m t).2) :
    getScalarTypeId m2 t = ((getScalarTypeId m t).1, m2) := by
  cases t <;>
    simp only [getScalarTypeId, SpirvModule.defIntType, SpirvModule.defFloatType,
      SpirvModule.defBoolType, reduceCtorEq, if_false, if_true, or_false, or_true, false_or]
      at h ⊢ <;>
    first
      | rfl
      | exact SpirvModule.defTypeConst_stable _ _ _ h
      | (rw [SpirvModule.enableCapability_of_mem m2 _
            (h.1 _ ((SpirvModule.defTypeConst_extends _ _).1 _
              (SpirvModule.enableCapability_mem m _)))]
         exact SpirvModule.defTypeConst_stable _ _ _ h)

theorem getVectorTypeId_extends (m : SpirvModule) (t : SpirvVectorType) :
    (getVectorTypeId m t).2.Extends m := by
  have h := getScalarTypeId_extends m t.ctype
  rcases hs : getScalarTypeId m t.ctype with ⟨tid, m1⟩
  rw [hs] at h
  simp only [getVectorTypeId, hs]
  split
  · exact (SpirvModule.defTypeConst_extends _ _).trans h
  · exact h

/-- Asking a later state of the module for the id of a vector type that was
asked for before returns the same id and changes nothing. -/
theorem getVectorTypeId_stable (m m2 : SpirvModule) (t : SpirvVectorType)
    (h : m2.Extends (getVectorTypeId m t).2) :
    getVectorTypeId m2 t = ((getVectorTypeId m t).1, m2) := by
  rcases hs : getScalarTypeId m t.ctype with ⟨tid, m1⟩
  simp only [getVectorTypeId, hs] at h ⊢
  have hs1 : (getScalarTypeId m t.ctype).1 = tid := by rw [hs]
  have hs2 : (getScalarTypeId m t.ctype).2 = m1 := by rw [hs]
  by_cases hc : t.ccount > 1
  · simp only [hc, if_true, SpirvModule.defVectorType] at h ⊢
    have h1 : m2.Extends (getScalarTypeId m t.ctype).2 := by
      rw [hs2]
      exact h.trans (SpirvModule.defTypeConst_extends _ _)
    rw [getScalarTypeId_stable m m2 t.ctype h1, hs1]
    exact SpirvModule.defTypeConst_stable _ _ _ h
  · simp only [hc, if_false] at h ⊢
    rw [getScalarTypeId_stable m m2 t.ctype (by rw [hs2]; exact h), hs1]

theorem SpirvModule.emitResult_extends (m : SpirvModule) (mk : Nat → SpirvInstr) :
    (m.emitResult mk).2.Extends m :=
  ⟨fun _ h => h, fun _ _ h => h⟩

/-! ## Bitcast -/

/-- C5. `emitRegisterBitcast` to the value's own scalar type returns the value
and the module unchanged; to another scalar type `T` it appends exactly one
`OpBitcast` of the value and returns a value of scalar type `T` whose component
count is doubled (wide to narrow), halved (narrow to wide) or kept. -/
theorem emitRegisterBitcast_spec (m : SpirvModule) (v : SpirvRegisterValue)
    (T : SpirvScalarType) (hc : v.type.ccount < 128) :
    (T = v.type.ctype → emitRegisterBitcast m v T = .ok (v, m)) ∧
    (T ≠ v.type.ctype →
      ∃ r m', emitRegisterBitcast m v T = .ok (r, m') ∧
        r.type.ctype = T ∧
        (isWideType v.type.ctype = true → isWideType T = false →
          r.type.ccount = 2 * v.type.ccount) ∧
        (isWideType v.type.ctype = false → isWideType T = true →
          r.type.ccount = v.type.ccount / 2) ∧
        (isWideType v.type.ctype = isWideType T → r.type.ccount = v.type.ccount) ∧
        ∃ tid, m'.code = m.code ++ [.OpBitcast tid r.id v.id]) := by
  constructor
  · intro h
    simp [emitRegisterBitcast, h]
  · intro hne
    have hne' : ¬ v.type.ctype = T := fun h => hne h.symm
    cases hres : emitRegisterBitcast m v T with
    | error e => simp [emitRegisterBitcast, hne'] at hres
    | ok p =>
      obtain ⟨r, m'⟩ := p
      simp only [emitRegisterBitcast, hne', if_false, Except.ok.injEq, Prod.mk.injEq] at hres
      obtain ⟨hr, hm⟩ := hres
      subst hr hm
      refine ⟨_, _, rfl, rfl, ?_, ?_, ?_, ?_⟩
      · intro h1 h2
        simp [h1, h2, ccountModulus]
        omega
      · intro h1 h2
        simp [h1, h2]
      · intro h
        cases hw : isWideType T <;> simp [h, hw, ccountModulus]
        omega
      · exact ⟨_, congrArg (· ++ _) (getVectorTypeId_code m _)⟩

/-- Unfolding of `emitRegisterBitcast` between two different scalar types. -/
theorem emitRegisterBitcast_of_ne (m : SpirvModule) (v : SpirvRegisterValue)
    (T : SpirvScalarType) (hne : v.type.ctype ≠ T) :
    ∃ r m' tid, emitRegisterBitcast m v T = .ok (r, m') ∧
      r.type.ctype = T ∧
      r.type.ccount =
        (if isWideType T then
          (if isWideType v.type.ctype then v.type.ccount * 2 % ccountModulus
            else v.type.ccount) / 2
         else if isWideType v.type.ctype then v.type.ccount * 2 % ccountModulus
            else v.type.ccount) ∧
      m'.code = m.code ++ [.OpBitcast tid r.id v.id] := by
  cases hres : emitRegisterBitcast m v T with
  | error e => simp [emitRegisterBitcast, hne] at hres
  | ok p =>
    obtain ⟨r, m'⟩ := p
    simp only [emitRegisterBitcast, hne, if_false, Except.ok.injEq, Prod.mk.injEq] at hres
    obtain ⟨hr, hm⟩ := hres
    subst hr hm
    exact ⟨_, _, _, rfl, rfl, rfl, congrArg (· ++ _) (getVectorTypeId_code m _)⟩

/-- C4, as stated, fails: casting a `Sint32` scalar to `Sint64` and back yields
the vector type `(Sint32, 0)`, not `(Sint32, 1)`. -/
theorem bitcastRoundTrip_counterexample :
    bitcastRoundTrip sampleModule ⟨⟨.Sint32, 1⟩, 9⟩ .Sint64 = .ok ⟨.Sint32, 0⟩ ∧
    bitcastRoundTrip sampleModule ⟨⟨.Sint32, 1⟩, 9⟩ .Sint64 ≠ .ok ⟨.Sint32, 1⟩ := by
  have h0 : bitcastRoundTrip sampleModule ⟨⟨.Sint32, 1⟩, 9⟩ .Sint64 = .ok ⟨.Sint32, 0⟩ := by
    decide
  refine ⟨h0, ?_⟩
  rw [h0]
  decide

/-- C4, amended. For a value with 1 to 4 components and a known scalar type,
`Bitcast(Bitcast(v, T), v.ctype)` has the vector type of `v` exactly when it is
not the case that `T` is wide, the scalar type of `v` is not wide and the
component count of `v` is odd. -/
theorem bitcastRoundTrip_type_iff (m : SpirvModule) (v : SpirvRegisterValue)
    (T : SpirvScalarType) (h1 : 1 ≤ v.type.ccount) (h4 : v.type.ccount ≤ 4)
    (hk : v.type.ctype ≠ .Unknown) :
    bitcastRoundTrip m v T = .ok v.type ↔
      ¬ (isWideType T = true ∧ isWideType v.type.ctype = false ∧ v.type.ccount % 2 = 1) := by
  obtain ⟨⟨ct, c⟩, vid⟩ := v
  simp only at h1 h4 hk ⊢
  by_cases hT : ct = T
  · subst hT
    simp only [bitcastRoundTrip, emitRegisterBitcast, bind, Except.bind, pure, Except.pure,
      if_true, true_iff]
    rintro ⟨a, b, -⟩
    rw [a] at b
    cases b
  · obtain ⟨r1, m1, t1, e1, hc1, hn1, -⟩ := emitRegisterBitcast_of_ne m ⟨⟨ct, c⟩, vid⟩ T hT
    have hT' : r1.type.ctype ≠ ct := by rw [hc1]; exact fun h => hT h.symm
    obtain ⟨r2, m2, t2, e2, hc2, hn2, -⟩ := emitRegisterBitcast_of_ne m1 r1 ct hT'
    obtain ⟨⟨ct2, c2⟩, id2⟩ := r2
    simp only at hc1 hn1 hc2 hn2
    simp only [bitcastRoundTrip, e1, e2, bind, Except.bind, pure, Except.pure, Except.ok.injEq,
      SpirvVectorType.mk.injEq, hc2, true_and]
    rw [hn2, hn1, hc1]
    have hc : c = 1 ∨ c = 2 ∨ c = 3 ∨ c = 4 := by omega
    cases hwT : isWideType T <;> cases hwc : isWideType ct <;>
      rcases hc with rfl | rfl | rfl | rfl <;> simp [ccountModulus]

/-- Witness of C4 amended: a `Float32 × 2` value cast to `Float64` and back
keeps its vector type. -/
theorem bitcastRoundTrip_type_iff_witness :
    bitcastRoundTrip sampleModule ⟨⟨.Float32, 2⟩, 9⟩ .Float64 = .ok ⟨.Float32, 2⟩ :=
  (bitcastRoundTrip_type_iff sampleModule ⟨⟨.Float32, 2⟩, 9⟩ .Float64
    (by decide) (by decide) (by decide)).mpr (by decide)

/-- Witness of C5: a `Sint32 × 2` value cast to `Float32` on `sampleModule`. -/
theorem emitRegisterBitcast_spec_witness :
    ∃ r m', emitRegisterBitcast sampleModule ⟨⟨.Sint32, 2⟩, 9⟩ .Float32 = .ok (r, m') ∧
      r.type.ctype = .Float32 ∧ r.type.ccount = 2 ∧
      ∃ tid, m'.code = sampleModule.code ++ [.OpBitcast tid r.id 9] := by
  obtain ⟨r, m', he, ht, -, -, hc, hcode⟩ :=
    (emitRegisterBitcast_spec sampleModule ⟨⟨.Sint32, 2⟩, 9⟩ .Float32 (by decide)).2 (by decide)
  exact ⟨r, m', he, ht, hc (by decide), hcode⟩

/-- C6, as stated, fails: casting a `Float32` scalar to `Float64` does not
abort; it returns a value of type `(Float64, 0)` with a fresh id and appends an
`OpBitcast` to the code stream. -/
theorem emitRegisterBitcast_odd_counterexample :
    emitRegisterBitcast sampleModule ⟨⟨.Float32, 1⟩, 9⟩ .Float64 =
      .ok (⟨⟨.Float64, 0⟩, 11⟩,
        { sampleModule with
          m_id := 12
          capabilities := [.Float64]
          typeConstDefs := [(.OpTypeInt 32 1, 1), (.OpTypeFloat 32, 2), (.OpTypeVector 2 4, 3),
            (.OpTypeFloat 64, 10)]
          code := [.OpBitcast 10 11 9] }) ∧
    ¬ ∃ f, emitRegisterBitcast sampleModule ⟨⟨.Float32, 1⟩, 9⟩ .Float64 = .error f := by
  have h0 : emitRegisterBitcast sampleModule ⟨⟨.Float32, 1⟩, 9⟩ .Float64 =
      .ok (⟨⟨.Float64, 0⟩, 11⟩,
        { sampleModule with
          m_id := 12
          capabilities := [.Float64]
          typeConstDefs := [(.OpTypeInt 32 1, 1), (.OpTypeFloat 32, 2), (.OpTypeVector 2 4, 3),
            (.OpTypeFloat 64, 10)]
          code := [.OpBitcast 10 11 9] }) := by
    decide
  refine ⟨h0, ?_⟩
  rintro ⟨f, hf⟩
  rw [h0] at hf
  cases hf

/-- C6, amended. For a value of a 32-bit scalar type with an odd component
count and a wide scalar type `T`, `emitRegisterBitcast` returns normally: it
appends exactly one `OpBitcast` of the value and returns a value of type
`(T, ccount / 2)`, the count rounded down, so the result covers one 32-bit
component fewer than the value. -/
theorem emitRegisterBitcast_odd_spec (m : SpirvModule) (v : SpirvRegisterValue)
    (T : SpirvScalarType)
    (h32 : v.type.ctype = .Sint32 ∨ v.type.ctype = .Uint32 ∨ v.type.ctype = .Float32)
    (hodd : v.type.ccount % 2 = 1)
    (hT : T = .Sint64 ∨ T = .Uint64 ∨ T = .Float64) :
    ∃ r m' tid, emitRegisterBitcast m v T = .ok (r, m') ∧
      r.type = ⟨T, v.type.ccount / 2⟩ ∧
      2 * r.type.ccount + 1 = v.type.ccount ∧
      m'.code = m.code ++ [.OpBitcast tid r.id v.id] := by
  have hne : v.type.ctype ≠ T := by
    rcases h32 with h | h | h <;> rcases hT with h' | h' | h' <;> rw [h, h'] <;> decide
  have hwT : isWideType T = true := by rcases hT with h | h | h <;> rw [h] <;> rfl
  have hwv : isWideType v.type.ctype = false := by
    rcases h32 with h | h | h <;> rw [h] <;> rfl
  obtain ⟨r, m', tid, he, hc, hn, hcode⟩ := emitRegisterBitcast_of_ne m v T hne
  obtain ⟨⟨ct, c⟩, rid⟩ := r
  simp only at hc hn
  simp only [hwT, hwv, if_true, Bool.false_eq_true, if_false] at hn
  refine ⟨_, m', tid, he, ?_, ?_, hcode⟩
  · simp [hc, hn]
  · simp only [hn]
    omega

/-- Witness of C6 amended: a `Sint32 × 3` value cast to `Uint64`. -/
theorem emitRegisterBitcast_odd_spec_witness :
    ∃ r m' tid, emitRegisterBitcast sampleModule ⟨⟨.Sint32, 3⟩, 9⟩ .Uint64 = .ok (r, m') ∧
      r.type = ⟨.Uint64, 1⟩ ∧
      2 * r.type.ccount + 1 = 3 ∧
      m'.code = sampleModule.code ++ [.OpBitcast tid r.id 9] :=
  emitRegisterBitcast_odd_spec sampleModule ⟨⟨.Sint32, 3⟩, 9⟩ .Uint64
    (Or.inl rfl) (by decide) (Or.inr (Or.inl rfl))

/-! ## Swizzle -/

theorem swizzleIndices_eq_selectedLanes (s : GcnRegSwizzle) (mask : GcnRegMask) :
    swizzleIndices s mask = selectedLanes s mask := by
  rcases mask with ⟨_ | _, _ | _, _ | _, _ | _⟩ <;> rfl

theorem swizzleIndices_length (s : GcnRegSwizzle) (mask : GcnRegMask) :
    (swizzleIndices s mask).length = mask.popCount := by
  rcases mask with ⟨_ | _, _ | _, _ | _, _ | _⟩ <;> rfl

theorem isIdentitySwizzle_iff (l : List Nat) (c : Nat) :
    isIdentitySwizzle l c = true ↔ l.length = c ∧ l = List.range c := by
  unfold isIdentitySwizzle
  simp only [Bool.and_eq_true, decide_eq_true_eq, List.all_eq_true, List.mem_range, beq_iff_eq]
  constructor
  · rintro ⟨hl, h⟩
    refine ⟨hl, ?_⟩
    subst hl
    apply List.ext_getElem (by simp)
    intro i h1 h2
    have := h i h1
    rw [List.getD_eq_getElem _ _ h1] at this
    simpa using this
  · rintro ⟨hl, rfl⟩
    refine ⟨hl, ?_⟩
    intro i hi
    rw [List.getD_eq_getElem _ _ hi]
    simp

/-- C8. The identity swizzle under the mask `firstN(ccount)` returns the value
itself and leaves the module unchanged, for every component count from 1 to 4. -/
theorem emitRegisterSwizzle_identity (m : SpirvModule) (v : SpirvRegisterValue)
    (h1 : 1 ≤ v.type.ccount) (h4 : v.type.ccount ≤ 4) :
    emitRegisterSwizzle m v ⟨0, 1, 2, 3⟩ (GcnRegMask.firstN v.type.ccount) = .ok (v, m) := by
  obtain ⟨⟨ct, c⟩, vid⟩ := v
  simp only at h1 h4
  have hc : c = 1 ∨ c = 2 ∨ c = 3 ∨ c = 4 := by omega
  rcases hc with rfl | rfl | rfl | rfl <;> rfl

/-- Witness of C8: the scenario of the spec, a 4-component vector with mask
`0b1111`. -/
theorem emitRegisterSwizzle_identity_witness :
    emitRegisterSwizzle sampleModule ⟨⟨.Float32, 4⟩, 9⟩ ⟨0, 1, 2, 3⟩ (GcnRegMask.ofBits 15) =
      .ok (⟨⟨.Float32, 4⟩, 9⟩, sampleModule) :=
  emitRegisterSwizzle_identity sampleModule ⟨⟨.Float32, 4⟩, 9⟩ (by decide) (by decide)

/-- C9. On a vector value `emitRegisterSwizzle` returns a value of the same
scalar type with `popCount(mask)` components, built from the source lanes
`selectedLanes s mask`.  It returns the value itself with the module unchanged
when the lane count is the component count and the lanes are `0, 1, ...`;
otherwise it appends an instruction: one `OpCompositeExtract` with the single
lane when one lane is selected, one `OpVectorShuffle` of the value with itself
carrying the lane list when more than one is. -/
theorem emitRegisterSwizzle_spec (m : SpirvModule) (v : SpirvRegisterValue)
    (s : GcnRegSwizzle) (mask : GcnRegMask)
    (h2 : 2 ≤ v.type.ccount) (h4 : v.type.ccount ≤ 4) :
    ∃ r m', emitRegisterSwizzle m v s mask = .ok (r, m') ∧
      r.type = ⟨v.type.ctype, mask.popCount⟩ ∧
      (selectedLanes s mask).length = mask.popCount ∧
      ((r = v ∧ m' = m) ↔
        (mask.popCount = v.type.ccount ∧ selectedLanes s mask = List.range v.type.ccount)) ∧
      (¬ (mask.popCount = v.type.ccount ∧ selectedLanes s mask = List.range v.type.ccount) →
        (mask.popCount = 1 → ∃ tid,
          m'.code = m.code ++ [.OpCompositeExtract tid r.id v.id (selectedLanes s mask)]) ∧
        (1 < mask.popCount → ∃ tid,
          m'.code = m.code ++ [.OpVectorShuffle tid r.id v.id v.id (selectedLanes s mask)])) := by
  obtain ⟨⟨ct, c⟩, vid⟩ := v
  simp only at h2 h4 ⊢
  have hne1 : ¬ c = 1 := by omega
  have hlen := swizzleIndices_length s mask
  have hsel := swizzleIndices_eq_selectedLanes s mask
  have hid := isIdentitySwizzle_iff (swizzleIndices s mask) c
  rw [hlen, hsel] at hid
  rw [← hsel]
  by_cases hI : isIdentitySwizzle (swizzleIndices s mask) c = true
  · have hI' := hid.mp (by rw [← hsel]; exact hI)
    rw [← hsel] at hI'
    refine ⟨⟨⟨ct, c⟩, vid⟩, m, ?_, ?_, hlen, ?_, ?_⟩
    · simp [emitRegisterSwizzle, hne1, hI]
    · simp [hI'.1]
    · simp [hI']
    · intro h
      exact absurd hI' h
  · have hI' : ¬ (mask.popCount = c ∧ swizzleIndices s mask = List.range c) := by
      intro h
      exact hI (by rw [hsel]; exact hid.mpr (by rw [← hsel]; exact h))
    by_cases hp1 : mask.popCount = 1
    · refine ⟨_, _, (by simp only [emitRegisterSwizzle, hne1, hI, hlen, hp1, if_true,
        if_false, Bool.false_eq_true]; rfl), ?_, hlen, ?_, ?_⟩
      · simp [hp1]
      · constructor
        · rintro ⟨-, hm⟩
          have := congrArg SpirvModule.code hm
          simp [SpirvModule.opCompositeExtract, SpirvModule.emitResult,
            getVectorTypeId_code] at this
        · intro h
          exact absurd h hI'
      · intro _
        refine ⟨fun _ => ⟨(getVectorTypeId m ⟨ct, 1⟩).1, ?_⟩, fun h => by omega⟩
        have ht : (swizzleIndices s mask).take 1 = swizzleIndices s mask := by
          apply List.take_of_length_le
          omega
        simp [SpirvModule.opCompositeExtract, SpirvModule.emitResult, ht, getVectorTypeId_code]
    · refine ⟨_, _, (by simp only [emitRegisterSwizzle, hne1, hI, hlen, hp1, if_true,
        if_false, Bool.false_eq_true]; rfl), ?_, hlen, ?_, ?_⟩
      · simp [hlen]
      · constructor
        · rintro ⟨-, hm⟩
          have := congrArg SpirvModule.code hm
          simp [SpirvModule.opVectorShuffle, SpirvModule.emitResult,
            getVectorTypeId_code] at this
        · intro h
          exact absurd h hI'
      · intro _
        refine ⟨fun h => absurd h hp1,
          fun _ => ⟨(getVectorTypeId m ⟨ct, mask.popCount⟩).1, ?_⟩⟩
        simp [SpirvModule.opVectorShuffle, SpirvModule.emitResult, getVectorTypeId_code]

/-- Witness of C9: the swizzle `(w, z, y, x)` of a 4-component vector under the
mask `0b0101` shuffles lanes 3 and 1. -/
theorem emitRegisterSwizzle_spec_witness :
    ∃ r m', emitRegisterSwizzle sampleModule ⟨⟨.Float32, 4⟩, 9⟩ ⟨3, 2, 1, 0⟩
        (GcnRegMask.ofBits 5) = .ok (r, m') ∧
      r.type = ⟨.Float32, 2⟩ ∧
      ∃ tid, m'.code = sampleModule.code ++ [.OpVectorShuffle tid r.id 9 9 [3, 1]] := by
  obtain ⟨r, m', he, ht, -, -, hcode⟩ :=
    emitRegisterSwizzle_spec sampleModule ⟨⟨.Float32, 4⟩, 9⟩ ⟨3, 2, 1, 0⟩ (GcnRegMask.ofBits 5)
      (by decide) (by decide)
  exact ⟨r, m', he, ht, (hcode (by decide)).2 (by decide)⟩

/-! ## Insert -/

/-- C10. `emitRegisterInsert` with an empty mask returns the destination value
(its vector type and its id) and appends nothing to the code stream; the module
keeps every declaration it had, and it is unchanged altogether when the vector
type of the destination was declared at an earlier state of the module. -/
theorem emitRegisterInsert_empty (m : SpirvModule) (dst src : SpirvRegisterValue)
    (mask : GcnRegMask) (h : mask.popCount = 0) :
    ∃ m', emitRegisterInsert m dst src mask = .ok (dst, m') ∧
      m'.code = m.code ∧ m'.Extends m ∧
      (∀ m0, m.Extends (getVectorTypeId m0 dst.type).2 → m' = m) := by
  refine ⟨(getVectorTypeId m dst.type).2, ?_, getVectorTypeId_code m dst.type,
    getVectorTypeId_extends m dst.type, fun m0 h0 => ?_⟩
  · simp [emitRegisterInsert, h]
  · rw [getVectorTypeId_stable m0 m dst.type h0]

/-- Witness of C10: inserting into a `Float32 × 4` value under the mask
`0b0000`, in a module that has declared that type and then loaded a value of
it, returns the destination and the module as it was. -/
theorem emitRegisterInsert_empty_witness :
    ∃ m', emitRegisterInsert ((getVectorTypeId sampleModule ⟨.Float32, 4⟩).2.opLoad 3 7).2
        ⟨⟨.Float32, 4⟩, 10⟩ ⟨⟨.Float32, 2⟩, 9⟩ (GcnRegMask.ofBits 0) =
          .ok (⟨⟨.Float32, 4⟩, 10⟩, m') ∧
      m'.code = [.OpLoad 3 10 7] ∧
      m' = ((getVectorTypeId sampleModule ⟨.Float32, 4⟩).2.opLoad 3 7).2 := by
  obtain ⟨m', he, hc, -, hm⟩ :=
    emitRegisterInsert_empty ((getVectorTypeId sampleModule ⟨.Float32, 4⟩).2.opLoad 3 7).2
      ⟨⟨.Float32, 4⟩, 10⟩ ⟨⟨.Float32, 2⟩, 9⟩ (GcnRegMask.ofBits 0) (by decide)
  exact ⟨m', he, hc, hm sampleModule (SpirvModule.emitResult_extends _ _)⟩

/-! ## Store -/

theorem emitValueStore_eq (m : SpirvModule) (ptr : SpirvRegisterPointer)
    (src : SpirvRegisterValue) (writeMask : GcnRegMask) :
    emitValueStore m ptr src writeMask =
      (storeSource m ptr src writeMask >>= fun (x : SpirvRegisterValue × SpirvModule) =>
        if ptr.type.ccount = writeMask.popCount then
          .ok ((), x.2.opStore ptr.id x.1.id)
        else
          emitValueLoad x.2 ptr >>= fun (y : SpirvRegisterValue × SpirvModule) =>
            emitRegisterInsert y.2 y.1 x.1 writeMask >>=
              fun (z : SpirvRegisterValue × SpirvModule) =>
                .ok ((), z.2.opStore ptr.id z.1.id)) := by
  unfold emitValueStore storeSource
  simp only [bind, Except.bind]
  by_cases h1 : src.type.ctype = ptr.type.ctype <;> by_cases h2 : src.type.ccount = 1 <;>
    simp only [h1, h2, if_true, if_false, ne_eq, not_true_eq_false, not_false_eq_true] <;>
    (try cases emitRegisterBitcast m src ptr.type.ctype) <;> rfl

theorem insertComponents_length (mask : GcnRegMask) (n k start : Nat) :
    (insertComponents mask k start n).length = n := by
  induction n generalizing k start with
  | zero => rfl
  | succ n ih =>
    unfold insertComponents
    split <;> simp [ih]

theorem insertComponents_getD (mask : GcnRegMask) (n k start i : Nat) (hi : i < n) :
    (mask.get (start + i) = false → (insertComponents mask k start n).getD i 0 = start + i) ∧
    (mask.get (start + i) = true → k ≤ (insertComponents mask k start n).getD i 0) := by
  induction n generalizing k start i with
  | zero => omega
  | succ n ih =>
    unfold insertComponents
    cases i with
    | zero =>
      cases hm : mask.get start <;> simp [hm]
    | succ j =>
      have hj : j < n := by omega
      have e : start + (j + 1) = (start + 1) + j := by omega
      rw [e]
      cases hm : mask.get start
      · simpa [hm] using ih k (start + 1) j hj
      · have := ih (k + 1) (start + 1) j hj
        simp only [hm, if_true, List.getD_cons_succ]
        exact ⟨this.1, fun h => by have := this.2 h; omega⟩

theorem GcnRegMask.get_firstSet (mask : GcnRegMask) (h : mask.popCount ≠ 0) :
    mask.get mask.firstSet = true := by
  rcases mask with ⟨_ | _, _ | _, _ | _, _ | _⟩ <;> first | rfl | exact absurd rfl h

theorem GcnRegMask.popCount_le (mask : GcnRegMask) : mask.popCount ≤ 4 := by
  rcases mask with ⟨_ | _, _ | _, _ | _, _ | _⟩ <;> decide

theorem emitValueLoad_code (m : SpirvModule) (p : SpirvRegisterPointer) :
    ∃ tid lid m', emitValueLoad m p = .ok (⟨p.type, lid⟩, m') ∧
      m'.code = m.code ++ [.OpLoad tid lid p.id] :=
  ⟨_, _, _, rfl, congrArg (· ++ _) (getVectorTypeId_code m _)⟩

theorem emitRegisterInsert_merges (m : SpirvModule) (dst src : SpirvRegisterValue)
    (mask : GcnRegMask) (hlt : mask.popCount < dst.type.ccount) (h4 : dst.type.ccount ≤ 4) :
    ∃ r m' ins, emitRegisterInsert m dst src mask = .ok (r, m') ∧
      r.type = dst.type ∧ m'.code = m.code ++ ins ∧
      MergesInto mask dst.type.ccount dst.id src.id r.id ins := by
  have hcode := getVectorTypeId_code m dst.type
  have h4' : ¬ dst.type.ccount > 4 := by omega
  by_cases h0 : mask.popCount = 0
  · refine ⟨_, _, [], (by simp only [emitRegisterInsert, h0, if_true]; rfl), rfl, ?_, ?_⟩
    · simpa using hcode
    · exact Or.inl ⟨h0, rfl, rfl⟩
  · have hd1 : ¬ dst.type.ccount = 1 := by omega
    by_cases hs1 : src.type.ccount = 1
    · have he : emitRegisterInsert m dst src mask = .ok
          (⟨dst.type, ((getVectorTypeId m dst.type).2.opCompositeInsert
              (getVectorTypeId m dst.type).1 src.id dst.id [mask.firstSet]).1⟩,
            ((getVectorTypeId m dst.type).2.opCompositeInsert
              (getVectorTypeId m dst.type).1 src.id dst.id [mask.firstSet]).2) := by
        simp only [emitRegisterInsert, h0, hd1, hs1, if_true, if_false]
      refine ⟨_, _, _, he, rfl, congrArg (· ++ _) hcode, ?_⟩
      exact Or.inr (Or.inl ⟨_, _, rfl, GcnRegMask.get_firstSet mask h0⟩)
    · have he : emitRegisterInsert m dst src mask = .ok
          (⟨dst.type, ((getVectorTypeId m dst.type).2.opVectorShuffle
              (getVectorTypeId m dst.type).1 dst.id src.id
              (insertComponents mask dst.type.ccount 0 dst.type.ccount)).1⟩,
            ((getVectorTypeId m dst.type).2.opVectorShuffle
              (getVectorTypeId m dst.type).1 dst.id src.id
              (insertComponents mask dst.type.ccount 0 dst.type.ccount)).2) := by
        simp only [emitRegisterInsert, h0, hd1, hs1, h4', if_true, if_false]
      refine ⟨_, _, _, he, rfl, congrArg (· ++ _) hcode, ?_⟩
      refine Or.inr (Or.inr ⟨_, _, rfl, insertComponents_length _ _ _ _, ?_⟩)
      intro i hi
      simpa using insertComponents_getD mask dst.type.ccount dst.type.ccount 0 i hi

theorem emitRegisterExtend_prep (m : SpirvModule) (v : SpirvRegisterValue) (size : Nat)
    (h : size ≤ 4) :
    ∃ r m' pre, emitRegisterExtend m v size = .ok (r, m') ∧
      m'.code = m.code ++ pre ∧ (∀ i ∈ pre, isSourcePrep i = true) ∧
      (v.type.ccount = 1 → r.type.ccount = size) ∧ r.type.ctype = v.type.ctype := by
  by_cases hs : size = 1
  · exact ⟨v, m, [], by simp [emitRegisterExtend, hs], by simp, by simp,
      fun h1 => by rw [h1, hs], rfl⟩
  · have h4 : ¬ size > 4 := by omega
    have he : emitRegisterExtend m v size = .ok
        (⟨⟨v.type.ctype, size % ccountModulus⟩,
          ((getVectorTypeId m ⟨v.type.ctype, size % ccountModulus⟩).2.opCompositeConstruct
            (getVectorTypeId m ⟨v.type.ctype, size % ccountModulus⟩).1
            ([v.id, v.id, v.id, v.id].take size)).1⟩,
          ((getVectorTypeId m ⟨v.type.ctype, size % ccountModulus⟩).2.opCompositeConstruct
            (getVectorTypeId m ⟨v.type.ctype, size % ccountModulus⟩).1
            ([v.id, v.id, v.id, v.id].take size)).2) := by
      simp only [emitRegisterExtend, hs, h4, if_false]
    refine ⟨_, _, [_], he, congrArg (· ++ _) (getVectorTypeId_code m _), ?_, ?_, rfl⟩
    · intro i hi
      rw [List.mem_singleton.mp hi]
      rfl
    · intro _
      show size % ccountModulus = size
      unfold ccountModulus
      omega

theorem storeSource_prep (m : SpirvModule) (p : SpirvRegisterPointer) (v : SpirvRegisterValue)
    (mask : GcnRegMask) :
    ∃ source m2 pre, storeSource m p v mask = .ok (source, m2) ∧
      m2.code = m.code ++ pre ∧ (∀ i ∈ pre, isSourcePrep i = true) ∧
      (v.type.ccount = 1 → source.type.ccount = mask.popCount) := by
  have hpc := mask.popCount_le
  unfold storeSource
  simp only [bind, Except.bind]
  by_cases h1 : v.type.ctype = p.type.ctype
  · simp only [h1, ne_eq, not_true_eq_false, if_false]
    by_cases h2 : v.type.ccount = 1
    · obtain ⟨r, m2, pre, hr, hc2, hp, hn, -⟩ := emitRegisterExtend_prep m v mask.popCount hpc
      exact ⟨r, m2, pre, by simp only [h2, if_true]; exact hr, hc2, hp, hn⟩
    · exact ⟨v, m, [], by simp [h2], by simp, by simp, fun h => absurd h h2⟩
  · obtain ⟨b, m1, tid, he, -, -, hc⟩ := emitRegisterBitcast_of_ne m v p.type.ctype h1
    simp only [h1, he, ne_eq, not_false_eq_true, if_true]
    by_cases h2 : v.type.ccount = 1
    · obtain ⟨r, m2, pre, hr, hc2, hp, hn, -⟩ := emitRegisterExtend_prep m1 v mask.popCount hpc
      refine ⟨r, m2, .OpBitcast tid b.id v.id :: pre, by simp only [h2, if_true]; exact hr,
        by rw [hc2, hc]; simp, ?_, hn⟩
      intro i hi
      rcases List.mem_cons.mp hi with h | h
      · rw [h]
        rfl
      · exact hp i h
    · exact ⟨b, m1, [_], by simp [h2], hc, by simp [isSourcePrep], fun h => absurd h h2⟩

/-- C2. `emitValueStore` first prepares the source (`storeSource`: an optional
bitcast, and for a scalar source the broadcast to `popCount(mask)` lanes).  When
the mask selects as many lanes as the pointer has, it then appends exactly one
`OpStore` of the source to the pointer and no `OpLoad`.  When the mask selects
fewer lanes, it appends an `OpLoad` of the pointer, the instructions of
`Insert(loaded, source, mask)` and one `OpStore` of the combined value to the
pointer, and every lane the mask does not select keeps the loaded value. -/
theorem emitValueStore_spec (m : SpirvModule) (p : SpirvRegisterPointer)
    (v : SpirvRegisterValue) (mask : GcnRegMask) :
    ∃ source m2 pre, storeSource m p v mask = .ok (source, m2) ∧
      m2.code = m.code ++ pre ∧ (∀ i ∈ pre, isSourcePrep i = true) ∧
      (v.type.ccount = 1 → source.type.ccount = mask.popCount) ∧
      (mask.popCount = p.type.ccount →
        ∃ m', emitValueStore m p v mask = .ok ((), m') ∧
          m'.code = m.code ++ pre ++ [.OpStore p.id source.id]) ∧
      (mask.popCount < p.type.ccount → p.type.ccount ≤ 4 →
        ∃ tid loaded ins result m', emitValueStore m p v mask = .ok ((), m') ∧
          m'.code = m.code ++ pre ++ [.OpLoad tid loaded p.id] ++ ins ++
            [.OpStore p.id result] ∧
          MergesInto mask p.type.ccount loaded source.id result ins) := by
  obtain ⟨source, m2, pre, hs, hc, hp, hn⟩ := storeSource_prep m p v mask
  refine ⟨source, m2, pre, hs, hc, hp, hn, ?_, ?_⟩
  · intro hfull
    refine ⟨m2.opStore p.id source.id, ?_, ?_⟩
    · rw [emitValueStore_eq, hs]
      simp [bind, Except.bind, hfull]
    · simp [SpirvModule.opStore, hc]
  · intro hlt h4
    obtain ⟨tid, lid, m3, hl, hc3⟩ := emitValueLoad_code m2 p
    obtain ⟨r, m4, ins, hi, -, hc4, hmerge⟩ :=
      emitRegisterInsert_merges m3 ⟨p.type, lid⟩ source mask hlt h4
    have hne : ¬ p.type.ccount = mask.popCount := by omega
    refine ⟨tid, lid, ins, r.id, m4.opStore p.id r.id, ?_, ?_, hmerge⟩
    · rw [emitValueStore_eq, hs]
      simp [bind, Except.bind, hne, hl, hi]
    · simp [SpirvModule.opStore, hc4, hc3, hc]

/-- Witness of C2: a `Float32 × 2` value stored into a `Float32 × 4` pointer
under the mask `0b0110` is loaded, shuffled and stored. -/
theorem emitValueStore_spec_witness :
    ∃ pre tid loaded ins result m',
      emitValueStore sampleModule ⟨⟨.Float32, 4⟩, 7⟩ ⟨⟨.Float32, 2⟩, 9⟩ (GcnRegMask.ofBits 6) =
        .ok ((), m') ∧
      m'.code = sampleModule.code ++ pre ++ [.OpLoad tid loaded 7] ++ ins ++
        [.OpStore 7 result] ∧
      MergesInto (GcnRegMask.ofBits 6) 4 loaded 9 result ins := by
  obtain ⟨source, m2, pre, hs, -, -, -, -, h⟩ :=
    emitValueStore_spec sampleModule ⟨⟨.Float32, 4⟩, 7⟩ ⟨⟨.Float32, 2⟩, 9⟩ (GcnRegMask.ofBits 6)
  have hs' : storeSource sampleModule ⟨⟨.Float32, 4⟩, 7⟩ ⟨⟨.Float32, 2⟩, 9⟩
      (GcnRegMask.ofBits 6) = .ok (⟨⟨.Float32, 2⟩, 9⟩, sampleModule) := by decide
  rw [hs'] at hs
  obtain ⟨rfl, -⟩ := Prod.mk.inj (Except.ok.inj hs)
  obtain ⟨tid, loaded, ins, result, m', he, hc, hm⟩ := h (by decide) (by decide)
  exact ⟨pre, tid, loaded, ins, result, m', he, hc, hm⟩

/-- C1, evidence of the defect. For a scalar source whose scalar type differs
from the pointer's, the value `emitValueStore` hands on (`storeSource`) still
has the scalar type of the source, not of the pointer: the broadcast is applied
to the source, not to the result of the bitcast.  With one lane selected it is
the source itself, although an `OpBitcast` of it was emitted, and a full-width
store then stores the id of the source. -/
theorem emitValueStore_scalar_source_not_bitcast (m : SpirvModule) (p : SpirvRegisterPointer)
    (v : SpirvRegisterValue) (mask : GcnRegMask)
    (hs : v.type.ccount = 1) (ht : v.type.ctype ≠ p.type.ctype) :
    ∃ source m2, storeSource m p v mask = .ok (source, m2) ∧
      source.type.ctype = v.type.ctype ∧ source.type.ctype ≠ p.type.ctype ∧
      (mask.popCount = 1 →
        source = v ∧ ∃ tid b, m2.code = m.code ++ [.OpBitcast tid b v.id]) ∧
      (mask.popCount = p.type.ccount →
        ∃ m', emitValueStore m p v mask = .ok ((), m') ∧
          m'.code = m2.code ++ [.OpStore p.id source.id]) := by
  obtain ⟨b, m1, tid, he, -, -, hc⟩ := emitRegisterBitcast_of_ne m v p.type.ctype ht
  obtain ⟨r, m2, pre, hr, -, -, -, hct⟩ :=
    emitRegisterExtend_prep m1 v mask.popCount mask.popCount_le
  have hsrc : storeSource m p v mask = .ok (r, m2) := by
    simp only [storeSource, bind, Except.bind, ht, he, hs, ne_eq, not_false_eq_true, if_true]
    exact hr
  refine ⟨r, m2, hsrc, hct, by rw [hct]; exact ht, ?_, ?_⟩
  · intro h1
    simp only [emitRegisterExtend, h1, if_true, Except.ok.injEq, Prod.mk.injEq] at hr
    obtain ⟨rfl, rfl⟩ := hr
    exact ⟨rfl, tid, b.id, hc⟩
  · intro hfull
    refine ⟨m2.opStore p.id r.id, ?_, ?_⟩
    · rw [emitValueStore_eq, hsrc]
      simp [bind, Except.bind, hfull]
    · simp [SpirvModule.opStore]

/-- Witness of C1: storing a `Sint32` scalar (id 9) into a `Float32` scalar
pointer (id 7) under the mask `0b0001` emits a bitcast of id 9 and then stores
id 9 itself, the source that was not bitcast. -/
theorem emitValueStore_scalar_source_not_bitcast_witness :
    ∃ m2 m' : SpirvModule, (∃ tid b, m2.code = sampleModule.code ++ [.OpBitcast tid b 9]) ∧
      emitValueStore sampleModule ⟨⟨.Float32, 1⟩, 7⟩ ⟨⟨.Sint32, 1⟩, 9⟩ (GcnRegMask.ofBits 1) =
        .ok ((), m') ∧
      m'.code = m2.code ++ [.OpStore 7 9] := by
  obtain ⟨source, m2, -, -, -, h1, hfull⟩ :=
    emitValueStore_scalar_source_not_bitcast sampleModule ⟨⟨.Float32, 1⟩, 7⟩ ⟨⟨.Sint32, 1⟩, 9⟩
      (GcnRegMask.ofBits 1) rfl (by decide)
  obtain ⟨rfl, hb⟩ := h1 (by decide)
  obtain ⟨m', he, hc⟩ := hfull (by decide)
  exact ⟨m2, m', hb, he, hc⟩

/-- C3, as stated, fails: the store of a `Sint32` scalar into a `Float32 × 4`
pointer under the mask `0b0010` emits an `OpBitcast`, an `OpLoad`, an
`OpCompositeInsert` and an `OpStore`; there is no `OpCompositeConstruct` and no
`OpVectorShuffle`. -/
theorem emitValueStore_scenario_counterexample :
    ∃ m', emitValueStore sampleModule ⟨⟨.Float32, 4⟩, 7⟩ ⟨⟨.Sint32, 1⟩, 9⟩
        (GcnRegMask.ofBits 2) = .ok ((), m') ∧
      m'.code.map SpirvInstr.op = [.OpBitcast, .OpLoad, .OpCompositeInsert, .OpStore] ∧
      m'.code.map SpirvInstr.op ≠
        [.OpBitcast, .OpCompositeConstruct, .OpLoad, .OpVectorShuffle, .OpStore] :=
  ⟨{ sampleModule with
      m_id := 13
      code := [.OpBitcast 2 10 9, .OpLoad 3 11 7, .OpCompositeInsert 3 12 9 11 [1],
        .OpStore 7 12] },
    by decide, by decide, by decide⟩

/-- C3, amended. Storing a `Sint32` scalar into a `Float32 × 4` pointer under
the mask `0b0010` appends, in this order: an `OpBitcast` of the source, an
`OpLoad` of the destination, an `OpCompositeInsert` into lane 1 of the loaded
vector, and an `OpStore` of the result to the destination. -/
theorem emitValueStore_scenario (m : SpirvModule) (pid vid : Nat) :
    ∃ tF b tV loaded obj result m',
      emitValueStore m ⟨⟨.Float32, 4⟩, pid⟩ ⟨⟨.Sint32, 1⟩, vid⟩ (GcnRegMask.ofBits 2) =
        .ok ((), m') ∧
      m'.code = m.code ++ [.OpBitcast tF b vid, .OpLoad tV loaded pid,
        .OpCompositeInsert tV result obj loaded [1], .OpStore pid result] := by
  obtain ⟨b, m1, tid, he, -, -, hc⟩ :=
    emitRegisterBitcast_of_ne m ⟨⟨.Sint32, 1⟩, vid⟩ .Float32 (fun h => by cases h)
  have he' : emitRegisterBitcast m ⟨⟨.Sint32, 1⟩, vid⟩ .Float32 = .ok (b, m1) := he
  have hsrc : storeSource m ⟨⟨.Float32, 4⟩, pid⟩ ⟨⟨.Sint32, 1⟩, vid⟩ (GcnRegMask.ofBits 2) =
      .ok (⟨⟨.Sint32, 1⟩, vid⟩, m1) := by
    simp only [storeSource, bind, Except.bind, ne_eq, reduceCtorEq, not_false_eq_true, if_true,
      he']
    rfl
  have hl : emitValueLoad m1 ⟨⟨.Float32, 4⟩, pid⟩ =
      .ok (⟨⟨.Float32, 4⟩, (getVectorTypeId m1 ⟨.Float32, 4⟩).2.m_id⟩,
        ((getVectorTypeId m1 ⟨.Float32, 4⟩).2.opLoad
          (getVectorTypeId m1 ⟨.Float32, 4⟩).1 pid).2) := rfl
  have hst := getVectorTypeId_stable m1
    ((getVectorTypeId m1 ⟨.Float32, 4⟩).2.opLoad (getVectorTypeId m1 ⟨.Float32, 4⟩).1 pid).2
    ⟨.Float32, 4⟩ (SpirvModule.emitResult_extends _ _)
  refine ⟨tid, b.id, (getVectorTypeId m1 ⟨.Float32, 4⟩).1,
    (getVectorTypeId m1 ⟨.Float32, 4⟩).2.m_id, vid,
    (getVectorTypeId m1 ⟨.Float32, 4⟩).2.m_id + 1,
    ((((getVectorTypeId m1 ⟨.Float32, 4⟩).2.opLoad
      (getVectorTypeId m1 ⟨.Float32, 4⟩).1 pid).2.opCompositeInsert
        (getVectorTypeId m1 ⟨.Float32, 4⟩).1 vid
          (getVectorTypeId m1 ⟨.Float32, 4⟩).2.m_id [1]).2).opStore pid
            ((getVectorTypeId m1 ⟨.Float32, 4⟩).2.m_id + 1), ?_, ?_⟩
  · rw [emitValueStore_eq, hsrc]
    simp only [bind, Except.bind, hl, emitRegisterInsert, hst]
    rfl
  · simp only at hc
    simp [SpirvModule.opStore, SpirvModule.opCompositeInsert, SpirvModule.opLoad,
      SpirvModule.emitResult, getVectorTypeId_code, hc]

/-! ## Register loads -/

theorem GCNCompiler.onModule_ok {α : Type} (c : GCNCompiler) (a : α) (m : SpirvModule) :
    c.onModule (.ok (a, m)) = .ok (a, { c with m_module := m }) := rfl

/-- Loading through a pointer whose id is 0: the load is emitted all the same. -/
theorem emitValueLoad_fresh (m : SpirvModule) (p : SpirvRegisterPointer) :
    ∃ tid r m', emitValueLoad m p = .ok (⟨p.type, r⟩, m') ∧
      m'.code = m.code ++ [.OpLoad tid r p.id] ∧ m.m_id ≤ r :=
  ⟨_, _, _, rfl, congrArg (· ++ _) (getVectorTypeId_code m _), getVectorTypeId_m_id_le m _⟩

/-- C7, as stated, fails: on a compiler state in which no register has been
written, loading SGPR 5 does not abort; it returns a value with the fresh id 10
and appends an `OpLoad` from the pointer id 0, and so does
`emitLoadScalarOperand` on the operand code of SGPR 5. -/
theorem emitSgprLoad_unwritten_counterexample :
    (∃ c', emitSgprLoad sampleCompiler 5 = .ok (⟨⟨.Unknown, 0⟩, 10⟩, c') ∧
      c'.m_module.code = [.OpLoad 0 10 0]) ∧
    (∃ c', emitLoadScalarOperand sampleCompiler 5 5 0 = .ok (⟨⟨.Unknown, 0⟩, 10⟩, c') ∧
      c'.m_module.code = [.OpLoad 0 10 0]) ∧
    ¬ ∃ f, emitSgprLoad sampleCompiler 5 = .error f :=
  ⟨⟨_, rfl, rfl⟩, ⟨_, rfl, rfl⟩, fun ⟨_, hf⟩ => by cases hf⟩

/-- C7, amended. A load from an SGPR (respectively VGPR) slot that has never
been stored to, so that its pointer id is still 0, returns normally: it appends
exactly one `OpLoad` whose pointer operand is the id 0, returns a value of the
slot's vector type with a fresh id, and leaves both register banks unchanged;
`emitLoadScalarOperand` on an SGPR-range operand code is that SGPR load. -/
theorem load_unwritten_spec (c : GCNCompiler) (i : Nat) :
    ((c.m_sgprs i).id = 0 →
      (∃ tid r c', emitSgprLoad c i = .ok (⟨(c.m_sgprs i).type, r⟩, c') ∧
        c'.m_module.code = c.m_module.code ++ [.OpLoad tid r 0] ∧
        c.m_module.m_id ≤ r ∧ c'.m_sgprs = c.m_sgprs ∧ c'.m_vgprs = c.m_vgprs) ∧
      ∀ srcOperand literalConst, SRCScalarGPRMin ≤ srcOperand → srcOperand ≤ SRCScalarGPRMax →
        emitLoadScalarOperand c srcOperand i literalConst = emitSgprLoad c i) ∧
    ((c.m_vgprs i).id = 0 →
      ∃ tid r c', emitVgprLoad c i = .ok (⟨(c.m_vgprs i).type, r⟩, c') ∧
        c'.m_module.code = c.m_module.code ++ [.OpLoad tid r 0] ∧
        c.m_module.m_id ≤ r ∧ c'.m_sgprs = c.m_sgprs ∧ c'.m_vgprs = c.m_vgprs) := by
  refine ⟨fun h0 => ⟨?_, ?_⟩, fun h0 => ?_⟩
  · obtain ⟨tid, r, m', he, hc, hr⟩ := emitValueLoad_fresh c.m_module (c.m_sgprs i)
    rw [h0] at hc
    exact ⟨tid, r, { c with m_module := m' },
      by rw [emitSgprLoad, he, GCNCompiler.onModule_ok], hc, hr, rfl, rfl⟩
  · intro srcOperand literalConst hmin hmax
    simp [emitLoadScalarOperand, hmin, hmax]
  · obtain ⟨tid, r, m', he, hc, hr⟩ := emitValueLoad_fresh c.m_module (c.m_vgprs i)
    rw [h0] at hc
    exact ⟨tid, r, { c with m_module := m' },
      by rw [emitVgprLoad, he, GCNCompiler.onModule_ok], hc, hr, rfl, rfl⟩

/-- Witness of C7 amended: SGPR 3 of `sampleCompiler` was never written, and
the operand code 3 loads it. -/
theorem load_unwritten_spec_witness :
    ∃ tid r c', emitLoadScalarOperand sampleCompiler 3 3 0 =
        .ok (⟨(sampleCompiler.m_sgprs 3).type, r⟩, c') ∧
      c'.m_module.code = sampleCompiler.m_module.code ++ [.OpLoad tid r 0] ∧
      sampleCompiler.m_module.m_id ≤ r := by
  have h := (load_unwritten_spec sampleCompiler 3).1 rfl
  obtain ⟨⟨tid, r, c', he, hc, hr, -, -⟩, hop⟩ := h
  exact ⟨tid, r, c', by rw [hop 3 0 (by decide) (by decide)]; exact he, hc, hr⟩

/-! ## Insert of a vector into a vector -/

theorem insertComponents_getD_eq (mask : GcnRegMask) (n k start i : Nat) (hi : i < n) :
    (insertComponents mask k start n).getD i 0 =
      if mask.get (start + i) then k + (List.range' start i).countP mask.get else start + i := by
  induction n generalizing k start i with
  | zero => omega
  | succ n ih =>
    unfold insertComponents
    cases i with
    | zero =>
      cases hm : mask.get start <;> simp [hm]
    | succ j =>
      have hj : j < n := by omega
      have e : start + (j + 1) = (start + 1) + j := by omega
      rw [e]
      cases hm : mask.get start
      · simp only [Bool.false_eq_true, if_false, List.getD_cons_succ, ih k (start + 1) j hj,
          List.range'_succ, List.countP_cons, hm]
        simp
      · simp only [if_true, List.getD_cons_succ, ih (k + 1) (start + 1) j hj,
          List.range'_succ, List.countP_cons, hm]
        split
        · omega
        · rfl

theorem selectedBelow_mono (mask : GcnRegMask) {i j : Nat} (h : i ≤ j) :
    selectedBelow mask i ≤ selectedBelow mask j :=
  List.Sublist.countP_le _ (List.range_sublist.mpr h)

theorem selectedBelow_succ (mask : GcnRegMask) (i : Nat) :
    selectedBelow mask (i + 1) = selectedBelow mask i + if mask.get i then 1 else 0 := by
  simp [selectedBelow, List.range_succ, List.countP_append, List.countP_cons]

/-- C11. For two vector values and a non-empty mask `emitRegisterInsert` appends
one `OpVectorShuffle` over `(dst, src)` with `dst.ccount` components and returns
a value of the vector type of `dst`.  Lane `i` is lane `i` of `dst` when the
mask does not select `i`, and otherwise the lane of `src` whose number is the
count of selected lanes below `i` (shuffle index `dst.ccount` plus that count).
When `src` has at least as many components as the mask selects among the first
`dst.ccount` lanes, every shuffle index is below `dst.ccount + src.ccount`. -/
theorem emitRegisterInsert_vectors (m : SpirvModule) (dst src : SpirvRegisterValue)
    (mask : GcnRegMask) (hd : 2 ≤ dst.type.ccount) (hd4 : dst.type.ccount ≤ 4)
    (hs : 2 ≤ src.type.ccount) (hm : mask.popCount ≠ 0) :
    ∃ r m' tid comps, emitRegisterInsert m dst src mask = .ok (r, m') ∧
      r.type = dst.type ∧
      m'.code = m.code ++ [.OpVectorShuffle tid r.id dst.id src.id comps] ∧
      comps.length = dst.type.ccount ∧
      (∀ i, i < dst.type.ccount →
        (mask.get i = false → comps.getD i 0 = i) ∧
        (mask.get i = true → comps.getD i 0 = dst.type.ccount + selectedBelow mask i)) ∧
      (selectedBelow mask dst.type.ccount ≤ src.type.ccount →
        ∀ i, i < dst.type.ccount → comps.getD i 0 < dst.type.ccount + src.type.ccount) := by
  have hd1 : ¬ dst.type.ccount = 1 := by omega
  have hs1 : ¬ src.type.ccount = 1 := by omega
  have h4 : ¬ dst.type.ccount > 4 := by omega
  have hcode := getVectorTypeId_code m dst.type
  have he : emitRegisterInsert m dst src mask = .ok
      (⟨dst.type, ((getVectorTypeId m dst.type).2.opVectorShuffle
          (getVectorTypeId m dst.type).1 dst.id src.id
          (insertComponents mask dst.type.ccount 0 dst.type.ccount)).1⟩,
        ((getVectorTypeId m dst.type).2.opVectorShuffle
          (getVectorTypeId m dst.type).1 dst.id src.id
          (insertComponents mask dst.type.ccount 0 dst.type.ccount)).2) := by
    simp only [emitRegisterInsert, hm, hd1, hs1, h4, if_false]
  have hlane : ∀ i, i < dst.type.ccount →
      (mask.get i = false →
        (insertComponents mask dst.type.ccount 0 dst.type.ccount).getD i 0 = i) ∧
      (mask.get i = true →
        (insertComponents mask dst.type.ccount 0 dst.type.ccount).getD i 0 =
          dst.type.ccount + selectedBelow mask i) := by
    intro i hi
    have h := insertComponents_getD_eq mask dst.type.ccount dst.type.ccount 0 i hi
    simp only [Nat.zero_add] at h
    rw [h]
    refine ⟨fun hf => by simp [hf], fun ht => ?_⟩
    simp [ht, selectedBelow, List.range_eq_range']
  refine ⟨_, _, _, _, he, rfl, congrArg (· ++ _) hcode, insertComponents_length _ _ _ _,
    hlane, ?_⟩
  intro hle i hi
  cases hmi : mask.get i
  · rw [(hlane i hi).1 hmi]
    omega
  · rw [(hlane i hi).2 hmi]
    have h1 := selectedBelow_succ mask i
    rw [hmi] at h1
    have h2 := selectedBelow_mono mask (show i + 1 ≤ dst.type.ccount by omega)
    simp only [if_true] at h1
    omega

/-- Witness of C11: a `Float32 × 2` value inserted into a `Float32 × 4` value
under the mask `0b0110` gives the shuffle `(0, 4, 5, 3)`. -/
theorem emitRegisterInsert_vectors_witness :
    ∃ r m' tid, emitRegisterInsert sampleModule ⟨⟨.Float32, 4⟩, 8⟩ ⟨⟨.Float32, 2⟩, 9⟩
        (GcnRegMask.ofBits 6) = .ok (r, m') ∧
      r.type = ⟨.Float32, 4⟩ ∧
      m'.code = sampleModule.code ++ [.OpVectorShuffle tid r.id 8 9 [0, 4, 5, 3]] := by
  obtain ⟨r, m', tid, comps, he, ht, hc, -, -, -⟩ :=
    emitRegisterInsert_vectors sampleModule ⟨⟨.Float32, 4⟩, 8⟩ ⟨⟨.Float32, 2⟩, 9⟩
      (GcnRegMask.ofBits 6) (by decide) (by decide) (by decide) (by decide)
  have h0 : emitRegisterInsert sampleModule ⟨⟨.Float32, 4⟩, 8⟩ ⟨⟨.Float32, 2⟩, 9⟩
      (GcnRegMask.ofBits 6) = .ok (⟨⟨.Float32, 4⟩, 10⟩,
        { sampleModule with m_id := 11, code := [.OpVectorShuffle 3 10 8 9 [0, 4, 5, 3]] }) := by
    decide
  rw [h0] at he
  obtain ⟨rfl, rfl⟩ := Prod.mk.inj (Except.ok.inj he)
  exact ⟨_, _, 3, rfl, rfl, rfl⟩

/-! ## Extend -/

/-- C12. `emitRegisterExtend` of a scalar to size 1 returns the value itself
and the module unchanged; to a size `k` from 2 to 4 it appends exactly one
`OpCompositeConstruct` with `k` operands, all the id of the value, and returns
a value of type `(ctype, k)`.  `emitRegisterSwizzle` of a scalar is
`emitRegisterExtend` to `popCount(mask)` lanes, whatever the swizzle. -/
theorem emitRegisterExtend_spec (m : SpirvModule) (v : SpirvRegisterValue)
    (hs : v.type.ccount = 1) :
    emitRegisterExtend m v 1 = .ok (v, m) ∧
    (∀ k, 2 ≤ k → k ≤ 4 →
      ∃ r m' tid, emitRegisterExtend m v k = .ok (r, m') ∧
        r.type = ⟨v.type.ctype, k⟩ ∧
        m'.code = m.code ++ [.OpCompositeConstruct tid r.id (List.replicate k v.id)]) ∧
    (∀ s mask, emitRegisterSwizzle m v s mask = emitRegisterExtend m v mask.popCount) := by
  refine ⟨by simp [emitRegisterExtend], ?_, fun s mask => by simp [emitRegisterSwizzle, hs]⟩
  intro k h2 h4
  have hk1 : ¬ k = 1 := by omega
  have hk4 : ¬ k > 4 := by omega
  have hmod : k % ccountModulus = k := by
    unfold ccountModulus
    omega
  have htake : [v.id, v.id, v.id, v.id].take k = List.replicate k v.id := by
    have hk : k = 2 ∨ k = 3 ∨ k = 4 := by omega
    rcases hk with rfl | rfl | rfl <;> rfl
  have he : emitRegisterExtend m v k = .ok
      (⟨⟨v.type.ctype, k⟩,
        ((getVectorTypeId m ⟨v.type.ctype, k⟩).2.opCompositeConstruct
          (getVectorTypeId m ⟨v.type.ctype, k⟩).1 (List.replicate k v.id)).1⟩,
        ((getVectorTypeId m ⟨v.type.ctype, k⟩).2.opCompositeConstruct
          (getVectorTypeId m ⟨v.type.ctype, k⟩).1 (List.replicate k v.id)).2) := by
    simp only [emitRegisterExtend, hk1, hk4, hmod, htake, if_false]
  exact ⟨_, _, _, he, rfl, congrArg (· ++ _) (getVectorTypeId_code m _)⟩

/-- Witness of C12: a `Float32` scalar broadcast to 3 lanes. -/
theorem emitRegisterExtend_spec_witness :
    ∃ r m' tid, emitRegisterExtend sampleModule ⟨⟨.Float32, 1⟩, 9⟩ 3 = .ok (r, m') ∧
      r.type = ⟨.Float32, 3⟩ ∧
      m'.code = sampleModule.code ++ [.OpCompositeConstruct tid r.id [9, 9, 9]] :=
  (emitRegisterExtend_spec sampleModule ⟨⟨.Float32, 1⟩, 9⟩ rfl).2.1 3 (by decide) (by decide)

/-! ## Constants of the module -/

theorem SpirvModule.defTypeConst_idsPositive (m : SpirvModule) (d : SpirvTypeConst)
    (h : m.IdsPositive) : 0 < (m.defTypeConst d).1 ∧ (m.defTypeConst d).2.IdsPositive := by
  unfold SpirvModule.defTypeConst
  split
  · rename_i tid hl
    exact ⟨h.2 d tid hl, h⟩
  · refine ⟨h.1, Nat.succ_pos _, fun d' j hj => ?_⟩
    simp only [List.lookup_append] at hj
    cases hl : m.typeConstDefs.lookup d' with
    | some j' =>
      rw [hl] at hj
      have hj' : j' = j := by simpa using hj
      exact hj' ▸ h.2 d' j' hl
    | none =>
      rw [hl] at hj
      by_cases hd : d' = d
      · have hj' : m.m_id = j := by simpa [List.lookup, hd] using hj
        exact hj' ▸ h.1
      · have hb : (d' == d) = false := by simpa using hd
        simp [List.lookup, hb] at hj

theorem SpirvModule.consti32_isConst (m : SpirvModule) (v : Int) :
    (m.consti32 v).2.IsConstI32 (m.consti32 v).1 v :=
  ⟨(m.defIntType 32 1).1,
    (SpirvModule.defTypeConst_extends _ _).2 _ _ (SpirvModule.defTypeConst_lookup m _),
    SpirvModule.defTypeConst_lookup _ _⟩

theorem SpirvModule.constu32_isConst (m : SpirvModule) (v : Nat) :
    (m.constu32 v).2.IsConstU32 (m.constu32 v).1 v :=
  ⟨(m.defIntType 32 0).1,
    (SpirvModule.defTypeConst_extends _ _).2 _ _ (SpirvModule.defTypeConst_lookup m _),
    SpirvModule.defTypeConst_lookup _ _⟩

theorem SpirvModule.constf32_isConst (m : SpirvModule) (v : ℚ) :
    (m.constf32 v).2.IsConstF32 (m.constf32 v).1 v :=
  ⟨(m.defFloatType 32).1,
    (SpirvModule.defTypeConst_extends _ _).2 _ _ (SpirvModule.defTypeConst_lookup m _),
    SpirvModule.defTypeConst_lookup _ _⟩

theorem SpirvModule.consti32_pos (m : SpirvModule) (v : Int) (h : m.IdsPositive) :
    0 < (m.consti32 v).1 :=
  (SpirvModule.defTypeConst_idsPositive _ _ (SpirvModule.defTypeConst_idsPositive m _ h).2).1

theorem SpirvModule.constu32_pos (m : SpirvModule) (v : Nat) (h : m.IdsPositive) :
    0 < (m.constu32 v).1 :=
  (SpirvModule.defTypeConst_idsPositive _ _ (SpirvModule.defTypeConst_idsPositive m _ h).2).1

theorem SpirvModule.constf32_pos (m : SpirvModule) (v : ℚ) (h : m.IdsPositive) :
    0 < (m.constf32 v).1 :=
  (SpirvModule.defTypeConst_idsPositive _ _ (SpirvModule.defTypeConst_idsPositive m _ h).2).1

/-! ## Dispatch of `emitLoadScalarOperand` -/

theorem emitLoadScalarOperand_int (c : GCNCompiler) (code regIndex literalConst : Nat)
    (h : code = SRCConstZero ∨
      (SRCSignedConstIntPosMin ≤ code ∧ code ≤ SRCSignedConstIntPosMax) ∨
      (SRCSignedConstIntNegMin ≤ code ∧ code ≤ SRCSignedConstIntNegMax)) :
    emitLoadScalarOperand c code regIndex literalConst = emitInlineConstantInteger c code := by
  unfold emitLoadScalarOperand
  simp only [SRCScalarGPRMin, SRCScalarGPRMax, SRCVccLo, SRCVccHi, SRCM0, SRCExecLo, SRCExecHi,
    SRCConstZero, SRCSignedConstIntPosMin, SRCSignedConstIntPosMax, SRCSignedConstIntNegMin,
    SRCSignedConstIntNegMax] at h ⊢
  split_ifs <;> first | rfl | omega

theorem emitLoadScalarOperand_float (c : GCNCompiler) (code regIndex literalConst : Nat)
    (h : SRCConstFloatPos_0_5 ≤ code ∧ code ≤ SRCConstFloatNeg_4_0) :
    emitLoadScalarOperand c code regIndex literalConst = emitInlineConstantFloat c code := by
  unfold emitLoadScalarOperand
  simp only [SRCScalarGPRMin, SRCScalarGPRMax, SRCVccLo, SRCVccHi, SRCM0, SRCExecLo, SRCExecHi,
    SRCConstZero, SRCSignedConstIntPosMin, SRCSignedConstIntPosMax, SRCSignedConstIntNegMin,
    SRCSignedConstIntNegMax, SRCConstFloatPos_0_5, SRCConstFloatNeg_4_0] at h ⊢
  split_ifs <;> first | rfl | omega

theorem emitLoadScalarOperand_literal (c : GCNCompiler) (regIndex literalConst : Nat) :
    emitLoadScalarOperand c SRCLiteralConst regIndex literalConst =
      .ok (⟨⟨.Uint32, 1⟩, (c.m_module.constu32 literalConst).1⟩,
        { c with
          m_module := (c.m_module.constu32 literalConst).2
          m_constValueTable := Function.update c.m_constValueTable
            (c.m_module.constu32 literalConst).1 ⟨.Uint32, literalConst⟩ }) := rfl

theorem emitLoadScalarOperand_sgpr (c : GCNCompiler) (code regIndex literalConst : Nat)
    (h : SRCScalarGPRMin ≤ code ∧ code ≤ SRCScalarGPRMax) :
    emitLoadScalarOperand c code regIndex literalConst = emitSgprLoad c regIndex := by
  simp [emitLoadScalarOperand, h]

theorem emitLoadScalarOperand_stub (c : GCNCompiler) (code regIndex literalConst : Nat)
    (h : code ∈ [SRCVccLo, SRCVccHi, SRCM0, SRCExecLo, SRCExecHi, SRCVCCZ, SRCEXECZ, SRCSCC,
      SRCLdsDirect]) :
    emitLoadScalarOperand c code regIndex literalConst = .ok (SpirvRegisterValue.default, c) := by
  simp only [List.mem_cons, List.mem_singleton, List.mem_nil_iff, or_false] at h
  rcases h with rfl | rfl | rfl | rfl | rfl | rfl | rfl | rfl | rfl <;> rfl

theorem emitInlineConstantInteger_eq (c : GCNCompiler) (code : Nat) :
    emitInlineConstantInteger c code =
      .ok (⟨⟨.Sint32, 1⟩,
          (c.m_module.consti32
            (if code = SRCConstZero then 0
              else if SRCSignedConstIntPosMin ≤ code ∧ code ≤ SRCSignedConstIntPosMax then
                (code : Int) - 128
              else if SRCSignedConstIntNegMin ≤ code ∧ code ≤ SRCSignedConstIntNegMax then
                192 - (code : Int)
              else 0)).1⟩,
        { c with
          m_module := (c.m_module.consti32
            (if code = SRCConstZero then 0
              else if SRCSignedConstIntPosMin ≤ code ∧ code ≤ SRCSignedConstIntPosMax then
                (code : Int) - 128
              else if SRCSignedConstIntNegMin ≤ code ∧ code ≤ SRCSignedConstIntNegMax then
                192 - (code : Int)
              else 0)).2 }) := rfl

/-! ## Inline and literal constants -/

/-- C13. For the inline-constant operand codes `emitLoadScalarOperand` returns a
scalar constant with the value of the ISA table: `ConstZero` gives the `Sint32`
constant 0, a code `c` of the positive signed range `c - 128`, a code of the
negative signed range `192 - c`, and the eight float codes the `Float32`
constants of `inlineFloatTable`; the result depends neither on `regIndex` nor on
the literal. -/
theorem emitLoadScalarOperand_inlineConstant (c : GCNCompiler) (regIndex literalConst : Nat) :
    (∃ r c', emitLoadScalarOperand c SRCConstZero regIndex literalConst = .ok (r, c') ∧
      r.type = ⟨.Sint32, 1⟩ ∧ c'.m_module.IsConstI32 r.id 0) ∧
    (∀ code, SRCSignedConstIntPosMin ≤ code → code ≤ SRCSignedConstIntPosMax →
      ∃ r c', emitLoadScalarOperand c code regIndex literalConst = .ok (r, c') ∧
        r.type = ⟨.Sint32, 1⟩ ∧ c'.m_module.IsConstI32 r.id ((code : Int) - 128)) ∧
    (∀ code, SRCSignedConstIntNegMin ≤ code → code ≤ SRCSignedConstIntNegMax →
      ∃ r c', emitLoadScalarOperand c code regIndex literalConst = .ok (r, c') ∧
        r.type = ⟨.Sint32, 1⟩ ∧ c'.m_module.IsConstI32 r.id (192 - (code : Int))) ∧
    (∀ p, p ∈ inlineFloatTable →
      ∃ r c', emitLoadScalarOperand c p.1 regIndex literalConst = .ok (r, c') ∧
        r.type = ⟨.Float32, 1⟩ ∧ c'.m_module.IsConstF32 r.id p.2) ∧
    (∀ code, IsInlineConstantCode code → ∀ regIndex2 literalConst2,
      emitLoadScalarOperand c code regIndex2 literalConst2 =
        emitLoadScalarOperand c code regIndex literalConst) := by
  refine ⟨?_, ?_, ?_, ?_, ?_⟩
  · exact ⟨_, _, rfl, rfl, SpirvModule.consti32_isConst _ _⟩
  · intro code h1 h2
    rw [emitLoadScalarOperand_int c code _ _ (Or.inr (Or.inl ⟨h1, h2⟩)),
      emitInlineConstantInteger_eq]
    have hz : ¬ code = SRCConstZero := by
      simp only [SRCSignedConstIntPosMin, SRCConstZero] at h1 ⊢
      omega
    rw [if_neg hz, if_pos ⟨h1, h2⟩]
    exact ⟨_, _, rfl, rfl, SpirvModule.consti32_isConst _ _⟩
  · intro code h1 h2
    rw [emitLoadScalarOperand_int c code _ _ (Or.inr (Or.inr ⟨h1, h2⟩)),
      emitInlineConstantInteger_eq]
    have hz : ¬ code = SRCConstZero := by
      simp only [SRCSignedConstIntNegMin, SRCConstZero] at h1 ⊢
      omega
    have hp : ¬ (SRCSignedConstIntPosMin ≤ code ∧ code ≤ SRCSignedConstIntPosMax) := by
      simp only [SRCSignedConstIntNegMin, SRCSignedConstIntPosMax] at h1 ⊢
      omega
    rw [if_neg hz, if_neg hp, if_pos ⟨h1, h2⟩]
    exact ⟨_, _, rfl, rfl, SpirvModule.consti32_isConst _ _⟩
  · intro p hp
    simp only [inlineFloatTable, List.mem_cons, List.mem_singleton, List.mem_nil_iff,
      or_false] at hp
    rcases hp with rfl | rfl | rfl | rfl | rfl | rfl | rfl | rfl <;>
      exact ⟨_, _, rfl, rfl, SpirvModule.constf32_isConst _ _⟩
  · intro code h r2 l2
    rcases h with h | h | h | h
    · rw [emitLoadScalarOperand_int c code _ _ (Or.inl h),
        emitLoadScalarOperand_int c code _ _ (Or.inl h)]
    · rw [emitLoadScalarOperand_int c code _ _ (Or.inr (Or.inl h)),
        emitLoadScalarOperand_int c code _ _ (Or.inr (Or.inl h))]
    · rw [emitLoadScalarOperand_int c code _ _ (Or.inr (Or.inr h)),
        emitLoadScalarOperand_int c code _ _ (Or.inr (Or.inr h))]
    · rw [emitLoadScalarOperand_float c code _ _ h, emitLoadScalarOperand_float c code _ _ h]

theorem emitStoreScalarOperand_m0_unrecorded (c : GCNCompiler) (r : SpirvRegisterValue)
    (i : Nat) (hu : (c.m_constValueTable r.id).type = .Unknown) :
    emitStoreScalarOperand c SDSTM0 i r = .ok ((), c) := by
  simp [emitStoreScalarOperand, emitStoreM0, SDSTM0, SDSTScalarGPRMin, SDSTScalarGPRMax,
    SDSTVccLo, SDSTVccHi, hu]

theorem emitInlineConstantInteger_table (c : GCNCompiler) (code : Nat) :
    ∃ r c', emitInlineConstantInteger c code = .ok (r, c') ∧ r.type = ⟨.Sint32, 1⟩ ∧
      c'.m_constValueTable = c.m_constValueTable :=
  ⟨_, _, rfl, rfl, rfl⟩

theorem emitInlineConstantFloat_table (c : GCNCompiler) (code : Nat) :
    ∃ r c', emitInlineConstantFloat c code = .ok (r, c') ∧ r.type = ⟨.Float32, 1⟩ ∧
      c'.m_constValueTable = c.m_constValueTable :=
  ⟨_, _, rfl, rfl, rfl⟩

/-- C14, evidence of the defect. For an inline-constant operand code
`emitLoadScalarOperand` returns its constant and leaves `constValueTable` as it
was: only the `LiteralConst` case records the id.  When the table has no entry
for the returned id, it still has none afterwards, and a store of the returned
value to M0 does not recognise it as a constant and changes nothing. -/
theorem emitLoadScalarOperand_inline_not_recorded (c : GCNCompiler)
    (code regIndex literalConst : Nat) (h : IsInlineConstantCode code) :
    ∃ r c', emitLoadScalarOperand c code regIndex literalConst = .ok (r, c') ∧
      r.type.ctype ≠ .Unknown ∧
      c'.m_constValueTable = c.m_constValueTable ∧
      ((c.m_constValueTable r.id).type = .Unknown →
        (c'.m_constValueTable r.id).type = .Unknown ∧
        emitStoreScalarOperand c' SDSTM0 regIndex r = .ok ((), c')) := by
  have hres : ∃ r c', emitLoadScalarOperand c code regIndex literalConst = .ok (r, c') ∧
      (r.type = ⟨.Sint32, 1⟩ ∨ r.type = ⟨.Float32, 1⟩) ∧
      c'.m_constValueTable = c.m_constValueTable := by
    rcases h with h | h | h | h
    · rw [emitLoadScalarOperand_int c code _ _ (Or.inl h)]
      obtain ⟨r, c', he, ht, hc⟩ := emitInlineConstantInteger_table c code
      exact ⟨r, c', he, Or.inl ht, hc⟩
    · rw [emitLoadScalarOperand_int c code _ _ (Or.inr (Or.inl h))]
      obtain ⟨r, c', he, ht, hc⟩ := emitInlineConstantInteger_table c code
      exact ⟨r, c', he, Or.inl ht, hc⟩
    · rw [emitLoadScalarOperand_int c code _ _ (Or.inr (Or.inr h))]
      obtain ⟨r, c', he, ht, hc⟩ := emitInlineConstantInteger_table c code
      exact ⟨r, c', he, Or.inl ht, hc⟩
    · rw [emitLoadScalarOperand_float c code _ _ h]
      obtain ⟨r, c', he, ht, hc⟩ := emitInlineConstantFloat_table c code
      exact ⟨r, c', he, Or.inr ht, hc⟩
  obtain ⟨r, c', he, ht, hc⟩ := hres
  refine ⟨r, c', he, ?_, hc, fun hu => ?_⟩
  · rcases ht with ht | ht <;> rw [ht] <;> decide
  · have hu' : (c'.m_constValueTable r.id).type = .Unknown := by rw [hc]; exact hu
    exact ⟨hu', emitStoreScalarOperand_m0_unrecorded c' r regIndex hu'⟩

/-- Witness of C14: on `sampleCompiler`, whose table is empty, loading
`ConstZero` returns a `Sint32` constant whose id has no entry in the table. -/
theorem emitLoadScalarOperand_inline_not_recorded_witness :
    ∃ r c', emitLoadScalarOperand sampleCompiler SRCConstZero 0 0 = .ok (r, c') ∧
      r.type.ctype ≠ .Unknown ∧ (c'.m_constValueTable r.id).type = .Unknown := by
  obtain ⟨r, c', he, ht, -, hu⟩ :=
    emitLoadScalarOperand_inline_not_recorded sampleCompiler SRCConstZero 0 0 (Or.inl rfl)
  exact ⟨r, c', he, ht, (hu rfl).1⟩

theorem emitStoreScalarOperand_m0_recorded (c : GCNCompiler) (r : SpirvRegisterValue)
    (i : Nat) (hk : (c.m_constValueTable r.id).type ≠ .Unknown) :
    emitStoreScalarOperand c SDSTM0 i r =
      .ok ((), { c with
        m_stateRegs := { c.m_stateRegs with
          m0 := (c.m_constValueTable r.id).literalConst % 2 ^ 32 } }) := by
  simp [emitStoreScalarOperand, emitStoreM0, SDSTM0, SDSTScalarGPRMin, SDSTScalarGPRMax,
    SDSTVccLo, SDSTVccHi, hk]

theorem emitStoreScalarOperand_vcc_recorded (c : GCNCompiler) (r : SpirvRegisterValue)
    (i : Nat) (hk : (c.m_constValueTable r.id).type ≠ .Unknown) :
    emitStoreScalarOperand c SDSTVccLo i r =
      .ok ((), { c with
        m_stateRegs := { c.m_stateRegs with
          vcc := (c.m_constValueTable r.id).literalConst % 2 ^ 32 } }) ∧
    emitStoreScalarOperand c SDSTVccHi i r =
      .ok ((), { c with
        m_stateRegs := { c.m_stateRegs with
          vcc := ((c.m_constValueTable r.id).literalConst % 2 ^ 32 * 2 ^ 32) % 2 ^ 64 } }) := by
  constructor <;>
    simp [emitStoreScalarOperand, emitStoreVCC, SDSTScalarGPRMin, SDSTScalarGPRMax,
      SDSTVccLo, SDSTVccHi, hk]

/-- C15. For a 32-bit literal `L`, `emitLoadScalarOperand` with the code
`LiteralConst` returns a `Uint32` scalar whose id is the module's u32 constant
for `L` and records `(Uint32, L)` for that id.  Storing that value to M0 sets
`stateRegs.m0` to `L`, storing it to VccLo sets `stateRegs.vcc` to `L`; neither
store touches the module or a register slot. -/
theorem emitLoadScalarOperand_literal_spec (c : GCNCompiler) (regIndex L : Nat)
    (hL : L < 2 ^ 32) :
    ∃ r c', emitLoadScalarOperand c SRCLiteralConst regIndex L = .ok (r, c') ∧
      r.type = ⟨.Uint32, 1⟩ ∧ c'.m_module.IsConstU32 r.id L ∧
      c'.m_constValueTable r.id = ⟨.Uint32, L⟩ ∧
      (∀ i, ∃ c2, emitStoreScalarOperand c' SDSTM0 i r = .ok ((), c2) ∧
        c2.m_stateRegs.m0 = L ∧ c2.m_module = c'.m_module ∧
        c2.m_sgprs = c'.m_sgprs ∧ c2.m_vgprs = c'.m_vgprs) ∧
      (∀ i, ∃ c2, emitStoreScalarOperand c' SDSTVccLo i r = .ok ((), c2) ∧
        c2.m_stateRegs.vcc = L ∧ c2.m_module = c'.m_module ∧
        c2.m_sgprs = c'.m_sgprs ∧ c2.m_vgprs = c'.m_vgprs) := by
  have hmod : L % 2 ^ 32 = L := Nat.mod_eq_of_lt hL
  obtain ⟨r, c', he, ht, hc, htab⟩ :
      ∃ r c', emitLoadScalarOperand c SRCLiteralConst regIndex L = .ok (r, c') ∧
        r.type = ⟨.Uint32, 1⟩ ∧ c'.m_module.IsConstU32 r.id L ∧
        c'.m_constValueTable r.id = ⟨.Uint32, L⟩ := by
    rw [emitLoadScalarOperand_literal]
    exact ⟨_, _, rfl, rfl, SpirvModule.constu32_isConst _ _, by simp⟩
  have hk : (c'.m_constValueTable r.id).type ≠ .Unknown := by
    rw [htab]
    exact fun h => by cases h
  refine ⟨r, c', he, ht, hc, htab, fun i => ?_, fun i => ?_⟩
  · refine ⟨_, emitStoreScalarOperand_m0_recorded c' r i hk, ?_, rfl, rfl, rfl⟩
    show (c'.m_constValueTable r.id).literalConst % 2 ^ 32 = L
    rw [htab]
    exact hmod
  · refine ⟨_, (emitStoreScalarOperand_vcc_recorded c' r i hk).1, ?_, rfl, rfl, rfl⟩
    show (c'.m_constValueTable r.id).literalConst % 2 ^ 32 = L
    rw [htab]
    exact hmod

/-- Witness of C15: the literal `0x12345678` on `sampleCompiler`. -/
theorem emitLoadScalarOperand_literal_spec_witness :
    ∃ r c', emitLoadScalarOperand sampleCompiler SRCLiteralConst 0 0x12345678 = .ok (r, c') ∧
      c'.m_constValueTable r.id = ⟨.Uint32, 0x12345678⟩ ∧
      ∃ c2, emitStoreScalarOperand c' SDSTM0 0 r = .ok ((), c2) ∧
        c2.m_stateRegs.m0 = 0x12345678 := by
  obtain ⟨r, c', he, -, -, ht, hm0, -⟩ :=
    emitLoadScalarOperand_literal_spec sampleCompiler 0 0x12345678 (by norm_num)
  obtain ⟨c2, hs, hm, -⟩ := hm0 0
  exact ⟨r, c', he, ht, c2, hs, hm⟩

/-! ## What `emitLoadScalarOperand` returns -/

theorem SpirvModule.consti32_code (m : SpirvModule) (v : Int) : (m.consti32 v).2.code = m.code := by
  unfold SpirvModule.consti32 SpirvModule.defIntType
  rw [SpirvModule.defTypeConst_code, SpirvModule.defTypeConst_code]

theorem SpirvModule.constu32_code (m : SpirvModule) (v : Nat) : (m.constu32 v).2.code = m.code := by
  unfold SpirvModule.constu32 SpirvModule.defIntType
  rw [SpirvModule.defTypeConst_code, SpirvModule.defTypeConst_code]

theorem SpirvModule.constf32_code (m : SpirvModule) (v : ℚ) : (m.constf32 v).2.code = m.code := by
  unfold SpirvModule.constf32 SpirvModule.defFloatType
  rw [SpirvModule.defTypeConst_code, SpirvModule.defTypeConst_code]

theorem emitInlineConstantInteger_form (c : GCNCompiler) (code : Nat) :
    ∃ v, emitInlineConstantInteger c code =
      .ok (⟨⟨.Sint32, 1⟩, (c.m_module.consti32 v).1⟩,
        { c with m_module := (c.m_module.consti32 v).2 }) :=
  ⟨_, rfl⟩

theorem emitInlineConstantFloat_form (c : GCNCompiler) (code : Nat) :
    ∃ v, emitInlineConstantFloat c code =
      .ok (⟨⟨.Float32, 1⟩, (c.m_module.constf32 v).1⟩,
        { c with m_module := (c.m_module.constf32 v).2 }) :=
  ⟨_, rfl⟩

theorem sampleModule_idsPositive : sampleModule.IdsPositive := by
  refine ⟨by decide, fun d j h => ?_⟩
  simp only [sampleModule, SpirvModule.empty, List.lookup] at h
  split at h
  · cases h
    decide
  · split at h
    · cases h
      decide
    · split at h
      · cases h
        decide
      · cases h

/-- C16, as stated, fails: for the operand code `VccLo`, `emitLoadScalarOperand`
returns the default-constructed value, whose id is 0 and whose scalar type is
`Unknown`, and leaves the compiler as it was. -/
theorem emitLoadScalarOperand_stub_counterexample :
    ∃ r c', emitLoadScalarOperand sampleCompiler SRCVccLo 0 0 = .ok (r, c') ∧
      r.id = 0 ∧ r.type.ctype = .Unknown ∧ c'.m_module = sampleCompiler.m_module :=
  ⟨_, _, rfl, rfl, rfl, rfl⟩

/-- C16, amended. In a module whose ids are positive:
for an SGPR-range code the returned value is the result of an `OpLoad` from
`sgprs[regIndex]`, with the slot's vector type and a non-zero id;
for an inline constant or `LiteralConst` it is a scalar with a non-zero id and
a known scalar type, and nothing is appended to the code stream;
for `VccLo`, `VccHi`, `M0`, `ExecLo`, `ExecHi`, `VCCZ`, `EXECZ`, `SCC` and
`LdsDirect` the stub returns the default-constructed value (scalar type
`Unknown`, id 0) and changes nothing. -/
theorem emitLoadScalarOperand_result (c : GCNCompiler) (regIndex literalConst : Nat)
    (hpos : c.m_module.IdsPositive) :
    (∀ code, SRCScalarGPRMin ≤ code → code ≤ SRCScalarGPRMax →
      ∃ r c' tid, emitLoadScalarOperand c code regIndex literalConst = .ok (r, c') ∧
        r.type = (c.m_sgprs regIndex).type ∧ r.id ≠ 0 ∧
        c'.m_module.code = c.m_module.code ++ [.OpLoad tid r.id (c.m_sgprs regIndex).id]) ∧
    (∀ code, IsInlineConstantCode code ∨ code = SRCLiteralConst →
      ∃ r c', emitLoadScalarOperand c code regIndex literalConst = .ok (r, c') ∧
        r.id ≠ 0 ∧ r.type.ctype ≠ .Unknown ∧ r.type.ccount = 1 ∧
        c'.m_module.code = c.m_module.code) ∧
    (∀ code, code ∈ [SRCVccLo, SRCVccHi, SRCM0, SRCExecLo, SRCExecHi, SRCVCCZ, SRCEXECZ,
        SRCSCC, SRCLdsDirect] →
      emitLoadScalarOperand c code regIndex literalConst =
        .ok (SpirvRegisterValue.default, c)) := by
  have hint : ∀ code, ∃ r c', emitInlineConstantInteger c code = .ok (r, c') ∧
      r.id ≠ 0 ∧ r.type.ctype ≠ .Unknown ∧ r.type.ccount = 1 ∧
      c'.m_module.code = c.m_module.code := by
    intro code
    obtain ⟨v, hv⟩ := emitInlineConstantInteger_form c code
    exact ⟨_, _, hv, Nat.pos_iff_ne_zero.mp (SpirvModule.consti32_pos _ v hpos),
      (fun h => by cases h), rfl, SpirvModule.consti32_code _ v⟩
  refine ⟨fun code h1 h2 => ?_, fun code h => ?_,
    fun code h => emitLoadScalarOperand_stub c code _ _ h⟩
  · rw [emitLoadScalarOperand_sgpr c code _ _ ⟨h1, h2⟩]
    obtain ⟨tid, r, m', he, hc, hr⟩ := emitValueLoad_fresh c.m_module (c.m_sgprs regIndex)
    refine ⟨_, { c with m_module := m' }, tid,
      by rw [emitSgprLoad, he, GCNCompiler.onModule_ok], rfl, ?_, hc⟩
    have := hpos.1
    show r ≠ 0
    omega
  · rcases h with (h | h | h | h) | h
    · rw [emitLoadScalarOperand_int c code _ _ (Or.inl h)]
      exact hint code
    · rw [emitLoadScalarOperand_int c code _ _ (Or.inr (Or.inl h))]
      exact hint code
    · rw [emitLoadScalarOperand_int c code _ _ (Or.inr (Or.inr h))]
      exact hint code
    · rw [emitLoadScalarOperand_float c code _ _ h]
      obtain ⟨v, hv⟩ := emitInlineConstantFloat_form c code
      exact ⟨_, _, hv, Nat.pos_iff_ne_zero.mp (SpirvModule.constf32_pos _ v hpos),
        (fun h => by cases h), rfl, SpirvModule.constf32_code _ v⟩
    · rw [h, emitLoadScalarOperand_literal]
      exact ⟨_, _, rfl, Nat.pos_iff_ne_zero.mp (SpirvModule.constu32_pos _ _ hpos),
        (fun h => by cases h), rfl, SpirvModule.constu32_code _ _⟩

/-- Witness of C16 amended: on `sampleCompiler` the inline constant 1.0
(operand code 242) has a non-zero id and a known scalar type. -/
theorem emitLoadScalarOperand_result_witness :
    ∃ r c', emitLoadScalarOperand sampleCompiler SRCConstFloatPos_1_0 0 0 = .ok (r, c') ∧
      r.id ≠ 0 ∧ r.type.ctype ≠ .Unknown ∧ r.type.ccount = 1 ∧
      c'.m_module.code = sampleCompiler.m_module.code :=
  (emitLoadScalarOperand_result sampleCompiler 0 0 sampleModule_idsPositive).2.1
    SRCConstFloatPos_1_0 (Or.inl (Or.inr (Or.inr (Or.inr (by decide)))))

/-! ## The value layer only grows the module -/

theorem SpirvModule.Grows.grows_refl (m : SpirvModule) : m.Grows m :=
  ⟨le_refl _, ⟨[], by simp⟩, rfl, rfl, rfl, rfl, rfl, rfl⟩

theorem SpirvModule.Grows.grows_trans {m1 m2 m3 : SpirvModule} (h12 : m1.Grows m2)
    (h23 : m2.Grows m3) : m1.Grows m3 := by
  obtain ⟨a1, ⟨l1, b1⟩, c1, d1, e1, f1, g1, i1⟩ := h12
  obtain ⟨a2, ⟨l2, b2⟩, c2, d2, e2, f2, g2, i2⟩ := h23
  exact ⟨le_trans a1 a2, ⟨l1 ++ l2, by rw [b2, b1, List.append_assoc]⟩, c2.trans c1,
    d2.trans d1, e2.trans e1, f2.trans f1, g2.trans g1, i2.trans i1⟩

theorem SpirvModule.enableCapability_grows (m : SpirvModule) (cap : SpvCapability) :
    m.Grows (m.enableCapability cap) := by
  unfold SpirvModule.enableCapability
  split
  · exact SpirvModule.Grows.grows_refl m
  · exact ⟨le_refl _, ⟨[], by simp⟩, rfl, rfl, rfl, rfl, rfl, rfl⟩

theorem SpirvModule.defTypeConst_grows (m : SpirvModule) (d : SpirvTypeConst) :
    m.Grows (m.defTypeConst d).2 := by
  unfold SpirvModule.defTypeConst
  split
  · exact SpirvModule.Grows.grows_refl m
  · exact ⟨Nat.le_succ _, ⟨[], by simp⟩, rfl, rfl, rfl, rfl, rfl, rfl⟩

theorem SpirvModule.emitResult_grows (m : SpirvModule) (mk : Nat → SpirvInstr) :
    m.Grows (m.emitResult mk).2 :=
  ⟨Nat.le_succ _, ⟨[mk m.m_id], rfl⟩, rfl, rfl, rfl, rfl, rfl, rfl⟩

theorem SpirvModule.opStore_grows (m : SpirvModule) (p v : Nat) : m.Grows (m.opStore p v) :=
  ⟨le_refl _, ⟨[.OpStore p v], rfl⟩, rfl, rfl, rfl, rfl, rfl, rfl⟩

theorem getScalarTypeId_grows (m : SpirvModule) (t : SpirvScalarType) :
    m.Grows (getScalarTypeId m t).2 := by
  cases t <;>
    simp only [getScalarTypeId, SpirvModule.defIntType, SpirvModule.defFloatType,
      SpirvModule.defBoolType, reduceCtorEq, if_false, if_true, or_false, or_true, false_or] <;>
    first
      | exact SpirvModule.Grows.grows_refl _
      | exact SpirvModule.defTypeConst_grows _ _
      | exact (SpirvModule.enableCapability_grows _ _).grows_trans
          (SpirvModule.defTypeConst_grows _ _)

theorem getVectorTypeId_grows (m : SpirvModule) (t : SpirvVectorType) :
    m.Grows (getVectorTypeId m t).2 := by
  have h := getScalarTypeId_grows m t.ctype
  rcases hs : getScalarTypeId m t.ctype with ⟨tid, m1⟩
  rw [hs] at h
  simp only [getVectorTypeId, hs]
  split
  · exact h.grows_trans (SpirvModule.defTypeConst_grows _ _)
  · exact h

theorem emitValueLoad_grows (m : SpirvModule) (p : SpirvRegisterPointer)
    (r : SpirvRegisterValue) (m' : SpirvModule) (h : emitValueLoad m p = .ok (r, m')) :
    m.Grows m' := by
  simp only [emitValueLoad, Except.ok.injEq, Prod.mk.injEq] at h
  rw [← h.2]
  exact (getVectorTypeId_grows m _).grows_trans (SpirvModule.emitResult_grows _ _)

theorem emitRegisterBitcast_grows (m : SpirvModule) (v : SpirvRegisterValue)
    (T : SpirvScalarType) (r : SpirvRegisterValue) (m' : SpirvModule)
    (h : emitRegisterBitcast m v T = .ok (r, m')) : m.Grows m' := by
  by_cases hT : v.type.ctype = T
  · simp only [emitRegisterBitcast, hT, if_true, Except.ok.injEq, Prod.mk.injEq] at h
    rw [← h.2]
    exact SpirvModule.Grows.grows_refl m
  · simp only [emitRegisterBitcast, hT, if_false, Except.ok.injEq, Prod.mk.injEq] at h
    rw [← h.2]
    exact (getVectorTypeId_grows m _).grows_trans (SpirvModule.emitResult_grows _ _)

theorem emitRegisterExtend_grows (m : SpirvModule) (v : SpirvRegisterValue) (size : Nat)
    (r : SpirvRegisterValue) (m' : SpirvModule)
    (h : emitRegisterExtend m v size = .ok (r, m')) : m.Grows m' := by
  by_cases h1 : size = 1
  · simp only [emitRegisterExtend, h1, if_true, Except.ok.injEq, Prod.mk.injEq] at h
    rw [← h.2]
    exact SpirvModule.Grows.grows_refl m
  · by_cases h4 : size > 4
    · simp [emitRegisterExtend, h1, h4] at h
    · simp only [emitRegisterExtend, h1, h4, if_false, Except.ok.injEq, Prod.mk.injEq] at h
      rw [← h.2]
      exact (getVectorTypeId_grows m _).grows_trans (SpirvModule.emitResult_grows _ _)

theorem emitRegisterInsert_grows (m : SpirvModule) (dst src : SpirvRegisterValue)
    (mask : GcnRegMask) (r : SpirvRegisterValue) (m' : SpirvModule)
    (h : emitRegisterInsert m dst src mask = .ok (r, m')) : m.Grows m' := by
  by_cases h0 : mask.popCount = 0
  · simp only [emitRegisterInsert, h0, if_true, Except.ok.injEq, Prod.mk.injEq] at h
    rw [← h.2]
    exact getVectorTypeId_grows m _
  · by_cases hd : dst.type.ccount = 1
    · simp only [emitRegisterInsert, h0, hd, if_true, if_false, Except.ok.injEq,
        Prod.mk.injEq] at h
      rw [← h.2]
      exact getVectorTypeId_grows m _
    · by_cases hs : src.type.ccount = 1
      · simp only [emitRegisterInsert, h0, hd, hs, if_true, if_false, Except.ok.injEq,
          Prod.mk.injEq] at h
        rw [← h.2]
        exact (getVectorTypeId_grows m _).grows_trans (SpirvModule.emitResult_grows _ _)
      · by_cases h4 : dst.type.ccount > 4
        · simp [emitRegisterInsert, h0, hd, hs, h4] at h
        · simp only [emitRegisterInsert, h0, hd, hs, h4, if_false, Except.ok.injEq,
            Prod.mk.injEq] at h
          rw [← h.2]
          exact (getVectorTypeId_grows m _).grows_trans (SpirvModule.emitResult_grows _ _)

theorem storeSource_grows (m : SpirvModule) (p : SpirvRegisterPointer)
    (v : SpirvRegisterValue) (mask : GcnRegMask) (r : SpirvRegisterValue) (m' : SpirvModule)
    (h : storeSource m p v mask = .ok (r, m')) : m.Grows m' := by
  unfold storeSource at h
  simp only [bind, Except.bind] at h
  by_cases h1 : v.type.ctype = p.type.ctype
  · simp only [h1, ne_eq, not_true_eq_false, if_false] at h
    by_cases h2 : v.type.ccount = 1
    · simp only [h2, if_true] at h
      exact emitRegisterExtend_grows _ _ _ _ _ h
    · simp only [h2, if_false, Except.ok.injEq, Prod.mk.injEq] at h
      rw [← h.2]
      exact SpirvModule.Grows.grows_refl m
  · simp only [h1, ne_eq, not_false_eq_true, if_true] at h
    cases hb : emitRegisterBitcast m v p.type.ctype with
    | error e => simp [hb] at h
    | ok q =>
      obtain ⟨b, m1⟩ := q
      have hg := emitRegisterBitcast_grows _ _ _ _ _ hb
      simp only [hb] at h
      by_cases h2 : v.type.ccount = 1
      · simp only [h2, if_true] at h
        exact hg.grows_trans (emitRegisterExtend_grows _ _ _ _ _ h)
      · simp only [h2, if_false, Except.ok.injEq, Prod.mk.injEq] at h
        rw [← h.2]
        exact hg

theorem emitValueStore_grows (m : SpirvModule) (p : SpirvRegisterPointer)
    (v : SpirvRegisterValue) (mask : GcnRegMask) (m' : SpirvModule)
    (h : emitValueStore m p v mask = .ok ((), m')) : m.Grows m' := by
  rw [emitValueStore_eq] at h
  simp only [bind, Except.bind] at h
  cases hs : storeSource m p v mask with
  | error e => simp [hs] at h
  | ok q =>
    obtain ⟨source, m2⟩ := q
    have hg := storeSource_grows _ _ _ _ _ _ hs
    simp only [hs] at h
    split at h
    · simp only [Except.ok.injEq, Prod.mk.injEq, true_and] at h
      rw [← h]
      exact hg.grows_trans (SpirvModule.opStore_grows _ _ _)
    · cases hl : emitValueLoad m2 p with
      | error e => simp [hl] at h
      | ok q2 =>
        obtain ⟨tmp, m3⟩ := q2
        have hg2 := emitValueLoad_grows _ _ _ _ hl
        simp only [hl] at h
        cases hi : emitRegisterInsert m3 tmp source mask with
        | error e => simp [hi] at h
        | ok q3 =>
          obtain ⟨tmp2, m4⟩ := q3
          have hg3 := emitRegisterInsert_grows _ _ _ _ _ _ hi
          simp only [hi, Except.ok.injEq, Prod.mk.injEq, true_and] at h
          rw [← h]
          exact (hg.grows_trans (hg2.grows_trans hg3)).grows_trans (SpirvModule.opStore_grows _ _ _)

/-! ## Register stores -/

theorem emitRegisterInsert_ok (m : SpirvModule) (dst src : SpirvRegisterValue)
    (mask : GcnRegMask) (h : dst.type.ccount ≤ 4 ∨ src.type.ccount = 1) :
    ∃ r m', emitRegisterInsert m dst src mask = .ok (r, m') := by
  by_cases h0 : mask.popCount = 0
  · exact ⟨_, _, (by simp only [emitRegisterInsert, h0, if_true]; rfl)⟩
  · by_cases hd : dst.type.ccount = 1
    · exact ⟨_, _, (by simp only [emitRegisterInsert, h0, hd, if_true, if_false]; rfl)⟩
    · by_cases hs : src.type.ccount = 1
      · exact ⟨_, _, (by simp only [emitRegisterInsert, h0, hd, hs, if_true, if_false]; rfl)⟩
      · have h4 : ¬ dst.type.ccount > 4 := by
          rcases h with h | h
          · omega
          · exact absurd h hs
        exact ⟨_, _, (by simp only [emitRegisterInsert, h0, hd, hs, h4, if_false]; rfl)⟩

/-- A store returns normally when the pointer has at most 4 components or the
source is a scalar. -/
theorem emitValueStore_ok (m : SpirvModule) (p : SpirvRegisterPointer)
    (v : SpirvRegisterValue) (h : p.type.ccount ≤ 4 ∨ v.type.ccount = 1) :
    ∃ m', emitValueStore m p v (GcnRegMask.ofBits 1) = .ok ((), m') := by
  obtain ⟨source, m2, pre, hs, -, -, hn⟩ := storeSource_prep m p v (GcnRegMask.ofBits 1)
  rw [emitValueStore_eq, hs]
  simp only [bind, Except.bind]
  by_cases hfull : p.type.ccount = (GcnRegMask.ofBits 1).popCount
  · exact ⟨_, (by simp only [hfull, if_true]; rfl)⟩
  · obtain ⟨tid, lid, m3, hl, -⟩ := emitValueLoad_code m2 p
    have hsrc : p.type.ccount ≤ 4 ∨ source.type.ccount = 1 := by
      rcases h with h | h
      · exact Or.inl h
      · exact Or.inr (by rw [hn h]; rfl)
    obtain ⟨r, m4, hi⟩ := emitRegisterInsert_ok m3 ⟨p.type, lid⟩ source (GcnRegMask.ofBits 1) hsrc
    exact ⟨_, (by simp only [hfull, if_false, hl, hi]; rfl)⟩

theorem emitSgprStore_empty (c : GCNCompiler) (i : Nat) (v : SpirvRegisterValue)
    (h0 : (c.m_sgprs i).id = 0) (h4 : v.type.ccount ≤ 4) :
    ∃ m2, emitValueStore
        (((getVectorTypeId c.m_module v.type).2.newVar
          (getVectorTypeId c.m_module v.type).1 .Function).2.setDebugName
            (getVectorTypeId c.m_module v.type).2.m_id ⟨"s", some i⟩)
        ⟨v.type, (getVectorTypeId c.m_module v.type).2.m_id⟩ v (GcnRegMask.ofBits 1) =
          .ok ((), m2) ∧
      emitSgprStore c i v = .ok ((), { c with
        m_module := m2
        m_sgprs := Function.update c.m_sgprs i
          ⟨v.type, (getVectorTypeId c.m_module v.type).2.m_id⟩ }) := by
  obtain ⟨m2, he⟩ := emitValueStore_ok
    (((getVectorTypeId c.m_module v.type).2.newVar
      (getVectorTypeId c.m_module v.type).1 .Function).2.setDebugName
        (getVectorTypeId c.m_module v.type).2.m_id ⟨"s", some i⟩)
    ⟨v.type, (getVectorTypeId c.m_module v.type).2.m_id⟩ v (Or.inl h4)
  refine ⟨m2, he, ?_⟩
  simp only [emitSgprStore, h0, if_true, SpirvModule.newVar]
  simp only [SpirvModule.newVar] at he
  rw [he]

theorem emitSgprStore_declared (c : GCNCompiler) (i : Nat) (v : SpirvRegisterValue)
    (h0 : (c.m_sgprs i).id ≠ 0) (h4 : (c.m_sgprs i).type.ccount ≤ 4 ∨ v.type.ccount = 1) :
    ∃ m2, emitValueStore c.m_module (c.m_sgprs i) v (GcnRegMask.ofBits 1) = .ok ((), m2) ∧
      emitSgprStore c i v = .ok ((), { c with m_module := m2 }) := by
  obtain ⟨m2, he⟩ := emitValueStore_ok c.m_module (c.m_sgprs i) v h4
  refine ⟨m2, he, ?_⟩
  simp only [emitSgprStore, h0, if_false, he, Function.update_eq_self]

theorem emitVgprStore_empty (c : GCNCompiler) (i : Nat) (v : SpirvRegisterValue)
    (h0 : (c.m_vgprs i).id = 0) (h4 : v.type.ccount ≤ 4) :
    ∃ m2, emitValueStore
        (((getVectorTypeId c.m_module v.type).2.newVar
          (getVectorTypeId c.m_module v.type).1 .Function).2.setDebugName
            (getVectorTypeId c.m_module v.type).2.m_id ⟨"v", some i⟩)
        ⟨v.type, (getVectorTypeId c.m_module v.type).2.m_id⟩ v (GcnRegMask.ofBits 1) =
          .ok ((), m2) ∧
      emitVgprStore c i v = .ok ((), { c with
        m_module := m2
        m_vgprs := Function.update c.m_vgprs i
          ⟨v.type, (getVectorTypeId c.m_module v.type).2.m_id⟩ }) := by
  obtain ⟨m2, he⟩ := emitValueStore_ok
    (((getVectorTypeId c.m_module v.type).2.newVar
      (getVectorTypeId c.m_module v.type).1 .Function).2.setDebugName
        (getVectorTypeId c.m_module v.type).2.m_id ⟨"v", some i⟩)
    ⟨v.type, (getVectorTypeId c.m_module v.type).2.m_id⟩ v (Or.inl h4)
  refine ⟨m2, he, ?_⟩
  simp only [emitVgprStore, h0, if_true, SpirvModule.newVar]
  simp only [SpirvModule.newVar] at he
  rw [he]

theorem emitVgprStore_declared (c : GCNCompiler) (i : Nat) (v : SpirvRegisterValue)
    (h0 : (c.m_vgprs i).id ≠ 0) (h4 : (c.m_vgprs i).type.ccount ≤ 4 ∨ v.type.ccount = 1) :
    ∃ m2, emitValueStore c.m_module (c.m_vgprs i) v (GcnRegMask.ofBits 1) = .ok ((), m2) ∧
      emitVgprStore c i v = .ok ((), { c with m_module := m2 }) := by
  obtain ⟨m2, he⟩ := emitValueStore_ok c.m_module (c.m_vgprs i) v h4
  refine ⟨m2, he, ?_⟩
  simp only [emitVgprStore, h0, if_false, he, Function.update_eq_self]

/-- C17. A store to an empty SGPR (respectively VGPR) slot declares exactly one
new variable, and afterwards the slot holds a pointer with a fresh non-zero id
and the vector type of the stored value; a store to a declared slot leaves the
slot as it was and declares no variable.  In both cases every other slot of
both banks is unchanged. -/
theorem emitSgprStore_slot (c : GCNCompiler) (i : Nat) (v : SpirvRegisterValue)
    (hpos : 0 < c.m_module.m_id) :
    ((c.m_sgprs i).id = 0 → v.type.ccount ≤ 4 →
      ∃ c' tid, emitSgprStore c i v = .ok ((), c') ∧
        c'.m_module.varDecls = c.m_module.varDecls ++ [⟨tid, (c'.m_sgprs i).id, .Function⟩] ∧
        (c'.m_sgprs i).type = v.type ∧ (c'.m_sgprs i).id ≠ 0 ∧
        c.m_module.m_id ≤ (c'.m_sgprs i).id ∧
        (∀ j, j ≠ i → c'.m_sgprs j = c.m_sgprs j) ∧ c'.m_vgprs = c.m_vgprs) ∧
    ((c.m_sgprs i).id ≠ 0 → (c.m_sgprs i).type.ccount ≤ 4 →
      ∃ c', emitSgprStore c i v = .ok ((), c') ∧
        c'.m_module.varDecls = c.m_module.varDecls ∧
        c'.m_sgprs = c.m_sgprs ∧ c'.m_vgprs = c.m_vgprs) ∧
    ((c.m_vgprs i).id = 0 → v.type.ccount ≤ 4 →
      ∃ c' tid, emitVgprStore c i v = .ok ((), c') ∧
        c'.m_module.varDecls = c.m_module.varDecls ++ [⟨tid, (c'.m_vgprs i).id, .Function⟩] ∧
        (c'.m_vgprs i).type = v.type ∧ (c'.m_vgprs i).id ≠ 0 ∧
        c.m_module.m_id ≤ (c'.m_vgprs i).id ∧
        (∀ j, j ≠ i → c'.m_vgprs j = c.m_vgprs j) ∧ c'.m_sgprs = c.m_sgprs) ∧
    ((c.m_vgprs i).id ≠ 0 → (c.m_vgprs i).type.ccount ≤ 4 →
      ∃ c', emitVgprStore c i v = .ok ((), c') ∧
        c'.m_module.varDecls = c.m_module.varDecls ∧
        c'.m_vgprs = c.m_vgprs ∧ c'.m_sgprs = c.m_sgprs) := by
  have hg := getVectorTypeId_grows c.m_module v.type
  have hid : c.m_module.m_id ≤ (getVectorTypeId c.m_module v.type).2.m_id := hg.1
  have hvd : (getVectorTypeId c.m_module v.type).2.varDecls = c.m_module.varDecls := hg.2.2.1
  refine ⟨fun h0 h4 => ?_, fun h0 h4 => ?_, fun h0 h4 => ?_, fun h0 h4 => ?_⟩
  · obtain ⟨m2, he, hs⟩ := emitSgprStore_empty c i v h0 h4
    have hg2 := emitValueStore_grows _ _ _ _ _ he
    refine ⟨_, (getVectorTypeId c.m_module v.type).1, hs, ?_, ?_, ?_, ?_, ?_, rfl⟩
    · simp only [Function.update_same]
      rw [hg2.2.2.1]
      simp [SpirvModule.setDebugName, SpirvModule.newVar, hvd]
    · simp only [Function.update_same]
    · simp only [Function.update_same]
      omega
    · simp only [Function.update_same]
      exact hid
    · intro j hj
      simp only [Function.update_noteq hj]
  · obtain ⟨m2, he, hs⟩ := emitSgprStore_declared c i v h0 (Or.inl h4)
    exact ⟨_, hs, (emitValueStore_grows _ _ _ _ _ he).2.2.1, rfl, rfl⟩
  · obtain ⟨m2, he, hs⟩ := emitVgprStore_empty c i v h0 h4
    have hg2 := emitValueStore_grows _ _ _ _ _ he
    refine ⟨_, (getVectorTypeId c.m_module v.type).1, hs, ?_, ?_, ?_, ?_, ?_, rfl⟩
    · simp only [Function.update_same]
      rw [hg2.2.2.1]
      simp [SpirvModule.setDebugName, SpirvModule.newVar, hvd]
    · simp only [Function.update_same]
    · simp only [Function.update_same]
      omega
    · simp only [Function.update_same]
      exact hid
    · intro j hj
      simp only [Function.update_noteq hj]
  · obtain ⟨m2, he, hs⟩ := emitVgprStore_declared c i v h0 (Or.inl h4)
    exact ⟨_, hs, (emitValueStore_grows _ _ _ _ _ he).2.2.1, rfl, rfl⟩

/-- Witness of C17: the first store to SGPR 0 of `sampleCompiler`, of a
`Float32` scalar. -/
theorem emitSgprStore_slot_witness :
    ∃ c' tid, emitSgprStore sampleCompiler 0 ⟨⟨.Float32, 1⟩, 9⟩ = .ok ((), c') ∧
      c'.m_module.varDecls = [⟨tid, (c'.m_sgprs 0).id, .Function⟩] ∧
      (c'.m_sgprs 0).type = ⟨.Float32, 1⟩ ∧ (c'.m_sgprs 0).id ≠ 0 := by
  obtain ⟨c', tid, he, hv, ht, hn, -⟩ :=
    (emitSgprStore_slot sampleCompiler 0 ⟨⟨.Float32, 1⟩, 9⟩ (by decide)).1 rfl (by decide)
  exact ⟨c', tid, he, hv, ht, hn⟩

/-! ## Store, then load -/

theorem emitValueStore_scalar_same_type (m : SpirvModule) (v : SpirvRegisterValue) (pid : Nat)
    (hs : v.type.ccount = 1) :
    emitValueStore m ⟨v.type, pid⟩ v (GcnRegMask.ofBits 1) = .ok ((), m.opStore pid v.id) := by
  have hp : (GcnRegMask.ofBits 1).popCount = 1 := by decide
  rw [emitValueStore_eq]
  simp [storeSource, bind, Except.bind, hs, hp, emitRegisterExtend]

/-- C18, as stated, fails: after a `Float32` scalar with id 9 is stored to SGPR 0
of `sampleCompiler`, the load of SGPR 0 returns the id 11, the result of the
`OpLoad` it appends, not the id 9 that was stored. -/
theorem store_then_load_counterexample :
    ∃ c1 c2, emitStoreScalarOperand sampleCompiler 0 0 ⟨⟨.Float32, 1⟩, 9⟩ = .ok ((), c1) ∧
      emitLoadScalarOperand c1 0 0 0 = .ok (⟨⟨.Float32, 1⟩, 11⟩, c2) ∧
      c2.m_module.code = [.OpStore 10 9, .OpLoad 2 11 10] ∧ (11 : Nat) ≠ 9 :=
  ⟨_, _, rfl, rfl, rfl, by decide⟩

/-- C18, amended. After `emitStoreScalarOperand` stores a scalar `v` to SGPR `i`,
a following `emitLoadScalarOperand` of SGPR `i` returns a value with the vector
type of the slot, which is the vector type of `v` when the store was the first
write of the slot, and with a fresh id: the result id of an `OpLoad` from the
variable of the slot, to which the first store wrote `v.id` with an `OpStore`.
The returned id is not `v.id` when `v` was produced by the module. -/
theorem store_then_load_spec (c : GCNCompiler) (i : Nat) (v : SpirvRegisterValue)
    (dcode scode literalConst : Nat) (hs : v.type.ccount = 1)
    (hd : SDSTScalarGPRMin ≤ dcode ∧ dcode ≤ SDSTScalarGPRMax)
    (hsrc : SRCScalarGPRMin ≤ scode ∧ scode ≤ SRCScalarGPRMax) :
    ∃ c1 r c2 tid, emitStoreScalarOperand c dcode i v = .ok ((), c1) ∧
      emitLoadScalarOperand c1 scode i literalConst = .ok (r, c2) ∧
      r.type = (c1.m_sgprs i).type ∧
      c2.m_module.code = c1.m_module.code ++ [.OpLoad tid r.id (c1.m_sgprs i).id] ∧
      ((c.m_sgprs i).id = 0 →
        r.type = v.type ∧
        c1.m_module.code = c.m_module.code ++ [.OpStore (c1.m_sgprs i).id v.id]) ∧
      c.m_module.m_id ≤ r.id ∧ (v.id < c.m_module.m_id → r.id ≠ v.id) := by
  have hstore : emitStoreScalarOperand c dcode i v = emitSgprStore c i v := by
    simp [emitStoreScalarOperand, hd]
  have hfin : ∀ c1 : GCNCompiler, emitSgprStore c i v = .ok ((), c1) →
      c.m_module.m_id ≤ c1.m_module.m_id →
      ((c.m_sgprs i).id = 0 →
        (c1.m_sgprs i).type = v.type ∧
        c1.m_module.code = c.m_module.code ++ [.OpStore (c1.m_sgprs i).id v.id]) →
      ∃ c1 r c2 tid, emitStoreScalarOperand c dcode i v = .ok ((), c1) ∧
        emitLoadScalarOperand c1 scode i literalConst = .ok (r, c2) ∧
        r.type = (c1.m_sgprs i).type ∧
        c2.m_module.code = c1.m_module.code ++ [.OpLoad tid r.id (c1.m_sgprs i).id] ∧
        ((c.m_sgprs i).id = 0 →
          r.type = v.type ∧
          c1.m_module.code = c.m_module.code ++ [.OpStore (c1.m_sgprs i).id v.id]) ∧
        c.m_module.m_id ≤ r.id ∧ (v.id < c.m_module.m_id → r.id ≠ v.id) := by
    intro c1 he hle hfirst
    obtain ⟨tid, r, m', hl, hc, hr⟩ := emitValueLoad_fresh c1.m_module (c1.m_sgprs i)
    refine ⟨c1, ⟨(c1.m_sgprs i).type, r⟩, { c1 with m_module := m' }, tid,
      by rw [hstore, he],
      by rw [emitLoadScalarOperand_sgpr c1 scode _ _ hsrc, emitSgprLoad, hl,
        GCNCompiler.onModule_ok],
      rfl, hc, fun h0 => ?_, le_trans hle hr, fun hv => ?_⟩
    · exact hfirst h0
    · show r ≠ v.id
      omega
  by_cases h0 : (c.m_sgprs i).id = 0
  · obtain ⟨m2, he, hst⟩ := emitSgprStore_empty c i v h0 (by omega)
    have hg := getVectorTypeId_grows c.m_module v.type
    rw [emitValueStore_scalar_same_type _ v _ hs] at he
    have hm2 := (Prod.mk.inj (Except.ok.inj he)).2
    refine hfin _ hst ?_ (fun _ => ⟨by simp only [Function.update_same], ?_⟩)
    · show c.m_module.m_id ≤ m2.m_id
      rw [← hm2]
      have := hg.1
      simp only [SpirvModule.opStore, SpirvModule.setDebugName, SpirvModule.newVar]
      omega
    · show m2.code = c.m_module.code ++ _
      rw [← hm2]
      simp [SpirvModule.opStore, SpirvModule.setDebugName, SpirvModule.newVar,
        getVectorTypeId_code]
  · obtain ⟨m2, he, hst⟩ := emitSgprStore_declared c i v h0 (Or.inr hs)
    exact hfin _ hst (emitValueStore_grows _ _ _ _ _ he).1 (fun h => absurd h h0)

/-- Witness of C18 amended: the store and the load of SGPR 0 on `sampleCompiler`. -/
theorem store_then_load_spec_witness :
    ∃ c1 r c2 tid, emitStoreScalarOperand sampleCompiler 0 0 ⟨⟨.Float32, 1⟩, 9⟩ = .ok ((), c1) ∧
      emitLoadScalarOperand c1 0 0 0 = .ok (r, c2) ∧
      r.type = ⟨.Float32, 1⟩ ∧
      c2.m_module.code = c1.m_module.code ++ [.OpLoad tid r.id (c1.m_sgprs 0).id] ∧
      r.id ≠ 9 := by
  obtain ⟨c1, r, c2, tid, he, hl, -, hc, hfirst, -, hne⟩ :=
    store_then_load_spec sampleCompiler 0 ⟨⟨.Float32, 1⟩, 9⟩ 0 0 0 rfl (by decide) (by decide)
  exact ⟨c1, r, c2, tid, he, hl, (hfirst rfl).1, hc, hne (by decide)⟩

/-! ## Sections of the module that a builder call leaves alone -/

@[simp] theorem SpirvModule.enableCapability_varDecls (m : SpirvModule) (cap : SpvCapability) :
    (m.enableCapability cap).varDecls = m.varDecls := by
  unfold SpirvModule.enableCapability
  split <;> rfl

@[simp] theorem SpirvModule.defTypeConst_varDecls (m : SpirvModule) (d : SpirvTypeConst) :
    ((m.defTypeConst d).2).varDecls = m.varDecls := by
  unfold SpirvModule.defTypeConst
  split <;> rfl

@[simp] theorem SpirvModule.defTypeUnique_varDecls (m : SpirvModule) (d : SpirvTypeConst) :
    ((m.defTypeUnique d).2).varDecls = m.varDecls := rfl

@[simp] theorem SpirvModule.emitResult_varDecls (m : SpirvModule) (mk : Nat → SpirvInstr) :
    ((m.emitResult mk).2).varDecls = m.varDecls := rfl

@[simp] theorem SpirvModule.emitPlain_varDecls (m : SpirvModule) (i : SpirvInstr) :
    (m.emitPlain i).varDecls = m.varDecls := rfl

@[simp] theorem SpirvModule.opStore_varDecls (m : SpirvModule) (p v : Nat) :
    (m.opStore p v).varDecls = m.varDecls := rfl

@[simp] theorem SpirvModule.allocateId_varDecls (m : SpirvModule) :
    (m.allocateId.2).varDecls = m.varDecls := rfl

@[simp] theorem SpirvModule.setDebugName_varDecls (m : SpirvModule) (id : Nat) (n : DebugName) :
    (m.setDebugName id n).varDecls = m.varDecls := rfl

@[simp] theorem SpirvModule.setDebugMemberName_varDecls (m : SpirvModule) (id k : Nat) (n : DebugName) :
    (m.setDebugMemberName id k n).varDecls = m.varDecls := rfl

@[simp] theorem SpirvModule.addDebugString_varDecls (m : SpirvModule) (t : String) :
    ((m.addDebugString t).2).varDecls = m.varDecls := rfl

@[simp] theorem SpirvModule.setDebugSource_varDecls (m : SpirvModule) (id : Nat) :
    (m.setDebugSource id).varDecls = m.varDecls := rfl

@[simp] theorem SpirvModule.setMemoryModel_varDecls (m : SpirvModule) :
    (m.setMemoryModel).varDecls = m.varDecls := rfl

@[simp] theorem SpirvModule.enableExtension_varDecls (m : SpirvModule) (n : String) :
    (m.enableExtension n).varDecls = m.varDecls := rfl

@[simp] theorem SpirvModule.newVar_varDecls (m : SpirvModule) (t : Nat) (sc : SpvStorageClass) :
    ((m.newVar t sc).2).varDecls = m.varDecls ++ [⟨t, m.m_id, sc⟩] := rfl

@[simp] theorem SpirvModule.decorate_varDecls (m : SpirvModule) (d : SpirvDecoration) :
    (m.decorate d).varDecls = m.varDecls := rfl

@[simp] theorem SpirvModule.addEntryPoint_varDecls (m : SpirvModule) (id : Nat) (em : SpvExecutionModel) (n : String) (l : List Nat) :
    (m.addEntryPoint id em n l).varDecls = m.varDecls := rfl

@[simp] theorem SpirvModule.enableCapability_entryPoints (m : SpirvModule) (cap : SpvCapability) :
    (m.enableCapability cap).entryPoints = m.entryPoints := by
  unfold SpirvModule.enableCapability
  split <;> rfl

@[simp] theorem SpirvModule.defTypeConst_entryPoints (m : SpirvModule) (d : SpirvTypeConst) :
    ((m.defTypeConst d).2).entryPoints = m.entryPoints := by
  unfold SpirvModule.defTypeConst
  split <;> rfl

@[simp] theorem SpirvModule.defTypeUnique_entryPoints (m : SpirvModule) (d : SpirvTypeConst) :
    ((m.defTypeUnique d).2).entryPoints = m.entryPoints := rfl

@[simp] theorem SpirvModule.emitResult_entryPoints (m : SpirvModule) (mk : Nat → SpirvInstr) :
    ((m.emitResult mk).2).entryPoints = m.entryPoints := rfl

@[simp] theorem SpirvModule.emitPlain_entryPoints (m : SpirvModule) (i : SpirvInstr) :
    (m.emitPlain i).entryPoints = m.entryPoints := rfl

@[simp] theorem SpirvModule.opStore_entryPoints (m : SpirvModule) (p v : Nat) :
    (m.opStore p v).entryPoints = m.entryPoints := rfl

@[simp] theorem SpirvModule.allocateId_entryPoints (m : SpirvModule) :
    (m.allocateId.2).entryPoints = m.entryPoints := rfl

@[simp] theorem SpirvModule.setDebugName_entryPoints (m : SpirvModule) (id : Nat) (n : DebugName) :
    (m.setDebugName id n).entryPoints = m.entryPoints := rfl

@[simp] theorem SpirvModule.setDebugMemberName_entryPoints (m : SpirvModule) (id k : Nat) (n : DebugName) :
    (m.setDebugMemberName id k n).entryPoints = m.entryPoints := rfl

@[simp] theorem SpirvModule.addDebugString_entryPoints (m : SpirvModule) (t : String) :
    ((m.addDebugString t).2).entryPoints = m.entryPoints := rfl

@[simp] theorem SpirvModule.setDebugSource_entryPoints (m : SpirvModule) (id : Nat) :
    (m.setDebugSource id).entryPoints = m.entryPoints := rfl

@[simp] theorem SpirvModule.setMemoryModel_entryPoints (m : SpirvModule) :
    (m.setMemoryModel).entryPoints = m.entryPoints := rfl

@[simp] theorem SpirvModule.enableExtension_entryPoints (m : SpirvModule) (n : String) :
    (m.enableExtension n).entryPoints = m.entryPoints := rfl

@[simp] theorem SpirvModule.newVar_entryPoints (m : SpirvModule) (t : Nat) (sc : SpvStorageClass) :
    ((m.newVar t sc).2).entryPoints = m.entryPoints := rfl

@[simp] theorem SpirvModule.decorate_entryPoints (m : SpirvModule) (d : SpirvDecoration) :
    (m.decorate d).entryPoints = m.entryPoints := rfl

@[simp] theorem SpirvModule.addEntryPoint_entryPoints (m : SpirvModule) (id : Nat) (em : SpvExecutionModel) (n : String) (l : List Nat) :
    (m.addEntryPoint id em n l).entryPoints = m.entryPoints ++ [⟨id, em, n, l⟩] := rfl

@[simp] theorem SpirvModule.enableCapability_decorations (m : SpirvModule) (cap : SpvCapability) :
    (m.enableCapability cap).decorations = m.decorations := by
  unfold SpirvModule.enableCapability
  split <;> rfl

@[simp] theorem SpirvModule.defTypeConst_decorations (m : SpirvModule) (d : SpirvTypeConst) :
    ((m.defTypeConst d).2).decorations = m.decorations := by
  unfold SpirvModule.defTypeConst
  split <;> rfl

@[simp] theorem SpirvModule.defTypeUnique_decorations (m : SpirvModule) (d : SpirvTypeConst) :
    ((m.defTypeUnique d).2).decorations = m.decorations := rfl

@[simp] theorem SpirvModule.emitResult_decorations (m : SpirvModule) (mk : Nat → SpirvInstr) :
    ((m.emitResult mk).2).decorations = m.decorations := rfl

@[simp] theorem SpirvModule.emitPlain_decorations (m : SpirvModule) (i : SpirvInstr) :
    (m.emitPlain i).decorations = m.decorations := rfl

@[simp] theorem SpirvModule.opStore_decorations (m : SpirvModule) (p v : Nat) :
    (m.opStore p v).decorations = m.decorations := rfl

@[simp] theorem SpirvModule.allocateId_decorations (m : SpirvModule) :
    (m.allocateId.2).decorations = m.decorations := rfl

@[simp] theorem SpirvModule.setDebugName_decorations (m : SpirvModule) (id : Nat) (n : DebugName) :
    (m.setDebugName id n).decorations = m.decorations := rfl

@[simp] theorem SpirvModule.setDebugMemberName_decorations (m : SpirvModule) (id k : Nat) (n : DebugName) :
    (m.setDebugMemberName id k n).decorations = m.decorations := rfl

@[simp] theorem SpirvModule.addDebugString_decorations (m : SpirvModule) (t : String) :
    ((m.addDebugString t).2).decorations = m.decorations := rfl

@[simp] theorem SpirvModule.setDebugSource_decorations (m : SpirvModule) (id : Nat) :
    (m.setDebugSource id).decorations = m.decorations := rfl

@[simp] theorem SpirvModule.setMemoryModel_decorations (m : SpirvModule) :
    (m.setMemoryModel).decorations = m.decorations := rfl

@[simp] theorem SpirvModule.enableExtension_decorations (m : SpirvModule) (n : String) :
    (m.enableExtension n).decorations = m.decorations := rfl

@[simp] theorem SpirvModule.newVar_decorations (m : SpirvModule) (t : Nat) (sc : SpvStorageClass) :
    ((m.newVar t sc).2).decorations = m.decorations := rfl

@[simp] theorem SpirvModule.decorate_decorations (m : SpirvModule) (d : SpirvDecoration) :
    (m.decorate d).decorations = m.decorations ++ [d] := rfl

@[simp] theorem SpirvModule.addEntryPoint_decorations (m : SpirvModule) (id : Nat) (em : SpvExecutionModel) (n : String) (l : List Nat) :
    (m.addEntryPoint id em n l).decorations = m.decorations := rfl

@[simp] theorem SpirvModule.newVar_fst (m : SpirvModule) (t : Nat) (sc : SpvStorageClass) :
    (m.newVar t sc).1 = m.m_id := rfl

theorem SpirvModule.defTypeConst_spec (m : SpirvModule) (d : SpirvTypeConst) :
    ∃ j m1, m.defTypeConst d = (j, m1) ∧ m1.typeConstDefs.lookup d = some j ∧
      m1.Extends m ∧ m.Grows m1 :=
  ⟨_, _, rfl, SpirvModule.defTypeConst_lookup m d, SpirvModule.defTypeConst_extends m d,
    SpirvModule.defTypeConst_grows m d⟩

theorem SpirvModule.IsFloatVecPointer.mono {m m2 : SpirvModule} {sc : SpvStorageClass}
    {t n : Nat} (h : m.IsFloatVecPointer sc t n) (he : m2.Extends m) :
    m2.IsFloatVecPointer sc t n := by
  obtain ⟨f, v, h1, h2, h3⟩ := h
  exact ⟨f, v, he.2 _ _ h1, he.2 _ _ h2, he.2 _ _ h3⟩

/-! ## Vertex outputs -/

theorem emitDclFloatVectorVar_spec (m : SpirvModule) (n : Nat) (sc : SpvStorageClass)
    (name : Option DebugName) :
    ∃ ptrT, (emitDclFloatVectorVar m .Float32 n sc name).2.varDecls =
        m.varDecls ++ [⟨ptrT, (emitDclFloatVectorVar m .Float32 n sc name).1.id, sc⟩] ∧
      (emitDclFloatVectorVar m .Float32 n sc name).2.IsFloatVecPointer sc ptrT n ∧
      (emitDclFloatVectorVar m .Float32 n sc name).2.Extends m ∧
      (emitDclFloatVectorVar m .Float32 n sc name).2.decorations = m.decorations ∧
      (emitDclFloatVectorVar m .Float32 n sc name).2.entryPoints = m.entryPoints ∧
      (emitDclFloatVectorVar m .Float32 n sc name).1.type = ⟨.Float32, n % ccountModulus⟩ ∧
      m.m_id ≤ (emitDclFloatVectorVar m .Float32 n sc name).1.id ∧
      (emitDclFloatVectorVar m .Float32 n sc name).1.id <
        (emitDclFloatVectorVar m .Float32 n sc name).2.m_id := by
  obtain ⟨f, m1, h1, l1, e1, g1⟩ := SpirvModule.defTypeConst_spec m (.OpTypeFloat 32)
  obtain ⟨v, m2, h2, l2, e2, g2⟩ := SpirvModule.defTypeConst_spec m1 (.OpTypeVector f n)
  obtain ⟨t, m3, h3, l3, e3, g3⟩ := SpirvModule.defTypeConst_spec m2 (.OpTypePointer sc v)
  have hg := (g1.grows_trans g2).grows_trans g3
  have he := (e3.trans e2).trans e1
  have hp : m3.IsFloatVecPointer sc t n := ⟨f, v, e3.2 _ _ (e2.2 _ _ l1), e3.2 _ _ l2, l3⟩
  refine ⟨t, ?_⟩
  cases name with
  | none =>
    simp only [emitDclFloatVectorVar, emitDclFloatVectorType, SpirvModule.defFloatType,
      SpirvModule.defVectorType, SpirvModule.defPointerType, if_true, h1, h2, h3]
    exact ⟨by simp [SpirvModule.newVar, hg.2.2.1], hp, he, hg.2.2.2.2.1, hg.2.2.2.2.2.1,
      trivial, hg.1, by simp [SpirvModule.newVar]⟩
  | some nm =>
    simp only [emitDclFloatVectorVar, emitDclFloatVectorType, SpirvModule.defFloatType,
      SpirvModule.defVectorType, SpirvModule.defPointerType, if_true, h1, h2, h3]
    exact ⟨by simp [SpirvModule.newVar, SpirvModule.setDebugName, hg.2.2.1], hp, he,
      hg.2.2.2.2.1, hg.2.2.2.2.2.1, trivial, hg.1,
      by simp [SpirvModule.newVar, SpirvModule.setDebugName]⟩

theorem GCNCompiler.SameSetup.setup_refl (c : GCNCompiler) : c.SameSetup c :=
  ⟨rfl, rfl, rfl, rfl, rfl, rfl, rfl⟩

theorem GCNCompiler.SameSetup.setup_trans {c1 c2 c3 : GCNCompiler} (h12 : c1.SameSetup c2)
    (h23 : c2.SameSetup c3) : c1.SameSetup c3 := by
  obtain ⟨a1, b1, d1, e1, f1, g1, i1⟩ := h12
  obtain ⟨a2, b2, d2, e2, f2, g2, i2⟩ := h23
  exact ⟨a2.trans a1, b2.trans b1, d2.trans d1, e2.trans e1, f2.trans f1, g2.trans g1,
    i2.trans i1⟩

theorem locationsOf_append (l1 l2 : List SpirvDecoration) :
    locationsOf (l1 ++ l2) = locationsOf l1 ++ locationsOf l2 := by
  simp [locationsOf, List.filterMap_append]

theorem emitDclVertexOutputStep_posMin (c : GCNCompiler) (loc : Nat) (e : GcnExportInfo)
    (h : e.target = TGTExpPosMin) : emitDclVertexOutputStep (c, loc) e = (c, loc) := by
  simp [emitDclVertexOutputStep, h]

theorem emitDclVertexOutputStep_param (c : GCNCompiler) (loc : Nat) (e : GcnExportInfo)
    (h : e.target ≠ TGTExpPosMin) :
    (emitDclVertexOutputStep (c, loc) e).2 = loc + 1 ∧
    ∃ v : SpirvVariable,
      (emitDclVertexOutputStep (c, loc) e).1.m_module.varDecls = c.m_module.varDecls ++ [v] ∧
      v.storageClass = .Output ∧
      (emitDclVertexOutputStep (c, loc) e).1.m_module.IsFloatVecPointer .Output v.pointerType
        e.regIndices.length ∧
      (emitDclVertexOutputStep (c, loc) e).1.m_module.Extends c.m_module ∧
      locationsOf (emitDclVertexOutputStep (c, loc) e).1.m_module.decorations =
        locationsOf c.m_module.decorations ++ [(v.id, loc)] ∧
      (emitDclVertexOutputStep (c, loc) e).1.m_vs.vsOutputs =
        recordOutput c.m_vs.vsOutputs (e, v) ∧
      c.SameSetup (emitDclVertexOutputStep (c, loc) e).1 ∧
      c.m_module.m_id ≤ v.id ∧
      v.id < (emitDclVertexOutputStep (c, loc) e).1.m_module.m_id := by
  obtain ⟨ptrT, hv, hp, he, hd, hep, ht, hlo, hhi⟩ := emitDclFloatVectorVar_spec c.m_module
    e.regIndices.length .Output (some ⟨"outParam", some loc⟩)
  simp only [emitDclVertexOutputStep, h, if_false]
  refine ⟨trivial, ⟨ptrT, (emitDclFloatVectorVar c.m_module .Float32 e.regIndices.length
    .Output (some ⟨"outParam", some loc⟩)).1.id, .Output⟩, ?_, rfl, ?_, ?_, ?_, ?_, ?_, hlo, ?_⟩
  · simpa [SpirvModule.decorateLocation] using hv
  · exact hp.mono ⟨fun _ h => h, fun _ _ h => h⟩
  · exact he
  · simp [SpirvModule.decorateLocation, locationsOf_append, hd, locationsOf]
  · simp only [recordOutput]
    congr 1
  · exact ⟨rfl, rfl, rfl, rfl, rfl, rfl, by simpa [SpirvModule.decorateLocation] using hep⟩
  · simpa [SpirvModule.decorateLocation, SpirvModule.decorate] using hhi

theorem emitDclVertexOutput_fold (l : List GcnExportInfo) (c : GCNCompiler) (loc : Nat) :
    ∃ vars : List SpirvVariable,
      (l.foldl emitDclVertexOutputStep (c, loc)).1.m_module.varDecls =
        c.m_module.varDecls ++ vars ∧
      (l.foldl emitDclVertexOutputStep (c, loc)).1.m_module.Extends c.m_module ∧
      List.Forall₂ (fun e v => v.storageClass = .Output ∧
          (l.foldl emitDclVertexOutputStep (c, loc)).1.m_module.IsFloatVecPointer .Output
            v.pointerType e.regIndices.length)
        (nonPosParams l) vars ∧
      locationsOf (l.foldl emitDclVertexOutputStep (c, loc)).1.m_module.decorations =
        locationsOf c.m_module.decorations ++
          (vars.enumFrom loc).map (fun p => (p.2.id, p.1)) ∧
      (l.foldl emitDclVertexOutputStep (c, loc)).1.m_vs.vsOutputs =
        ((nonPosParams l).zip vars).foldl recordOutput c.m_vs.vsOutputs ∧
      c.SameSetup (l.foldl emitDclVertexOutputStep (c, loc)).1 ∧
      c.m_module.m_id ≤ (l.foldl emitDclVertexOutputStep (c, loc)).1.m_module.m_id ∧
      (∀ v ∈ vars, c.m_module.m_id ≤ v.id) ∧
      (vars.map (·.id)).Pairwise (· < ·) := by
  induction l generalizing c loc with
  | nil =>
    exact ⟨[], by simp, SpirvModule.Extends.refl _, by simp [nonPosParams], by simp,
      by simp [nonPosParams], GCNCompiler.SameSetup.setup_refl c, le_refl _, by simp, by simp⟩
  | cons e rest ih =>
    by_cases h : e.target = TGTExpPosMin
    · have hn : nonPosParams (e :: rest) = nonPosParams rest := by simp [nonPosParams, h]
      simp only [List.foldl_cons, emitDclVertexOutputStep_posMin c loc e h, hn]
      exact ih c loc
    · have hn : nonPosParams (e :: rest) = e :: nonPosParams rest := by simp [nonPosParams, h]
      obtain ⟨hloc, v, hv, hsc, hp, hext, hl, ho, hs, hlo, hhi⟩ :=
        emitDclVertexOutputStep_param c loc e h
      obtain ⟨vars, hv2, hext2, hf2, hl2, ho2, hs2, hm2, hb2, hn2⟩ :=
        ih (emitDclVertexOutputStep (c, loc) e).1 (loc + 1)
      have hst : emitDclVertexOutputStep (c, loc) e =
          ((emitDclVertexOutputStep (c, loc) e).1, loc + 1) := by
        rw [← hloc]
      simp only [List.foldl_cons, hn]
      rw [hst]
      refine ⟨v :: vars, ?_, hext2.trans hext, ?_, ?_, ?_, hs.setup_trans hs2, by omega, ?_, ?_⟩
      rotate_left 4
      · intro w hw
        rcases List.mem_cons.mp hw with rfl | hw
        · exact hlo
        · have := hb2 w hw
          omega
      · rw [List.map_cons, List.pairwise_cons]
        refine ⟨?_, hn2⟩
        intro j hj
        obtain ⟨w, hw, rfl⟩ := List.mem_map.mp hj
        have := hb2 w hw
        omega
      · rw [hv2, hv]
        simp
      · exact List.Forall₂.cons ⟨hsc, hp.mono hext2⟩ hf2
      · rw [hl2, hl]
        simp [List.enumFrom]
      · rw [ho2, ho]
        simp [List.zip_cons_cons]

theorem emitDclPerVertexOut_spec (c : GCNCompiler) :
    ∃ ptrT, (emitDclPerVertexOut c).m_module.varDecls =
        c.m_module.varDecls ++ [⟨ptrT, (emitDclPerVertexOut c).m_perVertexOut, .Output⟩] ∧
      locationsOf (emitDclPerVertexOut c).m_module.decorations =
        locationsOf c.m_module.decorations ∧
      (emitDclPerVertexOut c).m_vs = c.m_vs ∧
      (emitDclPerVertexOut c).m_analysis = c.m_analysis ∧
      (emitDclPerVertexOut c).m_shaderInput = c.m_shaderInput ∧
      (emitDclPerVertexOut c).m_programInfo = c.m_programInfo ∧
      (emitDclPerVertexOut c).m_entryPointId = c.m_entryPointId ∧
      (emitDclPerVertexOut c).m_entryPointInterfaces =
        c.m_entryPointInterfaces ++ [(emitDclPerVertexOut c).m_perVertexOut] ∧
      (emitDclPerVertexOut c).m_module.entryPoints = c.m_module.entryPoints ∧
      c.m_module.m_id ≤ (emitDclPerVertexOut c).m_perVertexOut ∧
      (emitDclPerVertexOut c).m_perVertexOut < (emitDclPerVertexOut c).m_module.m_id := by
  obtain ⟨f, m1, h1, -, -, g1⟩ := SpirvModule.defTypeConst_spec c.m_module (.OpTypeFloat 32)
  obtain ⟨v, m2, h2, -, -, g2⟩ := SpirvModule.defTypeConst_spec m1 (.OpTypeVector f 4)
  obtain ⟨t, m3, h3, -, -, g3⟩ := SpirvModule.defTypeConst_spec
    ((m2.defTypeUnique (.OpTypeStruct [v])).2.decorate (.MemberBuiltIn m2.m_id 0 .Position)
      |>.decorate (.Block m2.m_id) |>.setDebugName m2.m_id ⟨"gl_PerVertex", none⟩
      |>.setDebugMemberName m2.m_id 0 ⟨"gl_Position", none⟩)
    (.OpTypePointer .Output m2.m_id)
  have hg := g1.grows_trans g2
  have hid : m2.m_id + 1 ≤ m3.m_id := g3.1
  have hdec : locationsOf m3.decorations = locationsOf c.m_module.decorations := by
    rw [g3.2.2.2.2.1]
    simp [SpirvModule.setDebugMemberName, SpirvModule.setDebugName, SpirvModule.decorate,
      SpirvModule.defTypeUnique, locationsOf_append, locationsOf, hg.2.2.2.2.1]
  have hvar : m3.varDecls = c.m_module.varDecls := by
    rw [g3.2.2.1]
    simp [SpirvModule.setDebugMemberName, SpirvModule.setDebugName, SpirvModule.decorate,
      SpirvModule.defTypeUnique, hg.2.2.1]
  have hent : m3.entryPoints = c.m_module.entryPoints := by
    rw [g3.2.2.2.2.2.1]
    simp [SpirvModule.setDebugMemberName, SpirvModule.setDebugName, SpirvModule.decorate,
      SpirvModule.defTypeUnique, hg.2.2.2.2.2.1]
  have hc : emitDclPerVertexOut c = { c with
      m_module := (m3.newVar t .Output).2.setDebugName m3.m_id ⟨"vsVertexOut", none⟩
      m_perVertexOut := m3.m_id
      m_entryPointInterfaces := c.m_entryPointInterfaces ++ [m3.m_id] } := by
    simp only [emitDclPerVertexOut, getPerVertexBlockId, SpirvModule.defFloatType,
      SpirvModule.defVectorType, SpirvModule.defPointerType, SpirvModule.defStructTypeUnique,
      SpirvModule.memberDecorateBuiltIn, SpirvModule.decorateBlock, h1, h2]
    simp only [SpirvModule.defTypeUnique] at h3 ⊢
    simp only [h3]
    rfl
  rw [hc]
  refine ⟨t, ?_, ?_, rfl, rfl, rfl, rfl, rfl, rfl, ?_, ?_, ?_⟩
  · simp [SpirvModule.newVar, SpirvModule.setDebugName, hvar]
  · simpa [SpirvModule.newVar, SpirvModule.setDebugName] using hdec
  · simpa [SpirvModule.newVar, SpirvModule.setDebugName] using hent
  · have := hg.1
    show c.m_module.m_id ≤ m3.m_id
    omega
  · simp [SpirvModule.newVar, SpirvModule.setDebugName]

theorem foldl_recordOutput_other (ps : List (GcnExportInfo × SpirvVariable))
    (f : Nat → SpirvRegisterPointer) (t : Nat) (h : ∀ q ∈ ps, q.1.target ≠ t) :
    ps.foldl recordOutput f t = f t := by
  induction ps generalizing f with
  | nil => rfl
  | cons p rest ih =>
    rw [List.foldl_cons, ih _ (fun q hq => h q (List.mem_cons_of_mem _ hq))]
    have hp : t ≠ p.1.target := fun e => h p (List.mem_cons_self _ _) e.symm
    simp [recordOutput, Function.update_noteq hp]

theorem foldl_recordOutput_last (ps : List (GcnExportInfo × SpirvVariable))
    (f : Nat → SpirvRegisterPointer) (k : Nat) (p : GcnExportInfo × SpirvVariable)
    (hk : ps[k]? = some p)
    (h : ∀ j q, k < j → ps[j]? = some q → q.1.target ≠ p.1.target) :
    ps.foldl recordOutput f p.1.target =
      ⟨⟨.Float32, p.1.regIndices.length % ccountModulus⟩, p.2.id⟩ := by
  induction ps generalizing f k with
  | nil => simp at hk
  | cons p0 rest ih =>
    cases k with
    | zero =>
      simp only [List.getElem?_cons_zero, Option.some.injEq] at hk
      subst hk
      rw [List.foldl_cons, foldl_recordOutput_other]
      · simp [recordOutput]
      · intro q hq
        obtain ⟨j, hj⟩ := List.getElem?_of_mem hq
        exact h (j + 1) q (Nat.succ_pos j) (by simpa using hj)
    | succ k =>
      rw [List.foldl_cons]
      refine ih _ k (by simpa using hk) ?_
      intro j q hj hq
      exact h (j + 1) q (by omega) (by simpa using hq)

/-- C19. For every compiler state, `emitDclVertexOutput` appends to the declared
variables the per-vertex output block followed by exactly one variable per
export-parameter record whose target is not `PosMin`, in the order of the
records (so `PosMin` records declare nothing): the variable of the `k`-th such
record has storage class `Output` and its type is the pointer to the vector of
`regIndices.length` 32-bit floats; the `Location` decorations added are exactly
`(variable k, k)` for `k = 0, 1, ...` in order (no gaps, no repeats: `PosMin`
records consume no location); the variable ids are pairwise distinct; and
`vsOutputs` is the old table with each record's variable recorded under the
record's target, in order, so that `vsOutputs[target]` afterwards names the
variable of the last record with that target (of the `k`-th record when no later
record has the same target). -/
theorem emitDclVertexOutput_spec (c : GCNCompiler) :
    ∃ (pv : SpirvVariable) (vars : List SpirvVariable),
      (emitDclVertexOutput c).m_module.varDecls = c.m_module.varDecls ++ pv :: vars ∧
      pv.id = (emitDclVertexOutput c).m_perVertexOut ∧
      List.Forall₂ (fun e v => v.storageClass = .Output ∧
          (emitDclVertexOutput c).m_module.IsFloatVecPointer .Output v.pointerType
            e.regIndices.length)
        (nonPosParams c.m_analysis.expParams) vars ∧
      vars.length = (nonPosParams c.m_analysis.expParams).length ∧
      locationsOf (emitDclVertexOutput c).m_module.decorations =
        locationsOf c.m_module.decorations ++ vars.enum.map (fun p => (p.2.id, p.1)) ∧
      (pv.id :: vars.map (·.id)).Pairwise (· < ·) ∧
      (emitDclVertexOutput c).m_vs.vsOutputs =
        ((nonPosParams c.m_analysis.expParams).zip vars).foldl recordOutput
          c.m_vs.vsOutputs ∧
      ∀ (k : Nat) (e : GcnExportInfo) (v : SpirvVariable),
        (nonPosParams c.m_analysis.expParams)[k]? = some e → vars[k]? = some v →
        (∀ (j : Nat) (e2 : GcnExportInfo), k < j → (nonPosParams c.m_analysis.expParams)[j]? = some e2 →
          e2.target ≠ e.target) →
        (emitDclVertexOutput c).m_vs.vsOutputs e.target =
          ⟨⟨.Float32, e.regIndices.length % ccountModulus⟩, v.id⟩ := by
  obtain ⟨ptrT, hv1, hl1, hvs1, ha1, -, -, -, -, -, hlo1, hhi1⟩ := emitDclPerVertexOut_spec c
  obtain ⟨vars, hv, hext, hf, hl, ho, hs, hm, hb, hn⟩ :=
    emitDclVertexOutput_fold (emitDclPerVertexOut c).m_analysis.expParams
      (emitDclPerVertexOut c) 0
  have hfold : emitDclVertexOutput c = ((emitDclPerVertexOut c).m_analysis.expParams.foldl
      emitDclVertexOutputStep (emitDclPerVertexOut c, 0)).1 := rfl
  simp only [← hfold] at hv hext hf hl ho hs hm
  rw [ha1] at hf ho
  have hvo : (emitDclVertexOutput c).m_vs.vsOutputs =
      ((nonPosParams c.m_analysis.expParams).zip vars).foldl recordOutput
        c.m_vs.vsOutputs := by
    rw [ho, hvs1]
  refine ⟨⟨ptrT, (emitDclPerVertexOut c).m_perVertexOut, .Output⟩, vars, ?_, hs.2.1.symm, hf,
    hf.length_eq.symm, ?_, ?_, hvo, ?_⟩
  · rw [hv, hv1]
    simp
  · rw [hl, hl1]
    rfl
  · rw [List.pairwise_cons]
    refine ⟨?_, hn⟩
    intro j hj
    obtain ⟨w, hw, rfl⟩ := List.mem_map.mp hj
    have := hb w hw
    show (emitDclPerVertexOut c).m_perVertexOut < w.id
    omega
  · intro k e v he hv2 hlast
    rw [hvo]
    refine foldl_recordOutput_last _ _ k (e, v) ?_ ?_
    · simp [List.getElem?_zip_eq_some, he, hv2]
    · intro j q hj hq
      rw [List.getElem?_zip_eq_some] at hq
      exact hlast j q.1 hj hq.1

/-- Witness of C19: on `sampleCompiler` with the export records `PosMin`
(four registers) and `Param0` (target 32, two registers), one variable is
declared after the per-vertex block, with `Location 0`, and recorded under
`vsOutputs[32]` as a `Float32 × 2` pointer. -/
theorem emitDclVertexOutput_spec_witness :
    ∃ pv v : SpirvVariable,
      (emitDclVertexOutput { sampleCompiler with
        m_analysis := ⟨[⟨12, [0, 1, 2, 3]⟩, ⟨32, [0, 1]⟩]⟩ }).m_module.varDecls = [pv, v] ∧
      v.storageClass = .Output ∧
      locationsOf (emitDclVertexOutput { sampleCompiler with
        m_analysis := ⟨[⟨12, [0, 1, 2, 3]⟩, ⟨32, [0, 1]⟩]⟩ }).m_module.decorations =
          [(v.id, 0)] ∧
      (emitDclVertexOutput { sampleCompiler with
        m_analysis := ⟨[⟨12, [0, 1, 2, 3]⟩, ⟨32, [0, 1]⟩]⟩ }).m_vs.vsOutputs 32 =
          ⟨⟨.Float32, 2⟩, v.id⟩ := by
  obtain ⟨pv, vars, h1, -, h3, h4, h5, -, -, h8⟩ := emitDclVertexOutput_spec
    { sampleCompiler with m_analysis := ⟨[⟨12, [0, 1, 2, 3]⟩, ⟨32, [0, 1]⟩]⟩ }
  have hn : nonPosParams [(⟨12, [0, 1, 2, 3]⟩ : GcnExportInfo), ⟨32, [0, 1]⟩] =
      [⟨32, [0, 1]⟩] := by decide
  have hlen : vars.length = 1 := by
    rw [h4]
    exact congrArg List.length hn
  obtain ⟨v, rfl⟩ := List.length_eq_one.mp hlen
  refine ⟨pv, v, h1, ?_, h5, ?_⟩
  · have h3b : List.Forall₂ _ [(⟨32, [0, 1]⟩ : GcnExportInfo)] [v] := hn ▸ h3
    exact (List.forall₂_cons.mp h3b).1.1
  · refine h8 0 ⟨32, [0, 1]⟩ v (congrArg (fun l => l[0]?) hn) rfl ?_
    intro j e2 hj he2
    have he3 : [(⟨32, [0, 1]⟩ : GcnExportInfo)][j]? = some e2 := by
      rw [← hn]
      exact he2
    cases j with
    | zero => omega
    | succ j => simp at he3

/-! ## The entry-point interface -/

theorem GCNCompiler.SameInterface.iface_refl (c : GCNCompiler) : c.SameInterface c :=
  ⟨GCNCompiler.SameSetup.setup_refl c, rfl⟩

theorem GCNCompiler.SameInterface.iface_trans {c1 c2 c3 : GCNCompiler} (h12 : c1.SameInterface c2)
    (h23 : c2.SameInterface c3) : c1.SameInterface c3 :=
  ⟨h12.1.setup_trans h23.1, h23.2.trans h12.2⟩

theorem GCNCompiler.SameInterface.of_module (c : GCNCompiler) (m : SpirvModule)
    (hv : m.ioVarIds = c.m_module.ioVarIds) (he : m.entryPoints = c.m_module.entryPoints) :
    c.SameInterface { c with m_module := m } :=
  ⟨⟨rfl, rfl, rfl, rfl, rfl, rfl, he⟩, hv⟩

theorem SpirvModule.ioVarIds_of_varDecls {m m2 : SpirvModule} (h : m2.varDecls = m.varDecls) :
    m2.ioVarIds = m.ioVarIds := by
  simp [SpirvModule.ioVarIds, h]

@[simp] theorem defVoidFunctionTypes_varDecls (m : SpirvModule) :
    (defVoidFunctionTypes m).2.2.varDecls = m.varDecls := by
  simp [defVoidFunctionTypes, SpirvModule.defVoidType, SpirvModule.defFunctionType]

@[simp] theorem defVoidFunctionTypes_entryPoints (m : SpirvModule) :
    (defVoidFunctionTypes m).2.2.entryPoints = m.entryPoints := by
  simp [defVoidFunctionTypes, SpirvModule.defVoidType, SpirvModule.defFunctionType]

theorem emitFunctionEnd_sameInterface (c : GCNCompiler) :
    c.SameInterface (emitFunctionEnd c) := by
  refine ⟨⟨rfl, rfl, rfl, rfl, rfl, rfl, ?_⟩, SpirvModule.ioVarIds_of_varDecls ?_⟩ <;>
  · simp only [emitFunctionEnd]
    split <;> simp [SpirvModule.opReturn, SpirvModule.functionEnd]

theorem emitFunctionBegin_sameInterface (c : GCNCompiler) (e r f : Nat) :
    c.SameInterface (emitFunctionBegin c e r f) := by
  refine (emitFunctionEnd_sameInterface c).iface_trans ?_
  exact ⟨⟨rfl, rfl, rfl, rfl, rfl, rfl, by simp [emitFunctionBegin, SpirvModule.functionBegin]⟩,
    SpirvModule.ioVarIds_of_varDecls
      (by simp [emitFunctionBegin, SpirvModule.functionBegin])⟩

theorem emitFunctionLabel_sameInterface (c : GCNCompiler) :
    c.SameInterface (emitFunctionLabel c) :=
  ⟨⟨rfl, rfl, rfl, rfl, rfl, rfl, by simp [emitFunctionLabel, SpirvModule.opLabel]⟩,
    SpirvModule.ioVarIds_of_varDecls (by simp [emitFunctionLabel, SpirvModule.opLabel])⟩

theorem SpirvModule.ioVarIds_newVar (m : SpirvModule) (t : Nat) (sc : SpvStorageClass) :
    (m.newVar t sc).2.ioVarIds =
      m.ioVarIds ++ (if sc = .Input ∨ sc = .Output then [m.m_id] else []) := by
  by_cases h : sc = .Input ∨ sc = .Output <;>
    simp [SpirvModule.ioVarIds, SpirvModule.newVar, List.filter_append, h]

theorem emitDclUniformBufferStep_sameInterface (c : GCNCompiler) (index : Nat)
    (res : GcnResourceEntry) :
    c.SameInterface (emitDclUniformBufferStep (c, index) res).1 := by
  cases hres : res.type with
  | VSharp =>
    simp only [emitDclUniformBufferStep, hres]
    refine ⟨⟨rfl, rfl, rfl, rfl, rfl, rfl, ?_⟩, ?_⟩
    · simp [SpirvModule.decorateBinding,
        SpirvModule.decorateDescriptorSet, SpirvModule.defPointerType,
        SpirvModule.decorateBlock, SpirvModule.memberDecorateOffset,
        SpirvModule.defStructTypeUnique, SpirvModule.decorateArrayStride,
        SpirvModule.defArrayTypeUnique, SpirvModule.constu32, SpirvModule.defIntType,
        SpirvModule.defFloatType]
    · simp [SpirvModule.ioVarIds,
        SpirvModule.decorateBinding,
        SpirvModule.decorateDescriptorSet, SpirvModule.defPointerType,
        SpirvModule.decorateBlock, SpirvModule.memberDecorateOffset,
        SpirvModule.defStructTypeUnique, SpirvModule.decorateArrayStride,
        SpirvModule.defArrayTypeUnique, SpirvModule.constu32, SpirvModule.defIntType,
        SpirvModule.defFloatType, List.filter_append]
  | SSharp =>
    simp only [emitDclUniformBufferStep, hres]
    exact GCNCompiler.SameInterface.iface_refl c
  | TSharp =>
    simp only [emitDclUniformBufferStep, hres]
    exact GCNCompiler.SameInterface.iface_refl c

theorem emitDclUniformBuffer_fold (l : List GcnResourceEntry) (c : GCNCompiler) (index : Nat) :
    c.SameInterface (l.foldl emitDclUniformBufferStep (c, index)).1 := by
  induction l generalizing c index with
  | nil => exact GCNCompiler.SameInterface.iface_refl c
  | cons r rest ih =>
    rw [List.foldl_cons]
    exact (emitDclUniformBufferStep_sameInterface c index r).iface_trans (ih _ _)

theorem emitDclUniformBuffer_sameInterface (c : GCNCompiler) :
    c.SameInterface (emitDclUniformBuffer c) :=
  emitDclUniformBuffer_fold _ c 0

theorem emitEmuFetchLane_sameInterface (sem : VertexInputSemantic) (c : GCNCompiler)
    (i : Nat) : c.SameInterface (emitEmuFetchLane sem c i) := by
  refine ⟨⟨rfl, rfl, rfl, rfl, rfl, rfl, ?_⟩, ?_⟩
  · simp [emitEmuFetchLane, emitDclFloat, SpirvModule.defFloatPointerType,
      SpirvModule.defPointerType, SpirvModule.defFloatType, SpirvModule.constu32,
      SpirvModule.defIntType, SpirvModule.opAccessChain, SpirvModule.opLoad]
  · simp [emitEmuFetchLane, emitDclFloat, SpirvModule.defFloatPointerType,
      SpirvModule.defPointerType, SpirvModule.defFloatType, SpirvModule.constu32,
      SpirvModule.defIntType, SpirvModule.opAccessChain, SpirvModule.opLoad,
      SpirvModule.ioVarIds, List.filter_append]

theorem emitEmuFetchSemantic_sameInterface (c : GCNCompiler) (sem : VertexInputSemantic) :
    c.SameInterface (emitEmuFetchSemantic c sem) := by
  unfold emitEmuFetchSemantic
  generalize List.range sem.sizeInElements = l
  induction l generalizing c with
  | nil => exact GCNCompiler.SameInterface.iface_refl c
  | cons i rest ih =>
    rw [List.foldl_cons]
    exact (emitEmuFetchLane_sameInterface sem c i).iface_trans (ih _)

theorem emitEmuFetchSemantics_fold (l : List VertexInputSemantic) (c : GCNCompiler) :
    c.SameInterface (l.foldl emitEmuFetchSemantic c) := by
  induction l generalizing c with
  | nil => exact GCNCompiler.SameInterface.iface_refl c
  | cons i rest ih =>
    rw [List.foldl_cons]
    exact (emitEmuFetchSemantic_sameInterface c i).iface_trans (ih _)

theorem emitEmuFetchShader_sameInterface (c : GCNCompiler) :
    c.SameInterface (emitEmuFetchShader c) := by
  unfold emitEmuFetchShader
  cases c.m_shaderInput.vsInputSemantics with
  | none => exact GCNCompiler.SameInterface.iface_refl c
  | some semantics =>
    refine GCNCompiler.SameInterface.iface_trans ?_ (emitFunctionEnd_sameInterface _)
    refine GCNCompiler.SameInterface.iface_trans ?_ (emitEmuFetchSemantics_fold _ _)
    refine @GCNCompiler.SameInterface.iface_trans c (emitFunctionLabel (emitFunctionBegin
      { c with
        m_module := (defVoidFunctionTypes c.m_module.allocateId.2).2.2
        m_vs := { c.m_vs with fsFunctionId := c.m_module.m_id } }
      c.m_module.m_id (defVoidFunctionTypes c.m_module.allocateId.2).1
      (defVoidFunctionTypes c.m_module.allocateId.2).2.1)) _ ?_ ?_
    · refine GCNCompiler.SameInterface.iface_trans ?_ (emitFunctionLabel_sameInterface _)
      refine GCNCompiler.SameInterface.iface_trans ?_ (emitFunctionBegin_sameInterface _ _ _ _)
      exact ⟨⟨rfl, rfl, rfl, rfl, rfl, rfl, by simp⟩,
        SpirvModule.ioVarIds_of_varDecls (by simp)⟩
    · exact ⟨⟨rfl, rfl, rfl, rfl, rfl, rfl, rfl⟩, SpirvModule.ioVarIds_of_varDecls rfl⟩

theorem emitMainFunctionBegin_sameInterface (c : GCNCompiler) :
    c.SameInterface (emitMainFunctionBegin c) := by
  have h : emitMainFunctionBegin c = emitFunctionLabel (emitFunctionBegin
      { c with m_module := (defVoidFunctionTypes c.m_module).2.2 } c.m_entryPointId
      (defVoidFunctionTypes c.m_module).1 (defVoidFunctionTypes c.m_module).2.1) := rfl
  rw [h]
  refine GCNCompiler.SameInterface.iface_trans ?_ (emitFunctionLabel_sameInterface _)
  refine GCNCompiler.SameInterface.iface_trans ?_ (emitFunctionBegin_sameInterface _ _ _ _)
  exact ⟨⟨rfl, rfl, rfl, rfl, rfl, rfl, by simp⟩, SpirvModule.ioVarIds_of_varDecls (by simp)⟩

theorem emitVsFinalize_sameInterface (c : GCNCompiler) :
    c.SameInterface (emitVsFinalize c) := by
  have h : emitVsFinalize c = emitFunctionEnd { emitMainFunctionBegin c with
      m_module := ((emitMainFunctionBegin c).m_module.defVoidType.2.opFunctionCall
        (emitMainFunctionBegin c).m_module.defVoidType.1
        (emitMainFunctionBegin c).m_vs.mainFunctionId []).2 } := rfl
  rw [h]
  refine GCNCompiler.SameInterface.iface_trans (emitMainFunctionBegin_sameInterface c) ?_
  refine GCNCompiler.SameInterface.iface_trans ?_ (emitFunctionEnd_sameInterface _)
  exact ⟨⟨rfl, rfl, rfl, rfl, rfl, rfl,
      by simp [SpirvModule.opFunctionCall, SpirvModule.defVoidType]⟩,
    SpirvModule.ioVarIds_of_varDecls
      (by simp [SpirvModule.opFunctionCall, SpirvModule.defVoidType])⟩

theorem emitDclVertexInputStep_interface (c : GCNCompiler) (sem : VertexInputSemantic) :
    ∃ i, (emitDclVertexInputStep c sem).m_entryPointInterfaces =
        c.m_entryPointInterfaces ++ [i] ∧
      (emitDclVertexInputStep c sem).m_module.ioVarIds = c.m_module.ioVarIds ++ [i] ∧
      c.m_module.m_id ≤ i ∧ i < (emitDclVertexInputStep c sem).m_module.m_id ∧
      (emitDclVertexInputStep c sem).m_module.entryPoints = c.m_module.entryPoints ∧
      (emitDclVertexInputStep c sem).m_programInfo = c.m_programInfo ∧
      (emitDclVertexInputStep c sem).m_analysis = c.m_analysis ∧
      (emitDclVertexInputStep c sem).m_shaderInput = c.m_shaderInput ∧
      (emitDclVertexInputStep c sem).m_entryPointId = c.m_entryPointId := by
  obtain ⟨ptrT, hv, -, -, -, hep, -, hlo, hhi⟩ := emitDclFloatVectorVar_spec c.m_module
    sem.sizeInElements .Input none
  refine ⟨(emitDclFloatVectorVar c.m_module .Float32 sem.sizeInElements .Input none).1.id,
    rfl, ?_, hlo, ?_, ?_, rfl, rfl, rfl, rfl⟩
  · simp [emitDclVertexInputStep, SpirvModule.ioVarIds, SpirvModule.decorateLocation, hv,
      List.filter_append]
  · simpa [emitDclVertexInputStep, SpirvModule.decorateLocation, SpirvModule.decorate,
      SpirvModule.setDebugName] using hhi
  · simpa [emitDclVertexInputStep, SpirvModule.decorateLocation] using hep

theorem emitDclVertexInput_fold (l : List VertexInputSemantic) (c : GCNCompiler) :
    ∃ ins : List Nat,
      (l.foldl emitDclVertexInputStep c).m_entryPointInterfaces =
        c.m_entryPointInterfaces ++ ins ∧
      (l.foldl emitDclVertexInputStep c).m_module.ioVarIds = c.m_module.ioVarIds ++ ins ∧
      ins.length = l.length ∧
      (∀ i ∈ ins, c.m_module.m_id ≤ i ∧ i < (l.foldl emitDclVertexInputStep c).m_module.m_id) ∧
      ins.Pairwise (· < ·) ∧
      c.m_module.m_id ≤ (l.foldl emitDclVertexInputStep c).m_module.m_id ∧
      (l.foldl emitDclVertexInputStep c).m_module.entryPoints = c.m_module.entryPoints ∧
      (l.foldl emitDclVertexInputStep c).m_programInfo = c.m_programInfo ∧
      (l.foldl emitDclVertexInputStep c).m_analysis = c.m_analysis ∧
      (l.foldl emitDclVertexInputStep c).m_shaderInput = c.m_shaderInput ∧
      (l.foldl emitDclVertexInputStep c).m_entryPointId = c.m_entryPointId := by
  induction l generalizing c with
  | nil => exact ⟨[], by simp, by simp, rfl, by simp, by simp, le_refl _, rfl, rfl, rfl, rfl, rfl⟩
  | cons sem rest ih =>
    obtain ⟨i, h1, h2, hlo, hhi, h3, h4, h5, h6, h7⟩ := emitDclVertexInputStep_interface c sem
    obtain ⟨ins, g1, g2, glen, gb, gp, gm, g3, g4, g5, g6, g7⟩ :=
      ih (emitDclVertexInputStep c sem)
    rw [List.foldl_cons]
    refine ⟨i :: ins, ?_, ?_, by simp [glen], ?_, ?_, by omega, g3.trans h3, g4.trans h4,
      g5.trans h5, g6.trans h6, g7.trans h7⟩
    · rw [g1, h1]
      simp
    · rw [g2, h2]
      simp
    · intro j hj
      rcases List.mem_cons.mp hj with rfl | hj
      · exact ⟨hlo, by omega⟩
      · have := gb j hj
        exact ⟨by omega, this.2⟩
    · rw [List.pairwise_cons]
      refine ⟨?_, gp⟩
      intro j hj
      have := gb j hj
      omega

theorem emitDclVertexOutput_interface (c : GCNCompiler) :
    ∃ (pv : Nat) (outs : List Nat),
      (emitDclVertexOutput c).m_entryPointInterfaces = c.m_entryPointInterfaces ++ [pv] ∧
      (emitDclVertexOutput c).m_module.ioVarIds = c.m_module.ioVarIds ++ pv :: outs ∧
      outs.length = (nonPosParams c.m_analysis.expParams).length ∧
      c.m_module.m_id ≤ pv ∧ (pv :: outs).Pairwise (· < ·) ∧
      (emitDclVertexOutput c).m_module.entryPoints = c.m_module.entryPoints ∧
      (emitDclVertexOutput c).m_programInfo = c.m_programInfo ∧
      (emitDclVertexOutput c).m_analysis = c.m_analysis ∧
      (emitDclVertexOutput c).m_shaderInput = c.m_shaderInput ∧
      (emitDclVertexOutput c).m_entryPointId = c.m_entryPointId := by
  obtain ⟨ptrT, hv1, -, -, ha1, hsi1, hpi1, hei1, hif1, hep1, hlo1, hhi1⟩ :=
    emitDclPerVertexOut_spec c
  obtain ⟨vars, hv, -, hf, -, -, hs, -, hb, hn⟩ :=
    emitDclVertexOutput_fold (emitDclPerVertexOut c).m_analysis.expParams
      (emitDclPerVertexOut c) 0
  have hfold : emitDclVertexOutput c = ((emitDclPerVertexOut c).m_analysis.expParams.foldl
      emitDclVertexOutputStep (emitDclPerVertexOut c, 0)).1 := rfl
  simp only [← hfold] at hv hf hs
  rw [ha1] at hf
  obtain ⟨s1, s2, s3, s4, s5, s6, s7⟩ := hs
  have hout : ∀ v ∈ vars, v.storageClass = .Output := by
    intro v hv
    obtain ⟨k, hk⟩ := List.getElem?_of_mem hv
    have hlen := hf.length_eq
    have hk2 : k < vars.length := by
      rcases Nat.lt_or_ge k vars.length with h | h
      · exact h
      · rw [List.getElem?_eq_none h] at hk
        cases hk
    obtain ⟨e, he⟩ : ∃ e, (nonPosParams c.m_analysis.expParams)[k]? = some e :=
      ⟨_, List.getElem?_eq_getElem (by omega)⟩
    exact (List.forall₂_iff_get.mp hf).2 k (by omega) hk2 |> fun h => by
      have hv3 : vars.get ⟨k, hk2⟩ = v := by
        rw [List.get_eq_getElem]
        exact Option.some.inj ((List.getElem?_eq_getElem hk2).symm.trans hk)
      rw [hv3] at h
      exact h.1
  refine ⟨(emitDclPerVertexOut c).m_perVertexOut, vars.map (·.id), ?_, ?_, ?_, hlo1, ?_,
    s7.trans hep1, s3.trans hpi1, s4.trans ha1, s5.trans hsi1, s6.trans hei1⟩
  · rw [s1, hif1]
  · simp only [SpirvModule.ioVarIds]
    rw [hv, hv1]
    simp only [List.filter_append, List.map_append, List.append_assoc]
    congr 1
    have hfil : vars.filter (fun v => decide (v.storageClass = .Input ∨
        v.storageClass = .Output)) = vars := by
      rw [List.filter_eq_self]
      intro v hv
      simp [hout v hv]
    rw [hfil]
    rfl
  · rw [List.length_map]
    exact hf.length_eq.symm
  · rw [List.pairwise_cons]
    refine ⟨?_, hn⟩
    intro j hj
    obtain ⟨w, hw, rfl⟩ := List.mem_map.mp hj
    have := hb w hw
    omega

theorem emitDclVertexInput_interface (c : GCNCompiler) :
    ∃ ins : List Nat,
      (emitDclVertexInput c).m_entryPointInterfaces = c.m_entryPointInterfaces ++ ins ∧
      (emitDclVertexInput c).m_module.ioVarIds = c.m_module.ioVarIds ++ ins ∧
      ins.length = (c.m_shaderInput.vsInputSemantics.getD []).length ∧
      (∀ i ∈ ins, c.m_module.m_id ≤ i ∧ i < (emitDclVertexInput c).m_module.m_id) ∧
      ins.Pairwise (· < ·) ∧
      c.m_module.m_id ≤ (emitDclVertexInput c).m_module.m_id ∧
      (emitDclVertexInput c).m_module.entryPoints = c.m_module.entryPoints ∧
      (emitDclVertexInput c).m_programInfo = c.m_programInfo ∧
      (emitDclVertexInput c).m_analysis = c.m_analysis ∧
      (emitDclVertexInput c).m_shaderInput = c.m_shaderInput ∧
      (emitDclVertexInput c).m_entryPointId = c.m_entryPointId := by
  unfold emitDclVertexInput
  cases hs : c.m_shaderInput.vsInputSemantics with
  | none =>
    exact ⟨[], by simp, by simp, rfl, by simp, by simp, le_refl _, rfl, rfl, rfl, rfl, rfl⟩
  | some l =>
    obtain ⟨ins, g1, g2, glen, gb, gp, gm, g3, g4, g5, g6, g7⟩ := emitDclVertexInput_fold l c
    exact ⟨ins, g1, g2, by simpa using glen, gb, gp, gm, g3, g4, g5, g6, g7⟩

theorem emitVsInit_tail (c6 c7 c9 cf : GCNCompiler)
    (h7 : c7 = { c6 with
      m_module := c6.m_module.allocateId.2.setDebugName c6.m_module.allocateId.1
        ⟨"vsMain", none⟩
      m_vs := { c6.m_vs with mainFunctionId := c6.m_module.allocateId.1 } })
    (h9 : c9 = emitFunctionLabel (emitFunctionBegin
      { c7 with m_module := (defVoidFunctionTypes c7.m_module).2.2 }
      c6.m_module.allocateId.1 (defVoidFunctionTypes c7.m_module).1
      (defVoidFunctionTypes c7.m_module).2.1))
    (hf : cf = { c9 with m_module := (c9.m_module.defVoidType.2.opFunctionCall
        c9.m_module.defVoidType.1 c9.m_vs.fsFunctionId []).2 }) :
    c6.SameInterface cf := by
  have g7 : c6.SameInterface c7 := by
    rw [h7]
    exact ⟨⟨rfl, rfl, rfl, rfl, rfl, rfl, rfl⟩, SpirvModule.ioVarIds_of_varDecls rfl⟩
  have g8 : c7.SameInterface { c7 with m_module := (defVoidFunctionTypes c7.m_module).2.2 } :=
    ⟨⟨rfl, rfl, rfl, rfl, rfl, rfl, by simp⟩, SpirvModule.ioVarIds_of_varDecls (by simp)⟩
  have g9 : c6.SameInterface c9 := by
    rw [h9]
    exact (g7.iface_trans g8).iface_trans ((emitFunctionBegin_sameInterface _ _ _ _).iface_trans
      (emitFunctionLabel_sameInterface _))
  refine g9.iface_trans ?_
  rw [hf]
  exact ⟨⟨rfl, rfl, rfl, rfl, rfl, rfl,
      by simp [SpirvModule.opFunctionCall, SpirvModule.defVoidType]⟩,
    SpirvModule.ioVarIds_of_varDecls
      (by simp [SpirvModule.opFunctionCall, SpirvModule.defVoidType])⟩

theorem emitVsInit_interface (c : GCNCompiler) :
    ∃ (ins : List Nat) (pv : Nat) (outs : List Nat),
      (emitVsInit c).m_entryPointInterfaces = c.m_entryPointInterfaces ++ (ins ++ [pv]) ∧
      (emitVsInit c).m_module.ioVarIds = c.m_module.ioVarIds ++ (ins ++ pv :: outs) ∧
      ins.length = (c.m_shaderInput.vsInputSemantics.getD []).length ∧
      outs.length = (nonPosParams c.m_analysis.expParams).length ∧
      (ins ++ pv :: outs).Pairwise (· < ·) ∧
      (∀ i ∈ ins ++ pv :: outs, c.m_module.m_id ≤ i) ∧
      (emitVsInit c).m_module.entryPoints = c.m_module.entryPoints ∧
      (emitVsInit c).m_programInfo = c.m_programInfo ∧
      (emitVsInit c).m_entryPointId = c.m_entryPointId := by
  obtain ⟨c2, hc2⟩ : ∃ c2 : GCNCompiler, c2 = { c with
      m_module := ((c.m_module.enableCapability .DrawParameters).enableExtension
        "SPV_KHR_shader_draw_parameters") } := ⟨_, rfl⟩
  have ht : (emitDclVertexOutput (emitDclVertexInput c2)).SameInterface (emitVsInit c) := by
    have hv : ∀ c6, c6 = emitEmuFetchShader (emitDclUniformBuffer
        (emitDclVertexOutput (emitDclVertexInput c2))) → c6.SameInterface (emitVsInit c) := by
      intro c6 h6
      simp only [emitVsInit, ← hc2, ← h6]
      exact emitVsInit_tail _ _ _ _ rfl rfl rfl
    exact ((emitDclUniformBuffer_sameInterface _).iface_trans
      (emitEmuFetchShader_sameInterface _)).iface_trans (hv _ rfl)
  have hid : c2.m_module.m_id = c.m_module.m_id := by
    rw [hc2]
    simp only [SpirvModule.enableExtension, SpirvModule.enableCapability]
    split <;> rfl
  have hio : c2.m_module.ioVarIds = c.m_module.ioVarIds := by
    rw [hc2]
    exact SpirvModule.ioVarIds_of_varDecls (by simp)
  have hep : c2.m_module.entryPoints = c.m_module.entryPoints := by
    rw [hc2]
    simp
  have hif : c2.m_entryPointInterfaces = c.m_entryPointInterfaces := by rw [hc2]
  have hsi : c2.m_shaderInput = c.m_shaderInput := by rw [hc2]
  have han : c2.m_analysis = c.m_analysis := by rw [hc2]
  have hpi : c2.m_programInfo = c.m_programInfo := by rw [hc2]
  have hei : c2.m_entryPointId = c.m_entryPointId := by rw [hc2]
  obtain ⟨ins, a1, a2, alen, ab, ap, am, a3, a4, a5, a6, a7⟩ := emitDclVertexInput_interface c2
  obtain ⟨pv, outs, b1, b2, blen, blo, bp, b3, b4, b5, b6, b7⟩ :=
    emitDclVertexOutput_interface (emitDclVertexInput c2)
  obtain ⟨⟨t1, -, t3, -, -, t6, t7⟩, t8⟩ := ht
  have hpw : (ins ++ pv :: outs).Pairwise (· < ·) := by
    rw [List.pairwise_append]
    refine ⟨ap, bp, ?_⟩
    intro i hi j hj
    have h1 := (ab i hi).2
    rcases List.mem_cons.mp hj with rfl | hj
    · omega
    · have := (List.pairwise_cons.mp bp).1 j hj
      omega
  refine ⟨ins, pv, outs, ?_, ?_, ?_, ?_, hpw, ?_, ?_, ?_, ?_⟩
  · rw [t1, b1, a1, hif, List.append_assoc]
  · rw [t8, b2, a2, hio, List.append_assoc]
  · rw [alen, hsi]
  · rw [blen, a5, han]
  · intro i hi
    rcases List.mem_append.mp hi with hi | hi
    · have := (ab i hi).1
      omega
    · rcases List.mem_cons.mp hi with rfl | hi
      · omega
      · have := (List.pairwise_cons.mp bp).1 i hi
        omega
  · rw [t7, b3, a3, hep]
  · rw [t3, b4, a4, hpi]
  · rw [t6, b7, a7, hei]

theorem finalize_vertex (c : GCNCompiler) (h : c.m_programInfo.shaderType = .VertexShader) :
    (finalize c).1.code.entryPoints = c.m_module.entryPoints ++
      [⟨c.m_entryPointId, c.m_programInfo.executionModel, "main", c.m_entryPointInterfaces⟩] ∧
    (finalize c).1.code.ioVarIds = c.m_module.ioVarIds := by
  obtain ⟨⟨t1, -, t3, -, -, t6, t7⟩, t8⟩ := emitVsFinalize_sameInterface c
  simp only [finalize, h, SpirvModule.compile]
  constructor
  · simp [t1, t3, t6, t7]
  · rw [← t8]
    exact SpirvModule.ioVarIds_of_varDecls (by simp)

theorem create_vertex (p : PsslProgramInfo) (a : GcnAnalysisInfo) (si : GcnShaderInput)
    (hp : p.shaderType = .VertexShader) :
    ∃ (ins : List Nat) (pv : Nat) (outs : List Nat),
      (GCNCompiler.create p a si).m_entryPointInterfaces = ins ++ [pv] ∧
      (GCNCompiler.create p a si).m_module.ioVarIds = ins ++ pv :: outs ∧
      ins.length = (si.vsInputSemantics.getD []).length ∧
      outs.length = (nonPosParams a.expParams).length ∧
      (ins ++ pv :: outs).Pairwise (· < ·) ∧
      (GCNCompiler.create p a si).m_module.entryPoints = [] ∧
      (GCNCompiler.create p a si).m_programInfo = p := by
  obtain ⟨c1, hc1⟩ : ∃ c1 : GCNCompiler, c1 =
      { m_module := (((SpirvModule.empty.allocateId.2.addDebugString p.key).2.setDebugSource
          (SpirvModule.empty.allocateId.2.addDebugString p.key).1).setMemoryModel.enableCapability
            .Shader).enableCapability .ImageQuery
        m_sgprs := fun _ => SpirvRegisterPointer.default
        m_vgprs := fun _ => SpirvRegisterPointer.default
        m_constValueTable := fun _ => SpirvLiteralConstant.default
        m_stateRegs := ⟨0, 0⟩
        m_programInfo := p
        m_analysis := a
        m_shaderInput := si
        m_entryPointId := SpirvModule.empty.allocateId.1
        m_entryPointInterfaces := []
        m_insideFunction := false
        m_vs := ⟨0, 0, fun _ => SpirvRegisterPointer.default,
          fun _ => SpirvRegisterPointer.default⟩
        m_perVertexOut := 0
        m_uboId := 0 } := ⟨_, rfl⟩
  have hc : GCNCompiler.create p a si = emitVsInit c1 := by
    simp only [GCNCompiler.create, emitInit, hp, ← hc1]
  have h1 : c1.m_module.ioVarIds = [] := by
    rw [hc1]
    simp [SpirvModule.ioVarIds, SpirvModule.empty]
  have h2 : c1.m_module.entryPoints = [] := by
    rw [hc1]
    simp [SpirvModule.empty]
  have h3 : c1.m_entryPointInterfaces = [] := by rw [hc1]
  have h4 : c1.m_shaderInput = si := by rw [hc1]
  have h5 : c1.m_analysis = a := by rw [hc1]
  have h6 : c1.m_programInfo = p := by rw [hc1]
  obtain ⟨ins, pv, outs, g1, g2, g3, g4, g5, -, g7, g8, -⟩ := emitVsInit_interface c1
  rw [hc]
  refine ⟨ins, pv, outs, ?_, ?_, ?_, ?_, g5, ?_, ?_⟩
  · rw [g1, h3, List.nil_append]
  · rw [g2, h1, List.nil_append]
  · rw [g3, h4]
  · rw [g4, h5]
  · rw [g7, h2]
  · rw [g8, h6]

/-- C20 (code bug). For every vertex-stage input, the interface list that
`finalize` passes to `addEntryPoint` after initialisation is the ids of the
vertex input variables followed by the per-vertex output block, and nothing
else: the module declares, after these, one more `Output` variable per export
parameter record whose target is not `PosMin`, all ids being pairwise distinct,
and none of these variables is in the interface list.  `emitDclVertexInput`
appends each input variable to `m_entryPointInterfaces` and
`emitDclVertexOutput` appends the per-vertex block, but its loop over the export
parameters does not append the variable it declares. -/
theorem finalize_interface_omits_outputs (p : PsslProgramInfo) (a : GcnAnalysisInfo)
    (si : GcnShaderInput) (hp : p.shaderType = .VertexShader) :
    ∃ (ins : List Nat) (pv : Nat) (outs : List Nat),
      (finalize (GCNCompiler.create p a si)).1.code.entryPoints =
        [⟨(GCNCompiler.create p a si).m_entryPointId, p.executionModel, "main",
          ins ++ [pv]⟩] ∧
      (finalize (GCNCompiler.create p a si)).1.code.ioVarIds = ins ++ pv :: outs ∧
      ins.length = (si.vsInputSemantics.getD []).length ∧
      outs.length = (nonPosParams a.expParams).length ∧
      (ins ++ pv :: outs).Nodup ∧
      ∀ o ∈ outs, o ∉ ins ++ [pv] := by
  obtain ⟨ins, pv, outs, h1, h2, h3, h4, h5, h6, h7⟩ := create_vertex p a si hp
  obtain ⟨f1, f2⟩ := finalize_vertex (GCNCompiler.create p a si) (by rw [h7]; exact hp)
  have hnd : (ins ++ pv :: outs).Nodup :=
    List.Pairwise.imp (fun h => Nat.ne_of_lt h) h5
  refine ⟨ins, pv, outs, ?_, ?_, h3, h4, hnd, ?_⟩
  · rw [f1, h6, h1, h7]
    rfl
  · rw [f2, h2]
  · intro o ho hmem
    have hpw := List.pairwise_append.mp h5
    rcases List.mem_append.mp hmem with hi | hi
    · have := hpw.2.2 o hi o (List.mem_cons_of_mem _ ho)
      omega
    · rw [List.mem_singleton] at hi
      have := (List.pairwise_cons.mp hpw.2.1).1 o ho
      omega

/-- Witness of C20: a vertex shader without input semantics and with the one export
parameter record `Param0` (target 32) of four registers: the entry point lists
the interface `[7]`, the per-vertex block, while the module also declares the
`Output` variable 9, decorated with `Location 0`. -/
theorem finalize_interface_omits_outputs_witness :
    (∃ (ins : List Nat) (pv o : Nat),
      (finalize (GCNCompiler.create ⟨.VertexShader, .Vertex, "k"⟩ ⟨[⟨32, [0, 1, 2, 3]⟩]⟩
        ⟨some [], []⟩)).1.code.entryPoints =
        [⟨(GCNCompiler.create ⟨.VertexShader, .Vertex, "k"⟩ ⟨[⟨32, [0, 1, 2, 3]⟩]⟩
          ⟨some [], []⟩).m_entryPointId, .Vertex, "main", ins ++ [pv]⟩] ∧
      (finalize (GCNCompiler.create ⟨.VertexShader, .Vertex, "k"⟩ ⟨[⟨32, [0, 1, 2, 3]⟩]⟩
        ⟨some [], []⟩)).1.code.ioVarIds = ins ++ [pv, o] ∧ o ∉ ins ++ [pv]) ∧
    (finalize (GCNCompiler.create ⟨.VertexShader, .Vertex, "k"⟩ ⟨[⟨32, [0, 1, 2, 3]⟩]⟩
      ⟨some [], []⟩)).1.code.entryPoints = [⟨1, .Vertex, "main", [7]⟩] ∧
    (finalize (GCNCompiler.create ⟨.VertexShader, .Vertex, "k"⟩ ⟨[⟨32, [0, 1, 2, 3]⟩]⟩
      ⟨some [], []⟩)).1.code.varDecls = [⟨6, 7, .Output⟩, ⟨8, 9, .Output⟩] ∧
    (finalize (GCNCompiler.create ⟨.VertexShader, .Vertex, "k"⟩ ⟨[⟨32, [0, 1, 2, 3]⟩]⟩
      ⟨some [], []⟩)).1.code.decorations =
        [.MemberBuiltIn 5 0 .Position, .Block 5, .Location 9 0] := by
  refine ⟨?_, rfl, rfl, rfl⟩
  obtain ⟨ins, pv, outs, h1, h2, -, h4, -, h6⟩ :=
    finalize_interface_omits_outputs ⟨.VertexShader, .Vertex, "k"⟩ ⟨[⟨32, [0, 1, 2, 3]⟩]⟩
      ⟨some [], []⟩ rfl
  have hlen : outs.length = 1 := by
    rw [h4]
    decide
  obtain ⟨o, rfl⟩ := List.length_eq_one.mp hlen
  exact ⟨ins, pv, o, h1, h2, h6 o (List.mem_singleton_self o)⟩

/-! ## Absolute value and negation -/

theorem emitRegisterAbsolute_dispatch (m : SpirvModule) (v : SpirvRegisterValue) :
    (v.type.ctype = .Float32 →
      ∃ r m2 tid, emitRegisterAbsolute m v = .ok (r, m2) ∧ r.type = v.type ∧
        m2.code = m.code ++ [.OpFAbs tid r.id v.id]) ∧
    (v.type.ctype = .Sint32 →
      ∃ r m2 tid, emitRegisterAbsolute m v = .ok (r, m2) ∧ r.type = v.type ∧
        m2.code = m.code ++ [.OpSAbs tid r.id v.id]) ∧
    (v.type.ctype ≠ .Float32 → v.type.ctype ≠ .Sint32 →
      ∃ m1, emitRegisterAbsolute m v = .ok (v, m1) ∧ m1.code = m.code) := by
  have hc := getVectorTypeId_code m v.type
  refine ⟨fun h => ?_, fun h => ?_, fun h1 h2 => ?_⟩
  · have he : emitRegisterAbsolute m v = .ok (⟨v.type, (getVectorTypeId m v.type).2.m_id⟩,
        ((getVectorTypeId m v.type).2.opFAbs (getVectorTypeId m v.type).1 v.id).2) := by
      simp only [emitRegisterAbsolute, h]
      rfl
    exact ⟨_, _, _, he, rfl, congrArg (· ++ _) hc⟩
  · have he : emitRegisterAbsolute m v = .ok (⟨v.type, (getVectorTypeId m v.type).2.m_id⟩,
        ((getVectorTypeId m v.type).2.opSAbs (getVectorTypeId m v.type).1 v.id).2) := by
      simp only [emitRegisterAbsolute, h]
      rfl
    exact ⟨_, _, _, he, rfl, congrArg (· ++ _) hc⟩
  · refine ⟨(getVectorTypeId m v.type).2, ?_, hc⟩
    rcases v with ⟨⟨t, n⟩, i⟩
    cases t <;> first | rfl | exact absurd rfl h1 | exact absurd rfl h2

theorem emitRegisterNegate_float (m : SpirvModule) (v : SpirvRegisterValue)
    (h : v.type.ctype = .Float32 ∨ v.type.ctype = .Float64) :
    emitRegisterNegate m v = .ok (⟨v.type, (getVectorTypeId m v.type).2.m_id⟩,
      ((getVectorTypeId m v.type).2.opFNegate (getVectorTypeId m v.type).1 v.id).2) := by
  rcases h with h | h <;>
  · simp only [emitRegisterNegate, h]
    rfl

theorem emitRegisterNegate_sint (m : SpirvModule) (v : SpirvRegisterValue)
    (h : v.type.ctype = .Sint32 ∨ v.type.ctype = .Sint64) :
    emitRegisterNegate m v = .ok (⟨v.type, (getVectorTypeId m v.type).2.m_id⟩,
      ((getVectorTypeId m v.type).2.opSNegate (getVectorTypeId m v.type).1 v.id).2) := by
  rcases h with h | h <;>
  · simp only [emitRegisterNegate, h]
    rfl

theorem emitRegisterNegate_dispatch (m : SpirvModule) (v : SpirvRegisterValue) :
    (v.type.ctype = .Float32 ∨ v.type.ctype = .Float64 →
      ∃ r m2 tid, emitRegisterNegate m v = .ok (r, m2) ∧ r.type = v.type ∧
        m2.code = m.code ++ [.OpFNegate tid r.id v.id]) ∧
    (v.type.ctype = .Sint32 ∨ v.type.ctype = .Sint64 →
      ∃ r m2 tid, emitRegisterNegate m v = .ok (r, m2) ∧ r.type = v.type ∧
        m2.code = m.code ++ [.OpSNegate tid r.id v.id]) ∧
    (v.type.ctype = .Bool ∨ v.type.ctype = .Uint32 ∨ v.type.ctype = .Uint64 ∨
        v.type.ctype = .Unknown →
      ∃ m1, emitRegisterNegate m v = .ok (v, m1) ∧ m1.code = m.code) := by
  have hc := getVectorTypeId_code m v.type
  refine ⟨fun h => ?_, fun h => ?_, fun h => ?_⟩
  · exact ⟨_, _, _, emitRegisterNegate_float m v h, rfl, congrArg (· ++ _) hc⟩
  · exact ⟨_, _, _, emitRegisterNegate_sint m v h, rfl, congrArg (· ++ _) hc⟩
  · refine ⟨(getVectorTypeId m v.type).2, ?_, hc⟩
    rcases h with h | h | h | h <;> (simp only [emitRegisterNegate, h])

/-- C26 (code bug). `emitRegisterAbsolute` and `emitRegisterNegate` do not
dispatch on the same scalar types: for a value of scalar type `Float64` or
`Sint64`, `emitRegisterAbsolute` takes the `default` case of its switch and
returns the value as it is (same id), appending nothing to the code stream,
whereas `emitRegisterNegate` appends exactly one `OpFNegate` (for `Float64`) or
`OpSNegate` (for `Sint64`) and returns its result with the same vector type. -/
theorem emitRegisterAbsolute_wide_passthrough (m : SpirvModule) (v : SpirvRegisterValue)
    (h : v.type.ctype = .Float64 ∨ v.type.ctype = .Sint64) :
    (∃ m1, emitRegisterAbsolute m v = .ok (v, m1) ∧ m1.code = m.code) ∧
    (∃ r m2 tid, emitRegisterNegate m v = .ok (r, m2) ∧ r.type = v.type ∧
      r.id = (getVectorTypeId m v.type).2.m_id ∧
      m2.code = m.code ++
        [if v.type.ctype = .Float64 then .OpFNegate tid r.id v.id
          else .OpSNegate tid r.id v.id]) := by
  have hc := getVectorTypeId_code m v.type
  rcases h with h | h
  · refine ⟨⟨(getVectorTypeId m v.type).2, (by simp only [emitRegisterAbsolute, h]), hc⟩,
      _, _, (getVectorTypeId m v.type).1, emitRegisterNegate_float m v (Or.inr h), rfl, rfl, ?_⟩
    rw [if_pos h]
    exact congrArg (· ++ _) hc
  · refine ⟨⟨(getVectorTypeId m v.type).2, (by simp only [emitRegisterAbsolute, h]), hc⟩,
      _, _, (getVectorTypeId m v.type).1, emitRegisterNegate_sint m v (Or.inr h), rfl, rfl, ?_⟩
    rw [if_neg (by rw [h]; decide)]
    exact congrArg (· ++ _) hc

/-- Witness of C26: on `sampleModule`, the absolute value of the `Float64`
scalar with id 9 is the value itself and the code stream stays empty, while
its negation is the new id 11, the result of one `OpFNegate`. -/
theorem emitRegisterAbsolute_wide_passthrough_witness :
    (∃ m1, emitRegisterAbsolute sampleModule ⟨⟨.Float64, 1⟩, 9⟩ =
        .ok (⟨⟨.Float64, 1⟩, 9⟩, m1) ∧ m1.code = []) ∧
    (∃ m2, emitRegisterNegate sampleModule ⟨⟨.Float64, 1⟩, 9⟩ =
        .ok (⟨⟨.Float64, 1⟩, 11⟩, m2) ∧ m2.code = [.OpFNegate 10 11 9]) := by
  obtain ⟨⟨m1, h1, h2⟩, -⟩ :=
    emitRegisterAbsolute_wide_passthrough sampleModule ⟨⟨.Float64, 1⟩, 9⟩ (Or.inl rfl)
  exact ⟨⟨m1, h1, h2⟩, _, rfl, rfl⟩

/-! ## Component counts of the results of the value layer -/

theorem emitRegisterInsert_type (m : SpirvModule) (dst src : SpirvRegisterValue)
    (mask : GcnRegMask) (r : SpirvRegisterValue) (m2 : SpirvModule)
    (h : emitRegisterInsert m dst src mask = .ok (r, m2)) : r.type = dst.type := by
  by_cases h0 : mask.popCount = 0
  · simp only [emitRegisterInsert, h0, if_true, Except.ok.injEq, Prod.mk.injEq] at h
    rw [← h.1]
  · by_cases hd : dst.type.ccount = 1
    · simp only [emitRegisterInsert, h0, hd, if_true, if_false, Except.ok.injEq,
        Prod.mk.injEq] at h
      rw [← h.1]
    · by_cases hs : src.type.ccount = 1
      · simp only [emitRegisterInsert, h0, hd, hs, if_true, if_false, Except.ok.injEq,
          Prod.mk.injEq] at h
        rw [← h.1]
      · by_cases h4 : dst.type.ccount > 4
        · simp [emitRegisterInsert, h0, hd, hs, h4] at h
        · simp only [emitRegisterInsert, h0, hd, hs, h4, if_false, Except.ok.injEq,
            Prod.mk.injEq] at h
          rw [← h.1]

theorem emitRegisterExtend_ccount (m : SpirvModule) (v : SpirvRegisterValue) (k : Nat)
    (hk : k ≤ 4) :
    ∃ r m2, emitRegisterExtend m v k = .ok (r, m2) ∧
      r.type.ccount = if k = 1 then v.type.ccount else k := by
  by_cases h1 : k = 1
  · exact ⟨v, m, (by simp only [emitRegisterExtend, h1, if_true]), by simp [h1]⟩
  · have h4 : ¬ k > 4 := by omega
    have hmod : k % ccountModulus = k := Nat.mod_eq_of_lt (by unfold ccountModulus; omega)
    have he : emitRegisterExtend m v k = .ok (⟨⟨v.type.ctype, k % ccountModulus⟩,
        (getVectorTypeId m ⟨v.type.ctype, k % ccountModulus⟩).2.m_id⟩,
        ((getVectorTypeId m ⟨v.type.ctype, k % ccountModulus⟩).2.opCompositeConstruct
          (getVectorTypeId m ⟨v.type.ctype, k % ccountModulus⟩).1
          ([v.id, v.id, v.id, v.id].take k)).2) := by
      simp only [emitRegisterExtend, h1, h4, if_false]
      rfl
    exact ⟨_, _, he, by simp [h1, hmod]⟩

theorem emitRegisterSwizzle_ccount (m : SpirvModule) (v : SpirvRegisterValue)
    (s : GcnRegSwizzle) (mask : GcnRegMask) :
    ∃ r m2, emitRegisterSwizzle m v s mask = .ok (r, m2) ∧
      (r.type.ccount = mask.popCount ∨ r.type.ccount = v.type.ccount) ∧
      (mask.popCount = 0 → 1 ≤ v.type.ccount → r.type.ccount = 0) := by
  by_cases h1 : v.type.ccount = 1
  · obtain ⟨r, m2, he, hc⟩ := emitRegisterExtend_ccount m v mask.popCount mask.popCount_le
    refine ⟨r, m2, (by simp only [emitRegisterSwizzle, h1, if_true]; exact he), ?_, ?_⟩
    · by_cases hp : mask.popCount = 1
      · right
        rw [hc, if_pos hp]
      · left
        rw [hc, if_neg hp]
    · intro h0 _
      rw [hc, if_neg (by omega), h0]
  · have hlen := swizzleIndices_length s mask
    by_cases hi : isIdentitySwizzle (swizzleIndices s mask) v.type.ccount = true
    · refine ⟨v, m, (by simp only [emitRegisterSwizzle, h1, hi, if_true, if_false]),
        Or.inr rfl, ?_⟩
      intro h0 hv
      have := ((isIdentitySwizzle_iff _ _).mp hi).1
      omega
    · by_cases hd : (swizzleIndices s mask).length = 1
      · have he : emitRegisterSwizzle m v s mask = .ok
            (⟨⟨v.type.ctype, (swizzleIndices s mask).length⟩,
              (getVectorTypeId m ⟨v.type.ctype, (swizzleIndices s mask).length⟩).2.m_id⟩,
            ((getVectorTypeId m ⟨v.type.ctype, (swizzleIndices s mask).length⟩).2.opCompositeExtract
              (getVectorTypeId m ⟨v.type.ctype, (swizzleIndices s mask).length⟩).1 v.id
              ((swizzleIndices s mask).take 1)).2) := by
          simp only [emitRegisterSwizzle, h1, hi, hd, if_true, if_false]
          rfl
        exact ⟨_, _, he, Or.inl hlen, fun h0 _ => by omega⟩
      · have he : emitRegisterSwizzle m v s mask = .ok
            (⟨⟨v.type.ctype, (swizzleIndices s mask).length⟩,
              (getVectorTypeId m ⟨v.type.ctype, (swizzleIndices s mask).length⟩).2.m_id⟩,
            ((getVectorTypeId m ⟨v.type.ctype, (swizzleIndices s mask).length⟩).2.opVectorShuffle
              (getVectorTypeId m ⟨v.type.ctype, (swizzleIndices s mask).length⟩).1 v.id v.id
              (swizzleIndices s mask)).2) := by
          simp only [emitRegisterSwizzle, h1, hi, hd, if_false]
          rfl
        exact ⟨_, _, he, Or.inl hlen, fun h0 _ => (show _ = 0 by rw [← h0]; exact hlen)⟩

theorem emitRegisterBitcast_ccount (m : SpirvModule) (v : SpirvRegisterValue)
    (T : SpirvScalarType) (h4 : v.type.ccount ≤ 4) :
    ∃ r m2, emitRegisterBitcast m v T = .ok (r, m2) ∧
      r.type.ccount =
        (if v.type.ctype = T then v.type.ccount
         else if isWideType v.type.ctype = isWideType T then v.type.ccount
         else if isWideType T then v.type.ccount / 2 else 2 * v.type.ccount) := by
  by_cases he : v.type.ctype = T
  · exact ⟨v, m, (by simp only [emitRegisterBitcast, he, if_true]), by simp [he]⟩
  · obtain ⟨r, m2, tid, hr, -, hc, -⟩ := emitRegisterBitcast_of_ne m v T he
    refine ⟨r, m2, hr, ?_⟩
    rw [hc, if_neg he]
    have hmod : v.type.ccount * 2 % ccountModulus = v.type.ccount * 2 :=
      Nat.mod_eq_of_lt (by unfold ccountModulus; omega)
    cases hs : isWideType v.type.ctype <;> cases hT : isWideType T <;>
      (simp [hmod]; try omega)

/-- C27, as stated, fails: the concatenation of two `Float32 × 4` values has 8
components; the swizzle of a `Float32 × 4` value under the empty mask has 0
components; and the bitcast of a `Float32` scalar to `Float64` has 0
components. -/
theorem valueLayer_ccount_counterexample :
    (∃ r m2, emitRegisterConcat sampleModule ⟨⟨.Float32, 4⟩, 7⟩ ⟨⟨.Float32, 4⟩, 8⟩ =
        .ok (r, m2) ∧ r.type.ccount = 8 ∧ ¬ r.type.InRange) ∧
    (∃ r m2, emitRegisterSwizzle sampleModule ⟨⟨.Float32, 4⟩, 7⟩ ⟨0, 1, 2, 3⟩
        ⟨false, false, false, false⟩ = .ok (r, m2) ∧ r.type.ccount = 0 ∧ ¬ r.type.InRange) ∧
    (∃ r m2, emitRegisterBitcast sampleModule ⟨⟨.Float32, 1⟩, 7⟩ .Float64 =
        .ok (r, m2) ∧ r.type.ccount = 0 ∧ ¬ r.type.InRange) :=
  ⟨⟨_, _, rfl, rfl, fun h => absurd h.2 (by decide)⟩,
    ⟨_, _, rfl, rfl, fun h => absurd h.1 (by decide)⟩,
    ⟨_, _, rfl, rfl, fun h => absurd h.1 (by decide)⟩⟩

/-- C27, amended. For input values with between 1 and 4 components:
`emitRegisterInsert` returns a value of the vector type of its destination and
`emitRegisterExtend` to a size `k` in 1..4 returns a value with between 1 and 4
components; `emitRegisterSwizzle` and `emitRegisterExtract` return a value with
between 1 and 4 components when the write mask is not empty, and with 0
components when it is empty; `emitRegisterBitcast` keeps the component count
when the two scalar types are equal or of the same width, halves it (rounding
down) when only the destination is wide and doubles it when only the source is
wide, so its result is in range exactly when the count is at least 2 in the
first of these two cases and at most 2 in the second; `emitRegisterConcat`
returns a value whose component count is the sum of the two counts, in range
exactly when the sum is at most 4. -/
theorem valueLayer_ccount_spec (m : SpirvModule) (v v2 : SpirvRegisterValue)
    (hv : v.type.InRange) (hv2 : v2.type.InRange) :
    (∀ mask, ∃ r m2, emitRegisterInsert m v v2 mask = .ok (r, m2) ∧
      r.type = v.type ∧ r.type.InRange) ∧
    (∀ k, 1 ≤ k → k ≤ 4 → ∃ r m2, emitRegisterExtend m v k = .ok (r, m2) ∧ r.type.InRange) ∧
    (∀ s mask, ∃ r m2, emitRegisterSwizzle m v s mask = .ok (r, m2) ∧
      (mask.popCount ≠ 0 → r.type.InRange) ∧ (mask.popCount = 0 → r.type.ccount = 0)) ∧
    (∀ mask, ∃ r m2, emitRegisterExtract m v mask = .ok (r, m2) ∧
      (mask.popCount ≠ 0 → r.type.InRange) ∧ (mask.popCount = 0 → r.type.ccount = 0)) ∧
    (∀ T, ∃ r m2, emitRegisterBitcast m v T = .ok (r, m2) ∧
      r.type.ccount =
        (if v.type.ctype = T then v.type.ccount
         else if isWideType v.type.ctype = isWideType T then v.type.ccount
         else if isWideType T then v.type.ccount / 2 else 2 * v.type.ccount) ∧
      (r.type.InRange ↔
        (v.type.ctype = T ∨ isWideType v.type.ctype = isWideType T ∨
          (isWideType T = true ∧ 2 ≤ v.type.ccount) ∨
          (isWideType T = false ∧ v.type.ccount ≤ 2)))) ∧
    (∃ r m2, emitRegisterConcat m v v2 = .ok (r, m2) ∧
      r.type.ccount = v.type.ccount + v2.type.ccount ∧
      (r.type.InRange ↔ v.type.ccount + v2.type.ccount ≤ 4)) := by
  obtain ⟨hv1, hv4⟩ := hv
  obtain ⟨hw1, hw4⟩ := hv2
  have hsw : ∀ s mask, ∃ r m2, emitRegisterSwizzle m v s mask = .ok (r, m2) ∧
      (mask.popCount ≠ 0 → r.type.InRange) ∧ (mask.popCount = 0 → r.type.ccount = 0) := by
    intro s mask
    obtain ⟨r, m2, he, hc, h0⟩ := emitRegisterSwizzle_ccount m v s mask
    refine ⟨r, m2, he, fun hp => ?_, fun hp => h0 hp hv1⟩
    have := mask.popCount_le
    rcases hc with hc | hc
    · exact ⟨by omega, by omega⟩
    · exact ⟨by omega, by omega⟩
  refine ⟨fun mask => ?_, fun k hk1 hk4 => ?_, hsw, fun mask => hsw _ mask, fun T => ?_, ?_⟩
  · obtain ⟨r, m2, he⟩ := emitRegisterInsert_ok m v v2 mask (Or.inl hv4)
    have ht := emitRegisterInsert_type m v v2 mask r m2 he
    exact ⟨r, m2, he, ht, by rw [ht]; exact ⟨hv1, hv4⟩⟩
  · obtain ⟨r, m2, he, hc⟩ := emitRegisterExtend_ccount m v k hk4
    refine ⟨r, m2, he, ?_⟩
    by_cases h1 : k = 1
    · rw [if_pos h1] at hc
      exact ⟨by omega, by omega⟩
    · rw [if_neg h1] at hc
      exact ⟨by omega, by omega⟩
  · obtain ⟨r, m2, he, hc⟩ := emitRegisterBitcast_ccount m v T hv4
    refine ⟨r, m2, he, hc, ?_⟩
    unfold SpirvVectorType.InRange
    rw [hc]
    by_cases h1 : v.type.ctype = T
    · simp [h1]
      exact ⟨hv1, hv4⟩
    · by_cases h2 : isWideType v.type.ctype = isWideType T
      · simp [h1, h2]
        exact ⟨hv1, hv4⟩
      · cases hT : isWideType T
        · simp [h1, h2, hT]
          rw [hT] at h2
          simp [h2]
          omega
        · simp [h1, h2, hT]
          rw [hT] at h2
          simp [h2]
          omega
  · have hmod : (v.type.ccount + v2.type.ccount) % ccountModulus =
        v.type.ccount + v2.type.ccount :=
      Nat.mod_eq_of_lt (by unfold ccountModulus; omega)
    refine ⟨_, _, rfl, hmod, ?_⟩
    unfold SpirvVectorType.InRange
    show 1 ≤ (v.type.ccount + v2.type.ccount) % ccountModulus ∧
      (v.type.ccount + v2.type.ccount) % ccountModulus ≤ 4 ↔ _
    rw [hmod]
    omega

/-- Witness of C27 amended: a `Float32 × 2` value and a `Float32 × 2` value on
`sampleModule`; their concatenation has 4 components. -/
theorem valueLayer_ccount_spec_witness :
    ∃ r m2, emitRegisterConcat sampleModule ⟨⟨.Float32, 2⟩, 7⟩ ⟨⟨.Float32, 2⟩, 8⟩ =
      .ok (r, m2) ∧ r.type.ccount = 4 ∧ r.type.InRange := by
  obtain ⟨-, -, -, -, -, r, m2, he, hc, hr⟩ :=
    valueLayer_ccount_spec sampleModule ⟨⟨.Float32, 2⟩, 7⟩ ⟨⟨.Float32, 2⟩, 8⟩
      ⟨by decide, by decide⟩ ⟨by decide, by decide⟩
  exact ⟨r, m2, he, hc, hr.mpr (by decide)⟩

/-! ## Constant writes to the halves of VCC -/

/-- C25 (code bug). A constant write to one half of VCC overwrites the whole
register: for every state and every source that the table knows as a constant
with literal `L`, the store to `VccLo` sets `stateRegs.vcc` to the low 32 bits
of `L`, so bits 32..63 are cleared whatever they were, and the store to `VccHi`
sets it to that value shifted left by 32, so bits 0..31 are cleared.  Nothing
else of the state changes, the table included. -/
theorem emitStoreVCC_overwrites (c : GCNCompiler) (i : Nat) (v : SpirvRegisterValue)
    (hk : (c.m_constValueTable v.id).type ≠ .Unknown) :
    (∃ c1, emitStoreScalarOperand c SDSTVccLo i v = .ok ((), c1) ∧
      c1.m_stateRegs.vcc = (c.m_constValueTable v.id).literalConst % 2 ^ 32 ∧
      c1.m_stateRegs.vcc / 2 ^ 32 = 0 ∧
      c1.m_constValueTable = c.m_constValueTable ∧ c1.m_module = c.m_module) ∧
    (∃ c2, emitStoreScalarOperand c SDSTVccHi i v = .ok ((), c2) ∧
      c2.m_stateRegs.vcc = (c.m_constValueTable v.id).literalConst % 2 ^ 32 * 2 ^ 32 ∧
      c2.m_stateRegs.vcc % 2 ^ 32 = 0 ∧
      c2.m_constValueTable = c.m_constValueTable ∧ c2.m_module = c.m_module) := by
  obtain ⟨hlo, hhi⟩ := emitStoreScalarOperand_vcc_recorded c v i hk
  have hlt : (c.m_constValueTable v.id).literalConst % 2 ^ 32 < 2 ^ 32 :=
    Nat.mod_lt _ (by norm_num)
  refine ⟨⟨_, hlo, rfl, Nat.div_eq_of_lt hlt, rfl, rfl⟩, ⟨_, hhi, ?_, ?_, rfl, rfl⟩⟩
  · show (c.m_constValueTable v.id).literalConst % 2 ^ 32 * 2 ^ 32 % 2 ^ 64 = _
    apply Nat.mod_eq_of_lt
    calc (c.m_constValueTable v.id).literalConst % 2 ^ 32 * 2 ^ 32
        < 2 ^ 32 * 2 ^ 32 := Nat.mul_lt_mul_of_pos_right hlt (by norm_num)
      _ = 2 ^ 64 := by norm_num
  · show (c.m_constValueTable v.id).literalConst % 2 ^ 32 * 2 ^ 32 % 2 ^ 64 % 2 ^ 32 = 0
    have h64 : (2 : Nat) ^ 64 = 2 ^ 32 * 2 ^ 32 := by norm_num
    rw [h64, Nat.mod_mul_left_mod]
    exact Nat.mul_mod_left _ _

/-- Witness of C25: on a state that knows the ids 8 and 9 as the constants 5
and 7 and whose recorded VCC is 0, storing 5 to `VccLo` and then 7 to `VccHi`
records `7 << 32`, not `(7 << 32) | 5`: the low half written first is lost. -/
theorem emitStoreVCC_overwrites_witness :
    ∃ c1 c2,
      emitStoreScalarOperand
        { sampleCompiler with
          m_constValueTable := fun j =>
            if j = 8 then ⟨.Uint32, 5⟩ else if j = 9 then ⟨.Uint32, 7⟩
            else SpirvLiteralConstant.default }
        SDSTVccLo 0 ⟨⟨.Uint32, 1⟩, 8⟩ = .ok ((), c1) ∧
      c1.m_stateRegs.vcc = 5 ∧
      emitStoreScalarOperand c1 SDSTVccHi 0 ⟨⟨.Uint32, 1⟩, 9⟩ = .ok ((), c2) ∧
      c2.m_stateRegs.vcc = 7 * 2 ^ 32 ∧ c2.m_stateRegs.vcc ≠ 7 * 2 ^ 32 + 5 := by
  obtain ⟨⟨c1, h1, hv1, -, ht1, -⟩, -⟩ := emitStoreVCC_overwrites
    { sampleCompiler with
      m_constValueTable := fun j =>
        if j = 8 then ⟨.Uint32, 5⟩ else if j = 9 then ⟨.Uint32, 7⟩
        else SpirvLiteralConstant.default }
    0 ⟨⟨.Uint32, 1⟩, 8⟩ (by decide)
  obtain ⟨-, c2, h2, hv2, -, -, -⟩ := emitStoreVCC_overwrites c1 0 ⟨⟨.Uint32, 1⟩, 9⟩
    (by rw [ht1]; decide)
  rw [ht1] at hv2
  refine ⟨c1, c2, h1, hv1, h2, hv2, ?_⟩
  rw [hv2]
  decide

/-! ## Uniform buffers -/

theorem SpirvModule.DeclExtends.decl_refl (m : SpirvModule) : m.DeclExtends m :=
  ⟨SpirvModule.Extends.refl m, List.prefix_refl _, List.prefix_refl _⟩

theorem SpirvModule.DeclExtends.decl_trans {m3 m2 m1 : SpirvModule} (h32 : m3.DeclExtends m2)
    (h21 : m2.DeclExtends m1) : m3.DeclExtends m1 :=
  ⟨SpirvModule.Extends.trans h32.1 h21.1, h21.2.1.trans h32.2.1, h21.2.2.trans h32.2.2⟩

theorem SpirvModule.defTypeConst_declExtends (m : SpirvModule) (d : SpirvTypeConst) :
    (m.defTypeConst d).2.DeclExtends m := by
  refine ⟨SpirvModule.defTypeConst_extends m d, ?_, ?_⟩
  · unfold SpirvModule.defTypeConst
    split
    · exact List.prefix_refl _
    · exact List.prefix_append _ _
  · rw [SpirvModule.defTypeConst_decorations]

theorem SpirvModule.defTypeUnique_declExtends (m : SpirvModule) (d : SpirvTypeConst) :
    (m.defTypeUnique d).2.DeclExtends m := by
  refine ⟨⟨fun _ h => h, fun d2 j h => ?_⟩, List.prefix_append _ _, List.prefix_refl _⟩
  simp [SpirvModule.defTypeUnique, List.lookup_append, h]

theorem SpirvModule.decorate_declExtends (m : SpirvModule) (d : SpirvDecoration) :
    (m.decorate d).DeclExtends m :=
  ⟨⟨fun _ h => h, fun _ _ h => h⟩, List.prefix_refl _, List.prefix_append _ _⟩

theorem SpirvModule.setDebugName_declExtends (m : SpirvModule) (i : Nat) (n : DebugName) :
    (m.setDebugName i n).DeclExtends m :=
  ⟨⟨fun _ h => h, fun _ _ h => h⟩, List.prefix_refl _, List.prefix_refl _⟩

theorem SpirvModule.setDebugMemberName_declExtends (m : SpirvModule) (i k : Nat)
    (n : DebugName) : (m.setDebugMemberName i k n).DeclExtends m :=
  ⟨⟨fun _ h => h, fun _ _ h => h⟩, List.prefix_refl _, List.prefix_refl _⟩

theorem SpirvModule.newVar_declExtends (m : SpirvModule) (t : Nat) (sc : SpvStorageClass) :
    (m.newVar t sc).2.DeclExtends m :=
  ⟨⟨fun _ h => h, fun _ _ h => h⟩, List.prefix_refl _, List.prefix_refl _⟩

theorem SpirvModule.constu32_declExtends (m : SpirvModule) (v : Nat) :
    (m.constu32 v).2.DeclExtends m :=
  (SpirvModule.defTypeConst_declExtends _ _).decl_trans
    (SpirvModule.defTypeConst_declExtends m _)

theorem SpirvModule.IsConstU32.const_mono {m m2 : SpirvModule} {i v : Nat} (h : m.IsConstU32 i v)
    (he : m2.Extends m) : m2.IsConstU32 i v := by
  obtain ⟨t, h1, h2⟩ := h
  exact ⟨t, he.2 _ _ h1, he.2 _ _ h2⟩

theorem SpirvModule.IsUniformBlock.block_mono {m m2 : SpirvModule} {v : SpirvVariable} {s i : Nat}
    (h : m.IsUniformBlock v s i) (he : m2.DeclExtends m) : m2.IsUniformBlock v s i := by
  obtain ⟨f32, lenId, arrayId, structId, h1, h2, h3, h4, h5, h6, h7, h8, h9, h10, h11⟩ := h
  exact ⟨f32, lenId, arrayId, structId, he.1.2 _ _ h1, h2.const_mono he.1, he.2.1.subset h3,
    he.2.2.subset h4, he.2.1.subset h5, he.2.2.subset h6, he.2.2.subset h7, he.1.2 _ _ h8, h9,
    he.2.2.subset h10, he.2.2.subset h11⟩

theorem resourceBindingsOf_append (l1 l2 : List SpirvDecoration) :
    resourceBindingsOf (l1 ++ l2) = resourceBindingsOf l1 ++ resourceBindingsOf l2 := by
  simp [resourceBindingsOf, List.filter_append]

theorem emitDclUniformBufferStep_vsharp (c : GCNCompiler) (index : Nat) (res : GcnResourceEntry)
    (h : res.type = .VSharp) :
    (emitDclUniformBufferStep (c, index) res).2 = index + 1 ∧
    ∃ v : SpirvVariable,
      (emitDclUniformBufferStep (c, index) res).1.m_module.varDecls =
        c.m_module.varDecls ++ [v] ∧
      (emitDclUniformBufferStep (c, index) res).1.m_module.IsUniformBlock v res.stride index ∧
      (emitDclUniformBufferStep (c, index) res).1.m_module.DeclExtends c.m_module ∧
      resourceBindingsOf (emitDclUniformBufferStep (c, index) res).1.m_module.decorations =
        resourceBindingsOf c.m_module.decorations ++
          [.DescriptorSet v.id index, .Binding v.id index] ∧
      (emitDclUniformBufferStep (c, index) res).1.m_shaderInput = c.m_shaderInput := by
  obtain ⟨f32, hf32⟩ : ∃ x, x = (c.m_module.defFloatType 32).1 := ⟨_, rfl⟩
  obtain ⟨m1, hm1⟩ : ∃ x, x = (c.m_module.defFloatType 32).2 := ⟨_, rfl⟩
  obtain ⟨lenId, hlen⟩ : ∃ x, x = (m1.constu32 (res.stride / 4)).1 := ⟨_, rfl⟩
  obtain ⟨m2, hm2⟩ : ∃ x, x = (m1.constu32 (res.stride / 4)).2 := ⟨_, rfl⟩
  obtain ⟨arrayId, harr⟩ : ∃ x, x = (m2.defArrayTypeUnique f32 lenId).1 := ⟨_, rfl⟩
  obtain ⟨m3, hm3⟩ : ∃ x, x = (m2.defArrayTypeUnique f32 lenId).2 := ⟨_, rfl⟩
  obtain ⟨m4, hm4⟩ : ∃ x, x = m3.decorateArrayStride arrayId res.stride := ⟨_, rfl⟩
  obtain ⟨structId, hst⟩ : ∃ x, x = (m4.defStructTypeUnique [arrayId]).1 := ⟨_, rfl⟩
  obtain ⟨m5, hm5⟩ : ∃ x, x = (m4.defStructTypeUnique [arrayId]).2 := ⟨_, rfl⟩
  obtain ⟨m6, hm6⟩ : ∃ x, x = m5.decorateBlock structId := ⟨_, rfl⟩
  obtain ⟨m7, hm7⟩ : ∃ x, x = m6.memberDecorateOffset structId 0 0 := ⟨_, rfl⟩
  obtain ⟨m9, hm9⟩ : ∃ x, x = (m7.setDebugName structId
    ⟨"UniformBufferObject", none⟩).setDebugMemberName structId 0 ⟨"data", none⟩ := ⟨_, rfl⟩
  obtain ⟨ptrId, hptr⟩ : ∃ x, x = (m9.defPointerType structId .Uniform).1 := ⟨_, rfl⟩
  obtain ⟨m10, hm10⟩ : ∃ x, x = (m9.defPointerType structId .Uniform).2 := ⟨_, rfl⟩
  obtain ⟨uboId, hubo⟩ : ∃ x, x = (m10.newVar ptrId .Uniform).1 := ⟨_, rfl⟩
  obtain ⟨m11, hm11⟩ : ∃ x, x = (m10.newVar ptrId .Uniform).2 := ⟨_, rfl⟩
  obtain ⟨m12, hm12⟩ : ∃ x, x = m11.decorateDescriptorSet uboId index := ⟨_, rfl⟩
  obtain ⟨m14, hm14⟩ : ∃ x, x = (m12.decorateBinding uboId index).setDebugName uboId
    ⟨"ubo", none⟩ := ⟨_, rfl⟩
  have hstep : emitDclUniformBufferStep (c, index) res =
      ({ c with m_module := m14, m_uboId := uboId }, index + 1) := by
    simp only [emitDclUniformBufferStep, h]
    rw [hm14, hm12, hubo, hm11, hptr, hm10, hm9, hm7, hm6, hst, hm5, hm4, harr, hm3, hlen, hm2,
      hf32, hm1]
  -- how each module extends the earlier ones
  have e1 : m1.DeclExtends c.m_module := hm1 ▸ SpirvModule.defTypeConst_declExtends _ _
  have e2 : m2.DeclExtends m1 := hm2 ▸ SpirvModule.constu32_declExtends _ _
  have e3 : m3.DeclExtends m2 := hm3 ▸ SpirvModule.defTypeUnique_declExtends _ _
  have e4 : m4.DeclExtends m3 := hm4 ▸ SpirvModule.decorate_declExtends _ _
  have e5 : m5.DeclExtends m4 := hm5 ▸ SpirvModule.defTypeUnique_declExtends _ _
  have e6 : m6.DeclExtends m5 := hm6 ▸ SpirvModule.decorate_declExtends _ _
  have e7 : m7.DeclExtends m6 := hm7 ▸ SpirvModule.decorate_declExtends _ _
  have e9 : m9.DeclExtends m7 := hm9 ▸ (SpirvModule.setDebugMemberName_declExtends _ _ _ _).decl_trans
    (SpirvModule.setDebugName_declExtends _ _ _)
  have e10 : m10.DeclExtends m9 := hm10 ▸ SpirvModule.defTypeConst_declExtends _ _
  have e11 : m11.DeclExtends m10 := hm11 ▸ SpirvModule.newVar_declExtends _ _ _
  have e12 : m12.DeclExtends m11 := hm12 ▸ SpirvModule.decorate_declExtends _ _
  have e14 : m14.DeclExtends m12 := hm14 ▸ (SpirvModule.setDebugName_declExtends _ _ _).decl_trans
    (SpirvModule.decorate_declExtends _ _)
  have f12 : m14.DeclExtends m11 := e14.decl_trans e12
  have f10 : m14.DeclExtends m10 := f12.decl_trans e11
  have f9 : m14.DeclExtends m9 := f10.decl_trans e10
  have f7 : m14.DeclExtends m7 := f9.decl_trans e9
  have f6 : m14.DeclExtends m6 := f7.decl_trans e7
  have f5 : m14.DeclExtends m5 := f6.decl_trans e6
  have f4 : m14.DeclExtends m4 := f5.decl_trans e5
  have f3 : m14.DeclExtends m3 := f4.decl_trans e4
  have f2 : m14.DeclExtends m2 := f3.decl_trans e3
  have f1 : m14.DeclExtends m1 := f2.decl_trans e2
  have f0 : m14.DeclExtends c.m_module := f1.decl_trans e1
  -- the declared sections
  have hvar : m14.varDecls = c.m_module.varDecls ++ [⟨ptrId, uboId, .Uniform⟩] := by
    rw [hm14, hm12, hm11, hubo]
    simp [SpirvModule.decorateBinding, SpirvModule.decorateDescriptorSet, hm10, hm9, hm7, hm6,
      hm5, hm4, hm3, hm2, hm1, SpirvModule.defPointerType, SpirvModule.decorateBlock,
      SpirvModule.memberDecorateOffset, SpirvModule.defStructTypeUnique,
      SpirvModule.decorateArrayStride, SpirvModule.defArrayTypeUnique, SpirvModule.constu32,
      SpirvModule.defIntType, SpirvModule.defFloatType]
  have hdec11 : resourceBindingsOf m11.decorations = resourceBindingsOf c.m_module.decorations := by
    simp [hm11, hm10, hm9, hm7, hm6, hm5, hm4, hm3, hm2, hm1, SpirvModule.defPointerType,
      SpirvModule.decorateBlock, SpirvModule.memberDecorateOffset,
      SpirvModule.defStructTypeUnique, SpirvModule.decorateArrayStride,
      SpirvModule.defArrayTypeUnique, SpirvModule.constu32, SpirvModule.defIntType,
      SpirvModule.defFloatType, resourceBindingsOf_append, resourceBindingsOf]
  have hdec : resourceBindingsOf m14.decorations = resourceBindingsOf c.m_module.decorations ++
      [.DescriptorSet uboId index, .Binding uboId index] := by
    rw [← hdec11, hm14, hm12]
    simp [SpirvModule.decorateBinding, SpirvModule.decorateDescriptorSet,
      resourceBindingsOf_append, resourceBindingsOf]
  rw [hstep]
  refine ⟨rfl, ⟨ptrId, uboId, .Uniform⟩, hvar, ?_, f0, hdec, rfl⟩
  refine ⟨f32, lenId, arrayId, structId, ?_, ?_, ?_, ?_, ?_, ?_, ?_, ?_, rfl, ?_, ?_⟩
  · exact f1.1.2 _ _ (by rw [hm1, hf32]; exact SpirvModule.defTypeConst_lookup _ _)
  · exact SpirvModule.IsConstU32.const_mono
      (by rw [hm2, hlen]; exact SpirvModule.constu32_isConst _ _) f2.1
  · exact f3.2.1.subset (by rw [hm3, harr]; simp [SpirvModule.defArrayTypeUnique,
      SpirvModule.defTypeUnique])
  · exact f4.2.2.subset (by rw [hm4]; simp [SpirvModule.decorateArrayStride,
      SpirvModule.decorate])
  · exact f5.2.1.subset (by rw [hm5, hst]; simp [SpirvModule.defStructTypeUnique,
      SpirvModule.defTypeUnique])
  · exact f6.2.2.subset (by rw [hm6]; simp [SpirvModule.decorateBlock, SpirvModule.decorate])
  · exact f7.2.2.subset (by rw [hm7]; simp [SpirvModule.memberDecorateOffset,
      SpirvModule.decorate])
  · exact f10.1.2 _ _ (by rw [hm10, hptr]; exact SpirvModule.defTypeConst_lookup _ _)
  · exact e14.2.2.subset (by rw [hm12]; simp [SpirvModule.decorateDescriptorSet,
      SpirvModule.decorate])
  · rw [hm14]
    simp [SpirvModule.decorateBinding, SpirvModule.decorate, SpirvModule.setDebugName]

theorem emitDclUniformBufferStep_other (c : GCNCompiler) (index : Nat)
    (res : GcnResourceEntry) (h : res.type ≠ .VSharp) :
    emitDclUniformBufferStep (c, index) res = (c, index + 1) := by
  cases hres : res.type with
  | VSharp => exact absurd hres h
  | SSharp => simp only [emitDclUniformBufferStep, hres]
  | TSharp => simp only [emitDclUniformBufferStep, hres]

theorem vsharpEntries_cons (r : GcnResourceEntry) (l : List GcnResourceEntry) (start : Nat) :
    vsharpEntries (r :: l) start =
      if r.type = .VSharp then (start, r) :: vsharpEntries l (start + 1)
      else vsharpEntries l (start + 1) := by
  by_cases h : r.type = .VSharp <;> simp [vsharpEntries, List.enumFrom, List.filter_cons, h]

theorem vsharpEntries_length (l : List GcnResourceEntry) (start : Nat) :
    (vsharpEntries l start).length = l.countP (fun r => decide (r.type = .VSharp)) := by
  induction l generalizing start with
  | nil => rfl
  | cons r rest ih =>
    rw [vsharpEntries_cons]
    by_cases h : r.type = .VSharp
    · simp [h, ih, List.countP_cons]
    · simp [h, ih, List.countP_cons]

theorem emitDclUniformBuffer_fold_spec (l : List GcnResourceEntry) (c : GCNCompiler)
    (index : Nat) :
    ∃ vars : List SpirvVariable,
      (l.foldl emitDclUniformBufferStep (c, index)).1.m_module.varDecls =
        c.m_module.varDecls ++ vars ∧
      List.Forall₂ (fun p v =>
          (l.foldl emitDclUniformBufferStep (c, index)).1.m_module.IsUniformBlock v
            p.2.stride p.1)
        (vsharpEntries l index) vars ∧
      (l.foldl emitDclUniformBufferStep (c, index)).1.m_module.DeclExtends c.m_module ∧
      resourceBindingsOf (l.foldl emitDclUniformBufferStep (c, index)).1.m_module.decorations =
        resourceBindingsOf c.m_module.decorations ++
          ((vsharpEntries l index).zip vars).flatMap
            (fun q => [.DescriptorSet q.2.id q.1.1, .Binding q.2.id q.1.1]) := by
  induction l generalizing c index with
  | nil =>
    exact ⟨[], by simp, by simp [vsharpEntries], SpirvModule.DeclExtends.decl_refl _,
      by simp [vsharpEntries]⟩
  | cons r rest ih =>
    rw [List.foldl_cons, vsharpEntries_cons]
    by_cases h : r.type = .VSharp
    · obtain ⟨hidx, v, hv, hb, he, hd, -⟩ := emitDclUniformBufferStep_vsharp c index r h
      obtain ⟨vars, hv2, hf2, he2, hd2⟩ := ih (emitDclUniformBufferStep (c, index) r).1 (index + 1)
      have hst : emitDclUniformBufferStep (c, index) r =
          ((emitDclUniformBufferStep (c, index) r).1, index + 1) := by
        rw [← hidx]
      rw [hst, if_pos h]
      refine ⟨v :: vars, ?_, List.Forall₂.cons (hb.block_mono he2) hf2, he2.decl_trans he, ?_⟩
      · rw [hv2, hv]
        simp
      · rw [hd2, hd]
        simp [List.zip_cons_cons, List.flatMap_cons]
    · rw [emitDclUniformBufferStep_other c index r h, if_neg h]
      exact ih c (index + 1)

/-- C21. For every compiler state, `emitDclUniformBuffer` appends to the
declared variables exactly one variable per V# entry of the resource list, in
order, and nothing for the S# and T# entries.  The variable of the V# entry at
position `i` (counting the entries of every type) with stride `s` has storage
class `Uniform`; its type is the pointer to a struct with a single member,
decorated `Block` and with member 0 at offset 0; that member is the array of
32-bit floats whose length is the constant `s / 4`, decorated
`ArrayStride = s`; and the variable is decorated `DescriptorSet = i` and
`Binding = i`.  These are the only `DescriptorSet` and `Binding` decorations
that are added. -/
theorem emitDclUniformBuffer_spec (c : GCNCompiler) :
    ∃ vars : List SpirvVariable,
      (emitDclUniformBuffer c).m_module.varDecls = c.m_module.varDecls ++ vars ∧
      vars.length =
        c.m_shaderInput.resourceBuffer.countP (fun r => decide (r.type = .VSharp)) ∧
      List.Forall₂ (fun p v =>
          (emitDclUniformBuffer c).m_module.IsUniformBlock v p.2.stride p.1)
        (vsharpEntries c.m_shaderInput.resourceBuffer 0) vars ∧
      resourceBindingsOf (emitDclUniformBuffer c).m_module.decorations =
        resourceBindingsOf c.m_module.decorations ++
          ((vsharpEntries c.m_shaderInput.resourceBuffer 0).zip vars).flatMap
            (fun q => [.DescriptorSet q.2.id q.1.1, .Binding q.2.id q.1.1]) := by
  obtain ⟨vars, hv, hf, -, hd⟩ :=
    emitDclUniformBuffer_fold_spec c.m_shaderInput.resourceBuffer c 0
  exact ⟨vars, hv, by rw [← hf.length_eq, vsharpEntries_length], hf, hd⟩

/-- Witness of C21: on `sampleCompiler` with the resource list of one V# of
stride 64, one `Uniform` variable (id 15) is declared; its type (id 14) points
to the struct 13 whose only member is the array 12 of floats (type id 2) of
length the constant 16 (id 11), with `ArrayStride` 64, and the variable has
`DescriptorSet` 0 and `Binding` 0. -/
theorem emitDclUniformBuffer_spec_witness :
    (∃ v : SpirvVariable,
      (emitDclUniformBuffer { sampleCompiler with
        m_shaderInput := ⟨none, [⟨.VSharp, 64⟩]⟩ }).m_module.varDecls = [v] ∧
      (emitDclUniformBuffer { sampleCompiler with
        m_shaderInput := ⟨none, [⟨.VSharp, 64⟩]⟩ }).m_module.IsUniformBlock v 64 0) ∧
    (emitDclUniformBuffer { sampleCompiler with
      m_shaderInput := ⟨none, [⟨.VSharp, 64⟩]⟩ }).m_module.varDecls = [⟨14, 15, .Uniform⟩] ∧
    (emitDclUniformBuffer { sampleCompiler with
      m_shaderInput := ⟨none, [⟨.VSharp, 64⟩]⟩ }).m_module.typeConstDefs =
      [(.OpTypeInt 32 1, 1), (.OpTypeFloat 32, 2), (.OpTypeVector 2 4, 3),
       (.OpTypeInt 32 0, 10), (.OpConstantU32 10 16, 11), (.OpTypeArray 2 11, 12),
       (.OpTypeStruct [12], 13), (.OpTypePointer .Uniform 13, 14)] ∧
    (emitDclUniformBuffer { sampleCompiler with
      m_shaderInput := ⟨none, [⟨.VSharp, 64⟩]⟩ }).m_module.decorations =
      [.ArrayStride 12 64, .Block 13, .MemberOffset 13 0 0, .DescriptorSet 15 0,
       .Binding 15 0] := by
  refine ⟨?_, rfl, rfl, rfl⟩
  obtain ⟨vars, hv, hl, hf, -⟩ := emitDclUniformBuffer_spec
    { sampleCompiler with m_shaderInput := ⟨none, [⟨.VSharp, 64⟩]⟩ }
  have hlen : vars.length = 1 := hl
  obtain ⟨v, rfl⟩ := List.length_eq_one.mp hlen
  have hf2 : List.Forall₂ _ [((0 : Nat), (⟨.VSharp, 64⟩ : GcnResourceEntry))] [v] := hf
  exact ⟨v, hv, (List.forall₂_cons.mp hf2).1⟩

/-! ## The code stream and the id counter under the builder calls -/

@[simp] theorem SpirvModule.defTypeUnique_code (m : SpirvModule) (d : SpirvTypeConst) :
    ((m.defTypeUnique d).2).code = m.code := rfl

@[simp] theorem SpirvModule.emitResult_code (m : SpirvModule) (mk : Nat → SpirvInstr) :
    ((m.emitResult mk).2).code = m.code ++ [mk m.m_id] := rfl

@[simp] theorem SpirvModule.emitPlain_code (m : SpirvModule) (i : SpirvInstr) :
    ((m.emitPlain i)).code = m.code ++ [i] := rfl

@[simp] theorem SpirvModule.opStore_code (m : SpirvModule) (p v : Nat) :
    ((m.opStore p v)).code = m.code ++ [.OpStore p v] := rfl

@[simp] theorem SpirvModule.allocateId_code (m : SpirvModule) :
    (m.allocateId.2).code = m.code := rfl

@[simp] theorem SpirvModule.setDebugName_code (m : SpirvModule) (i : Nat) (n : DebugName) :
    ((m.setDebugName i n)).code = m.code := rfl

@[simp] theorem SpirvModule.setDebugMemberName_code (m : SpirvModule) (i k : Nat) (n : DebugName) :
    ((m.setDebugMemberName i k n)).code = m.code := rfl

@[simp] theorem SpirvModule.addDebugString_code (m : SpirvModule) (t : String) :
    ((m.addDebugString t).2).code = m.code := rfl

@[simp] theorem SpirvModule.setDebugSource_code (m : SpirvModule) (i : Nat) :
    ((m.setDebugSource i)).code = m.code := rfl

@[simp] theorem SpirvModule.setMemoryModel_code (m : SpirvModule) :
    (m.setMemoryModel).code = m.code := rfl

@[simp] theorem SpirvModule.enableExtension_code (m : SpirvModule) (n : String) :
    ((m.enableExtension n)).code = m.code := rfl

@[simp] theorem SpirvModule.newVar_code (m : SpirvModule) (t : Nat) (sc : SpvStorageClass) :
    ((m.newVar t sc).2).code = m.code := rfl

@[simp] theorem SpirvModule.decorate_code (m : SpirvModule) (d : SpirvDecoration) :
    ((m.decorate d)).code = m.code := rfl

@[simp] theorem SpirvModule.addEntryPoint_code (m : SpirvModule) (i : Nat) (em : SpvExecutionModel) (n : String) (l : List Nat) :
    ((m.addEntryPoint i em n l)).code = m.code := rfl

theorem SpirvModule.Declares.declares_refl (m : SpirvModule) : m.Declares m :=
  ⟨rfl, le_refl _, List.prefix_refl _⟩

theorem SpirvModule.Declares.declares_trans {m1 m2 m3 : SpirvModule} (h12 : m1.Declares m2)
    (h23 : m2.Declares m3) : m1.Declares m3 :=
  ⟨h23.1.trans h12.1, le_trans h12.2.1 h23.2.1, h12.2.2.trans h23.2.2⟩

theorem SpirvModule.defTypeConst_declares (m : SpirvModule) (d : SpirvTypeConst) :
    m.Declares (m.defTypeConst d).2 := by
  unfold SpirvModule.defTypeConst
  split
  · exact SpirvModule.Declares.declares_refl m
  · exact ⟨rfl, Nat.le_succ _, List.prefix_refl _⟩

theorem SpirvModule.defTypeUnique_declares (m : SpirvModule) (d : SpirvTypeConst) :
    m.Declares (m.defTypeUnique d).2 :=
  ⟨rfl, Nat.le_succ _, List.prefix_refl _⟩

theorem SpirvModule.newVar_declares (m : SpirvModule) (t : Nat) (sc : SpvStorageClass) :
    m.Declares (m.newVar t sc).2 :=
  ⟨rfl, Nat.le_succ _, List.prefix_refl _⟩

theorem SpirvModule.allocateId_declares (m : SpirvModule) : m.Declares m.allocateId.2 :=
  ⟨rfl, Nat.le_succ _, List.prefix_refl _⟩

theorem SpirvModule.decorate_declares (m : SpirvModule) (d : SpirvDecoration) :
    m.Declares (m.decorate d) :=
  ⟨rfl, le_refl _, List.prefix_refl _⟩

theorem SpirvModule.setDebugName_declares (m : SpirvModule) (i : Nat) (n : DebugName) :
    m.Declares (m.setDebugName i n) :=
  ⟨rfl, le_refl _, List.prefix_append _ _⟩

theorem SpirvModule.setDebugMemberName_declares (m : SpirvModule) (i k : Nat)
    (n : DebugName) : m.Declares (m.setDebugMemberName i k n) :=
  ⟨rfl, le_refl _, List.prefix_append _ _⟩

theorem SpirvModule.enableCapability_declares (m : SpirvModule) (cap : SpvCapability) :
    m.Declares (m.enableCapability cap) := by
  unfold SpirvModule.enableCapability
  split
  · exact SpirvModule.Declares.declares_refl m
  · exact ⟨rfl, le_refl _, List.prefix_refl _⟩

theorem SpirvModule.enableExtension_declares (m : SpirvModule) (n : String) :
    m.Declares (m.enableExtension n) :=
  ⟨rfl, le_refl _, List.prefix_refl _⟩

theorem GCNCompiler.SameCode.same_refl (c : GCNCompiler) : c.SameCode c :=
  ⟨SpirvModule.Declares.declares_refl _, rfl, rfl, rfl, rfl, rfl, rfl, rfl, rfl⟩

theorem GCNCompiler.SameCode.same_trans {c1 c2 c3 : GCNCompiler} (h12 : c1.SameCode c2)
    (h23 : c2.SameCode c3) : c1.SameCode c3 := by
  obtain ⟨a1, b1, d1, e1, f1, g1, i1, j1, k1⟩ := h12
  obtain ⟨a2, b2, d2, e2, f2, g2, i2, j2, k2⟩ := h23
  exact ⟨a1.declares_trans a2, b2.trans b1, d2.trans d1, e2.trans e1, f2.trans f1,
    g2.trans g1, i2.trans i1, j2.trans j1, k2.trans k1⟩

theorem emitDclFloatVectorVar_declares (m : SpirvModule) (t : SpirvScalarType) (n : Nat)
    (sc : SpvStorageClass) (name : Option DebugName) :
    m.Declares (emitDclFloatVectorVar m t n sc name).2 := by
  cases name with
  | none =>
    simp only [emitDclFloatVectorVar, emitDclFloatVectorType, SpirvModule.defFloatType,
      SpirvModule.defVectorType, SpirvModule.defPointerType]
    repeat (first
      | exact SpirvModule.Declares.declares_refl _
      | refine SpirvModule.Declares.declares_trans ?_ (SpirvModule.newVar_declares _ _ _)
      | refine SpirvModule.Declares.declares_trans ?_ (SpirvModule.defTypeConst_declares _ _))
  | some nm =>
    simp only [emitDclFloatVectorVar, emitDclFloatVectorType, SpirvModule.defFloatType,
      SpirvModule.defVectorType, SpirvModule.defPointerType]
    repeat (first
      | exact SpirvModule.Declares.declares_refl _
      | refine SpirvModule.Declares.declares_trans ?_ (SpirvModule.setDebugName_declares _ _ _)
      | refine SpirvModule.Declares.declares_trans ?_ (SpirvModule.newVar_declares _ _ _)
      | refine SpirvModule.Declares.declares_trans ?_ (SpirvModule.defTypeConst_declares _ _))

theorem SpirvModule.Declares.by_setDebugName {m m2 : SpirvModule} {i : Nat} {n : DebugName}
    (h : m.Declares m2) : m.Declares (m2.setDebugName i n) :=
  h.declares_trans (SpirvModule.setDebugName_declares _ _ _)

theorem SpirvModule.Declares.by_setDebugMemberName {m m2 : SpirvModule} {i k : Nat}
    {n : DebugName} (h : m.Declares m2) : m.Declares (m2.setDebugMemberName i k n) :=
  h.declares_trans (SpirvModule.setDebugMemberName_declares _ _ _ _)

theorem SpirvModule.Declares.by_decorate {m m2 : SpirvModule} {d : SpirvDecoration}
    (h : m.Declares m2) : m.Declares (m2.decorate d) :=
  h.declares_trans (SpirvModule.decorate_declares _ _)

theorem SpirvModule.Declares.by_newVar {m m2 : SpirvModule} {t : Nat} {sc : SpvStorageClass}
    (h : m.Declares m2) : m.Declares (m2.newVar t sc).2 :=
  h.declares_trans (SpirvModule.newVar_declares _ _ _)

theorem SpirvModule.Declares.by_defTypeUnique {m m2 : SpirvModule} {d : SpirvTypeConst}
    (h : m.Declares m2) : m.Declares (m2.defTypeUnique d).2 :=
  h.declares_trans (SpirvModule.defTypeUnique_declares _ _)

theorem SpirvModule.Declares.by_defTypeConst {m m2 : SpirvModule} {d : SpirvTypeConst}
    (h : m.Declares m2) : m.Declares (m2.defTypeConst d).2 :=
  h.declares_trans (SpirvModule.defTypeConst_declares _ _)

theorem SpirvModule.Declares.by_emitDclFloatVectorVar {m m2 : SpirvModule}
    {t : SpirvScalarType} {n : Nat} {sc : SpvStorageClass} {name : Option DebugName}
    (h : m.Declares m2) : m.Declares (emitDclFloatVectorVar m2 t n sc name).2 :=
  h.declares_trans (emitDclFloatVectorVar_declares _ _ _ _ _)

theorem emitDclVertexInputStep_sameCode (c : GCNCompiler) (sem : VertexInputSemantic) :
    c.SameCode (emitDclVertexInputStep c sem) := by
  refine ⟨?_, rfl, rfl, rfl, rfl, rfl, rfl, rfl, rfl⟩
  simp only [emitDclVertexInputStep, SpirvModule.decorateLocation, SpirvModule.decorateBinding,
      SpirvModule.decorateDescriptorSet, SpirvModule.decorateBlock,
      SpirvModule.decorateArrayStride, SpirvModule.memberDecorateOffset,
      SpirvModule.memberDecorateBuiltIn, SpirvModule.defPointerType,
      SpirvModule.defStructTypeUnique, SpirvModule.defArrayTypeUnique, SpirvModule.constu32,
      SpirvModule.defIntType, SpirvModule.defFloatType, SpirvModule.defVectorType]
  repeat (first
      | with_reducible exact SpirvModule.Declares.declares_refl _
      | with_reducible apply SpirvModule.Declares.by_setDebugName
      | with_reducible apply SpirvModule.Declares.by_setDebugMemberName
      | with_reducible apply SpirvModule.Declares.by_decorate
      | with_reducible apply SpirvModule.Declares.by_newVar
      | with_reducible apply SpirvModule.Declares.by_defTypeUnique
      | with_reducible apply SpirvModule.Declares.by_defTypeConst
      | with_reducible apply SpirvModule.Declares.by_emitDclFloatVectorVar)

theorem emitDclVertexInput_sameCode (c : GCNCompiler) : c.SameCode (emitDclVertexInput c) := by
  unfold emitDclVertexInput
  cases c.m_shaderInput.vsInputSemantics with
  | none => exact GCNCompiler.SameCode.same_refl c
  | some l =>
    simp only
    induction l generalizing c with
    | nil => exact GCNCompiler.SameCode.same_refl c
    | cons sem rest ih =>
      rw [List.foldl_cons]
      exact (emitDclVertexInputStep_sameCode c sem).same_trans (ih _)

theorem emitDclVertexOutputStep_sameCode (c : GCNCompiler) (loc : Nat) (e : GcnExportInfo) :
    c.SameCode (emitDclVertexOutputStep (c, loc) e).1 := by
  by_cases h : e.target = TGTExpPosMin
  · rw [emitDclVertexOutputStep_posMin c loc e h]
    exact GCNCompiler.SameCode.same_refl c
  · simp only [emitDclVertexOutputStep, h, if_false]
    refine ⟨?_, rfl, rfl, rfl, rfl, rfl, rfl, rfl, rfl⟩
    simp only [SpirvModule.decorateLocation, SpirvModule.decorateBinding,
      SpirvModule.decorateDescriptorSet, SpirvModule.decorateBlock,
      SpirvModule.decorateArrayStride, SpirvModule.memberDecorateOffset,
      SpirvModule.memberDecorateBuiltIn, SpirvModule.defPointerType,
      SpirvModule.defStructTypeUnique, SpirvModule.defArrayTypeUnique, SpirvModule.constu32,
      SpirvModule.defIntType, SpirvModule.defFloatType, SpirvModule.defVectorType]
    repeat (first
      | with_reducible exact SpirvModule.Declares.declares_refl _
      | with_reducible apply SpirvModule.Declares.by_setDebugName
      | with_reducible apply SpirvModule.Declares.by_setDebugMemberName
      | with_reducible apply SpirvModule.Declares.by_decorate
      | with_reducible apply SpirvModule.Declares.by_newVar
      | with_reducible apply SpirvModule.Declares.by_defTypeUnique
      | with_reducible apply SpirvModule.Declares.by_defTypeConst
      | with_reducible apply SpirvModule.Declares.by_emitDclFloatVectorVar)

theorem emitDclVertexOutput_sameCode (c : GCNCompiler) :
    c.SameCode (emitDclVertexOutput c) := by
  have h1 : c.SameCode (emitDclPerVertexOut c) := by
    refine ⟨?_, rfl, rfl, rfl, rfl, rfl, rfl, rfl, rfl⟩
    simp only [emitDclPerVertexOut, getPerVertexBlockId, SpirvModule.decorateLocation, SpirvModule.decorateBinding,
      SpirvModule.decorateDescriptorSet, SpirvModule.decorateBlock,
      SpirvModule.decorateArrayStride, SpirvModule.memberDecorateOffset,
      SpirvModule.memberDecorateBuiltIn, SpirvModule.defPointerType,
      SpirvModule.defStructTypeUnique, SpirvModule.defArrayTypeUnique, SpirvModule.constu32,
      SpirvModule.defIntType, SpirvModule.defFloatType, SpirvModule.defVectorType]
    repeat (first
      | with_reducible exact SpirvModule.Declares.declares_refl _
      | with_reducible apply SpirvModule.Declares.by_setDebugName
      | with_reducible apply SpirvModule.Declares.by_setDebugMemberName
      | with_reducible apply SpirvModule.Declares.by_decorate
      | with_reducible apply SpirvModule.Declares.by_newVar
      | with_reducible apply SpirvModule.Declares.by_defTypeUnique
      | with_reducible apply SpirvModule.Declares.by_defTypeConst
      | with_reducible apply SpirvModule.Declares.by_emitDclFloatVectorVar)
  have h2 : ∀ (l : List GcnExportInfo) (c1 : GCNCompiler) (loc : Nat),
      c1.SameCode (l.foldl emitDclVertexOutputStep (c1, loc)).1 := by
    intro l
    induction l with
    | nil => exact fun c1 _ => GCNCompiler.SameCode.same_refl c1
    | cons e rest ih =>
      intro c1 loc
      rw [List.foldl_cons]
      exact (emitDclVertexOutputStep_sameCode c1 loc e).same_trans (ih _ _)
  exact h1.same_trans (h2 _ _ _)

theorem emitDclUniformBufferStep_sameCode (c : GCNCompiler) (index : Nat)
    (res : GcnResourceEntry) : c.SameCode (emitDclUniformBufferStep (c, index) res).1 := by
  by_cases h : res.type = .VSharp
  · simp only [emitDclUniformBufferStep, h]
    refine ⟨?_, rfl, rfl, rfl, rfl, rfl, rfl, rfl, rfl⟩
    simp only [SpirvModule.decorateLocation, SpirvModule.decorateBinding,
      SpirvModule.decorateDescriptorSet, SpirvModule.decorateBlock,
      SpirvModule.decorateArrayStride, SpirvModule.memberDecorateOffset,
      SpirvModule.memberDecorateBuiltIn, SpirvModule.defPointerType,
      SpirvModule.defStructTypeUnique, SpirvModule.defArrayTypeUnique, SpirvModule.constu32,
      SpirvModule.defIntType, SpirvModule.defFloatType, SpirvModule.defVectorType]
    repeat (first
      | with_reducible exact SpirvModule.Declares.declares_refl _
      | with_reducible apply SpirvModule.Declares.by_setDebugName
      | with_reducible apply SpirvModule.Declares.by_setDebugMemberName
      | with_reducible apply SpirvModule.Declares.by_decorate
      | with_reducible apply SpirvModule.Declares.by_newVar
      | with_reducible apply SpirvModule.Declares.by_defTypeUnique
      | with_reducible apply SpirvModule.Declares.by_defTypeConst
      | with_reducible apply SpirvModule.Declares.by_emitDclFloatVectorVar)
  · rw [emitDclUniformBufferStep_other c index res h]
    exact GCNCompiler.SameCode.same_refl c

theorem emitDclUniformBuffer_sameCode (c : GCNCompiler) :
    c.SameCode (emitDclUniformBuffer c) := by
  have h2 : ∀ (l : List GcnResourceEntry) (c1 : GCNCompiler) (index : Nat),
      c1.SameCode (l.foldl emitDclUniformBufferStep (c1, index)).1 := by
    intro l
    induction l with
    | nil => exact fun c1 _ => GCNCompiler.SameCode.same_refl c1
    | cons e rest ih =>
      intro c1 index
      rw [List.foldl_cons]
      exact (emitDclUniformBufferStep_sameCode c1 index e).same_trans (ih _ _)
  exact h2 _ _ _

/-! ## The fetch function -/

theorem SpirvModule.Extends.of_typeConstDefs {m m2 : SpirvModule}
    (ht : m2.typeConstDefs = m.typeConstDefs) (hc : m2.capabilities = m.capabilities) :
    m2.Extends m :=
  ⟨fun _ h => hc ▸ h, fun _ _ h => ht ▸ h⟩

theorem emitEmuFetchLane_spec (sem : VertexInputSemantic) (c : GCNCompiler) (i : Nat) :
    ∃ (v : SpirvVariable) (instrs : List SpirvInstr),
      (emitEmuFetchLane sem c i).m_module.varDecls = c.m_module.varDecls ++ [v] ∧
      (emitEmuFetchLane sem c i).m_module.code = c.m_module.code ++ instrs ∧
      v.storageClass = .Private ∧
      (emitEmuFetchLane sem c i).m_module.IsFloatPointer .Private v.pointerType ∧
      (emitEmuFetchLane sem c i).m_module.IsFetchOf c.m_vs.vsInputs (sem, i) v instrs ∧
      (emitEmuFetchLane sem c i).m_vgprs = recordFetch c.m_vgprs ((sem, i), v) ∧
      c.m_module.m_id ≤ v.id ∧
      (emitEmuFetchLane sem c i).m_module.Extends c.m_module ∧
      c.m_module.m_id ≤ (emitEmuFetchLane sem c i).m_module.m_id ∧
      c.m_module.debugNames <+: (emitEmuFetchLane sem c i).m_module.debugNames ∧
      (emitEmuFetchLane sem c i).m_vs = c.m_vs ∧
      (emitEmuFetchLane sem c i).m_insideFunction = c.m_insideFunction ∧
      (emitEmuFetchLane sem c i).m_entryPointId = c.m_entryPointId ∧
      (emitEmuFetchLane sem c i).m_programInfo = c.m_programInfo ∧
      (emitEmuFetchLane sem c i).m_shaderInput = c.m_shaderInput := by
  obtain ⟨f, hf⟩ : ∃ x, x = (c.m_module.defTypeConst (.OpTypeFloat 32)).1 := ⟨_, rfl⟩
  obtain ⟨ma, hma⟩ : ∃ x, x = (c.m_module.defTypeConst (.OpTypeFloat 32)).2 := ⟨_, rfl⟩
  obtain ⟨P, hP⟩ : ∃ x, x = (ma.defTypeConst (.OpTypePointer .Private f)).1 := ⟨_, rfl⟩
  obtain ⟨mb, hmb⟩ : ∃ x, x = (ma.defTypeConst (.OpTypePointer .Private f)).2 := ⟨_, rfl⟩
  obtain ⟨md, hmd⟩ : ∃ x, x = (mb.newVar P .Private).2.setDebugName mb.m_id
    ⟨"v", some (sem.vgpr + i)⟩ := ⟨_, rfl⟩
  obtain ⟨idx, hidx⟩ : ∃ x, x = (md.constu32 i).1 := ⟨_, rfl⟩
  obtain ⟨m3, hm3⟩ : ∃ x, x = (md.constu32 i).2 := ⟨_, rfl⟩
  obtain ⟨m6, hm6⟩ : ∃ x, x = (((m3.opAccessChain P (c.m_vs.vsInputs sem.semantic).id
    [idx]).2.opLoad P m3.m_id).2.opStore mb.m_id (m3.m_id + 1)) := ⟨_, rfl⟩
  have ea : ma.Extends c.m_module := hma ▸ SpirvModule.defTypeConst_extends _ _
  have eb : mb.Extends ma := hmb ▸ SpirvModule.defTypeConst_extends _ _
  have ed : md.Extends mb := hmd ▸ SpirvModule.Extends.of_typeConstDefs rfl rfl
  have e3 : m3.Extends md := hm3 ▸ (SpirvModule.constu32_declExtends _ _).1
  have e6 : m6.Extends m3 := hm6 ▸ SpirvModule.Extends.of_typeConstDefs rfl rfl
  have lf : ma.typeConstDefs.lookup (.OpTypeFloat 32) = some f := by
    rw [hma, hf]
    exact SpirvModule.defTypeConst_lookup _ _
  have lP : mb.typeConstDefs.lookup (.OpTypePointer .Private f) = some P := by
    rw [hmb, hP]
    exact SpirvModule.defTypeConst_lookup _ _
  have s1 : md.defTypeConst (.OpTypeFloat 32) = (f, md) :=
    SpirvModule.defTypeConst_of_lookup _ _ _ (ed.2 _ _ (eb.2 _ _ lf))
  have s2 : md.defTypeConst (.OpTypePointer .Private f) = (P, md) :=
    SpirvModule.defTypeConst_of_lookup _ _ _ (ed.2 _ _ lP)
  have hstep : emitEmuFetchLane sem c i = { c with
      m_module := m6
      m_vgprs := Function.update c.m_vgprs (sem.vgpr + i) ⟨⟨.Float32, 1⟩, mb.m_id⟩ } := by
    subst hm6 hm3 hidx hmd
    simp only [emitEmuFetchLane, emitDclFloat, SpirvModule.defFloatPointerType,
      SpirvModule.defFloatType, SpirvModule.defPointerType, if_true, ← hf, ← hma, ← hP, ← hmb,
      SpirvModule.newVar_fst, s1, s2]
    rfl
  have da : c.m_module.Declares ma := hma ▸ SpirvModule.defTypeConst_declares _ _
  have db : ma.Declares mb := hmb ▸ SpirvModule.defTypeConst_declares _ _
  have hidm : mb.m_id + 1 ≤ m3.m_id := by
    have h1 : md.m_id = mb.m_id + 1 := by rw [hmd]; rfl
    have h2 : md.m_id ≤ m3.m_id := by
      rw [hm3]
      exact le_trans (SpirvModule.defTypeConst_m_id_le _ _) (SpirvModule.defTypeConst_m_id_le _ _)
    omega
  have hdn : mb.debugNames <+: m3.debugNames := by
    have h1 : md.debugNames = mb.debugNames ++ [.OpName mb.m_id ⟨"v", some (sem.vgpr + i)⟩] := by
      rw [hmd]; rfl
    have h2 : m3.debugNames = md.debugNames := by
      rw [hm3]
      simp only [SpirvModule.constu32, SpirvModule.defIntType]
      exact ((SpirvModule.defTypeConst_grows _ _).grows_trans
        (SpirvModule.defTypeConst_grows _ _)).2.2.2.1
    rw [h2, h1]
    exact List.prefix_append _ _
  have hvar : m6.varDecls = c.m_module.varDecls ++ [⟨P, mb.m_id, .Private⟩] := by
    rw [hm6, hm3, hmd, hmb, hma]
    simp [SpirvModule.opAccessChain, SpirvModule.opLoad, SpirvModule.constu32,
      SpirvModule.defIntType]
  have hcode : m6.code = c.m_module.code ++
      [.OpAccessChain P m3.m_id (c.m_vs.vsInputs sem.semantic).id [idx],
        .OpLoad P (m3.m_id + 1) m3.m_id, .OpStore mb.m_id (m3.m_id + 1)] := by
    have h3 : m3.code = c.m_module.code := by
      rw [hm3, SpirvModule.constu32_code, hmd]
      simp only [SpirvModule.setDebugName_code, SpirvModule.newVar_code]
      rw [hmb, SpirvModule.defTypeConst_code, hma, SpirvModule.defTypeConst_code]
    rw [hm6]
    simp [SpirvModule.opAccessChain, SpirvModule.opLoad, SpirvModule.emitResult,
      SpirvModule.opStore, h3]
  rw [hstep]
  refine ⟨⟨P, mb.m_id, .Private⟩, _, hvar, hcode, rfl, ?_, ?_, rfl, ?_, ?_, ?_, ?_, rfl, rfl, rfl,
    rfl, rfl⟩
  · exact ⟨f, e6.2 _ _ (e3.2 _ _ (ed.2 _ _ (eb.2 _ _ lf))), e6.2 _ _ (e3.2 _ _ (ed.2 _ _ lP))⟩
  · exact ⟨idx, m3.m_id, m3.m_id + 1,
      SpirvModule.IsConstU32.const_mono (by rw [hm3, hidx]; exact SpirvModule.constu32_isConst _ _) e6,
      rfl⟩
  · exact le_trans da.2.1 db.2.1
  · exact e6.trans (e3.trans (ed.trans (eb.trans ea)))
  · have h6 : m6.m_id = m3.m_id + 2 := by rw [hm6]; rfl
    have := le_trans da.2.1 db.2.1
    show c.m_module.m_id ≤ m6.m_id
    omega
  · have h6 : m6.debugNames = m3.debugNames := by rw [hm6]; rfl
    show c.m_module.debugNames <+: m6.debugNames
    rw [h6]
    exact (da.2.2.trans db.2.2).trans hdn

theorem SpirvModule.IsFloatPointer.floatPtr_mono {m m2 : SpirvModule} {sc : SpvStorageClass}
    {t : Nat} (h : m.IsFloatPointer sc t) (he : m2.Extends m) : m2.IsFloatPointer sc t := by
  obtain ⟨f, h1, h2⟩ := h
  exact ⟨f, he.2 _ _ h1, he.2 _ _ h2⟩

theorem SpirvModule.IsFetchOf.fetch_mono {m m2 : SpirvModule} {inputs : Nat → SpirvRegisterPointer}
    {lane : VertexInputSemantic × Nat} {v : SpirvVariable} {instrs : List SpirvInstr}
    (h : m.IsFetchOf inputs lane v instrs) (he : m2.Extends m) :
    m2.IsFetchOf inputs lane v instrs := by
  obtain ⟨idx, ch, ld, h1, h2⟩ := h
  exact ⟨idx, ch, ld, h1.const_mono he, h2⟩

theorem emitEmuFetch_fold (L : List (VertexInputSemantic × Nat)) (c : GCNCompiler) :
    ∃ items : List (SpirvVariable × List SpirvInstr),
      (L.foldl (fun c1 p => emitEmuFetchLane p.1 c1 p.2) c).m_module.varDecls = c.m_module.varDecls ++ items.map (·.1) ∧
      (L.foldl (fun c1 p => emitEmuFetchLane p.1 c1 p.2) c).m_module.code = c.m_module.code ++ items.flatMap (·.2) ∧
      List.Forall₂ (fun lane it => it.1.storageClass = .Private ∧
          (L.foldl (fun c1 p => emitEmuFetchLane p.1 c1 p.2) c).m_module.IsFloatPointer .Private it.1.pointerType ∧
          (L.foldl (fun c1 p => emitEmuFetchLane p.1 c1 p.2) c).m_module.IsFetchOf c.m_vs.vsInputs lane it.1 it.2) L items ∧
      (L.foldl (fun c1 p => emitEmuFetchLane p.1 c1 p.2) c).m_vgprs = (L.zip (items.map (·.1))).foldl recordFetch c.m_vgprs ∧
      (∀ it ∈ items, c.m_module.m_id ≤ it.1.id) ∧
      (L.foldl (fun c1 p => emitEmuFetchLane p.1 c1 p.2) c).m_module.Extends c.m_module ∧
      c.m_module.m_id ≤ (L.foldl (fun c1 p => emitEmuFetchLane p.1 c1 p.2) c).m_module.m_id ∧
      c.m_module.debugNames <+: (L.foldl (fun c1 p => emitEmuFetchLane p.1 c1 p.2) c).m_module.debugNames ∧
      (L.foldl (fun c1 p => emitEmuFetchLane p.1 c1 p.2) c).m_vs = c.m_vs ∧
      (L.foldl (fun c1 p => emitEmuFetchLane p.1 c1 p.2) c).m_insideFunction = c.m_insideFunction ∧
      (L.foldl (fun c1 p => emitEmuFetchLane p.1 c1 p.2) c).m_entryPointId = c.m_entryPointId ∧
      (L.foldl (fun c1 p => emitEmuFetchLane p.1 c1 p.2) c).m_programInfo = c.m_programInfo ∧
      (L.foldl (fun c1 p => emitEmuFetchLane p.1 c1 p.2) c).m_shaderInput = c.m_shaderInput := by
  induction L generalizing c with
  | nil =>
    exact ⟨[], by simp, by simp, List.Forall₂.nil, rfl, by simp, SpirvModule.Extends.refl _,
      le_refl _, List.prefix_refl _, rfl, rfl, rfl, rfl, rfl⟩
  | cons lane rest ih =>
    obtain ⟨v, instrs, a1, a2, a3, a4, a5, a6, a7, a8, a9, a10, a11, a12, a13, a14, a15⟩ :=
      emitEmuFetchLane_spec lane.1 c lane.2
    obtain ⟨items, b1, b2, b3, b4, b5, b6, b7, b8, b9, b10, b11, b12, b13⟩ :=
      ih (emitEmuFetchLane lane.1 c lane.2)
    rw [List.foldl_cons]
    refine ⟨(v, instrs) :: items, ?_, ?_, ?_, ?_, ?_, b6.trans a8, le_trans a9 b7, a10.trans b8,
      b9.trans a11, b10.trans a12, b11.trans a13, b12.trans a14, b13.trans a15⟩
    · rw [b1, a1]
      simp
    · rw [b2, a2]
      simp
    · refine List.Forall₂.cons ⟨a3, a4.floatPtr_mono b6, a5.fetch_mono b6⟩ ?_
      rw [a11] at b3
      exact b3
    · rw [b4, a6]
      rfl
    · intro it hit
      rcases List.mem_cons.mp hit with rfl | hit
      · exact a7
      · exact le_trans a9 (b5 it hit)

theorem emitEmuFetchSemantics_eq (sems : List VertexInputSemantic) (c : GCNCompiler) :
    sems.foldl emitEmuFetchSemantic c =
      (fetchLanes sems).foldl (fun c1 p => emitEmuFetchLane p.1 c1 p.2) c := by
  induction sems generalizing c with
  | nil => rfl
  | cons s rest ih =>
    rw [List.foldl_cons, ih]
    simp only [fetchLanes, List.flatMap_cons, List.foldl_append, List.foldl_map]
    rfl

theorem emitFunctionEnd_eq (c : GCNCompiler) :
    emitFunctionEnd c = { c with
      m_module := { c.m_module with
        code := c.m_module.code ++
          (if c.m_insideFunction then [.OpReturn, .OpFunctionEnd] else []) }
      m_insideFunction := false } := by
  cases h : c.m_insideFunction <;>
    simp [emitFunctionEnd, h, SpirvModule.opReturn, SpirvModule.functionEnd,
      SpirvModule.emitPlain]

theorem emitFunctionBeginLabel_eq (c : GCNCompiler) (e r f : Nat) :
    emitFunctionLabel (emitFunctionBegin c e r f) = { c with
      m_module := { c.m_module with
        code := c.m_module.code ++
          (if c.m_insideFunction then [.OpReturn, .OpFunctionEnd] else []) ++
          [.OpFunction r e f, .OpLabel c.m_module.m_id]
        m_id := c.m_module.m_id + 1 }
      m_insideFunction := true } := by
  cases h : c.m_insideFunction <;>
    simp [emitFunctionLabel, emitFunctionBegin, emitFunctionEnd, h, SpirvModule.opReturn,
      SpirvModule.functionEnd, SpirvModule.emitPlain, SpirvModule.functionBegin,
      SpirvModule.opLabel, SpirvModule.allocateId]

theorem defVoidFunctionTypes_declares (m : SpirvModule) :
    m.Declares (defVoidFunctionTypes m).2.2 := by
  simp only [defVoidFunctionTypes, SpirvModule.defVoidType, SpirvModule.defFunctionType]
  repeat (first
    | with_reducible exact SpirvModule.Declares.declares_refl _
    | with_reducible apply SpirvModule.Declares.by_defTypeConst)

theorem defVoidFunctionTypes_extends (m : SpirvModule) :
    (defVoidFunctionTypes m).2.2.Extends m := by
  simp only [defVoidFunctionTypes, SpirvModule.defVoidType, SpirvModule.defFunctionType]
  exact (SpirvModule.defTypeConst_extends _ _).trans
    ((SpirvModule.defTypeConst_extends _ _).trans (SpirvModule.defTypeConst_extends _ _))

theorem emitEmuFetchShader_eq (c : GCNCompiler) (sems : List VertexInputSemantic)
    (h : c.m_shaderInput.vsInputSemantics = some sems) :
    ∃ (c4 : GCNCompiler) (v ft l : Nat),
      emitEmuFetchShader c =
        emitFunctionEnd ((fetchLanes sems).foldl (fun c1 p => emitEmuFetchLane p.1 c1 p.2) c4) ∧
      c4.m_module.code = c.m_module.code ++
        (if c.m_insideFunction then [.OpReturn, .OpFunctionEnd] else []) ++
        [.OpFunction v c.m_module.m_id ft, .OpLabel l] ∧
      c4.m_module.varDecls = c.m_module.varDecls ∧
      c4.m_vgprs = c.m_vgprs ∧ c4.m_vs.vsInputs = c.m_vs.vsInputs ∧
      c4.m_vs.fsFunctionId = c.m_module.m_id ∧
      c4.m_vs.mainFunctionId = c.m_vs.mainFunctionId ∧
      c4.m_insideFunction = true ∧
      c4.m_module.Extends c.m_module ∧ c.m_module.m_id < c4.m_module.m_id ∧
      c.m_module.debugNames <+: c4.m_module.debugNames ∧
      SpirvDebug.OpName c.m_module.m_id ⟨"vsFetch", none⟩ ∈ c4.m_module.debugNames ∧
      c4.m_entryPointId = c.m_entryPointId ∧ c4.m_programInfo = c.m_programInfo ∧
      c4.m_shaderInput = c.m_shaderInput := by
  obtain ⟨M2, hM2⟩ : ∃ x, x = (defVoidFunctionTypes c.m_module.allocateId.2).2.2 := ⟨_, rfl⟩
  have hd : c.m_module.Declares M2 :=
    hM2 ▸ (SpirvModule.allocateId_declares _).declares_trans (defVoidFunctionTypes_declares _)
  have hlt : c.m_module.m_id < M2.m_id := by
    have : c.m_module.allocateId.2.Declares M2 := hM2 ▸ defVoidFunctionTypes_declares _
    exact lt_of_lt_of_le (Nat.lt_succ_self _) this.2.1
  have he : M2.Extends c.m_module :=
    hM2 ▸ (defVoidFunctionTypes_extends _).trans (SpirvModule.Extends.of_typeConstDefs rfl rfl)
  have hv : M2.varDecls = c.m_module.varDecls := by
    rw [hM2]
    simp
  refine ⟨{ c with
      m_module := SpirvModule.setDebugName { M2 with
        code := M2.code ++ (if c.m_insideFunction then [.OpReturn, .OpFunctionEnd] else []) ++
          [.OpFunction (defVoidFunctionTypes c.m_module.allocateId.2).1 c.m_module.m_id
            (defVoidFunctionTypes c.m_module.allocateId.2).2.1, .OpLabel M2.m_id]
        m_id := M2.m_id + 1 } c.m_module.m_id ⟨"vsFetch", none⟩
      m_vs := { c.m_vs with fsFunctionId := c.m_module.m_id }
      m_insideFunction := true }, (defVoidFunctionTypes c.m_module.allocateId.2).1,
      (defVoidFunctionTypes c.m_module.allocateId.2).2.1, M2.m_id,
      ?_, ?_, hv, rfl, rfl, rfl, rfl, rfl, ?_, ?_, ?_, ?_, rfl, rfl, rfl⟩
  · unfold emitEmuFetchShader
    simp only [h]
    rw [emitEmuFetchSemantics_eq, emitFunctionBeginLabel_eq, hM2]
    rfl
  · show M2.code ++ _ ++ _ = _
    rw [hd.1]
  · exact ⟨he.1, he.2⟩
  · show c.m_module.m_id < M2.m_id + 1
    omega
  · exact hd.2.2.trans (List.prefix_append _ _)
  · show _ ∈ M2.debugNames ++ [_]
    simp

theorem foldl_recordFetch_other (ps : List ((VertexInputSemantic × Nat) × SpirvVariable))
    (f : Nat → SpirvRegisterPointer) (k : Nat) (h : ∀ p ∈ ps, p.1.1.vgpr + p.1.2 ≠ k) :
    ps.foldl recordFetch f k = f k := by
  induction ps generalizing f with
  | nil => rfl
  | cons p rest ih =>
    rw [List.foldl_cons, ih _ (fun q hq => h q (List.mem_cons_of_mem _ hq))]
    have hp : k ≠ p.1.1.vgpr + p.1.2 := fun e => h p (List.mem_cons_self _ _) e.symm
    simp [recordFetch, Function.update_noteq hp]

theorem foldl_recordFetch_mem (ps : List ((VertexInputSemantic × Nat) × SpirvVariable))
    (f : Nat → SpirvRegisterPointer) (k : Nat) (h : ∃ p ∈ ps, p.1.1.vgpr + p.1.2 = k) :
    ∃ p ∈ ps, p.1.1.vgpr + p.1.2 = k ∧ ps.foldl recordFetch f k = ⟨⟨.Float32, 1⟩, p.2.id⟩ := by
  induction ps generalizing f with
  | nil =>
    obtain ⟨p, hp, -⟩ := h
    simp at hp
  | cons p0 rest ih =>
    rw [List.foldl_cons]
    by_cases hr : ∃ p ∈ rest, p.1.1.vgpr + p.1.2 = k
    · obtain ⟨p, hp, hk, hv⟩ := ih (recordFetch f p0) hr
      exact ⟨p, List.mem_cons_of_mem _ hp, hk, hv⟩
    · have h0 : p0.1.1.vgpr + p0.1.2 = k := by
        obtain ⟨p, hp, hk⟩ := h
        rcases List.mem_cons.mp hp with rfl | hp
        · exact hk
        · exact absurd ⟨p, hp, hk⟩ hr
      refine ⟨p0, List.mem_cons_self _ _, h0, ?_⟩
      rw [foldl_recordFetch_other rest _ k (fun q hq e => hr ⟨q, hq, e⟩)]
      subst h0
      simp [recordFetch]

theorem forall₂_mem_zip {α β : Type} {R : α → β → Prop} {l1 : List α} {l2 : List β}
    (h : List.Forall₂ R l1 l2) {a : α} (ha : a ∈ l1) : ∃ b, (a, b) ∈ l1.zip l2 := by
  induction h with
  | nil => simp at ha
  | cons hab _ ih =>
    rcases List.mem_cons.mp ha with rfl | ha
    · exact ⟨_, List.mem_cons_self _ _⟩
    · obtain ⟨b, hb⟩ := ih ha
      exact ⟨b, List.mem_cons_of_mem _ hb⟩

theorem mem_fetchLanes (sems : List VertexInputSemantic) (s : VertexInputSemantic) (i : Nat) :
    (s, i) ∈ fetchLanes sems ↔ s ∈ sems ∧ i < s.sizeInElements := by
  simp only [fetchLanes, List.mem_flatMap, List.mem_map, List.mem_range, Prod.mk.injEq]
  constructor
  · rintro ⟨s2, hs2, j, hj, rfl, rfl⟩
    exact ⟨hs2, hj⟩
  · rintro ⟨hs, hi⟩
    exact ⟨s, hs, i, hi, rfl, rfl⟩

theorem fetchLanes_length (sems : List VertexInputSemantic) :
    (fetchLanes sems).length = (sems.map (·.sizeInElements)).sum := by
  induction sems with
  | nil => rfl
  | cons s rest ih =>
    simp only [fetchLanes, List.flatMap_cons, List.length_append, List.length_map,
      List.length_range, List.map_cons, List.sum_cons] at ih ⊢
    rw [ih]

theorem emitEmuFetchShader_shape (c : GCNCompiler) (sems : List VertexInputSemantic)
    (h : c.m_shaderInput.vsInputSemantics = some sems) :
    ∃ (items : List (SpirvVariable × List SpirvInstr)) (v ft l : Nat),
      (emitEmuFetchShader c).m_module.varDecls = c.m_module.varDecls ++ items.map (·.1) ∧
      (emitEmuFetchShader c).m_module.code = c.m_module.code ++
        (if c.m_insideFunction then [.OpReturn, .OpFunctionEnd] else []) ++
        [.OpFunction v c.m_module.m_id ft, .OpLabel l] ++ items.flatMap (·.2) ++
        [.OpReturn, .OpFunctionEnd] ∧
      List.Forall₂ (fun lane it => it.1.storageClass = .Private ∧
          (emitEmuFetchShader c).m_module.IsFloatPointer .Private it.1.pointerType ∧
          (emitEmuFetchShader c).m_module.IsFetchOf c.m_vs.vsInputs lane it.1 it.2) (fetchLanes sems) items ∧
      (emitEmuFetchShader c).m_vgprs = ((fetchLanes sems).zip (items.map (·.1))).foldl recordFetch c.m_vgprs ∧
      (∀ it ∈ items, c.m_module.m_id < it.1.id) ∧
      (emitEmuFetchShader c).m_insideFunction = false ∧
      (emitEmuFetchShader c).m_vs.fsFunctionId = c.m_module.m_id ∧
      (emitEmuFetchShader c).m_vs.mainFunctionId = c.m_vs.mainFunctionId ∧
      (emitEmuFetchShader c).m_module.Extends c.m_module ∧ c.m_module.m_id < (emitEmuFetchShader c).m_module.m_id ∧
      c.m_module.debugNames <+: (emitEmuFetchShader c).m_module.debugNames ∧
      SpirvDebug.OpName c.m_module.m_id ⟨"vsFetch", none⟩ ∈ (emitEmuFetchShader c).m_module.debugNames ∧
      (emitEmuFetchShader c).m_entryPointId = c.m_entryPointId ∧ (emitEmuFetchShader c).m_programInfo = c.m_programInfo ∧
      (emitEmuFetchShader c).m_shaderInput = c.m_shaderInput := by
  obtain ⟨c4, v, ft, l, heq, a2, a3, a4, a5, a6, a7, a8, a9, a10, a11, a12, a13, a14, a15⟩ :=
    emitEmuFetchShader_eq c sems h
  obtain ⟨items, b1, b2, b3, b4, b5, b6, b7, b8, b9, b10, b11, b12, b13⟩ :=
    emitEmuFetch_fold (fetchLanes sems) c4
  rw [heq, emitFunctionEnd_eq]
  refine ⟨items, v, ft, l, ?_, ?_, ?_, ?_, ?_, rfl, ?_, ?_, ?_, ?_, ?_, ?_, ?_, ?_, ?_⟩
  · show ((fetchLanes sems).foldl _ c4).m_module.varDecls = _
    rw [b1, a3]
  · show ((fetchLanes sems).foldl _ c4).m_module.code ++ _ = _
    rw [b2, a2, b10, a8]
    simp
  · rw [a5] at b3
    exact b3
  · show ((fetchLanes sems).foldl _ c4).m_vgprs = _
    rw [b4, a4]
  · intro it hit
    exact lt_of_lt_of_le a10 (b5 it hit)
  · show ((fetchLanes sems).foldl _ c4).m_vs.fsFunctionId = _
    rw [b9, a6]
  · show ((fetchLanes sems).foldl _ c4).m_vs.mainFunctionId = _
    rw [b9, a7]
  · exact SpirvModule.Extends.trans ⟨b6.1, b6.2⟩ a9
  · exact lt_of_lt_of_le a10 b7
  · exact a11.trans b8
  · exact b8.subset a12
  · exact b11.trans a13
  · exact b12.trans a14
  · exact b13.trans a15

/-- C22. When the list of vertex input semantics is present, `emitEmuFetchShader`
returns and, for each semantic and each lane `i` below its `sizeInElements`, in
the order of the two loops, declares exactly one variable of storage class
`Private` whose type is the pointer to the 32-bit float, and appends an access
chain with the constant `i` as index into the input variable of the semantic, a
load through it and a store of the loaded value into the new variable; these
instructions stand between the opening of the fetch function and its
`OpReturn` and `OpFunctionEnd`.  The number of variables declared is the sum of
the `sizeInElements`.  Each variable is recorded under `vgprs[vgpr + i]` with
the type `(Float32, 1)`, in order, so afterwards every VGPR slot in the range
of a semantic holds a `Float32` scalar pointer with the non-zero id of one of
these variables, and the slots outside all ranges are as before. -/
theorem emitEmuFetchShader_spec (c : GCNCompiler) (sems : List VertexInputSemantic)
    (h : c.m_shaderInput.vsInputSemantics = some sems) :
    ∃ (items : List (SpirvVariable × List SpirvInstr)) (v ft l : Nat),
      (emitEmuFetchShader c).m_module.varDecls = c.m_module.varDecls ++ items.map (·.1) ∧
      items.length = (sems.map (·.sizeInElements)).sum ∧
      (emitEmuFetchShader c).m_module.code = c.m_module.code ++
        (if c.m_insideFunction then [.OpReturn, .OpFunctionEnd] else []) ++
        [.OpFunction v (emitEmuFetchShader c).m_vs.fsFunctionId ft, .OpLabel l] ++ items.flatMap (·.2) ++
        [.OpReturn, .OpFunctionEnd] ∧
      List.Forall₂ (fun lane it => it.1.storageClass = .Private ∧
          (emitEmuFetchShader c).m_module.IsFloatPointer .Private it.1.pointerType ∧
          (emitEmuFetchShader c).m_module.IsFetchOf c.m_vs.vsInputs lane it.1 it.2) (fetchLanes sems) items ∧
      (emitEmuFetchShader c).m_vgprs = ((fetchLanes sems).zip (items.map (·.1))).foldl recordFetch c.m_vgprs ∧
      (∀ s ∈ sems, ∀ i, i < s.sizeInElements →
        ((emitEmuFetchShader c).m_vgprs (s.vgpr + i)).type = ⟨.Float32, 1⟩ ∧
        ((emitEmuFetchShader c).m_vgprs (s.vgpr + i)).id ≠ 0 ∧
        ∃ it ∈ items, it.1.id = ((emitEmuFetchShader c).m_vgprs (s.vgpr + i)).id) ∧
      (∀ k, (∀ s ∈ sems, ∀ i, i < s.sizeInElements → s.vgpr + i ≠ k) →
        (emitEmuFetchShader c).m_vgprs k = c.m_vgprs k) := by
  obtain ⟨items, v, ft, l, a1, a2, a3, a4, a5, -, a7, -⟩ := emitEmuFetchShader_shape c sems h
  have hf : List.Forall₂ (fun _ _ => True) (fetchLanes sems) (items.map (·.1)) := by
    rw [List.forall₂_map_right_iff]
    exact a3.imp (fun _ _ _ => trivial)
  refine ⟨items, v, ft, l, a1, ?_, ?_, a3, a4, ?_, ?_⟩
  · rw [← a3.length_eq, fetchLanes_length]
  · rw [a7]
    exact a2
  · intro s hs i hi
    obtain ⟨b, hb⟩ := forall₂_mem_zip hf ((mem_fetchLanes sems s i).mpr ⟨hs, hi⟩)
    obtain ⟨p, hp, hk, hv⟩ := foldl_recordFetch_mem _ c.m_vgprs (s.vgpr + i) ⟨_, hb, rfl⟩
    obtain ⟨it, hit, hit2⟩ := List.mem_map.mp (List.of_mem_zip hp).2
    rw [a4, hv]
    refine ⟨rfl, ?_, it, hit, by rw [hit2]⟩
    have := a5 it hit
    rw [hit2] at this
    show p.2.id ≠ 0
    omega
  · intro k hk
    rw [a4]
    apply foldl_recordFetch_other
    intro p hp
    have hl := (List.of_mem_zip hp).1
    have hm := (mem_fetchLanes sems p.1.1 p.1.2).mp hl
    exact hk p.1.1 hm.1 p.1.2 hm.2

/-- Witness of C22: on `sampleCompiler` with the one input semantic
`(semantic 0, vgpr 4, 2 elements)`, two `Private` variables are declared and
recorded under `vgprs[4]` and `vgprs[5]`, and VGPR 6 stays empty. -/
theorem emitEmuFetchShader_spec_witness :
    (∃ it1 it2 : SpirvVariable × List SpirvInstr,
      (emitEmuFetchShader { sampleCompiler with
        m_shaderInput := ⟨some [⟨0, 4, 2⟩], []⟩ }).m_module.varDecls = [it1.1, it2.1] ∧
      ((emitEmuFetchShader { sampleCompiler with
        m_shaderInput := ⟨some [⟨0, 4, 2⟩], []⟩ }).m_vgprs 5).type = ⟨.Float32, 1⟩ ∧
      ((emitEmuFetchShader { sampleCompiler with
        m_shaderInput := ⟨some [⟨0, 4, 2⟩], []⟩ }).m_vgprs 5).id ≠ 0 ∧
      (emitEmuFetchShader { sampleCompiler with
        m_shaderInput := ⟨some [⟨0, 4, 2⟩], []⟩ }).m_vgprs 6 = SpirvRegisterPointer.default) := by
  obtain ⟨items, v, ft, l, a1, a2, -, -, -, a6, a7⟩ := emitEmuFetchShader_spec
    { sampleCompiler with m_shaderInput := ⟨some [⟨0, 4, 2⟩], []⟩ } [⟨0, 4, 2⟩] rfl
  have hlen : items.length = 2 := a2
  obtain ⟨it1, it2, rfl⟩ := List.length_eq_two.mp hlen
  have h5 := a6 ⟨0, 4, 2⟩ (List.mem_singleton_self _) 1 (by decide)
  refine ⟨it1, it2, a1, h5.1, h5.2.1, ?_⟩
  refine a7 6 ?_
  intro s hs i hi
  rw [List.mem_singleton] at hs
  subst hs
  show 4 + i ≠ 6
  have : i < 2 := hi
  omega

/-! ## Function bracketing -/

theorem beginLabelCall_shape (c c8 cf : GCNCompiler) (fid target : Nat)
    (h8 : c8 = emitFunctionLabel (emitFunctionBegin
      { c with m_module := (defVoidFunctionTypes c.m_module).2.2 } fid
      (defVoidFunctionTypes c.m_module).1 (defVoidFunctionTypes c.m_module).2.1))
    (hf : cf = { c8 with m_module := (c8.m_module.defVoidType.2.opFunctionCall
      c8.m_module.defVoidType.1 target []).2 }) :
    (∃ v ft l v2 r, cf.m_module.code = c.m_module.code ++
      (if c.m_insideFunction then [.OpReturn, .OpFunctionEnd] else []) ++
      [.OpFunction v fid ft, .OpLabel l, .OpFunctionCall v2 r target []]) ∧
    cf.m_insideFunction = true ∧ cf.m_vs = c.m_vs ∧ cf.m_entryPointId = c.m_entryPointId ∧
    cf.m_programInfo = c.m_programInfo ∧ cf.m_shaderInput = c.m_shaderInput ∧
    cf.m_entryPointInterfaces = c.m_entryPointInterfaces ∧
    c.m_module.m_id < cf.m_module.m_id ∧ cf.m_module.debugNames = c.m_module.debugNames ∧
    cf.m_module.entryPoints = c.m_module.entryPoints := by
  obtain ⟨M, hM⟩ : ∃ x, x = (defVoidFunctionTypes c.m_module).2.2 := ⟨_, rfl⟩
  have hd : c.m_module.Declares M := hM ▸ defVoidFunctionTypes_declares _
  have hdn : M.debugNames = c.m_module.debugNames := by
    rw [hM]
    simp only [defVoidFunctionTypes, SpirvModule.defVoidType, SpirvModule.defFunctionType]
    exact ((SpirvModule.defTypeConst_grows _ _).grows_trans
      ((SpirvModule.defTypeConst_grows _ _).grows_trans
        (SpirvModule.defTypeConst_grows _ _))).2.2.2.1
  have hep : M.entryPoints = c.m_module.entryPoints := by
    rw [hM]
    simp
  rw [emitFunctionBeginLabel_eq, ← hM] at h8
  obtain ⟨M8, hM8⟩ : ∃ x, x = c8.m_module := ⟨_, rfl⟩
  have hM8c : M8.code = M.code ++
      (if c.m_insideFunction then [.OpReturn, .OpFunctionEnd] else []) ++
      [.OpFunction (defVoidFunctionTypes c.m_module).1 fid (defVoidFunctionTypes c.m_module).2.1,
        .OpLabel M.m_id] := by
    rw [hM8, h8]
  have hM8i : M8.m_id = M.m_id + 1 := by rw [hM8, h8]
  have hM8d : M8.debugNames = M.debugNames := by rw [hM8, h8]
  have hM8e : M8.entryPoints = M.entryPoints := by rw [hM8, h8]
  have g := SpirvModule.defTypeConst_grows M8 .OpTypeVoid
  have hcode : cf.m_module.code = M8.code ++
      [.OpFunctionCall M8.defVoidType.1 M8.defVoidType.2.m_id target []] := by
    rw [hf, hM8]
    show (c8.m_module.defTypeConst .OpTypeVoid).2.code ++ _ = _
    rw [SpirvModule.defTypeConst_code]
  refine ⟨⟨(defVoidFunctionTypes c.m_module).1, (defVoidFunctionTypes c.m_module).2.1, M.m_id,
    M8.defVoidType.1, M8.defVoidType.2.m_id, ?_⟩, ?_, ?_, ?_, ?_, ?_, ?_, ?_, ?_, ?_⟩
  · rw [hcode, hM8c, hd.1]
    simp
  · rw [hf, h8]
  · rw [hf, h8]
  · rw [hf, h8]
  · rw [hf, h8]
  · rw [hf, h8]
  · rw [hf, h8]
  · have h1 : cf.m_module.m_id = (M8.defTypeConst .OpTypeVoid).2.m_id + 1 := by
      rw [hf, hM8]
      rfl
    have h2 := g.1
    have h3 := hd.2.1
    omega
  · have h1 : cf.m_module.debugNames = (M8.defTypeConst .OpTypeVoid).2.debugNames := by
      rw [hf, hM8]
      rfl
    rw [h1, g.2.2.2.1, hM8d, hdn]
  · have h1 : cf.m_module.entryPoints = (M8.defTypeConst .OpTypeVoid).2.entryPoints := by
      rw [hf, hM8]
      rfl
    rw [h1, g.2.2.2.2.2.1, hM8e, hep]

theorem emitVsInit_shape (c c6 : GCNCompiler)
    (h6 : c6 = emitEmuFetchShader (emitDclUniformBuffer (emitDclVertexOutput
      (emitDclVertexInput { c with
        m_module := ((c.m_module.enableCapability .DrawParameters).enableExtension
          "SPV_KHR_shader_draw_parameters") })))) :
    (∃ v ft l v2 r, (emitVsInit c).m_module.code = c6.m_module.code ++
      (if c6.m_insideFunction then [.OpReturn, .OpFunctionEnd] else []) ++
      [.OpFunction v c6.m_module.m_id ft, .OpLabel l,
        .OpFunctionCall v2 r c6.m_vs.fsFunctionId []]) ∧
    (emitVsInit c).m_insideFunction = true ∧
    (emitVsInit c).m_vs.mainFunctionId = c6.m_module.m_id ∧
    (emitVsInit c).m_vs.fsFunctionId = c6.m_vs.fsFunctionId ∧
    (emitVsInit c).m_entryPointId = c6.m_entryPointId ∧
    (emitVsInit c).m_programInfo = c6.m_programInfo ∧
    c6.m_module.m_id < (emitVsInit c).m_module.m_id ∧
    (emitVsInit c).m_module.debugNames =
      c6.m_module.debugNames ++ [.OpName c6.m_module.m_id ⟨"vsMain", none⟩] := by
  obtain ⟨c7, h7⟩ : ∃ x : GCNCompiler, x = { c6 with
      m_module := c6.m_module.allocateId.2.setDebugName c6.m_module.allocateId.1
        ⟨"vsMain", none⟩
      m_vs := { c6.m_vs with mainFunctionId := c6.m_module.allocateId.1 } } := ⟨_, rfl⟩
  have hv : emitVsInit c = { (emitFunctionLabel (emitFunctionBegin
      { c7 with m_module := (defVoidFunctionTypes c7.m_module).2.2 } c6.m_module.allocateId.1
      (defVoidFunctionTypes c7.m_module).1 (defVoidFunctionTypes c7.m_module).2.1)) with
      m_module := ((emitFunctionLabel (emitFunctionBegin
        { c7 with m_module := (defVoidFunctionTypes c7.m_module).2.2 } c6.m_module.allocateId.1
        (defVoidFunctionTypes c7.m_module).1
        (defVoidFunctionTypes c7.m_module).2.1)).m_module.defVoidType.2.opFunctionCall
        (emitFunctionLabel (emitFunctionBegin
        { c7 with m_module := (defVoidFunctionTypes c7.m_module).2.2 } c6.m_module.allocateId.1
        (defVoidFunctionTypes c7.m_module).1
        (defVoidFunctionTypes c7.m_module).2.1)).m_module.defVoidType.1
        (emitFunctionLabel (emitFunctionBegin
        { c7 with m_module := (defVoidFunctionTypes c7.m_module).2.2 } c6.m_module.allocateId.1
        (defVoidFunctionTypes c7.m_module).1
        (defVoidFunctionTypes c7.m_module).2.1)).m_vs.fsFunctionId []).2 } := by
    simp only [emitVsInit, ← h6]
    rw [h7]
  obtain ⟨⟨v, ft, l, v2, r, hc⟩, b2, b3, b4, b5, -, -, b8, b9, -⟩ :=
    beginLabelCall_shape c7 _ _ c6.m_module.allocateId.1
      (emitFunctionLabel (emitFunctionBegin
        { c7 with m_module := (defVoidFunctionTypes c7.m_module).2.2 } c6.m_module.allocateId.1
        (defVoidFunctionTypes c7.m_module).1
        (defVoidFunctionTypes c7.m_module).2.1)).m_vs.fsFunctionId rfl hv
  have hfs : (emitFunctionLabel (emitFunctionBegin
        { c7 with m_module := (defVoidFunctionTypes c7.m_module).2.2 } c6.m_module.allocateId.1
        (defVoidFunctionTypes c7.m_module).1
        (defVoidFunctionTypes c7.m_module).2.1)).m_vs.fsFunctionId = c6.m_vs.fsFunctionId := by
    rw [emitFunctionBeginLabel_eq, h7]
  rw [hfs] at hc
  have hc7c : c7.m_module.code = c6.m_module.code := by rw [h7]; rfl
  have hc7i : c7.m_insideFunction = c6.m_insideFunction := by rw [h7]
  have hc7m : c7.m_module.m_id = c6.m_module.m_id + 1 := by rw [h7]; rfl
  have hc7d : c7.m_module.debugNames =
      c6.m_module.debugNames ++ [.OpName c6.m_module.m_id ⟨"vsMain", none⟩] := by
    rw [h7]; rfl
  refine ⟨⟨v, ft, l, v2, r, ?_⟩, b2, ?_, ?_, ?_, ?_, ?_, ?_⟩
  · rw [hc, hc7c, hc7i]
    rfl
  · rw [b3, h7]
    rfl
  · rw [b3, h7]
  · rw [b4, h7]
  · rw [b5, h7]
  · omega
  · rw [b9, hc7d]

theorem create_prefetch (p : PsslProgramInfo) (a : GcnAnalysisInfo) (si : GcnShaderInput)
    (hp : p.shaderType = .VertexShader) :
    ∃ c1 c5 : GCNCompiler, GCNCompiler.create p a si = emitVsInit c1 ∧
      c5 = emitDclUniformBuffer (emitDclVertexOutput (emitDclVertexInput { c1 with
        m_module := ((c1.m_module.enableCapability .DrawParameters).enableExtension
          "SPV_KHR_shader_draw_parameters") })) ∧
      c5.m_module.code = [] ∧ c5.m_insideFunction = false ∧
      c5.m_vs.fsFunctionId = 0 ∧ c5.m_vs.mainFunctionId = 0 ∧
      c5.m_entryPointId = 1 ∧ c5.m_programInfo = p ∧ c5.m_shaderInput = si ∧
      3 ≤ c5.m_module.m_id := by
  obtain ⟨c1, hc1⟩ : ∃ c1 : GCNCompiler, c1 =
      { m_module := (((SpirvModule.empty.allocateId.2.addDebugString p.key).2.setDebugSource
          (SpirvModule.empty.allocateId.2.addDebugString p.key).1).setMemoryModel.enableCapability
            .Shader).enableCapability .ImageQuery
        m_sgprs := fun _ => SpirvRegisterPointer.default
        m_vgprs := fun _ => SpirvRegisterPointer.default
        m_constValueTable := fun _ => SpirvLiteralConstant.default
        m_stateRegs := ⟨0, 0⟩
        m_programInfo := p
        m_analysis := a
        m_shaderInput := si
        m_entryPointId := SpirvModule.empty.allocateId.1
        m_entryPointInterfaces := []
        m_insideFunction := false
        m_vs := ⟨0, 0, fun _ => SpirvRegisterPointer.default,
          fun _ => SpirvRegisterPointer.default⟩
        m_perVertexOut := 0
        m_uboId := 0 } := ⟨_, rfl⟩
  have hc : GCNCompiler.create p a si = emitVsInit c1 := by
    simp only [GCNCompiler.create, emitInit, hp, ← hc1]
  obtain ⟨c2, hc2⟩ : ∃ c2 : GCNCompiler, c2 = { c1 with
      m_module := ((c1.m_module.enableCapability .DrawParameters).enableExtension
        "SPV_KHR_shader_draw_parameters") } := ⟨_, rfl⟩
  have h2 : c1.m_module.Declares c2.m_module := by
    rw [hc2]
    exact (SpirvModule.enableCapability_declares _ _).declares_trans
      (SpirvModule.enableExtension_declares _ _)
  have h1c : c1.m_module.code = [] := by
    rw [hc1]
    simp [SpirvModule.enableCapability_code, SpirvModule.empty]
  have h1i : 3 ≤ c1.m_module.m_id := by
    rw [hc1]
    simp only [SpirvModule.enableCapability_m_id]
    exact le_refl _
  obtain ⟨d1, d2, d3, d4, d5, d6, d7, -, -⟩ :=
    ((emitDclVertexInput_sameCode c2).same_trans (emitDclVertexOutput_sameCode _)).same_trans
      (emitDclUniformBuffer_sameCode _)
  refine ⟨c1, emitDclUniformBuffer (emitDclVertexOutput (emitDclVertexInput c2)), hc,
    (by rw [hc2]), ?_, ?_, ?_, ?_, ?_, ?_, ?_, ?_⟩
  · rw [d1.1, h2.1, h1c]
  · rw [d2, hc2, hc1]
  · rw [d3, hc2, hc1]
  · rw [d4, hc2, hc1]
  · rw [d5, hc2, hc1]
    rfl
  · rw [d6, hc2, hc1]
  · rw [d7, hc2, hc1]
  · exact le_trans h1i (le_trans h2.2.1 d1.2.1)

theorem create_present_shape (p : PsslProgramInfo) (a : GcnAnalysisInfo)
    (sems : List VertexInputSemantic) (res : List GcnResourceEntry)
    (hp : p.shaderType = .VertexShader) :
    ∃ (items : List (SpirvVariable × List SpirvInstr)) (v1 ft1 l1 v ft l v2 r : Nat),
      (GCNCompiler.create p a ⟨some sems, res⟩).m_module.code =
        [.OpFunction v1 (GCNCompiler.create p a ⟨some sems, res⟩).m_vs.fsFunctionId ft1, .OpLabel l1] ++ items.flatMap (·.2) ++
        [.OpReturn, .OpFunctionEnd, .OpFunction v (GCNCompiler.create p a ⟨some sems, res⟩).m_vs.mainFunctionId ft, .OpLabel l,
          .OpFunctionCall v2 r (GCNCompiler.create p a ⟨some sems, res⟩).m_vs.fsFunctionId []] ∧
      (∀ it ∈ items, ∀ i ∈ it.2, i.op ≠ .OpFunction ∧ i.op ≠ .OpFunctionEnd) ∧
      items.length = (sems.map (·.sizeInElements)).sum ∧
      (GCNCompiler.create p a ⟨some sems, res⟩).m_insideFunction = true ∧
      3 ≤ (GCNCompiler.create p a ⟨some sems, res⟩).m_vs.fsFunctionId ∧
      (GCNCompiler.create p a ⟨some sems, res⟩).m_vs.fsFunctionId < (GCNCompiler.create p a ⟨some sems, res⟩).m_vs.mainFunctionId ∧
      (GCNCompiler.create p a ⟨some sems, res⟩).m_entryPointId = 1 ∧ (GCNCompiler.create p a ⟨some sems, res⟩).m_programInfo = p ∧
      SpirvDebug.OpName (GCNCompiler.create p a ⟨some sems, res⟩).m_vs.fsFunctionId ⟨"vsFetch", none⟩ ∈ (GCNCompiler.create p a ⟨some sems, res⟩).m_module.debugNames ∧
      SpirvDebug.OpName (GCNCompiler.create p a ⟨some sems, res⟩).m_vs.mainFunctionId ⟨"vsMain", none⟩ ∈
        (GCNCompiler.create p a ⟨some sems, res⟩).m_module.debugNames := by
  obtain ⟨c1, c5, hc, h5, a1, a2, a3, a4, a5, a6, a7, a8⟩ :=
    create_prefetch p a ⟨some sems, res⟩ hp
  have hs : c5.m_shaderInput.vsInputSemantics = some sems := by rw [a7]
  obtain ⟨items, v1, ft1, l1, b1, b2, b3, b4, b5, b6, b7, b8, b9, b10, b11, b12, b13, b14, b15⟩ :=
    emitEmuFetchShader_shape c5 sems hs
  obtain ⟨⟨v, ft, l, v2, r, e1⟩, e2, e3, e4, e5, e6, e7, e8⟩ :=
    emitVsInit_shape c1 (emitEmuFetchShader c5) (by rw [h5])
  rw [hc]
  refine ⟨items, v1, ft1, l1, v, ft, l, v2, r, ?_, ?_, ?_, e2, ?_, ?_, ?_, ?_, ?_, ?_⟩
  · rw [e1, e3, e4, b2, b6, b7, a1, a2]
    simp
  · intro it hit i hi
    obtain ⟨k, hk⟩ := List.getElem?_of_mem hit
    have hlen := b3.length_eq
    have hk2 : k < items.length := by
      rcases Nat.lt_or_ge k items.length with h | h
      · exact h
      · rw [List.getElem?_eq_none h] at hk
        cases hk
    have hit2 : items.get ⟨k, hk2⟩ = it := by
      rw [List.get_eq_getElem]
      exact Option.some.inj ((List.getElem?_eq_getElem hk2).symm.trans hk)
    have hf := (List.forall₂_iff_get.mp b3).2 k (by omega) hk2
    rw [hit2] at hf
    obtain ⟨idx, ch, ld, -, hin⟩ := hf.2.2
    rw [hin] at hi
    simp only [List.mem_cons, List.mem_singleton, List.not_mem_nil, or_false] at hi
    rcases hi with rfl | rfl | rfl <;> exact ⟨(fun h => by cases h), (fun h => by cases h)⟩
  · rw [← b3.length_eq, fetchLanes_length]
  · rw [e4, b7]
    exact a8
  · rw [e4, e3, b7]
    exact b10
  · rw [e5, b13, a5]
  · rw [e6, b14, a6]
  · rw [e8, e4, b7]
    exact List.mem_append_left _ b12
  · rw [e8, e3]
    simp

theorem create_absent_shape (p : PsslProgramInfo) (a : GcnAnalysisInfo)
    (res : List GcnResourceEntry) (hp : p.shaderType = .VertexShader) :
    ∃ (v ft l v2 r : Nat),
      (GCNCompiler.create p a ⟨none, res⟩).m_module.code =
        [.OpFunction v (GCNCompiler.create p a ⟨none, res⟩).m_vs.mainFunctionId ft, .OpLabel l, .OpFunctionCall v2 r 0 []] ∧
      (GCNCompiler.create p a ⟨none, res⟩).m_vs.fsFunctionId = 0 ∧ 3 ≤ (GCNCompiler.create p a ⟨none, res⟩).m_vs.mainFunctionId ∧
      (GCNCompiler.create p a ⟨none, res⟩).m_insideFunction = true ∧ (GCNCompiler.create p a ⟨none, res⟩).m_entryPointId = 1 ∧ (GCNCompiler.create p a ⟨none, res⟩).m_programInfo = p := by
  obtain ⟨c1, c5, hc, h5, a1, a2, a3, a4, a5, a6, a7, a8⟩ :=
    create_prefetch p a ⟨none, res⟩ hp
  have h6 : emitEmuFetchShader c5 = c5 := by
    unfold emitEmuFetchShader
    rw [a7]
  obtain ⟨⟨v, ft, l, v2, r, e1⟩, e2, e3, e4, e5, e6, e7, e8⟩ :=
    emitVsInit_shape c1 c5 (by rw [← h5, h6])
  rw [hc]
  refine ⟨v, ft, l, v2, r, ?_, ?_, ?_, e2, ?_, ?_⟩
  · rw [e1, e3, a1, a2, a3]
    simp
  · rw [e4, a3]
  · rw [e3]
    exact a8
  · rw [e5, a5]
  · rw [e6, a6]

/-- C23 (code bug). For a vertex-stage shader input without vertex input
semantics, the code stream after initialisation is the opening of `vsMain`, its
label and a call whose callee is the id 0: `emitEmuFetchShader` returns before
it allocates `m_vs.fsFunctionId`, which is still 0, and `emitVsInit` emits the
call all the same.  The only function begun is `vsMain`, whose id is at least
3, so no function with the id 0 is defined.  When the semantics are present
(the list may be empty), the callee is the id of the fetch function, which is
at least 3, and that function is begun and ended before `vsMain` begins. -/
theorem emitVsInit_calls_undefined_fetch (p : PsslProgramInfo) (a : GcnAnalysisInfo)
    (res : List GcnResourceEntry) (hp : p.shaderType = .VertexShader) :
    (∃ (v ft l v2 r : Nat),
      (GCNCompiler.create p a ⟨none, res⟩).m_module.code =
        [.OpFunction v (GCNCompiler.create p a ⟨none, res⟩).m_vs.mainFunctionId ft, .OpLabel l, .OpFunctionCall v2 r 0 []] ∧
      (GCNCompiler.create p a ⟨none, res⟩).m_vs.fsFunctionId = 0 ∧ (GCNCompiler.create p a ⟨none, res⟩).m_vs.mainFunctionId ≠ 0) ∧
    (∀ sems : List VertexInputSemantic,
      ∃ (body : List SpirvInstr) (v1 ft1 l1 v ft l v2 r : Nat),
        (GCNCompiler.create p a ⟨some sems, res⟩).m_module.code =
          [.OpFunction v1 (GCNCompiler.create p a ⟨some sems, res⟩).m_vs.fsFunctionId ft1, .OpLabel l1] ++ body ++
          [.OpReturn, .OpFunctionEnd, .OpFunction v (GCNCompiler.create p a ⟨some sems, res⟩).m_vs.mainFunctionId ft, .OpLabel l,
            .OpFunctionCall v2 r (GCNCompiler.create p a ⟨some sems, res⟩).m_vs.fsFunctionId []] ∧
        (∀ i ∈ body, i.op ≠ .OpFunction ∧ i.op ≠ .OpFunctionEnd) ∧
        (GCNCompiler.create p a ⟨some sems, res⟩).m_vs.fsFunctionId ≠ 0) := by
  constructor
  · obtain ⟨v, ft, l, v2, r, h1, h2, h3, -⟩ := create_absent_shape p a res hp
    exact ⟨v, ft, l, v2, r, h1, h2, by omega⟩
  · intro sems
    obtain ⟨items, v1, ft1, l1, v, ft, l, v2, r, h1, h2, -, -, h5, -⟩ :=
      create_present_shape p a sems res hp
    refine ⟨items.flatMap (·.2), v1, ft1, l1, v, ft, l, v2, r, h1, ?_, by omega⟩
    intro i hi
    obtain ⟨it, hit, hi2⟩ := List.mem_flatMap.mp hi
    exact h2 it hit i hi2

/-- Witness of C23: the vertex shader with no input semantics, no export
parameters and no resources: after construction the code stream is the opening
of `vsMain` (id 8), its label, and a call of the function id 0. -/
theorem emitVsInit_calls_undefined_fetch_witness :
    (GCNCompiler.create ⟨.VertexShader, .Vertex, "k"⟩ ⟨[]⟩ ⟨none, []⟩).m_module.code =
      [.OpFunction 9 8 10, .OpLabel 11, .OpFunctionCall 9 12 0 []] ∧
    (∃ (v ft l v2 r : Nat),
      (GCNCompiler.create ⟨.VertexShader, .Vertex, "k"⟩ ⟨[]⟩ ⟨none, []⟩).m_module.code =
        [.OpFunction v
          (GCNCompiler.create ⟨.VertexShader, .Vertex, "k"⟩ ⟨[]⟩ ⟨none, []⟩).m_vs.mainFunctionId
          ft, .OpLabel l, .OpFunctionCall v2 r 0 []]) := by
  refine ⟨rfl, ?_⟩
  obtain ⟨⟨v, ft, l, v2, r, h1, -, -⟩, -⟩ :=
    emitVsInit_calls_undefined_fetch ⟨.VertexShader, .Vertex, "k"⟩ ⟨[]⟩ [] rfl
  exact ⟨v, ft, l, v2, r, h1⟩

theorem emitVsFinalize_shape (c : GCNCompiler) :
    (∃ v ft l v2 r, (emitVsFinalize c).m_module.code = c.m_module.code ++
      (if c.m_insideFunction then [.OpReturn, .OpFunctionEnd] else []) ++
      [.OpFunction v c.m_entryPointId ft, .OpLabel l,
        .OpFunctionCall v2 r c.m_vs.mainFunctionId [], .OpReturn, .OpFunctionEnd]) ∧
    (emitVsFinalize c).m_insideFunction = false ∧ (emitVsFinalize c).m_vs = c.m_vs ∧
    (emitVsFinalize c).m_entryPointId = c.m_entryPointId ∧
    (emitVsFinalize c).m_programInfo = c.m_programInfo ∧
    (emitVsFinalize c).m_entryPointInterfaces = c.m_entryPointInterfaces ∧
    (emitVsFinalize c).m_module.debugNames = c.m_module.debugNames ∧
    (emitVsFinalize c).m_module.entryPoints = c.m_module.entryPoints := by
  have hv : emitVsFinalize c = emitFunctionEnd { emitMainFunctionBegin c with
      m_module := ((emitMainFunctionBegin c).m_module.defVoidType.2.opFunctionCall
        (emitMainFunctionBegin c).m_module.defVoidType.1
        (emitMainFunctionBegin c).m_vs.mainFunctionId []).2 } := rfl
  have hm : emitMainFunctionBegin c = emitFunctionLabel (emitFunctionBegin
      { c with m_module := (defVoidFunctionTypes c.m_module).2.2 } c.m_entryPointId
      (defVoidFunctionTypes c.m_module).1 (defVoidFunctionTypes c.m_module).2.1) := rfl
  have hmain : (emitMainFunctionBegin c).m_vs.mainFunctionId = c.m_vs.mainFunctionId := by
    rw [hm, emitFunctionBeginLabel_eq]
  obtain ⟨⟨v, ft, l, v2, r, hc⟩, b2, b3, b4, b5, -, b7, -, b9, b10⟩ :=
    beginLabelCall_shape c (emitMainFunctionBegin c) _ c.m_entryPointId
      (emitMainFunctionBegin c).m_vs.mainFunctionId hm rfl
  rw [hv, emitFunctionEnd_eq]
  refine ⟨⟨v, ft, l, v2, r, ?_⟩, rfl, b3, b4, b5, b7, b9, b10⟩
  show _ ++ (if _ then _ else _) = _
  rw [hc, b2, hmain]
  simp

theorem finalize_shape (c : GCNCompiler) :
    (finalize c).1.stage = c.m_programInfo.shaderType ∧
    (finalize c).1.key = c.m_programInfo.key ∧
    (finalize c).1.code = (finalize c).2.m_module ∧
    (finalize c).2.m_module.entryPoints = c.m_module.entryPoints ++
      [⟨c.m_entryPointId, c.m_programInfo.executionModel, "main", c.m_entryPointInterfaces⟩] ∧
    (finalize c).2.m_module.debugNames = c.m_module.debugNames ++
      [.OpName c.m_entryPointId ⟨"main", none⟩] ∧
    (finalize c).2.m_programInfo = c.m_programInfo ∧
    (finalize c).2.m_entryPointId = c.m_entryPointId ∧
    (finalize c).2.m_entryPointInterfaces = c.m_entryPointInterfaces ∧
    (finalize c).2.m_vs = c.m_vs ∧
    (c.m_programInfo.shaderType = .VertexShader →
      (∃ v ft l v2 r, (finalize c).2.m_module.code = c.m_module.code ++
        (if c.m_insideFunction then [.OpReturn, .OpFunctionEnd] else []) ++
        [.OpFunction v c.m_entryPointId ft, .OpLabel l,
          .OpFunctionCall v2 r c.m_vs.mainFunctionId [], .OpReturn, .OpFunctionEnd]) ∧
      (finalize c).2.m_insideFunction = false) ∧
    (c.m_programInfo.shaderType ≠ .VertexShader →
      (finalize c).2.m_module.code = c.m_module.code ∧
      (finalize c).2.m_insideFunction = c.m_insideFunction) := by
  by_cases h : c.m_programInfo.shaderType = .VertexShader
  · obtain ⟨hc, b2, b3, b4, b5, b6, b7, b8⟩ := emitVsFinalize_shape c
    simp only [finalize, h, SpirvModule.compile]
    refine ⟨by rw [b5, h], by rw [b5], trivial, ?_, ?_, b5, b4, b6, b3,
      fun _ => ⟨hc, b2⟩, fun hn => absurd rfl hn⟩
    · simp [SpirvModule.setDebugName, SpirvModule.addEntryPoint, b8, b4, b5, b6]
    · simp [SpirvModule.setDebugName, SpirvModule.addEntryPoint, b7, b4]
  · have hf : finalize c = (⟨c.m_programInfo.shaderType,
        (c.m_module.addEntryPoint c.m_entryPointId c.m_programInfo.executionModel "main"
          c.m_entryPointInterfaces).setDebugName c.m_entryPointId ⟨"main", none⟩,
        c.m_programInfo.key⟩,
        { c with m_module := (c.m_module.addEntryPoint c.m_entryPointId
          c.m_programInfo.executionModel "main"
          c.m_entryPointInterfaces).setDebugName c.m_entryPointId ⟨"main", none⟩ }) := by
      unfold finalize
      split
      · exact absurd (by assumption) h
      · rfl
    rw [hf]
    exact ⟨rfl, rfl, rfl, rfl, rfl, rfl, rfl, rfl, rfl, fun hv => absurd hv h,
      fun _ => ⟨rfl, rfl⟩⟩

/-! ## Calling `finalize` twice -/

/-- C24, as stated, fails: on the vertex translator constructed with an empty
list of input semantics and no process call, the first `finalize` returns a
module with fourteen instructions and one entry point, and the second returns
one with a further function of id 1, a further call of `vsMain` (id 12) and a
second entry-point declaration, so the two returned shaders differ. -/
theorem finalize_twice_counterexample :
    (finalize (GCNCompiler.create ⟨.VertexShader, .Vertex, "k"⟩ ⟨[]⟩ ⟨some [], []⟩)).1.code.code =
      [.OpFunction 9 8 10, .OpLabel 11, .OpReturn, .OpFunctionEnd,
        .OpFunction 9 12 10, .OpLabel 13, .OpFunctionCall 9 14 8 [], .OpReturn, .OpFunctionEnd,
        .OpFunction 9 1 10, .OpLabel 15, .OpFunctionCall 9 16 12 [], .OpReturn,
        .OpFunctionEnd] ∧
    (finalize (finalize (GCNCompiler.create ⟨.VertexShader, .Vertex, "k"⟩ ⟨[]⟩ ⟨some [], []⟩)).2).1.code.code =
      [.OpFunction 9 8 10, .OpLabel 11, .OpReturn, .OpFunctionEnd,
        .OpFunction 9 12 10, .OpLabel 13, .OpFunctionCall 9 14 8 [], .OpReturn, .OpFunctionEnd,
        .OpFunction 9 1 10, .OpLabel 15, .OpFunctionCall 9 16 12 [], .OpReturn, .OpFunctionEnd,
        .OpFunction 9 1 10, .OpLabel 17, .OpFunctionCall 9 18 12 [], .OpReturn,
        .OpFunctionEnd] ∧
    (finalize (GCNCompiler.create ⟨.VertexShader, .Vertex, "k"⟩ ⟨[]⟩ ⟨some [], []⟩)).1.code.entryPoints = [⟨1, .Vertex, "main", [7]⟩] ∧
    (finalize (finalize (GCNCompiler.create ⟨.VertexShader, .Vertex, "k"⟩ ⟨[]⟩ ⟨some [], []⟩)).2).1.code.entryPoints =
      [⟨1, .Vertex, "main", [7]⟩, ⟨1, .Vertex, "main", [7]⟩] ∧
    (finalize (finalize (GCNCompiler.create ⟨.VertexShader, .Vertex, "k"⟩ ⟨[]⟩ ⟨some [], []⟩)).2).1 ≠ (finalize (GCNCompiler.create ⟨.VertexShader, .Vertex, "k"⟩ ⟨[]⟩ ⟨some [], []⟩)).1 ∧
    (finalize (finalize (GCNCompiler.create ⟨.VertexShader, .Vertex, "k"⟩ ⟨[]⟩ ⟨some [], []⟩)).2).2.m_module ≠ (finalize (GCNCompiler.create ⟨.VertexShader, .Vertex, "k"⟩ ⟨[]⟩ ⟨some [], []⟩)).2.m_module := by
  refine ⟨rfl, rfl, rfl, rfl, ?_, ?_⟩
  · intro h
    exact absurd (congrArg (fun s => s.code.entryPoints.length) h) (by decide)
  · intro h
    exact absurd (congrArg (fun m => m.entryPoints.length) h) (by decide)

/-- C24, amended. For every translator state, a second `finalize` returns the
same stage and key as the first, but not the same module: it declares the entry
point once more (same id, execution model, name "main" and interface list), names
the entry point id "main" once more and, for a vertex shader, appends one more
function with the entry point id whose body is a call of `vsMain` followed by
`OpReturn`; for the other stages the instruction stream is unchanged. -/
theorem finalize_twice_spec (c : GCNCompiler) :
    (finalize (finalize c).2).1.stage = (finalize c).1.stage ∧
    (finalize (finalize c).2).1.key = (finalize c).1.key ∧
    (finalize (finalize c).2).1.code.entryPoints = (finalize c).1.code.entryPoints ++
      [⟨c.m_entryPointId, c.m_programInfo.executionModel, "main", c.m_entryPointInterfaces⟩] ∧
    (finalize (finalize c).2).1.code.debugNames = (finalize c).1.code.debugNames ++
      [.OpName c.m_entryPointId ⟨"main", none⟩] ∧
    (finalize (finalize c).2).1.code ≠ (finalize c).1.code ∧
    (finalize (finalize c).2).1.code = (finalize (finalize c).2).2.m_module ∧
    (finalize c).1.code = (finalize c).2.m_module ∧
    (c.m_programInfo.shaderType = .VertexShader →
      ∃ v ft l v2 r, (finalize (finalize c).2).1.code.code = (finalize c).1.code.code ++
        [.OpFunction v c.m_entryPointId ft, .OpLabel l,
          .OpFunctionCall v2 r c.m_vs.mainFunctionId [], .OpReturn, .OpFunctionEnd]) ∧
    (c.m_programInfo.shaderType ≠ .VertexShader →
      (finalize (finalize c).2).1.code.code = (finalize c).1.code.code) := by
  obtain ⟨a1, a2, a3, a4, a5, a6, a7, a8, a9, a10, a11⟩ := finalize_shape c
  obtain ⟨b1, b2, b3, b4, b5, b6, b7, b8, b9, b10, b11⟩ := finalize_shape (finalize c).2
  have hep : (finalize (finalize c).2).1.code.entryPoints = (finalize c).1.code.entryPoints ++
      [⟨c.m_entryPointId, c.m_programInfo.executionModel, "main",
        c.m_entryPointInterfaces⟩] := by
    rw [b3, b4, a3, a6, a7, a8]
  refine ⟨by rw [b1, a6, a1], by rw [b2, a6, a2], hep, by rw [b3, b5, a3, a7], ?_, b3, a3,
    ?_, ?_⟩
  · intro h
    have hl := congrArg List.length hep
    rw [h] at hl
    simp at hl
  · intro hv
    obtain ⟨v, ft, l, v2, r, hc⟩ := (b10 (by rw [a6]; exact hv)).1
    refine ⟨v, ft, l, v2, r, ?_⟩
    rw [b3, hc, (a10 hv).2, a7, a9, a3]
    simp
  · intro hv
    rw [b3, (b11 (by rw [a6]; exact hv)).1, a3]

/-- Instance of the amended C24 on the vertex translator constructed with an
empty list of input semantics: the second module has the first one's fourteen
instructions followed by five more. -/
theorem finalize_twice_spec_witness :
    (GCNCompiler.create ⟨.VertexShader, .Vertex, "k"⟩ ⟨[]⟩
      ⟨some [], []⟩).m_programInfo.shaderType = .VertexShader ∧
    (finalize (GCNCompiler.create ⟨.VertexShader, .Vertex, "k"⟩ ⟨[]⟩ ⟨some [], []⟩)).1.code.code.length = 14 ∧
    ∃ v ft l v2 r, (finalize (finalize (GCNCompiler.create ⟨.VertexShader, .Vertex, "k"⟩ ⟨[]⟩ ⟨some [], []⟩)).2).1.code.code = (finalize (GCNCompiler.create ⟨.VertexShader, .Vertex, "k"⟩ ⟨[]⟩ ⟨some [], []⟩)).1.code.code ++
      [.OpFunction v 1 ft, .OpLabel l, .OpFunctionCall v2 r 12 [], .OpReturn,
        .OpFunctionEnd] :=
  ⟨rfl, rfl, (finalize_twice_spec (GCNCompiler.create ⟨.VertexShader, .Vertex, "k"⟩ ⟨[]⟩ ⟨some [], []⟩)).2.2.2.2.2.2.2.1 rfl⟩

/-! ## Function bracketing of the whole translation -/

theorem GCNCompiler.BodyStep.body_refl (c : GCNCompiler) : GCNCompiler.BodyStep c c :=
  ⟨⟨[], by simp, by simp⟩, rfl, rfl, rfl, rfl, rfl, List.prefix_refl _⟩

theorem GCNCompiler.BodyStep.body_trans {c c2 c3 : GCNCompiler}
    (h1 : GCNCompiler.BodyStep c c2) (h2 : GCNCompiler.BodyStep c2 c3) :
    GCNCompiler.BodyStep c c3 := by
  obtain ⟨⟨b1, e1, n1⟩, a2, a3, a4, a5, a6, a7⟩ := h1
  obtain ⟨⟨b2, e2, n2⟩, d2, d3, d4, d5, d6, d7⟩ := h2
  refine ⟨⟨b1 ++ b2, by rw [e2, e1, List.append_assoc], ?_⟩, d2.trans a2, d3.trans a3,
    d4.trans a4, d5.trans a5, d6.trans a6, a7.trans d7⟩
  intro i hi
  rcases List.mem_append.mp hi with h | h
  · exact n1 i h
  · exact n2 i h

theorem processInstruction_bodyStep (em : CategoryEmitters) (hem : em.BodyOnly)
    (c : GCNCompiler) (ins : GCNInstruction) :
    GCNCompiler.BodyStep c (processInstruction em c ins) := by
  obtain ⟨h1, h2, h3, h4, h5, h6, h7, h8, h9⟩ := hem
  unfold processInstruction
  cases ins.category
  · exact h1 c ins
  · exact h2 c ins
  · exact h3 c ins
  · exact h4 c ins
  · exact h5 c ins
  · exact h6 c ins
  · exact h7 c ins
  · exact h8 c ins
  · exact h9 c ins
  · exact GCNCompiler.BodyStep.body_refl c
  · exact GCNCompiler.BodyStep.body_refl c

theorem foldl_processInstruction_bodyStep (em : CategoryEmitters) (hem : em.BodyOnly)
    (prog : List GCNInstruction) (c : GCNCompiler) :
    GCNCompiler.BodyStep c (prog.foldl (processInstruction em) c) := by
  induction prog generalizing c with
  | nil => exact GCNCompiler.BodyStep.body_refl c
  | cons ins rest ih =>
    exact GCNCompiler.BodyStep.body_trans (processInstruction_bodyStep em hem c ins)
      (ih (processInstruction em c ins))

theorem sampleEmitters_bodyOnly : sampleEmitters.BodyOnly := by
  refine ⟨fun c _ => GCNCompiler.BodyStep.body_refl c,
    fun c _ => GCNCompiler.BodyStep.body_refl c, ?_,
    fun c _ => GCNCompiler.BodyStep.body_refl c, fun c _ => GCNCompiler.BodyStep.body_refl c,
    fun c _ => GCNCompiler.BodyStep.body_refl c, fun c _ => GCNCompiler.BodyStep.body_refl c,
    fun c _ => GCNCompiler.BodyStep.body_refl c, fun c _ => GCNCompiler.BodyStep.body_refl c⟩
  intro c ins
  refine ⟨⟨[.OpStore 16 ins.encoding], rfl, ?_⟩, rfl, rfl, rfl, rfl, rfl, List.prefix_refl _⟩
  intro i hi
  rw [List.mem_singleton] at hi
  subst hi
  exact ⟨(fun h => by cases h), (fun h => by cases h)⟩

theorem foldl_bracketStep_body (body : List SpirvInstr)
    (hb : ∀ i ∈ body, i.op ≠ .OpFunction ∧ i.op ≠ .OpFunctionEnd) (b : Bool) :
    ∃ b2, body.foldl bracketStep (some (true, b)) = some (true, b2) := by
  induction body generalizing b with
  | nil => exact ⟨b, rfl⟩
  | cons i rest ih =>
    have hi := hb i (List.mem_cons_self _ _)
    have hr : ∀ j ∈ rest, j.op ≠ .OpFunction ∧ j.op ≠ .OpFunctionEnd :=
      fun j hj => hb j (List.mem_cons_of_mem _ hj)
    have hs : ∃ b1, bracketStep (some (true, b)) i = some (true, b1) := by
      cases i <;> first
        | exact absurd rfl hi.1
        | exact absurd rfl hi.2
        | exact ⟨_, rfl⟩
    obtain ⟨b1, h1⟩ := hs
    rw [List.foldl_cons, h1]
    exact ih hr b1

theorem functionIds_body (body : List SpirvInstr)
    (hb : ∀ i ∈ body, i.op ≠ .OpFunction ∧ i.op ≠ .OpFunctionEnd) :
    functionIds body = [] := by
  induction body with
  | nil => rfl
  | cons i rest ih =>
    have hi := hb i (List.mem_cons_self _ _)
    have hr : ∀ j ∈ rest, j.op ≠ .OpFunction ∧ j.op ≠ .OpFunctionEnd :=
      fun j hj => hb j (List.mem_cons_of_mem _ hj)
    have h0 : functionIds (i :: rest) = functionIds rest := by
      cases i <;> first
        | exact absurd rfl hi.1
        | rfl
    rw [h0, ih hr]

theorem functionIds_append (xs ys : List SpirvInstr) :
    functionIds (xs ++ ys) = functionIds xs ++ functionIds ys := by
  simp [functionIds, List.filterMap_append]

theorem bracketState_three (fetch body : List SpirvInstr)
    (hf : ∀ i ∈ fetch, i.op ≠ .OpFunction ∧ i.op ≠ .OpFunctionEnd)
    (hb : ∀ i ∈ body, i.op ≠ .OpFunction ∧ i.op ≠ .OpFunctionEnd)
    (v1 fs ft1 l1 v mn ft l v2 r v3 en ft3 l3 v4 r4 : Nat) :
    bracketState ([.OpFunction v1 fs ft1, .OpLabel l1] ++ fetch ++
      [.OpReturn, .OpFunctionEnd, .OpFunction v mn ft, .OpLabel l,
        .OpFunctionCall v2 r fs []] ++ body ++
      [.OpReturn, .OpFunctionEnd, .OpFunction v3 en ft3, .OpLabel l3,
        .OpFunctionCall v4 r4 mn [], .OpReturn, .OpFunctionEnd]) = some (false, false) ∧
    functionIds ([.OpFunction v1 fs ft1, .OpLabel l1] ++ fetch ++
      [.OpReturn, .OpFunctionEnd, .OpFunction v mn ft, .OpLabel l,
        .OpFunctionCall v2 r fs []] ++ body ++
      [.OpReturn, .OpFunctionEnd, .OpFunction v3 en ft3, .OpLabel l3,
        .OpFunctionCall v4 r4 mn [], .OpReturn, .OpFunctionEnd]) = [fs, mn, en] := by
  obtain ⟨b1, h1⟩ := foldl_bracketStep_body fetch hf false
  obtain ⟨b2, h2⟩ := foldl_bracketStep_body body hb false
  constructor
  · simp only [bracketState, List.foldl_append, List.foldl_cons, List.foldl_nil]
    have e1 : bracketStep (bracketStep (some (false, false)) (.OpFunction v1 fs ft1))
        (.OpLabel l1) = some (true, false) := rfl
    rw [e1, h1]
    have e2 : bracketStep (bracketStep (bracketStep (bracketStep (bracketStep
        (some (true, b1)) .OpReturn) .OpFunctionEnd) (.OpFunction v mn ft)) (.OpLabel l))
        (.OpFunctionCall v2 r fs []) = some (true, false) := rfl
    rw [e2, h2]
    rfl
  · rw [functionIds_append, functionIds_append, functionIds_append, functionIds_append,
      functionIds_body fetch hf, functionIds_body body hb]
    rfl

theorem finalize_bracket_shape (c0 c : GCNCompiler) (fetch : List SpirvInstr)
    (v1 ft1 l1 v ft l v2 r : Nat)
    (h0 : c0.m_module.code = [.OpFunction v1 c0.m_vs.fsFunctionId ft1, .OpLabel l1] ++ fetch ++
      [.OpReturn, .OpFunctionEnd, .OpFunction v c0.m_vs.mainFunctionId ft, .OpLabel l,
        .OpFunctionCall v2 r c0.m_vs.fsFunctionId []])
    (hfetch : ∀ i ∈ fetch, i.op ≠ .OpFunction ∧ i.op ≠ .OpFunctionEnd)
    (hin : c0.m_insideFunction = true) (hfs : 3 ≤ c0.m_vs.fsFunctionId)
    (hlt : c0.m_vs.fsFunctionId < c0.m_vs.mainFunctionId) (hen : c0.m_entryPointId = 1)
    (hv : c0.m_programInfo.shaderType = .VertexShader)
    (hn1 : SpirvDebug.OpName c0.m_vs.fsFunctionId ⟨"vsFetch", none⟩ ∈ c0.m_module.debugNames)
    (hn2 : SpirvDebug.OpName c0.m_vs.mainFunctionId ⟨"vsMain", none⟩ ∈ c0.m_module.debugNames)
    (hstep : GCNCompiler.BodyStep c0 c) :
    (∃ (fetch body : List SpirvInstr) (v1 ft1 l1 v ft l v2 r v3 ft3 l3 v4 r4 : Nat),
      (finalize c).1.code.code =
        [.OpFunction v1 c0.m_vs.fsFunctionId ft1, .OpLabel l1] ++ fetch ++
        [.OpReturn, .OpFunctionEnd, .OpFunction v c0.m_vs.mainFunctionId ft, .OpLabel l,
          .OpFunctionCall v2 r c0.m_vs.fsFunctionId []] ++ body ++
        [.OpReturn, .OpFunctionEnd, .OpFunction v3 c0.m_entryPointId ft3, .OpLabel l3,
          .OpFunctionCall v4 r4 c0.m_vs.mainFunctionId [], .OpReturn, .OpFunctionEnd] ∧
      (∀ i ∈ fetch, i.op ≠ .OpFunction ∧ i.op ≠ .OpFunctionEnd) ∧
      (∀ i ∈ body, i.op ≠ .OpFunction ∧ i.op ≠ .OpFunctionEnd)) ∧
    bracketState (finalize c).1.code.code = some (false, false) ∧
    functionIds (finalize c).1.code.code = [c0.m_vs.fsFunctionId, c0.m_vs.mainFunctionId, c0.m_entryPointId] ∧
    SpirvDebug.OpName c0.m_vs.fsFunctionId ⟨"vsFetch", none⟩ ∈ (finalize c).1.code.debugNames ∧
    SpirvDebug.OpName c0.m_vs.mainFunctionId ⟨"vsMain", none⟩ ∈ (finalize c).1.code.debugNames ∧
    SpirvDebug.OpName c0.m_entryPointId ⟨"main", none⟩ ∈ (finalize c).1.code.debugNames ∧
    c0.m_vs.fsFunctionId ≠ c0.m_vs.mainFunctionId ∧ c0.m_vs.fsFunctionId ≠ c0.m_entryPointId ∧ c0.m_vs.mainFunctionId ≠ c0.m_entryPointId ∧
    (finalize c).2.m_insideFunction = false := by
  obtain ⟨⟨body, e1, n1⟩, s2, s3, s4, s5, s6, s7⟩ := hstep
  obtain ⟨-, -, a3, -, a5, -, -, -, -, a10, -⟩ := finalize_shape c
  obtain ⟨⟨v3, ft3, l3, v4, r4, hc⟩, hins⟩ := a10 (by rw [s6]; exact hv)
  have hcode : (finalize c).1.code.code =
      [.OpFunction v1 c0.m_vs.fsFunctionId ft1, .OpLabel l1] ++ fetch ++
      [.OpReturn, .OpFunctionEnd, .OpFunction v c0.m_vs.mainFunctionId ft, .OpLabel l,
        .OpFunctionCall v2 r c0.m_vs.fsFunctionId []] ++ body ++
      [.OpReturn, .OpFunctionEnd, .OpFunction v3 c0.m_entryPointId ft3, .OpLabel l3,
        .OpFunctionCall v4 r4 c0.m_vs.mainFunctionId [], .OpReturn, .OpFunctionEnd] := by
    rw [a3, hc, s2, hin, e1, h0, s5, s4]
    simp
  have hb := bracketState_three fetch body hfetch n1 v1 c0.m_vs.fsFunctionId ft1 l1 v
    c0.m_vs.mainFunctionId ft l v2 r v3 c0.m_entryPointId ft3 l3 v4 r4
  rw [← hcode] at hb
  have hd : (finalize c).1.code.debugNames =
      c.m_module.debugNames ++ [.OpName c0.m_entryPointId ⟨"main", none⟩] := by
    rw [a3, a5, s5]
  refine ⟨⟨fetch, body, v1, ft1, l1, v, ft, l, v2, r, v3, ft3, l3, v4, r4, hcode, hfetch, n1⟩,
    hb.1, hb.2, ?_, ?_, ?_, by omega, by omega, by omega, hins⟩
  · rw [hd]
    exact List.mem_append_left _ (s7.subset hn1)
  · rw [hd]
    exact List.mem_append_left _ (s7.subset hn2)
  · rw [hd]
    exact List.mem_append_right _ (List.mem_singleton.mpr rfl)

/-- C28. For a vertex shader constructed with vsInputSemantics present, any
list of instructions handed to `processInstruction` (whose category emitters
only append body instructions, as the specification describes them) and one
`finalize`: the emitted instruction stream is the function `vsFetch`, then
`vsMain`, which begins with the call of `vsFetch` and holds the translated
body, then `main`, which calls `vsMain`; each of the three is closed by
`OpReturn, OpFunctionEnd` before the next one opens, so functions never nest,
every `OpFunctionEnd` directly follows an `OpReturn`, the function ids in order
are those named vsFetch, vsMain and main (three different ids), and no function
is left open afterwards. -/
theorem finalize_wellBracketed (em : CategoryEmitters) (hem : em.BodyOnly)
    (p : PsslProgramInfo) (a : GcnAnalysisInfo) (sems : List VertexInputSemantic)
    (res : List GcnResourceEntry) (hp : p.shaderType = .VertexShader)
    (prog : List GCNInstruction) :
    (∃ (fetch body : List SpirvInstr) (v1 ft1 l1 v ft l v2 r v3 ft3 l3 v4 r4 : Nat),
      (finalize (prog.foldl (processInstruction em) (GCNCompiler.create p a ⟨some sems, res⟩))).1.code.code =
        [.OpFunction v1 (GCNCompiler.create p a ⟨some sems, res⟩).m_vs.fsFunctionId ft1, .OpLabel l1] ++ fetch ++
        [.OpReturn, .OpFunctionEnd, .OpFunction v (GCNCompiler.create p a ⟨some sems, res⟩).m_vs.mainFunctionId ft, .OpLabel l,
          .OpFunctionCall v2 r (GCNCompiler.create p a ⟨some sems, res⟩).m_vs.fsFunctionId []] ++ body ++
        [.OpReturn, .OpFunctionEnd, .OpFunction v3 (GCNCompiler.create p a ⟨some sems, res⟩).m_entryPointId ft3, .OpLabel l3,
          .OpFunctionCall v4 r4 (GCNCompiler.create p a ⟨some sems, res⟩).m_vs.mainFunctionId [], .OpReturn, .OpFunctionEnd] ∧
      (∀ i ∈ fetch, i.op ≠ .OpFunction ∧ i.op ≠ .OpFunctionEnd) ∧
      (∀ i ∈ body, i.op ≠ .OpFunction ∧ i.op ≠ .OpFunctionEnd)) ∧
    bracketState (finalize (prog.foldl (processInstruction em) (GCNCompiler.create p a ⟨some sems, res⟩))).1.code.code = some (false, false) ∧
    functionIds (finalize (prog.foldl (processInstruction em) (GCNCompiler.create p a ⟨some sems, res⟩))).1.code.code = [(GCNCompiler.create p a ⟨some sems, res⟩).m_vs.fsFunctionId, (GCNCompiler.create p a ⟨some sems, res⟩).m_vs.mainFunctionId, (GCNCompiler.create p a ⟨some sems, res⟩).m_entryPointId] ∧
    SpirvDebug.OpName (GCNCompiler.create p a ⟨some sems, res⟩).m_vs.fsFunctionId ⟨"vsFetch", none⟩ ∈ (finalize (prog.foldl (processInstruction em) (GCNCompiler.create p a ⟨some sems, res⟩))).1.code.debugNames ∧
    SpirvDebug.OpName (GCNCompiler.create p a ⟨some sems, res⟩).m_vs.mainFunctionId ⟨"vsMain", none⟩ ∈ (finalize (prog.foldl (processInstruction em) (GCNCompiler.create p a ⟨some sems, res⟩))).1.code.debugNames ∧
    SpirvDebug.OpName (GCNCompiler.create p a ⟨some sems, res⟩).m_entryPointId ⟨"main", none⟩ ∈ (finalize (prog.foldl (processInstruction em) (GCNCompiler.create p a ⟨some sems, res⟩))).1.code.debugNames ∧
    (GCNCompiler.create p a ⟨some sems, res⟩).m_vs.fsFunctionId ≠ (GCNCompiler.create p a ⟨some sems, res⟩).m_vs.mainFunctionId ∧ (GCNCompiler.create p a ⟨some sems, res⟩).m_vs.fsFunctionId ≠ (GCNCompiler.create p a ⟨some sems, res⟩).m_entryPointId ∧ (GCNCompiler.create p a ⟨some sems, res⟩).m_vs.mainFunctionId ≠ (GCNCompiler.create p a ⟨some sems, res⟩).m_entryPointId ∧
    (finalize (prog.foldl (processInstruction em) (GCNCompiler.create p a ⟨some sems, res⟩))).2.m_insideFunction = false := by
  obtain ⟨items, v1, ft1, l1, v, ft, l, v2, r, h0, hitems, -, hin, hfs, hlt, hen, hpi, hn1, hn2⟩ :=
    create_present_shape p a sems res hp
  refine finalize_bracket_shape _ _ (items.flatMap (·.2)) v1 ft1 l1 v ft l v2 r h0 ?_ hin hfs
    hlt hen (by rw [hpi]; exact hp) hn1 hn2
    (foldl_processInstruction_bodyStep em hem prog _)
  intro i hi
  obtain ⟨it, hit, hi2⟩ := List.mem_flatMap.mp hi
  exact hitems it hit i hi2

/-- Instance of C28: one input semantic of one lane, a vector ALU instruction
whose emitter appends a store, and an export instruction whose emitter appends
nothing; the stream is vsFetch (id 11), vsMain (id 21) and main (id 1). -/
theorem finalize_wellBracketed_witness :
    sampleEmitters.BodyOnly ∧
    (⟨.VertexShader, .Vertex, "k"⟩ : PsslProgramInfo).shaderType = .VertexShader ∧
    (finalize ([⟨.VectorALU, 20⟩, ⟨.Export, 0⟩].foldl (processInstruction sampleEmitters)
      (GCNCompiler.create ⟨.VertexShader, .Vertex, "k"⟩ ⟨[]⟩ ⟨some [⟨0, 4, 1⟩], []⟩))).1.code.code =
      [.OpFunction 12 11 13, .OpLabel 14, .OpAccessChain 15 19 6 [18], .OpLoad 15 20 19,
        .OpStore 16 20, .OpReturn, .OpFunctionEnd,
        .OpFunction 12 21 13, .OpLabel 22, .OpFunctionCall 12 23 11 [], .OpStore 16 20,
        .OpReturn, .OpFunctionEnd,
        .OpFunction 12 1 13, .OpLabel 24, .OpFunctionCall 12 25 21 [], .OpReturn,
        .OpFunctionEnd] ∧
    bracketState (finalize ([⟨.VectorALU, 20⟩, ⟨.Export, 0⟩].foldl (processInstruction sampleEmitters)
      (GCNCompiler.create ⟨.VertexShader, .Vertex, "k"⟩ ⟨[]⟩ ⟨some [⟨0, 4, 1⟩], []⟩))).1.code.code = some (false, false) ∧
    functionIds (finalize ([⟨.VectorALU, 20⟩, ⟨.Export, 0⟩].foldl (processInstruction sampleEmitters)
      (GCNCompiler.create ⟨.VertexShader, .Vertex, "k"⟩ ⟨[]⟩ ⟨some [⟨0, 4, 1⟩], []⟩))).1.code.code = [11, 21, 1] ∧
    (finalize ([⟨.VectorALU, 20⟩, ⟨.Export, 0⟩].foldl (processInstruction sampleEmitters)
      (GCNCompiler.create ⟨.VertexShader, .Vertex, "k"⟩ ⟨[]⟩ ⟨some [⟨0, 4, 1⟩], []⟩))).2.m_insideFunction = false :=
  ⟨sampleEmitters_bodyOnly, rfl, rfl,
    (finalize_wellBracketed sampleEmitters sampleEmitters_bodyOnly
      ⟨.VertexShader, .Vertex, "k"⟩ ⟨[]⟩ [⟨0, 4, 1⟩] [] rfl [⟨.VectorALU, 20⟩, ⟨.Export, 0⟩]).2.1,
    (finalize_wellBracketed sampleEmitters sampleEmitters_bodyOnly
      ⟨.VertexShader, .Vertex, "k"⟩ ⟨[]⟩ [⟨0, 4, 1⟩] [] rfl [⟨.VectorALU, 20⟩, ⟨.Export, 0⟩]).2.2.1,
    (finalize_wellBracketed sampleEmitters sampleEmitters_bodyOnly
      ⟨.VertexShader, .Vertex, "k"⟩ ⟨[]⟩ [⟨0, 4, 1⟩] [] rfl [⟨.VectorALU, 20⟩, ⟨.Export, 0⟩]).2.2.2.2.2.2.2.2.2⟩

end pssl
